import Mathlib

/-!
# cameraCodes: capture state machine and buffer lifecycle

A shallow embedding of the camera hardware abstraction layer of the repository
(`src/camera`, `src/libcamera`) and the properties proved about it.

Conventions of the embedding:

* every object is an explicit state record; a method is a function from the state
  (and its arguments) to a status and the next state;
* a call that leaves the repository (an OMX IL call, an ioctl, a compositor call, a
  client callback, a method of a class whose source is not part of the tree) is
  recorded, in program order, in the `trace` field of the state; what such a call
  returns is read from an `Env` record the function receives, so every theorem
  holds for every behaviour of the collaborators;
* `status_t` and `int` are `Int`; unsigned quantities and bit masks are `Nat`.
-/

namespace CameraCodes

/-! ## Status codes (`utils/Errors.h`, `errno.h`) -/

/-- Success status of `utils/Errors.h`. -/
def NO_ERROR : Int := 0

/-- The errno value `EINVAL`. -/
def EINVAL : Int := 22

/-- The errno value `ENODEV`. -/
def ENODEV : Int := 19

/-- The errno value `ENOMEM`. -/
def ENOMEM : Int := 12

/-- The errno value `ENOSYS`. -/
def ENOSYS : Int := 38

/-- Status `NO_INIT = -ENODEV`. -/
def NO_INIT : Int := -ENODEV

/-- Status `BAD_VALUE = -EINVAL`. -/
def BAD_VALUE : Int := -EINVAL

/-- Status `NO_MEMORY = -ENOMEM`. -/
def NO_MEMORY : Int := -ENOMEM

/-- Status `INVALID_OPERATION = -ENOSYS`. -/
def INVALID_OPERATION : Int := -ENOSYS

/-- The errno value `EEXIST`. -/
def EEXIST : Int := 17

/-- Status `ALREADY_EXISTS = -EEXIST`. -/
def ALREADY_EXISTS : Int := -EEXIST

/-- Frame type tags of `CameraFrame::FrameType`. -/
inductive FrameType
  | PREVIEW_FRAME_SYNC
  | PREVIEW_FRAME
  | IMAGE_FRAME_SYNC
  | IMAGE_FRAME
  | VIDEO_FRAME_SYNC
  | VIDEO_FRAME
  | FRAME_DATA_SYNC
  | FRAME_DATA
  | RAW_FRAME
  | SNAPSHOT_FRAME
  | ALL_FRAMES
  deriving DecidableEq, Repr

end CameraCodes

/-! ## OMXCameraAdapter: image capture (`src/camera/OMXCameraAdapter/OMXCapture.cpp`) -/

namespace CameraCodes.OMXCameraAdapter

/-- Component states of `OMX_STATETYPE`. -/
inductive OMX_STATETYPE
  | OMX_StateInvalid
  | OMX_StateLoaded
  | OMX_StateIdle
  | OMX_StateExecuting
  | OMX_StatePause
  | OMX_StateWaitForResources
  deriving DecidableEq, Repr

/-- Colour formats of `OMX_COLOR_FORMATTYPE` that `setParametersCapture` names; every
other value of the enumeration is `OMX_COLOR_FormatOther`. -/
inductive OMX_COLOR_FORMATTYPE
  | OMX_COLOR_FormatUnused
  | OMX_COLOR_FormatCbYCrY
  | OMX_COLOR_FormatYUV420SemiPlanar
  | OMX_COLOR_Format16bitRGB565
  | OMX_COLOR_FormatRawBayer10bit
  | OMX_COLOR_FormatOther
  deriving DecidableEq, Repr

/-- Coding modes assigned to `mCodingMode`. -/
inductive CodingMode
  | CodingNone
  | CodingJPS
  | CodingMPO
  | CodingRAWJPEG
  | CodingRAWMPO
  deriving DecidableEq, Repr

/-- Capture modes held in `mCapMode`. -/
inductive CaptureMode
  | HIGH_SPEED
  | HIGH_QUALITY
  | VIDEO_MODE
  | HIGH_QUALITY_ZSL
  deriving DecidableEq, Repr

/-- Picture format strings `setParametersCapture` compares `getPictureFormat()` with
(`strcmp` against pairwise different constants); any other string is `other`. -/
inductive PictureFormat
  | PIXEL_FORMAT_YUV422I
  | PIXEL_FORMAT_YUV420SP
  | PIXEL_FORMAT_RGB565
  | PIXEL_FORMAT_JPEG
  | PIXEL_FORMAT_JPS
  | PIXEL_FORMAT_MPO
  | PIXEL_FORMAT_RAW_JPEG
  | PIXEL_FORMAT_RAW_MPO
  | PIXEL_FORMAT_RAW
  | other
  deriving DecidableEq, Repr

/-- Semaphores of the adapter that the capture code waits on. -/
inductive Sem
  | mUseCaptureSem
  | mStartCaptureSem
  | mStopCaptureSem
  | mCaptureSem
  deriving DecidableEq, Repr

/-- Commands passed to `OMX_SendCommand`. -/
inductive OMX_COMMANDTYPE
  | OMX_CommandPortEnable
  | OMX_CommandPortDisable
  deriving DecidableEq, Repr

/-- Configuration indices passed to `OMX_SetConfig`, with the payload the code sets
(`evValues` are the bracket values before their conversion to Q16). -/
inductive Config
  | OMX_IndexConfigCaptureMode (bFrameLimited : Bool) (nFrameLimit : Int)
  | OMX_IndexConfigExtCaptureMode (bEnableBracketing : Bool) (evValues : List Int)
  | OMX_IndexConfigCallbackRequest (bEnable : Bool)
  | OMX_IndexConfigCapturing (bEnabled : Bool)
  deriving DecidableEq, Repr

/-- Calls that leave `OMXCapture.cpp`, in the order the code makes them. A buffer is
named by its slot in the image port (`pAppPrivate` of its header). -/
inductive Effect
  | OMX_SendCommand (cmd : OMX_COMMANDTYPE)
  | OMX_UseBuffer (index : Nat) (buffer : Nat)
  | OMX_FreeBuffer (index : Nat)
  | OMX_FillThisBuffer (index : Nat)
  | OMX_SetConfig (c : Config)
  | RegisterForEvent (sem : Sem)
  | RemoveEvent
  | SignalEvent
  | WaitTimeout (sem : Sem)
  | setFormat
  | setThumbnailParams (w h q : Int)
  | setImageQuality (q : Int)
  | setPictureRotation (r : Int)
  | setupEXIF
  | mReleaseImageBuffersCallback
  | performCleanupAfterError
  | setFrameRefCount (index : Nat) (t : FrameType) (refCount : Nat)
  | returnFrame (index : Nat) (t : FrameType)
  | sendCallBacks (index : Nat)
  | pauseFaceDetection (pause : Bool)
  | stopFaceDetection
  | notifyShutterSubscribers
  | apply3Asettings
  | mFirstFrameCondition_broadcast
  deriving DecidableEq, Repr

/-- Image port parameters `mCameraPortParams[mImagePortIndex]`. `mWidth` and `mHeight`
are held through the `(int)` view the code compares them in. `mBufferHeader i` is the
buffer registered in slot `i`, if any. -/
structure OMXCameraPortParameters where
  mWidth : Int
  mHeight : Int
  mStride : Int
  mColorFormat : OMX_COLOR_FORMATTYPE
  mNumBufs : Nat
  mBufSize : Nat
  mBufferHeader : Nat → Option Nat

/-- The fields of `OMXCameraAdapter` that `OMXCapture.cpp` reads or writes, and the
trace of the calls it has made. A semaphore is held through its `Count()`.
`mBracketingBuffersQueued` is the ledger array (`[]` when the pointer is `NULL`). -/
structure State where
  cap : OMXCameraPortParameters
  mPendingCaptureSettings : Nat
  mCodingMode : CodingMode
  mExposureBracketingValues : List Int
  mExposureBracketingValidEntries : Nat
  mPictureRotation : Int
  mSensorOrientation : Int
  mCapMode : CaptureMode
  mBurstFrames : Int
  mPictureQuality : Int
  mThumbWidth : Int
  mThumbHeight : Int
  mThumbQuality : Int
  mFirstTimeInit : Bool
  mCaptureConfigured : Bool
  mReleaseImageBuffersCallback : Bool
  mComponentState : OMX_STATETYPE
  mBracketingBuffersQueued : List Bool
  mBracketingBuffersQueuedCount : Int
  mLastBracetingBufferIdx : Int
  mBracketingEnabled : Bool
  mBracketingRange : Int
  mCapturedFrames : Int
  mWaitingForSnapshot : Bool
  mCaptureSignalled : Bool
  mSnapshotCount : Int
  mFrameCount : Int
  mPending3Asettings : Nat
  mUseCaptureSem : Int
  mStartCaptureSem : Int
  mStopCaptureSem : Int
  mCaptureSem : Int
  trace : List Effect

/-- Record one outgoing call. -/
def State.emit (s : State) (e : Effect) : State :=
  { s with trace := s.trace ++ [e] }

/-- What the calls that leave `OMXCapture.cpp` return. An `OMX_ERRORTYPE` is a `Nat`
with `OMX_ErrorNone = 0`. `invalidatedDuringWait` tells whether the event handler has
moved the component to `OMX_StateInvalid` while the caller was blocked in a wait;
`CountAfterWait` is the count of a semaphore when the wait on it returns. -/
structure Env where
  RegisterForEvent : Int
  RemoveEvent : Int
  SignalEvent : Int
  OMX_SendCommand : Nat
  OMX_UseBuffer : Nat → Nat
  OMX_FreeBuffer : Nat → Nat
  OMX_FillThisBuffer : Nat → Nat
  OMX_SetConfig : Config → Nat
  WaitTimeout : Sem → Int
  CountAfterWait : Sem → Int
  invalidatedDuringWait : Bool
  setFormat : Int
  setFormatPort : OMXCameraPortParameters → OMXCameraPortParameters
  setThumbnailParams : Int
  setImageQuality : Int
  setPictureRotation : Int
  setupEXIF : Int
  omxToAndroidError : Nat → Int

/-- The value `OMX_ErrorNone`. -/
def OMX_ErrorNone : Nat := 0

/-- Modelled from the spec: the enumeration `CaptureSettingsFlags` is declared in
`OMXCameraAdapter.h`, which is not part of the tree. The spec calls the pending
settings a bitmask with one entry per setting group; `SetFormat` is the first bit. -/
def SetFormat : Nat := 1

/-- Modelled from the spec: the thumbnail group bit of the pending-settings bitmask. -/
def SetThumb : Nat := 2

/-- Modelled from the spec: the exposure-bracket and burst group bit of the
pending-settings bitmask. -/
def SetExpBracket : Nat := 4

/-- Modelled from the spec: the JPEG quality group bit of the pending-settings bitmask. -/
def SetQuality : Nat := 8

/-- Modelled from the spec: the rotation group bit of the pending-settings bitmask. -/
def SetRotation : Nat := 16

/-- Modelled from the spec: the mask with every setting group raised. -/
def ECapturesettingsAll : Nat := 31

/-- The C statement `mask &= ~flag` on a 32-bit unsigned mask. -/
def clearFlag (mask flag : Nat) : Nat :=
  mask &&& (4294967295 ^^^ flag)

/-- Macros of `OMXCameraAdapter.h` that `setParametersCapture` uses; the header is not
part of the tree, so they are parameters of the embedding. -/
structure Constants where
  MIN_JPEG_QUALITY : Int
  MAX_JPEG_QUALITY : Int
  DEFAULT_THUMB_WIDTH : Int
  DEFAULT_THUMB_HEIGHT : Int
  EXP_BRACKET_RANGE : Nat

/-- Wait on a semaphore: the call is recorded, the count becomes what the environment
says, and the component is invalid afterwards if the environment invalidated it. -/
def State.wait (env : Env) (s : State) (sem : Sem) : State :=
  let s1 := s.emit (Effect.WaitTimeout sem)
  let s2 : State :=
    match sem with
    | Sem.mUseCaptureSem => { s1 with mUseCaptureSem := env.CountAfterWait sem }
    | Sem.mStartCaptureSem => { s1 with mStartCaptureSem := env.CountAfterWait sem }
    | Sem.mStopCaptureSem => { s1 with mStopCaptureSem := env.CountAfterWait sem }
    | Sem.mCaptureSem => { s1 with mCaptureSem := env.CountAfterWait sem }
  if env.invalidatedDuringWait then
    { s2 with mComponentState := OMX_STATETYPE.OMX_StateInvalid }
  else s2

/-- The block `if ( NULL != mReleaseImageBuffersCallback ) mReleaseImageBuffersCallback(mReleaseData);`. -/
def State.releaseImageBuffers (s : State) : State :=
  if s.mReleaseImageBuffersCallback then s.emit Effect.mReleaseImageBuffersCallback else s

/-- The function `OMXCameraAdapter::setExposureBracketing`, called with the adapter's
own value array (never `NULL`). The results of the two `OMX_SetConfig` calls are only
logged by the code. -/
def setExposureBracketing (s : State) (evCount : Nat) (frameCount : Int) : Int × State :=
  let ret : Int :=
    if s.mComponentState = OMX_STATETYPE.OMX_StateInvalid then -EINVAL else NO_ERROR
  if ret = NO_ERROR then
    let bFrameLimited : Bool := !(evCount = 0 ∧ frameCount = 0)
    let nFrameLimit : Int := if bFrameLimited then frameCount else 0
    let s1 := s.emit (Effect.OMX_SetConfig
      (Config.OMX_IndexConfigCaptureMode bFrameLimited nFrameLimit))
    let s2 := s1.emit (Effect.OMX_SetConfig
      (Config.OMX_IndexConfigExtCaptureMode (!(evCount = 0))
        (s.mExposureBracketingValues.take evCount)))
    (ret, s2)
  else
    (ret, s)

/-- The function `OMXCameraAdapter::setShutterCallback`. -/
def setShutterCallback (env : Env) (s : State) (enabled : Bool) : Int × State :=
  if s.mComponentState ≠ OMX_STATETYPE.OMX_StateExecuting then
    (-1, s)
  else
    let c := Config.OMX_IndexConfigCallbackRequest enabled
    let s1 := s.emit (Effect.OMX_SetConfig c)
    if env.OMX_SetConfig c ≠ OMX_ErrorNone then (-1, s1) else (NO_ERROR, s1)

/-- The body of `OMXCameraAdapter::doBracketing` for a filled buffer whose header has
`pAppPrivate = currentBufferIdx`. A write to a slot the ledger array does not have is
outside what C defines; the list is left as it is then. -/
def doBracketing (s : State) (currentBufferIdx : Nat) (typeOfFrame : FrameType) :
    Int × State :=
  if s.mComponentState ≠ OMX_STATETYPE.OMX_StateExecuting then
    (-EINVAL, s)
  else if currentBufferIdx ≥ s.cap.mNumBufs then
    (-EINVAL, s)
  else
    let s1 := { s with
      mBracketingBuffersQueued := s.mBracketingBuffersQueued.set currentBufferIdx false
      mBracketingBuffersQueuedCount := s.mBracketingBuffersQueuedCount - 1 }
    if 0 ≥ s1.mBracketingBuffersQueuedCount then
      let nextBufferIdx := (currentBufferIdx + 1) % s.cap.mNumBufs
      let s2 := { s1 with
        mBracketingBuffersQueued := s1.mBracketingBuffersQueued.set nextBufferIdx true
        mBracketingBuffersQueuedCount := s1.mBracketingBuffersQueuedCount + 1
        mLastBracetingBufferIdx := (nextBufferIdx : Int) }
      let s3 := s2.emit (Effect.setFrameRefCount nextBufferIdx typeOfFrame 1)
      (NO_ERROR, s3.emit (Effect.returnFrame nextBufferIdx typeOfFrame))
    else
      (NO_ERROR, s1)

/-- Loop `for index < mNumBufs { eError = call(index); GOTO_EXIT_IF(eError != OMX_ErrorNone) }`
run for the `remaining` slots from `index` on: the state, the last `eError`, and whether
the loop left through `EXIT`. -/
def forEachBuffer (call : Nat → Nat) (eff : Nat → Effect) :
    Nat → Nat → State → Nat → State × Nat × Bool
  | 0, _, s, eError => (s, eError, false)
  | remaining + 1, index, s, _ =>
    let s1 := s.emit (eff index)
    if call index ≠ OMX_ErrorNone then (s1, call index, true)
    else forEachBuffer call eff remaining (index + 1) s1 (call index)

/-- The `do ... while ( currentBufferIdx != mLastBracetingBufferIdx )` loop of
`sendBracketFrames`, entered with the index reached so far; `none` when `fuel`
iterations do not reach the end of the loop or the ledger has no entry for a slot. -/
def sendBracketFramesLoop : Nat → State → Int → Option State
  | 0, _, _ => none
  | fuel + 1, s, currentBufferIdx =>
    let idx : Int := (currentBufferIdx + 1) % (s.cap.mNumBufs : Int)
    match s.mBracketingBuffersQueued.get? idx.toNat with
    | none => none
    | some queued =>
      let s1 := if !queued then s.emit (Effect.sendCallBacks idx.toNat) else s
      if idx ≠ s.mLastBracetingBufferIdx then sendBracketFramesLoop fuel s1 idx
      else some s1

/-- The function `OMXCameraAdapter::sendBracketFrames`; `none` when the loop does not
end within `fuel` iterations (the division by a zero `mNumBufs` included). -/
def sendBracketFrames (fuel : Nat) (s : State) : Option (Int × State) :=
  if s.mComponentState ≠ OMX_STATETYPE.OMX_StateExecuting then
    some (-EINVAL, s)
  else if s.cap.mNumBufs = 0 then
    none
  else
    (sendBracketFramesLoop fuel s s.mLastBracetingBufferIdx).map (fun s1 => (NO_ERROR, s1))

/-- The label `EXIT` of `startImageCapture`. -/
def startImageCaptureExit (env : Env) (s : State) (ret : Int) (eError : Nat) : Int × State :=
  let s1 := { s with mWaitingForSnapshot := false, mCaptureSignalled := false }
  (Int.lor ret (env.omxToAndroidError eError), s1.emit Effect.performCleanupAfterError)

/-- The part of `startImageCapture` after the buffers were queued: the wait for the
shutter event in the high quality modes, and the return. -/
def startImageCaptureWait (env : Env) (s : State) (ret : Int) (eError : Nat) : Int × State :=
  if s.mCapMode = CaptureMode.HIGH_QUALITY ∨ s.mCapMode = CaptureMode.HIGH_QUALITY_ZSL then
    let r : Int × State :=
      if ret = NO_ERROR then (env.WaitTimeout Sem.mStartCaptureSem, s.wait env Sem.mStartCaptureSem)
      else (ret, s)
    if r.2.mComponentState = OMX_STATETYPE.OMX_StateInvalid then
      startImageCaptureExit env r.2 r.1 eError
    else if r.1 = NO_ERROR then
      (Int.lor r.1 (env.omxToAndroidError eError), r.2.emit Effect.notifyShutterSubscribers)
    else
      startImageCaptureExit env (r.2.emit Effect.RemoveEvent) (Int.lor r.1 env.RemoveEvent) eError
  else
    (Int.lor ret (env.omxToAndroidError eError), s)

/-- The pending rotation block of `startImageCapture`. -/
def startImageCaptureRotation (env : Env) (s : State) : Int × State :=
  if s.mPendingCaptureSettings &&& SetRotation ≠ 0 then
    let s1 := { s with
      mPendingCaptureSettings := clearFlag s.mPendingCaptureSettings SetRotation }
    (env.setPictureRotation, s1.emit (Effect.setPictureRotation s.mPictureRotation))
  else (NO_ERROR, s)

/-- The shutter callback registration block of `startImageCapture` (high quality modes
only), entered with the status and state reached so far. -/
def startImageCaptureShutter (env : Env) (r : Int × State) : Int × State :=
  if r.2.mCapMode = CaptureMode.HIGH_QUALITY ∨ r.2.mCapMode = CaptureMode.HIGH_QUALITY_ZSL then
    let a : Int × State :=
      if r.1 = NO_ERROR then
        (env.RegisterForEvent, r.2.emit (Effect.RegisterForEvent Sem.mStartCaptureSem))
      else r
    if a.1 = NO_ERROR then setShutterCallback env a.2 true else a
  else r

/-- The block of `startImageCapture` that queues every buffer on the capture port and
sends the capturing command, followed by the rest of the function. -/
def startImageCaptureQueue (env : Env) (r : Int × State) : Int × State :=
  if r.1 = NO_ERROR then
    let q := forEachBuffer env.OMX_FillThisBuffer Effect.OMX_FillThisBuffer
      r.2.cap.mNumBufs 0 r.2 OMX_ErrorNone
    if q.2.2 then startImageCaptureExit env q.1 r.1 q.2.1
    else
      let s3 := { q.1 with mWaitingForSnapshot := true, mCaptureSignalled := false }
      if s3.mCapMode ≠ CaptureMode.VIDEO_MODE then
        let c := Config.OMX_IndexConfigCapturing true
        let s4 := s3.emit (Effect.OMX_SetConfig c)
        if env.OMX_SetConfig c ≠ OMX_ErrorNone then
          startImageCaptureExit env s4 r.1 (env.OMX_SetConfig c)
        else startImageCaptureWait env s4 r.1 (env.OMX_SetConfig c)
      else startImageCaptureWait env s3 r.1 q.2.1
  else startImageCaptureWait env r.2 r.1 OMX_ErrorNone

/-- The function `OMXCameraAdapter::startImageCapture`; `none` only when the bracket
frames loop it enters does not end within `fuel` iterations. -/
def startImageCapture (env : Env) (fuel : Nat) (s : State) : Option (Int × State) :=
  if !s.mCaptureConfigured then
    some (NO_ERROR, s)
  else if s.mStartCaptureSem ≠ 0 then
    some (NO_INIT, s)
  else
    let s0 := s.emit (Effect.pauseFaceDetection true)
    if s0.mBracketingEnabled then
      -- stop bracketing, activate normal burst for the remaining images
      let s1 := { s0 with mBracketingEnabled := false, mCapturedFrames := s0.mBracketingRange }
      match sendBracketFrames fuel s1 with
      | none => none
      | some (ret, s2) =>
        if ret ≠ NO_ERROR then some (startImageCaptureExit env s2 ret OMX_ErrorNone)
        else some (ret, s2)
    else
      some (startImageCaptureQueue env
        (startImageCaptureShutter env (startImageCaptureRotation env s0)))

/-- The ledger set up by `startBracketing` under `mBracketingLock`: the range is stored,
`new bool[mNumBufs]` yields the array, every slot is marked queued. -/
def startBracketingLedger (s : State) (range : Int) : State :=
  { s with
    mBracketingRange := range
    mBracketingBuffersQueued := List.replicate s.cap.mNumBufs true
    mBracketingBuffersQueuedCount := (s.cap.mNumBufs : Int)
    mLastBracetingBufferIdx := (s.cap.mNumBufs : Int) - 1 }

/-- The function `OMXCameraAdapter::startBracketing`. -/
def startBracketing (env : Env) (fuel : Nat) (s : State) (range : Int) :
    Option (Int × State) :=
  let ret0 : Int :=
    if s.mComponentState ≠ OMX_STATETYPE.OMX_StateExecuting then -EINVAL else NO_ERROR
  if s.mBracketingEnabled then
    some (ret0, s)
  else
    let ret1 : Int := if s.cap.mNumBufs = 0 then -EINVAL else ret0
    let s1 := if s.mPending3Asettings ≠ 0 then s.emit Effect.apply3Asettings else s
    if ret1 = NO_ERROR then
      match startImageCapture env fuel (startBracketingLedger s1 range) with
      | none => none
      | some (ret, s3) =>
        some (ret, { s3 with mBracketingEnabled := decide (ret = NO_ERROR) })
    else
      some (ret1, s1)

/-- The label `EXIT` of `stopImageCapture`. -/
def stopImageCaptureExit (env : Env) (s : State) (ret : Int) (eError : Nat) : Int × State :=
  let s1 := s.releaseImageBuffers
  let s2 := { s1 with mFrameCount := 0 }
  let s3 := s2.emit Effect.mFirstFrameCondition_broadcast
  (Int.lor ret (env.omxToAndroidError eError), s3.emit Effect.performCleanupAfterError)

/-- Loop `for (int i = mStopCaptureSem.Count(); i > 0; i--) ret |= SignalEvent(...)`
run `n` times. -/
def signalEventLoop (env : Env) : Nat → Int × State → Int × State
  | 0, r => r
  | n + 1, r => signalEventLoop env n (Int.lor r.1 env.SignalEvent, r.2.emit Effect.SignalEvent)

/-- The function `OMXCameraAdapter::stopImageCapture`. -/
def stopImageCapture (env : Env) (s : State) : Int × State :=
  if !s.mCaptureConfigured then
    (NO_ERROR, s)
  else if s.mStopCaptureSem ≠ 0 then
    stopImageCaptureExit env s NO_ERROR OMX_ErrorNone
  else
    let s1 := { s with mWaitingForSnapshot := false, mSnapshotCount := 0 }
    -- shutter callback events are only available in the high quality modes
    let r2 : Int × State :=
      if s1.mCapMode = CaptureMode.HIGH_QUALITY ∨ s1.mCapMode = CaptureMode.HIGH_QUALITY_ZSL then
        let a := setShutterCallback env s1 false
        if a.2.mStartCaptureSem ≠ 0 then
          let b := signalEventLoop env a.2.mStopCaptureSem.toNat a
          (b.1, { b.2 with mStartCaptureSem := 0 })
        else a
      else (NO_ERROR, s1)
    let s3 := r2.2.emit Effect.stopFaceDetection
    let ret : Int := env.WaitTimeout Sem.mCaptureSem
    let s4 := s3.wait env Sem.mCaptureSem
    if s4.mComponentState = OMX_STATETYPE.OMX_StateInvalid then
      stopImageCaptureExit env s4 ret OMX_ErrorNone
    else if ret ≠ NO_ERROR then
      stopImageCaptureExit env (s4.emit Effect.RemoveEvent) (Int.lor ret env.RemoveEvent)
        OMX_ErrorNone
    else
      let c := Config.OMX_IndexConfigCapturing false
      let r5 : State × Nat :=
        if s4.mCapMode ≠ CaptureMode.VIDEO_MODE then
          (s4.emit (Effect.OMX_SetConfig c), env.OMX_SetConfig c)
        else (s4, OMX_ErrorNone)
      if r5.2 ≠ OMX_ErrorNone then
        stopImageCaptureExit env r5.1 (-1) r5.2
      else
        let s6 := { r5.1 with mCaptureSignalled := true, mFrameCount := 0 }
        (Int.lor ret (env.omxToAndroidError r5.2),
          s6.emit Effect.mFirstFrameCondition_broadcast)

/-- The function `OMXCameraAdapter::stopBracketing`. -/
def stopBracketing (env : Env) (s : State) : Int × State :=
  let r := stopImageCapture env s
  (r.1, { r.2 with
    mBracketingBuffersQueued := []
    mBracketingEnabled := false
    mBracketingBuffersQueuedCount := 0
    mLastBracetingBufferIdx := 0 })

/-- The part of `disableImagePort` after the port disable command was sent: the buffers
of the capture port are freed and the port disable event is waited for. -/
def disableImagePortFree (env : Env) (s : State) : Int × State :=
  let q := forEachBuffer env.OMX_FreeBuffer Effect.OMX_FreeBuffer
    s.cap.mNumBufs 0 s env.OMX_SendCommand
  if q.2.2 then
    (Int.lor env.RegisterForEvent (env.omxToAndroidError q.2.1), q.1)
  else
    let ret : Int := env.WaitTimeout Sem.mStopCaptureSem
    let s4 := q.1.wait env Sem.mStopCaptureSem
    if s4.mComponentState = OMX_STATETYPE.OMX_StateInvalid then
      (Int.lor ret (env.omxToAndroidError q.2.1), s4)
    else if ret = NO_ERROR then
      (Int.lor ret (env.omxToAndroidError q.2.1), s4)
    else
      (Int.lor (Int.lor ret env.RemoveEvent) (env.omxToAndroidError q.2.1),
        s4.emit Effect.RemoveEvent)

/-- The function `OMXCameraAdapter::disableImagePort`. -/
def disableImagePort (env : Env) (s : State) : Int × State :=
  if !s.mCaptureConfigured then
    (NO_ERROR, s)
  else
    let s1 := { s with mCaptureConfigured := false }
    let s2 := s1.emit (Effect.RegisterForEvent Sem.mStopCaptureSem)
    disableImagePortFree env
      (s2.emit (Effect.OMX_SendCommand OMX_COMMANDTYPE.OMX_CommandPortDisable))

/-- The label `EXIT` of `UseBuffersCapture`. -/
def UseBuffersCaptureExit (env : Env) (s : State) (ret : Int) (eError : Nat) : Int × State :=
  (Int.lor ret (env.omxToAndroidError eError),
    s.releaseImageBuffers.emit Effect.performCleanupAfterError)

/-- The registration loop of `UseBuffersCapture`: `OMX_UseBuffer` on `buffers[index]`,
`GOTO_EXIT_IF` on an error, else the header is stored in `mBufferHeader[index]`;
run for the `remaining` slots from `index` on. -/
def useBufferLoop (env : Env) (buffers : Nat → Nat) :
    Nat → Nat → State → Nat → State × Nat × Bool
  | 0, _, s, eError => (s, eError, false)
  | remaining + 1, index, s, _ =>
    let s1 := s.emit (Effect.OMX_UseBuffer index (buffers index))
    if env.OMX_UseBuffer index ≠ OMX_ErrorNone then (s1, env.OMX_UseBuffer index, true)
    else
      let s2 := { s1 with cap := { s1.cap with
        mBufferHeader := Function.update s1.cap.mBufferHeader index (some (buffers index)) } }
      useBufferLoop env buffers remaining (index + 1) s2 (env.OMX_UseBuffer index)

/-- The part of `UseBuffersCapture` from the port enable registration on. -/
def UseBuffersCaptureEnable (env : Env) (s : State) (buffers : Nat → Nat) : Int × State :=
  let ret : Int := env.RegisterForEvent
  let s1 := s.emit (Effect.RegisterForEvent Sem.mUseCaptureSem)
  let s2 := s1.emit (Effect.OMX_SendCommand OMX_COMMANDTYPE.OMX_CommandPortEnable)
  if env.OMX_SendCommand ≠ OMX_ErrorNone then
    UseBuffersCaptureExit env s2 ret env.OMX_SendCommand
  else
    let q := useBufferLoop env buffers s2.cap.mNumBufs 0 s2 env.OMX_SendCommand
    if q.2.2 then UseBuffersCaptureExit env q.1 ret q.2.1
    else
      let ret1 : Int := env.WaitTimeout Sem.mUseCaptureSem
      let s3 := q.1.wait env Sem.mUseCaptureSem
      if s3.mComponentState = OMX_STATETYPE.OMX_StateInvalid then
        UseBuffersCaptureExit env s3 ret1 q.2.1
      else if ret1 ≠ NO_ERROR then
        UseBuffersCaptureExit env (s3.emit Effect.RemoveEvent) (Int.lor ret1 env.RemoveEvent)
          q.2.1
      else
        let s4 := s3.emit Effect.setupEXIF
        let s5 := { s4 with mCapturedFrames := s4.mBurstFrames, mCaptureConfigured := true }
        (Int.lor env.setupEXIF (env.omxToAndroidError q.2.1), s5)

/-- The function `OMXCameraAdapter::UseBuffersCapture(bufArr, num)`; `buffers` is the
array `bufArr` points to. -/
def UseBuffersCapture (env : Env) (s : State) (buffers : Nat → Nat) (num : Nat) :
    Int × State :=
  if s.mUseCaptureSem ≠ 0 then
    (BAD_VALUE, s)
  else if s.mCaptureConfigured then
    -- capture is already configured...we can skip this step
    let s1 := s.emit Effect.setupEXIF
    (NO_ERROR, { s1 with mCapturedFrames := s1.mBurstFrames })
  else
    let s0 := { s with cap := { s.cap with mNumBufs := num } }
    -- SetFormat
    let r1 : Int × State :=
      if s0.mPendingCaptureSettings &&& SetFormat ≠ 0 then
        let a := { s0 with
          mPendingCaptureSettings := clearFlag s0.mPendingCaptureSettings SetFormat }
        (env.setFormat, { a.emit Effect.setFormat with cap := env.setFormatPort a.cap })
      else (NO_ERROR, s0)
    if r1.1 ≠ NO_ERROR then r1
    else
      -- SetThumb
      let r2 : Int × State :=
        if r1.2.mPendingCaptureSettings &&& SetThumb ≠ 0 then
          let a := { r1.2 with
            mPendingCaptureSettings := clearFlag r1.2.mPendingCaptureSettings SetThumb }
          (env.setThumbnailParams,
            a.emit (Effect.setThumbnailParams a.mThumbWidth a.mThumbHeight a.mThumbQuality))
        else (r1.1, r1.2)
      if r2.1 ≠ NO_ERROR then r2
      else
        -- SetExpBracket
        let r3 : Int × State :=
          if r2.2.mPendingCaptureSettings &&& SetExpBracket ≠ 0 then
            let a := { r2.2 with
              mPendingCaptureSettings := clearFlag r2.2.mPendingCaptureSettings SetExpBracket }
            setExposureBracketing a a.mExposureBracketingValidEntries a.mBurstFrames
          else r2
        if r3.1 ≠ NO_ERROR then UseBuffersCaptureExit env r3.2 r3.1 OMX_ErrorNone
        else
          -- SetQuality
          let r4 : Int × State :=
            if r3.2.mPendingCaptureSettings &&& SetQuality ≠ 0 then
              let a := { r3.2 with
                mPendingCaptureSettings := clearFlag r3.2.mPendingCaptureSettings SetQuality }
              (env.setImageQuality, a.emit (Effect.setImageQuality a.mPictureQuality))
            else r3
          if r4.1 ≠ NO_ERROR then UseBuffersCaptureExit env r4.2 r4.1 OMX_ErrorNone
          else UseBuffersCaptureEnable env r4.2 buffers

/-- The parameter snapshot as `setParametersCapture` reads it through the accessors of
`CameraParameters`: `getPictureSize`, `getPictureFormat`, `get` and `getInt` (which is
`-1` for a key that is not set). `capModeIsVideo` holds when `get(KEY_CAP_MODE)` is the
string `VIDEO_MODE`. -/
structure CameraParameters where
  pictureWidth : Int
  pictureHeight : Int
  pictureFormat : Option PictureFormat
  capModeIsVideo : Bool
  KEY_EXP_BRACKETING_RANGE : Option (List Char)
  KEY_ROTATION : Int
  KEY_SENSOR_ORIENTATION : Int
  KEY_BURST : Int
  KEY_JPEG_QUALITY : Int
  KEY_JPEG_THUMBNAIL_WIDTH : Int
  KEY_JPEG_THUMBNAIL_HEIGHT : Int
  KEY_JPEG_THUMBNAIL_QUALITY : Int

/-- The delimiter set `CameraHal::PARAMS_DELIMITER`, the string `","`. -/
def PARAMS_DELIMITER : List Char := [',']

/-- The tokens `strtok_r` yields one after the other on a string: the maximal runs of
characters that are not delimiters. `acc` is the current run, reversed. -/
def strtokAll (delims : List Char) : List Char → List Char → List (List Char)
  | acc, [] => if acc = [] then [] else [acc.reverse]
  | acc, c :: cs =>
    if c ∈ delims then
      if acc = [] then strtokAll delims [] cs else acc.reverse :: strtokAll delims [] cs
    else strtokAll delims (c :: acc) cs

/-- The libc predicate `isspace` in the C locale: space and the characters 9 to 13. -/
def isspace (c : Char) : Bool :=
  c.toNat = 32 || (9 ≤ c.toNat && c.toNat ≤ 13)

/-- The digits part of `atoi`: the decimal value of the leading digits. -/
def atoiDigits : Int → List Char → Int
  | acc, [] => acc
  | acc, c :: cs => if c.isDigit then atoiDigits (acc * 10 + ((c.toNat : Int) - 48)) cs else acc

/-- The libc function `atoi`: leading white space, an optional sign, decimal digits
(values that do not fit an `int` are outside its contract). -/
def atoi (str : List Char) : Int :=
  match str.dropWhile isspace with
  | '-' :: cs => - atoiDigits 0 cs
  | '+' :: cs => atoiDigits 0 cs
  | cs => atoiDigits 0 cs

/-- The `while ( ( NULL != expVal ) && ( i < count ) )` loop of `parseExpRange` over the
tokens still to come: the array and the final `i`. -/
def parseExpRangeLoop (count : Nat) : List (List Char) → Nat → List Int → List Int × Nat
  | [], i, expRange => (expRange, i)
  | expVal :: rest, i, expRange =>
    if i < count then parseExpRangeLoop count rest (i + 1) (expRange.set i (atoi expVal))
    else (expRange, i)

/-- The function `OMXCameraAdapter::parseExpRange`: the status, the array and
`validEntries` after the call. A `NULL` string or array is `none`; `tmp` tells whether
`malloc` hands out the temporary copy of the string. -/
def parseExpRange (tmp : Bool) (rangeStr : Option (List Char)) (expRange : Option (List Int))
    (count : Nat) (validEntries : Nat) : Int × Option (List Int) × Nat :=
  match rangeStr, expRange with
  | none, _ => (-EINVAL, expRange, validEntries)
  | some _, none => (-EINVAL, none, validEntries)
  | some str, some arr =>
    if !tmp then (-1, some arr, validEntries)
    else
      let r := parseExpRangeLoop count (strtokAll PARAMS_DELIMITER [] str) 0 arr
      (NO_ERROR, some r.1, r.2)

/-- The colour format `setParametersCapture` selects for a picture format string. -/
def pixFormatOf : Option PictureFormat → OMX_COLOR_FORMATTYPE
  | some PictureFormat.PIXEL_FORMAT_YUV422I => OMX_COLOR_FORMATTYPE.OMX_COLOR_FormatCbYCrY
  | some PictureFormat.PIXEL_FORMAT_YUV420SP =>
    OMX_COLOR_FORMATTYPE.OMX_COLOR_FormatYUV420SemiPlanar
  | some PictureFormat.PIXEL_FORMAT_RGB565 => OMX_COLOR_FORMATTYPE.OMX_COLOR_Format16bitRGB565
  | some PictureFormat.PIXEL_FORMAT_JPEG => OMX_COLOR_FORMATTYPE.OMX_COLOR_FormatUnused
  | some PictureFormat.PIXEL_FORMAT_JPS => OMX_COLOR_FORMATTYPE.OMX_COLOR_FormatUnused
  | some PictureFormat.PIXEL_FORMAT_MPO => OMX_COLOR_FORMATTYPE.OMX_COLOR_FormatUnused
  | some PictureFormat.PIXEL_FORMAT_RAW_JPEG => OMX_COLOR_FORMATTYPE.OMX_COLOR_FormatUnused
  | some PictureFormat.PIXEL_FORMAT_RAW_MPO => OMX_COLOR_FORMATTYPE.OMX_COLOR_FormatUnused
  | some PictureFormat.PIXEL_FORMAT_RAW => OMX_COLOR_FORMATTYPE.OMX_COLOR_FormatRawBayer10bit
  | some PictureFormat.other => OMX_COLOR_FORMATTYPE.OMX_COLOR_FormatUnused
  | none => OMX_COLOR_FORMATTYPE.OMX_COLOR_FormatUnused

/-- The coding mode after the picture format chain: assigned for the five encoded
formats, left as it was otherwise. -/
def codingModeOf (old : CodingMode) : Option PictureFormat → CodingMode
  | some PictureFormat.PIXEL_FORMAT_JPEG => CodingMode.CodingNone
  | some PictureFormat.PIXEL_FORMAT_JPS => CodingMode.CodingJPS
  | some PictureFormat.PIXEL_FORMAT_MPO => CodingMode.CodingMPO
  | some PictureFormat.PIXEL_FORMAT_RAW_JPEG => CodingMode.CodingRAWJPEG
  | some PictureFormat.PIXEL_FORMAT_RAW_MPO => CodingMode.CodingRAWMPO
  | _ => old

/-- The colour format compared with the port: the selected one, replaced by
`OMX_COLOR_FormatCbYCrY` when capturing in video mode with an unused format. -/
def effectivePixFormat (params : CameraParameters) : OMX_COLOR_FORMATTYPE :=
  if params.capModeIsVideo ∧
      pixFormatOf params.pictureFormat = OMX_COLOR_FORMATTYPE.OMX_COLOR_FormatUnused then
    OMX_COLOR_FORMATTYPE.OMX_COLOR_FormatCbYCrY
  else pixFormatOf params.pictureFormat

/-- Raise `flag` in the pending mask when `changed` holds (`mPendingCaptureSettings |= flag`). -/
def State.markPending (s : State) (changed : Bool) (flag : Nat) : State :=
  if changed then { s with mPendingCaptureSettings := s.mPendingCaptureSettings ||| flag }
  else s

/-- Picture size block of `setParametersCapture` (the stride is fixed to 2). -/
def setPictureSize (params : CameraParameters) (s : State) : State :=
  let s1 := s.markPending
    (params.pictureWidth ≠ s.cap.mWidth ∨ params.pictureHeight ≠ s.cap.mHeight) SetFormat
  { s1 with cap := { s1.cap with
      mWidth := params.pictureWidth, mHeight := params.pictureHeight, mStride := 2 } }

/-- Picture format block of `setParametersCapture`: the format chain, the video mode
override, and the comparison with the colour format of the port. -/
def setPictureFormat (params : CameraParameters) (s : State) : State :=
  let s1 := { s with mCodingMode := codingModeOf s.mCodingMode params.pictureFormat }
  if effectivePixFormat params ≠ s1.cap.mColorFormat then
    { s1 with
      mPendingCaptureSettings := s1.mPendingCaptureSettings ||| SetFormat
      cap := { s1.cap with mColorFormat := effectivePixFormat params } }
  else s1

/-- Exposure bracketing block of `setParametersCapture` (the temporary copy
`parseExpRange` makes of the string is taken to be allocated). -/
def setExpBracketingRange (k : Constants) (params : CameraParameters) (s : State) : State :=
  match params.KEY_EXP_BRACKETING_RANGE with
  | some str =>
    let r := parseExpRange true (some str) (some s.mExposureBracketingValues)
      k.EXP_BRACKET_RANGE s.mExposureBracketingValidEntries
    { s with
      mExposureBracketingValues := r.2.1.getD s.mExposureBracketingValues
      mExposureBracketingValidEntries := r.2.2 }
  | none =>
    -- if bracketing was previously set...we set again before capturing to clear
    let s1 := s.markPending (s.mExposureBracketingValidEntries ≠ 0) SetExpBracket
    { s1 with mExposureBracketingValidEntries := 0 }

/-- Rotation block of `setParametersCapture`. -/
def setRotation (params : CameraParameters) (s : State) : State :=
  if params.KEY_ROTATION ≠ -1 then
    let s1 := s.markPending (params.KEY_ROTATION ≠ s.mPictureRotation) SetRotation
    { s1 with mPictureRotation := params.KEY_ROTATION }
  else
    let s1 := s.markPending (s.mPictureRotation ≠ 0) SetRotation
    { s1 with mPictureRotation := 0 }

/-- Sensor orientation block of `setParametersCapture`. -/
def setSensorOrientation (params : CameraParameters) (s : State) : State :=
  if params.KEY_SENSOR_ORIENTATION ≠ -1 ∧ s.mCapMode = CaptureMode.VIDEO_MODE then
    if params.KEY_SENSOR_ORIENTATION = 270 ∨ params.KEY_SENSOR_ORIENTATION = 90 then
      { s with mSensorOrientation := (params.KEY_SENSOR_ORIENTATION + 180) % 360 }
    else { s with mSensorOrientation := params.KEY_SENSOR_ORIENTATION }
  else { s with mSensorOrientation := 0 }

/-- Burst block of `setParametersCapture`. -/
def setBurst (params : CameraParameters) (s : State) : State :=
  if params.KEY_BURST ≥ 1 then
    let s1 := s.markPending (params.KEY_BURST ≠ s.mBurstFrames) SetExpBracket
    { s1 with mBurstFrames := params.KEY_BURST }
  else
    let s1 := s.markPending (s.mBurstFrames ≠ 1) SetExpBracket
    { s1 with mBurstFrames := 1 }

/-- JPEG quality block of `setParametersCapture`. -/
def setQuality (k : Constants) (params : CameraParameters) (s : State) : State :=
  if params.KEY_JPEG_QUALITY ≥ k.MIN_JPEG_QUALITY ∧
      params.KEY_JPEG_QUALITY ≤ k.MAX_JPEG_QUALITY then
    let s1 := s.markPending (params.KEY_JPEG_QUALITY ≠ s.mPictureQuality) SetQuality
    { s1 with mPictureQuality := params.KEY_JPEG_QUALITY }
  else
    let s1 := s.markPending (s.mPictureQuality ≠ k.MAX_JPEG_QUALITY) SetQuality
    { s1 with mPictureQuality := k.MAX_JPEG_QUALITY }

/-- Thumbnail width block of `setParametersCapture`. -/
def setThumbWidth (k : Constants) (params : CameraParameters) (s : State) : State :=
  if params.KEY_JPEG_THUMBNAIL_WIDTH ≥ 0 then
    let s1 := s.markPending (params.KEY_JPEG_THUMBNAIL_WIDTH ≠ s.mThumbWidth) SetThumb
    { s1 with mThumbWidth := params.KEY_JPEG_THUMBNAIL_WIDTH }
  else
    let s1 := s.markPending (s.mThumbWidth ≠ k.DEFAULT_THUMB_WIDTH) SetThumb
    { s1 with mThumbWidth := k.DEFAULT_THUMB_WIDTH }

/-- Thumbnail height block of `setParametersCapture`. -/
def setThumbHeight (k : Constants) (params : CameraParameters) (s : State) : State :=
  if params.KEY_JPEG_THUMBNAIL_HEIGHT ≥ 0 then
    let s1 := s.markPending (params.KEY_JPEG_THUMBNAIL_HEIGHT ≠ s.mThumbHeight) SetThumb
    { s1 with mThumbHeight := params.KEY_JPEG_THUMBNAIL_HEIGHT }
  else
    let s1 := s.markPending (s.mThumbHeight ≠ k.DEFAULT_THUMB_HEIGHT) SetThumb
    { s1 with mThumbHeight := k.DEFAULT_THUMB_HEIGHT }

/-- Thumbnail quality block of `setParametersCapture`. -/
def setThumbQuality (k : Constants) (params : CameraParameters) (s : State) : State :=
  if params.KEY_JPEG_THUMBNAIL_QUALITY ≥ k.MIN_JPEG_QUALITY ∧
      params.KEY_JPEG_THUMBNAIL_QUALITY ≤ k.MAX_JPEG_QUALITY then
    let s1 := s.markPending (params.KEY_JPEG_THUMBNAIL_QUALITY ≠ s.mThumbQuality) SetThumb
    { s1 with mThumbQuality := params.KEY_JPEG_THUMBNAIL_QUALITY }
  else
    let s1 := s.markPending (s.mThumbQuality ≠ k.MAX_JPEG_QUALITY) SetThumb
    { s1 with mThumbQuality := k.MAX_JPEG_QUALITY }

/-- The diff of `setParametersCapture` (up to the thumbnail quality block): the blocks
above in the order of the source. -/
def setParametersCaptureDiff (k : Constants) (params : CameraParameters) (s : State) : State :=
  setThumbQuality k params (setThumbHeight k params (setThumbWidth k params
    (setQuality k params (setBurst params (setSensorOrientation params
      (setRotation params (setExpBracketingRange k params
        (setPictureFormat params (setPictureSize params s)))))))))

/-- The block `if (mFirstTimeInit) mPendingCaptureSettings = ECapturesettingsAll;`. -/
def firstTimeInit (s : State) : State :=
  if s.mFirstTimeInit then { s with mPendingCaptureSettings := ECapturesettingsAll } else s

/-- The last block of `setParametersCapture`: with a group pending the image port is
disabled and the release callback, when registered, is invoked. -/
def setParametersCaptureRelease (env : Env) (s : State) : Int × State :=
  if s.mPendingCaptureSettings ≠ 0 then
    (NO_ERROR, (disableImagePort env s).2.releaseImageBuffers)
  else
    (NO_ERROR, s)

/-- The function `OMXCameraAdapter::setParametersCapture(params, state)`; the `state`
argument is not used by the body. -/
def setParametersCapture (k : Constants) (env : Env) (params : CameraParameters)
    (s : State) : Int × State :=
  setParametersCaptureRelease env (firstTimeInit (setParametersCaptureDiff k params s))

end CameraCodes.OMXCameraAdapter

namespace CameraCodes.OMXCameraAdapter

/-- The slots handed back to the hardware queue (`returnFrame`) by the calls of a trace,
in order. -/
def returnedSlots (tr : List Effect) : List Nat :=
  tr.filterMap (fun e => match e with
    | Effect.returnFrame index _ => some index
    | _ => none)

/-- One `doBracketing` call of a bracket sequence: the slot the hardware has filled, the
frame type, and the state the component is in when the call is made. -/
structure Fill where
  index : Nat
  typeOfFrame : FrameType
  componentState : OMX_STATETYPE

/-- Run `doBracketing` for each filled buffer in turn and list, per call, every slot the
call handed back to the hardware, paired with the slot that had just been filled. -/
def bracketingRun : State → List Fill → List (Nat × Nat)
  | _, [] => []
  | s, f :: rest =>
    let r := doBracketing { s with mComponentState := f.componentState } f.index f.typeOfFrame
    (returnedSlots (r.2.trace.drop s.trace.length)).map (fun j => (f.index, j))
      ++ bracketingRun r.2 rest

/-- The ledger as `startBracketing` sets it up for a ring of `n` buffers: all slots
queued, queued count `n`, last index `n - 1`. -/
def LedgerAfterStart (n : Nat) (s : State) : Prop :=
  s.cap.mNumBufs = n ∧ s.mBracketingBuffersQueued = List.replicate n true ∧
    s.mBracketingBuffersQueuedCount = (n : Int) ∧ s.mLastBracetingBufferIdx = (n : Int) - 1

/-- The ledger of a state: ring size, queued flags, queued count and last index. -/
def ledgerOf (s : State) : Nat × List Bool × Int × Int :=
  (s.cap.mNumBufs, s.mBracketingBuffersQueued, s.mBracketingBuffersQueuedCount,
    s.mLastBracetingBufferIdx)

/-- A concrete state of the adapter, used to evaluate the functions on concrete inputs:
past first-time initialisation, nothing configured, no bracket values held, no call
made, component executing. -/
def State.initial : State :=
  { cap := { mWidth := 0, mHeight := 0, mStride := 0,
             mColorFormat := OMX_COLOR_FORMATTYPE.OMX_COLOR_FormatUnused,
             mNumBufs := 0, mBufSize := 0, mBufferHeader := fun _ => none }
    mPendingCaptureSettings := 0
    mCodingMode := CodingMode.CodingNone
    mExposureBracketingValues := List.replicate 10 0
    mExposureBracketingValidEntries := 0
    mPictureRotation := 0
    mSensorOrientation := 0
    mCapMode := CaptureMode.HIGH_QUALITY
    mBurstFrames := 1
    mPictureQuality := 100
    mThumbWidth := 160
    mThumbHeight := 120
    mThumbQuality := 100
    mFirstTimeInit := false
    mCaptureConfigured := false
    mReleaseImageBuffersCallback := true
    mComponentState := OMX_STATETYPE.OMX_StateExecuting
    mBracketingBuffersQueued := []
    mBracketingBuffersQueuedCount := 0
    mLastBracetingBufferIdx := 0
    mBracketingEnabled := false
    mBracketingRange := 0
    mCapturedFrames := 0
    mWaitingForSnapshot := false
    mCaptureSignalled := false
    mSnapshotCount := 0
    mFrameCount := 0
    mPending3Asettings := 0
    mUseCaptureSem := 0
    mStartCaptureSem := 0
    mStopCaptureSem := 0
    mCaptureSem := 0
    trace := [] }

/-- An environment in which every collaborator call succeeds. -/
def Env.allSucceed : Env :=
  { RegisterForEvent := 0, RemoveEvent := 0, SignalEvent := 0, OMX_SendCommand := 0,
    OMX_UseBuffer := fun _ => 0, OMX_FreeBuffer := fun _ => 0,
    OMX_FillThisBuffer := fun _ => 0, OMX_SetConfig := fun _ => 0,
    WaitTimeout := fun _ => 0, CountAfterWait := fun _ => 0,
    invalidatedDuringWait := false, setFormat := 0, setFormatPort := fun p => p,
    setThumbnailParams := 0, setImageQuality := 0, setPictureRotation := 0,
    setupEXIF := 0, omxToAndroidError := fun e => if e = 0 then 0 else -1 }

/-- A ring of three image buffers right after `startBracketing` has set up the ledger. -/
def ring3 : State :=
  startBracketingLedger { State.initial with cap := { State.initial.cap with mNumBufs := 3 } } 0

/-- A bracket sequence on three buffers: the hardware fills slots 0, 1, 2, 0, 1. -/
def fills3 : List Fill :=
  [⟨0, FrameType.IMAGE_FRAME, OMX_STATETYPE.OMX_StateExecuting⟩,
   ⟨1, FrameType.IMAGE_FRAME, OMX_STATETYPE.OMX_StateExecuting⟩,
   ⟨2, FrameType.IMAGE_FRAME, OMX_STATETYPE.OMX_StateExecuting⟩,
   ⟨0, FrameType.IMAGE_FRAME, OMX_STATETYPE.OMX_StateExecuting⟩,
   ⟨1, FrameType.IMAGE_FRAME, OMX_STATETYPE.OMX_StateExecuting⟩]

/-- An adapter whose image port is configured with two buffers and every setting group
still marked pending. -/
def configured2 : State :=
  { State.initial with
    cap := { State.initial.cap with mNumBufs := 2 }
    mCaptureConfigured := true
    mPendingCaptureSettings := ECapturesettingsAll
    mBurstFrames := 4 }

/-- The flag a block of `setParametersCapture` raises: `flag` when the group changed. -/
def flagIf (changed : Bool) (flag : Nat) : Nat :=
  if changed then flag else 0

/-- The rotation `setParametersCapture` settles on: the snapshot value, 0 when not set. -/
def effRotation (params : CameraParameters) : Int :=
  if params.KEY_ROTATION ≠ -1 then params.KEY_ROTATION else 0

/-- The sensor orientation `setParametersCapture` settles on. -/
def effSensorOrientation (params : CameraParameters) (mCapMode : CaptureMode) : Int :=
  if params.KEY_SENSOR_ORIENTATION ≠ -1 ∧ mCapMode = CaptureMode.VIDEO_MODE then
    if params.KEY_SENSOR_ORIENTATION = 270 ∨ params.KEY_SENSOR_ORIENTATION = 90 then
      (params.KEY_SENSOR_ORIENTATION + 180) % 360
    else params.KEY_SENSOR_ORIENTATION
  else 0

/-- The burst count `setParametersCapture` settles on: the snapshot value, 1 below 1. -/
def effBurst (params : CameraParameters) : Int :=
  if params.KEY_BURST ≥ 1 then params.KEY_BURST else 1

/-- The JPEG quality `setParametersCapture` settles on. -/
def effQuality (k : Constants) (params : CameraParameters) : Int :=
  if params.KEY_JPEG_QUALITY ≥ k.MIN_JPEG_QUALITY ∧
      params.KEY_JPEG_QUALITY ≤ k.MAX_JPEG_QUALITY then params.KEY_JPEG_QUALITY
  else k.MAX_JPEG_QUALITY

/-- The thumbnail width `setParametersCapture` settles on. -/
def effThumbWidth (k : Constants) (params : CameraParameters) : Int :=
  if params.KEY_JPEG_THUMBNAIL_WIDTH ≥ 0 then params.KEY_JPEG_THUMBNAIL_WIDTH
  else k.DEFAULT_THUMB_WIDTH

/-- The thumbnail height `setParametersCapture` settles on. -/
def effThumbHeight (k : Constants) (params : CameraParameters) : Int :=
  if params.KEY_JPEG_THUMBNAIL_HEIGHT ≥ 0 then params.KEY_JPEG_THUMBNAIL_HEIGHT
  else k.DEFAULT_THUMB_HEIGHT

/-- The thumbnail quality `setParametersCapture` settles on. -/
def effThumbQuality (k : Constants) (params : CameraParameters) : Int :=
  if params.KEY_JPEG_THUMBNAIL_QUALITY ≥ k.MIN_JPEG_QUALITY ∧
      params.KEY_JPEG_THUMBNAIL_QUALITY ≤ k.MAX_JPEG_QUALITY then
    params.KEY_JPEG_THUMBNAIL_QUALITY
  else k.MAX_JPEG_QUALITY

/-- The bracket value array `setParametersCapture` settles on, from the current one. -/
def effExpValues (k : Constants) (params : CameraParameters) (cur : List Int) : List Int :=
  match params.KEY_EXP_BRACKETING_RANGE with
  | some str => (parseExpRangeLoop k.EXP_BRACKET_RANGE (strtokAll PARAMS_DELIMITER [] str) 0 cur).1
  | none => cur

/-- The number of valid bracket values `setParametersCapture` settles on. -/
def effExpValid (k : Constants) (params : CameraParameters) (cur : List Int) : Nat :=
  match params.KEY_EXP_BRACKETING_RANGE with
  | some str => (parseExpRangeLoop k.EXP_BRACKET_RANGE (strtokAll PARAMS_DELIMITER [] str) 0 cur).2
  | none => 0

/-- The TI values of the macros of `OMXCameraAdapter.h`, used to evaluate the functions
on concrete inputs. -/
def Constants.ti : Constants :=
  { MIN_JPEG_QUALITY := 1, MAX_JPEG_QUALITY := 100, DEFAULT_THUMB_WIDTH := 160,
    DEFAULT_THUMB_HEIGHT := 120, EXP_BRACKET_RANGE := 10 }

/-- A snapshot that sets no key: size 0x0, no picture format, every `getInt` is `-1`. -/
def CameraParameters.unset : CameraParameters :=
  { pictureWidth := 0, pictureHeight := 0, pictureFormat := none, capModeIsVideo := false,
    KEY_EXP_BRACKETING_RANGE := none, KEY_ROTATION := -1, KEY_SENSOR_ORIENTATION := -1,
    KEY_BURST := -1, KEY_JPEG_QUALITY := -1, KEY_JPEG_THUMBNAIL_WIDTH := -1,
    KEY_JPEG_THUMBNAIL_HEIGHT := -1, KEY_JPEG_THUMBNAIL_QUALITY := -1 }

/-- The pending mask after the diff of `setParametersCapture`: the mask on entry with
the flag of every changed group raised, in the order of the blocks. -/
def diffMask (k : Constants) (params : CameraParameters) (s : State) : Nat :=
  s.mPendingCaptureSettings
    ||| flagIf (decide (params.pictureWidth ≠ s.cap.mWidth ∨
          params.pictureHeight ≠ s.cap.mHeight)) SetFormat
    ||| flagIf (decide (effectivePixFormat params ≠ s.cap.mColorFormat)) SetFormat
    ||| flagIf (decide (params.KEY_EXP_BRACKETING_RANGE = none ∧
          s.mExposureBracketingValidEntries ≠ 0)) SetExpBracket
    ||| flagIf (decide (effRotation params ≠ s.mPictureRotation)) SetRotation
    ||| flagIf (decide (effBurst params ≠ s.mBurstFrames)) SetExpBracket
    ||| flagIf (decide (effQuality k params ≠ s.mPictureQuality)) SetQuality
    ||| flagIf (decide (effThumbWidth k params ≠ s.mThumbWidth)) SetThumb
    ||| flagIf (decide (effThumbHeight k params ≠ s.mThumbHeight)) SetThumb
    ||| flagIf (decide (effThumbQuality k params ≠ s.mThumbQuality)) SetThumb

/-- The capture settings of the adapter: every field `setParametersCapture` diffs or
reads, the pending mask excepted. -/
def settingsOf (s : State) : Int × Int × Int × OMX_COLOR_FORMATTYPE × CodingMode × List Int ×
    Nat × Int × Int × Int × Int × Int × Int × Int × CaptureMode × Bool :=
  (s.cap.mWidth, s.cap.mHeight, s.cap.mStride, s.cap.mColorFormat, s.mCodingMode,
    s.mExposureBracketingValues, s.mExposureBracketingValidEntries, s.mPictureRotation,
    s.mSensorOrientation, s.mBurstFrames, s.mPictureQuality, s.mThumbWidth, s.mThumbHeight,
    s.mThumbQuality, s.mCapMode, s.mFirstTimeInit)

/-- The pending mask cleared, as a capture does once it has pushed every group. -/
def clearPending (s : State) : State :=
  { s with mPendingCaptureSettings := 0 }

/-- What `disableImagePort` and the release callback leave alone: the capture settings,
the pending mask and the registration of the release callback. -/
def coreOf (s : State) :=
  (settingsOf s, s.mPendingCaptureSettings, s.mReleaseImageBuffersCallback)

/-- The same adapter while still in first-time initialisation. -/
def firstTime : State :=
  { State.initial with mFirstTimeInit := true }

/-- A snapshot that only sets the exposure bracketing range, to `-10,0,10`. -/
def bracketParams : CameraParameters :=
  { CameraParameters.unset with
    KEY_EXP_BRACKETING_RANGE := some ['-', '1', '0', ',', '0', ',', '1', '0'] }

/-- The two `OMX_SetConfig` calls `setExposureBracketing` makes from the state `s`. -/
def bracketingPush (s : State) : List Effect :=
  [Effect.OMX_SetConfig (Config.OMX_IndexConfigCaptureMode
      (!(s.mExposureBracketingValidEntries = 0 ∧ s.mBurstFrames = 0))
      (if (!(s.mExposureBracketingValidEntries = 0 ∧ s.mBurstFrames = 0)) = true
        then s.mBurstFrames else 0)),
   Effect.OMX_SetConfig (Config.OMX_IndexConfigExtCaptureMode
      (!(s.mExposureBracketingValidEntries = 0))
      (s.mExposureBracketingValues.take s.mExposureBracketingValidEntries))]

/-- The calls `UseBuffersCapture` makes for the setting groups pending in `s`, in the
order of its four blocks: format, thumbnail, exposure bracketing, quality. There is no
block for the rotation group. -/
def pendingPushes (s : State) : List Effect :=
  (if s.mPendingCaptureSettings &&& SetFormat ≠ 0 then [Effect.setFormat] else []) ++
  (if s.mPendingCaptureSettings &&& SetThumb ≠ 0 then
    [Effect.setThumbnailParams s.mThumbWidth s.mThumbHeight s.mThumbQuality] else []) ++
  (if s.mPendingCaptureSettings &&& SetExpBracket ≠ 0 then bracketingPush s else []) ++
  (if s.mPendingCaptureSettings &&& SetQuality ≠ 0 then
    [Effect.setImageQuality s.mPictureQuality] else [])

/-- The registration calls of `UseBuffersCapture` for `num` buffers, in slot order. -/
def registrations (buffers : Nat → Nat) (index num : Nat) : List Effect :=
  (List.range' index num).map (fun i => Effect.OMX_UseBuffer i (buffers i))

/-- What the registration, the wait and the exit blocks of `UseBuffersCapture` leave
alone: the pending mask and the registration of the release callback. -/
def pendingOf (s : State) : Nat × Bool :=
  (s.mPendingCaptureSettings, s.mReleaseImageBuffersCallback)

/-- An adapter with an unconfigured image port and every setting group marked pending,
as `setParametersCapture` leaves it during first-time initialisation. -/
def allPending : State :=
  { State.initial with mPendingCaptureSettings := ECapturesettingsAll }

/-- The `SetFormat` block of `UseBuffersCapture`, entered with the state reached so far. -/
def pushFormat (env : Env) (s0 : State) : Int × State :=
  if s0.mPendingCaptureSettings &&& SetFormat ≠ 0 then
    let a := { s0 with
      mPendingCaptureSettings := clearFlag s0.mPendingCaptureSettings SetFormat }
    (env.setFormat, { a.emit Effect.setFormat with cap := env.setFormatPort a.cap })
  else (NO_ERROR, s0)

/-- The `SetThumb` block of `UseBuffersCapture`, entered with the status and state
reached so far. -/
def pushThumb (env : Env) (r1 : Int × State) : Int × State :=
  if r1.2.mPendingCaptureSettings &&& SetThumb ≠ 0 then
    let a := { r1.2 with
      mPendingCaptureSettings := clearFlag r1.2.mPendingCaptureSettings SetThumb }
    (env.setThumbnailParams,
      a.emit (Effect.setThumbnailParams a.mThumbWidth a.mThumbHeight a.mThumbQuality))
  else (r1.1, r1.2)

/-- The `SetExpBracket` block of `UseBuffersCapture`. -/
def pushExpBracket (r2 : Int × State) : Int × State :=
  if r2.2.mPendingCaptureSettings &&& SetExpBracket ≠ 0 then
    let a := { r2.2 with
      mPendingCaptureSettings := clearFlag r2.2.mPendingCaptureSettings SetExpBracket }
    setExposureBracketing a a.mExposureBracketingValidEntries a.mBurstFrames
  else r2

/-- The `SetQuality` block of `UseBuffersCapture`. -/
def pushQuality (env : Env) (r3 : Int × State) : Int × State :=
  if r3.2.mPendingCaptureSettings &&& SetQuality ≠ 0 then
    let a := { r3.2 with
      mPendingCaptureSettings := clearFlag r3.2.mPendingCaptureSettings SetQuality }
    (env.setImageQuality, a.emit (Effect.setImageQuality a.mPictureQuality))
  else r3

/-- The settings the push blocks of `UseBuffersCapture` read, and the flags they leave
alone. -/
def pushedOf (s : State) : Int × Int × Int × List Int × Nat × Int × Int × Bool × Bool :=
  (s.mThumbWidth, s.mThumbHeight, s.mThumbQuality, s.mExposureBracketingValues,
    s.mExposureBracketingValidEntries, s.mBurstFrames, s.mPictureQuality,
    s.mCaptureConfigured, s.mReleaseImageBuffersCallback)

/-- Every collaborator call succeeds, except that `setFormat` is rejected. -/
def Env.formatRejected : Env :=
  { Env.allSucceed with setFormat := -EINVAL }

/-- Every collaborator call succeeds, except that `setThumbnailParams` is rejected. -/
def Env.thumbRejected : Env :=
  { Env.allSucceed with setThumbnailParams := -EINVAL }

/-- Every collaborator call succeeds, except that `setImageQuality` is rejected. -/
def Env.qualityRejected : Env :=
  { Env.allSucceed with setImageQuality := -EINVAL }

/-- Every collaborator call succeeds and every wait returns `NO_ERROR`, but the event
handler has moved the component to `OMX_StateInvalid` by the time a wait returns. -/
def Env.invalidated : Env :=
  { Env.allSucceed with invalidatedDuringWait := true }

/-- Every collaborator call succeeds, except that the wait for the shutter event on
`mStartCaptureSem` times out (`WaitTimeout` returns `-ETIMEDOUT`, -110). -/
def Env.shutterTimeout : Env :=
  { Env.allSucceed with
    WaitTimeout := fun sem => if sem = Sem.mStartCaptureSem then -110 else 0 }

/-- The call `startImageCapture` makes for the rotation group when it is pending in `s`. -/
def rotationPush (s : State) : List Effect :=
  if s.mPendingCaptureSettings &&& SetRotation ≠ 0 then
    [Effect.setPictureRotation s.mPictureRotation] else []

/-- The `OMX_FillThisBuffer` calls of `startImageCapture` for `num` buffers, in slot order. -/
def fills (index num : Nat) : List Effect :=
  (List.range' index num).map Effect.OMX_FillThisBuffer

/-- The states the ledger is in after each call of a run of `doBracketing` calls. -/
def ledgerStates : State → List Fill → List State
  | _, [] => []
  | s, f :: rest =>
    let r := doBracketing { s with mComponentState := f.componentState } f.index f.typeOfFrame
    r.2 :: ledgerStates r.2 rest

/-- Whether each call of a run of `doBracketing` calls is made on a slot that is marked
queued when the call is made. -/
def onQueuedSlots : State → List Fill → Bool
  | _, [] => true
  | s, f :: rest =>
    let r := doBracketing { s with mComponentState := f.componentState } f.index f.typeOfFrame
    decide (s.mBracketingBuffersQueued.get? f.index = some true) && onQueuedSlots r.2 rest

/-- The number of slots the ledger marks queued. -/
def queuedSlots (s : State) : Nat :=
  s.mBracketingBuffersQueued.count true

/-- The slots the loop of `sendBracketFrames` visits on a ring of `n` buffers whose last
bracketing index is `last`, in the order it visits them. -/
def visited (n last : Nat) : List Nat :=
  (List.range n).map (fun k => (last + 1 + k) % n)

/-- The frame callbacks `sendBracketFrames` sends for the slots of `slots` that the
ledger does not mark queued. -/
def frameCallbacks (s : State) (slots : List Nat) : List Effect :=
  (slots.filter (fun j => s.mBracketingBuffersQueued.get? j = some false)).map
    Effect.sendCallBacks

/-- A ring of three buffers in the middle of a bracket sequence: slots 0 and 2 filled
and held back, slot 1 queued, last bracketing index 1. -/
def ring3Held : State :=
  { ring3 with
    mBracketingBuffersQueued := [false, true, false]
    mBracketingBuffersQueuedCount := 1
    mLastBracetingBufferIdx := 1 }

end CameraCodes.OMXCameraAdapter

/-! ## V4LCameraAdapter: preview thread and return path

The three variants of the V4L adapter in the tree:
`src/camera/V4LCameraAdapter/V4LCameraAdapter.cpp`, `src/libcamera/V4LCameraAdapter.cpp`
and `src/camera/V4LCameraAdapter.cpp`. -/

namespace CameraCodes.V4LCameraAdapter

/-- The source file a function of the V4L adapter is taken from. -/
inductive Variant
  | camera_V4LCameraAdapter
  | libcamera
  | camera
  deriving DecidableEq, Repr

/-- Calls that leave the V4L adapter: the ioctls on the driver, the copy of the frame
data, the hand-off of the frame to the subscribers, the unmapping of a driver buffer,
and the creation and the end of the preview thread. -/
inductive Effect
  | VIDIOC_DQBUF
  | VIDIOC_QBUF (index : Nat)
  | memcpy (dst : Int) (src : Nat)
  | sendFrameToSubscribers (mBuffer : Int)
  | usleep (usec : Nat)
  | VIDIOC_STREAMON
  | VIDIOC_STREAMOFF
  | munmap (index : Nat)
  | PreviewThread_new
  | requestExitAndWait
  deriving DecidableEq, Repr

/-- What the ioctls and the frame relay return: the status of `VIDIOC_DQBUF` and the
index the driver stores in the buffer on success, the status of `VIDIOC_QBUF`, the
status of `sendFrameToSubscribers`, and the status of `VIDIOC_STREAMON` and of
`VIDIOC_STREAMOFF`. -/
structure Env where
  VIDIOC_DQBUF : Int
  dequeuedIndex : Nat
  VIDIOC_QBUF : Int
  sendFrameToSubscribers : Int
  VIDIOC_STREAMON : Int
  VIDIOC_STREAMOFF : Int

/-- The fields of `V4LCameraAdapter` the preview path uses. `mPreviewBufs` is the
`KeyedVector` from preview buffer address to driver buffer index, as the list of its
entries in key order; `mem i` is `mVideoInfo->mem[i]` (0 when `NULL`); `bufIndex` is
`mVideoInfo->buf.index`; `frameRefCount` is the reference count the base adapter keeps
per delivered preview buffer; `mPreviewThread` tells whether the thread object is set. -/
structure State where
  mPreviewing : Bool
  isStreaming : Bool
  mPreviewBufs : List (Int × Int)
  mem : Nat → Nat
  bufIndex : Nat
  mBufferIndex : Int
  nQueued : Int
  nDequeued : Int
  frameRefCount : Int → Nat
  mPreviewBufferCount : Int
  mPreviewThread : Bool
  trace : List Effect

/-- Record one outgoing call. -/
def State.emit (s : State) (e : Effect) : State :=
  { s with trace := s.trace ++ [e] }

/-- The lookup `KeyedVector::valueFor`: the value stored under a key, if any. -/
def valueFor (v : List (Int × Int)) (key : Int) : Option Int :=
  (v.find? (fun e => e.1 = key)).map (fun e => e.2)

/-- The lookup `KeyedVector::keyAt`: the key of the entry at a position, if any. -/
def keyAt (v : List (Int × Int)) (index : Int) : Option Int :=
  if index < 0 then none else (v.get? index.toNat).map (fun e => e.1)

/-- The return path of a frame buffer to the driver: `fillThisBuffer` in
`camera/V4LCameraAdapter/` and `libcamera/`, `queueBuffer` in `camera/`; the three
bodies are the same. `none` when `frameBuf` is not a key of `mPreviewBufs`
(`valueFor` has no defined result then). -/
def fillThisBuffer (env : Env) (s : State) (frameBuf : Int) : Option (Int × State) :=
  if !s.isStreaming then
    some (NO_ERROR, s)
  else
    match valueFor s.mPreviewBufs frameBuf with
    | none => none
    | some i =>
      if i < 0 then some (BAD_VALUE, s)
      else
        let s1 := { s with bufIndex := i.toNat }
        let s2 := s1.emit (Effect.VIDIOC_QBUF s1.bufIndex)
        if env.VIDIOC_QBUF < 0 then some (-1, s2)
        else some (env.VIDIOC_QBUF, { s2 with nQueued := s2.nQueued + 1 })

/-- The dequeue of the next filled driver buffer: `GetFrame`, `getFrame` and
`dequeueBuffer` in the three variants. The result is the mapped address of the buffer
(0 for `NULL`), the index written to the reference argument (the argument is left
alone on failure), and the state. -/
def GetFrame (env : Env) (s : State) (index : Int) : Nat × Int × State :=
  let s1 := s.emit Effect.VIDIOC_DQBUF
  if env.VIDIOC_DQBUF < 0 then
    (0, index, s1)
  else
    let s2 := { s1 with bufIndex := env.dequeuedIndex, nDequeued := s1.nDequeued + 1 }
    (s2.mem s2.bufIndex, (s2.bufIndex : Int), s2)

/-- Modelled from the spec: `BaseCameraAdapter::sendFrameToSubscribers` is not part of
the tree. The spec has the frame descriptor broadcast by reference to the subscribers,
each of which takes a reference: the reference count of the delivered buffer becomes
the number of subscribers. -/
def sendFrameToSubscribers (env : Env) (s : State) (mBuffer : Int) (subscribers : Nat) :
    Int × State :=
  let s1 := s.emit (Effect.sendFrameToSubscribers mBuffer)
  (env.sendFrameToSubscribers,
    { s1 with frameRefCount := Function.update s1.frameRefCount mBuffer subscribers })

/-- Modelled from the spec: `BaseCameraAdapter::returnFrame` is not part of the tree.
The spec has a subscriber's "return frame" decrement the reference count of the frame,
and the buffer go back to the hardware queue, through the variant's return path, when
the count reaches zero. -/
def returnFrame (env : Env) (s : State) (frameBuf : Int) : Option (Int × State) :=
  if s.frameRefCount frameBuf = 0 then
    some (NO_ERROR, s)
  else
    let s1 := { s with
      frameRefCount := Function.update s.frameRefCount frameBuf (s.frameRefCount frameBuf - 1) }
    if s1.frameRefCount frameBuf = 0 then fillThisBuffer env s1 frameBuf
    else some (NO_ERROR, s1)

/-- The function `V4LCameraAdapter::previewThread` of a variant, with `subscribers`
subscribers registered for preview frames. `none` when the dequeued index is not a
position of `mPreviewBufs` (`keyAt` has no defined result then). -/
def previewThread (variant : Variant) (env : Env) (s : State) (subscribers : Nat) :
    Option (Int × State) :=
  if !s.mPreviewing then
    some (NO_ERROR, s)
  else
    let g : Nat × Int × State :=
      match variant with
      | Variant.camera_V4LCameraAdapter => GetFrame env s 0
      | _ => GetFrame env s s.mBufferIndex
    let index := g.2.1
    let s1 : State :=
      match variant with
      | Variant.camera_V4LCameraAdapter => g.2.2
      | _ => { g.2.2 with mBufferIndex := index }
    if g.1 = 0 then
      match variant with
      | Variant.camera => some (BAD_VALUE, s1.emit (Effect.usleep 25000))
      | _ => some (BAD_VALUE, s1)
    else
      match keyAt s1.mPreviewBufs index with
      | none => none
      | some ptr =>
        let s2 := s1.emit (Effect.memcpy ptr g.1)
        let r := sendFrameToSubscribers env s2 ptr subscribers
        match variant with
        | Variant.camera => some r
        | _ =>
          -- requeue of `mVideoInfo->buf` right after the delivery
          let s3 := r.2.emit (Effect.VIDIOC_QBUF r.2.bufIndex)
          if env.VIDIOC_QBUF < 0 then some (-1, s3) else some (env.VIDIOC_QBUF, s3)

/-- The number of `VIDIOC_QBUF` ioctls a trace holds for a driver buffer index. -/
def qbufCount (tr : List Effect) (index : Nat) : Nat :=
  tr.count (Effect.VIDIOC_QBUF index)

/-- A previewing, streaming adapter with one preview buffer at address 4096 bound to
driver buffer 0, mapped at address 8192; nothing delivered yet. -/
def oneBuffer : State :=
  { mPreviewing := true, isStreaming := true, mPreviewBufs := [(4096, 0)],
    mem := fun i => if i = 0 then 8192 else 0, bufIndex := 0, mBufferIndex := 0,
    nQueued := 1, nDequeued := 0, frameRefCount := fun _ => 0, mPreviewBufferCount := 1,
    mPreviewThread := true, trace := [] }

/-- The driver hands out buffer 0 and accepts every requeue; delivery succeeds. -/
def Env.ok : Env :=
  { VIDIOC_DQBUF := 0, dequeuedIndex := 0, VIDIOC_QBUF := 0, sendFrameToSubscribers := 0,
    VIDIOC_STREAMON := 0, VIDIOC_STREAMOFF := 0 }

/-- One preview frame delivered to a single subscriber, which then returns it. -/
def deliverAndReturn (variant : Variant) : Option (Int × State) :=
  match previewThread variant Env.ok oneBuffer 1 with
  | none => none
  | some r => returnFrame Env.ok r.2 4096

/-- The loop of `startPreview` that queues every driver buffer, for the `remaining`
buffers from index `i` on: whether it left through `return -EINVAL`, the status of the
last `VIDIOC_QBUF` (`ret` as passed in when there was none), and the state. -/
def queueAll (env : Env) : Nat → Nat → Int → State → Bool × Int × State
  | 0, _, ret, s => (false, ret, s)
  | remaining + 1, i, _, s =>
    let s1 := State.emit { s with bufIndex := i } (Effect.VIDIOC_QBUF i)
    if env.VIDIOC_QBUF < 0 then (true, env.VIDIOC_QBUF, s1)
    else queueAll env remaining (i + 1) env.VIDIOC_QBUF { s1 with nQueued := s1.nQueued + 1 }

/-- The function `V4LCameraAdapter::startPreview` of a variant. In `libcamera/` the
flag `mPreviewing` is set before the preview thread is created, in the two other files
after. -/
def startPreview (variant : Variant) (env : Env) (s : State) : Int × State :=
  if s.mPreviewing then (BAD_VALUE, s)
  else
    let q := queueAll env s.mPreviewBufferCount.toNat 0 NO_ERROR s
    if q.1 then (-EINVAL, q.2.2)
    else
      let r : Bool × Int × State :=
        if !q.2.2.isStreaming then
          let s1 := q.2.2.emit Effect.VIDIOC_STREAMON
          if env.VIDIOC_STREAMON < 0 then (true, env.VIDIOC_STREAMON, s1)
          else (false, env.VIDIOC_STREAMON, { s1 with isStreaming := true })
        else (false, q.2.1, q.2.2)
      if r.1 then (r.2.1, r.2.2)
      else
        match variant with
        | Variant.libcamera =>
          -- Update the flag to indicate we are previewing
          let s2 : State := { r.2.2 with mPreviewing := true }
          (r.2.1, { s2.emit Effect.PreviewThread_new with mPreviewThread := true })
        | _ =>
          -- Create and start preview thread for receiving buffers from V4L Camera
          let s2 : State := { r.2.2.emit Effect.PreviewThread_new with mPreviewThread := true }
          (r.2.1, { s2 with mPreviewing := true })

/-- The loop "Unmap buffers" of `stopPreview`; the status of `munmap` is only logged. -/
def unmapAll : Nat → Nat → State → State
  | 0, _, s => s
  | remaining + 1, i, s => unmapAll remaining (i + 1) (s.emit (Effect.munmap i))

/-- The end of `stopPreview`, the same in the three files: the buffers are unmapped,
`mPreviewBufs` is cleared and the preview thread is ended. `none` when the code
dereferences a `NULL` `mPreviewThread`. -/
def stopPreviewRelease (s : State) (ret : Int) : Option (Int × State) :=
  let s1 := unmapAll s.mPreviewBufferCount.toNat 0 s
  let s2 : State := { s1 with mPreviewBufs := [] }
  if !s2.mPreviewThread then none
  else some (ret, { s2.emit Effect.requestExitAndWait with mPreviewThread := false })

/-- The function `V4LCameraAdapter::stopPreview` of a variant. Only
`camera/V4LCameraAdapter.cpp` writes `mPreviewing`. -/
def stopPreview (variant : Variant) (env : Env) (s : State) : Option (Int × State) :=
  if !s.mPreviewing then some (NO_INIT, s)
  else
    match variant with
    | Variant.camera =>
      let s1 : State := { s with nQueued := 0, nDequeued := 0, mPreviewing := false }
      if s1.isStreaming then
        let s2 := s1.emit Effect.VIDIOC_STREAMOFF
        if env.VIDIOC_STREAMOFF < 0 then some (env.VIDIOC_STREAMOFF, s2)
        else stopPreviewRelease { s2 with isStreaming := false } env.VIDIOC_STREAMOFF
      else stopPreviewRelease s1 NO_ERROR
    | _ =>
      if s.isStreaming then
        let s1 := s.emit Effect.VIDIOC_STREAMOFF
        if env.VIDIOC_STREAMOFF < 0 then some (env.VIDIOC_STREAMOFF, s1)
        else
          stopPreviewRelease { s1 with isStreaming := false, nQueued := 0, nDequeued := 0 }
            env.VIDIOC_STREAMOFF
      else stopPreviewRelease { s with nQueued := 0, nDequeued := 0 } NO_ERROR

/-- An adapter with one mapped driver buffer that is neither previewing nor
streaming, as after `UseBuffersPreview`. -/
def idle : State :=
  { oneBuffer with mPreviewing := false, isStreaming := false, nQueued := 0,
                   mPreviewThread := false }

/-- A start, a stop, and then a second start: the statuses of the three calls, then
the two flags after the stop. -/
def startStopStart (variant : Variant) : Option (Int × Int × Int × Bool × Bool) :=
  (stopPreview variant Env.ok (startPreview variant Env.ok idle).2).map (fun r =>
    ((startPreview variant Env.ok idle).1, r.1, (startPreview variant Env.ok r.2).1,
      r.2.mPreviewing, r.2.isStreaming))

/-- A start, a stop, and then a second stop: the status of the second stop, `none` when
it has no defined result. -/
def startStopStop (variant : Variant) : Option Int :=
  ((stopPreview variant Env.ok (startPreview variant Env.ok idle).2).bind (fun r =>
    stopPreview variant Env.ok r.2)).map (fun r => r.1)

end CameraCodes.V4LCameraAdapter

/-! ## CameraHal: preview, capture and commands (`src/camera/CameraHal.cpp`, `src/libcamera/CameraHal.cpp`) -/

namespace CameraCodes.CameraHal

/-- The tree a function of `CameraHal` is taken from. -/
inductive Variant
  | camera
  | libcamera
  deriving DecidableEq, Repr

/-- States of the camera adapter (`CameraAdapter::AdapterState`); the states the
orchestrator does not name in `takePicture` are `OTHER_STATE`. -/
inductive AdapterState
  | INTIALIZED_STATE
  | LOADED_PREVIEW_STATE
  | PREVIEW_STATE
  | LOADED_CAPTURE_STATE
  | CAPTURE_STATE
  | BRACKETING_STATE
  | VIDEO_STATE
  | VIDEO_CAPTURE_STATE
  | OTHER_STATE
  deriving DecidableEq, Repr

/-- Commands `CameraHal` sends to the camera adapter (`CameraAdapter::CameraCommands`). -/
inductive CameraCommands
  | CAMERA_QUERY_BUFFER_SIZE_IMAGE_CAPTURE
  | CAMERA_USE_BUFFERS_IMAGE_CAPTURE
  | CAMERA_START_IMAGE_CAPTURE
  | CAMERA_STOP_IMAGE_CAPTURE
  | CAMERA_START_BRACKET_CAPTURE
  | CAMERA_STOP_BRACKET_CAPTURE
  | CAMERA_QUERY_RESOLUTION_PREVIEW
  | CAMERA_SWITCH_TO_EXECUTING
  | CAMERA_USE_BUFFERS_PREVIEW
  | CAMERA_START_PREVIEW
  | CAMERA_STOP_PREVIEW
  | CAMERA_START_SMOOTH_ZOOM
  | CAMERA_STOP_SMOOTH_ZOOM
  | CAMERA_START_FD
  | CAMERA_STOP_FD
  | CAMERA_CANCEL_AUTOFOCUS
  deriving DecidableEq, Repr

/-- The message type `CAMERA_MSG_PREVIEW_FRAME` of `system/camera.h`. -/
def CAMERA_MSG_PREVIEW_FRAME : Nat := 0x10

/-- The message type `CAMERA_MSG_POSTVIEW_FRAME` of `system/camera.h`. -/
def CAMERA_MSG_POSTVIEW_FRAME : Nat := 0x40

/-- The constant `CameraHal::NO_BUFFERS_IMAGE_CAPTURE`. -/
def NO_BUFFERS_IMAGE_CAPTURE : Nat := 2

/-- Calls that leave `CameraHal`: commands to the camera adapter (`sendCommand` with
the buffer count it passes, 0 when it passes none; `sendCommandValue` when the only
argument is an integer `value1`), calls of the display adapter (`disableDisplay` with
its argument, `none` when the call leaves it to the default), of the notifier and of
the memory manager. -/
inductive Effect
  | sendCommand (cmd : CameraCommands) (bufferCount : Nat)
  | pauseDisplay (pause : Bool)
  | disableMsgType (msgType : Nat)
  | enableMsgType (msgType : Nat)
  | allocateBuffer (bytes : Int) (bufferCount : Nat)
  | getFd
  | getOffsets
  | sendCommandValue (cmd : CameraCommands) (value1 : Int)
  | adapterSetParameters
  | disableDisplay (cancel_buffer : Option Bool)
  | enableDisplay
  | displayInitialize
  | displaySetFrameProvider
  | displaySetErrorHandler
  | displaySetPreviewWindow
  | displayAllocateBuffer (width height : Int) (bufferCount : Nat)
  | displayGetOffsets
  | displayGetFd
  | displayMaxQueueableBuffers
  | displayFreeBuffers
  | notifierStart
  | notifierStop
  | notifierFlushAndReturnFrames
  | notifierStartPreviewCallbacks (bufferCount : Nat)
  | notifierStopPreviewCallbacks
  | notifierSetMeasurements
  deriving DecidableEq, Repr

/-- What the collaborators return: the status of each adapter command and the buffer
length the size query stores in the frame, the status of `pauseDisplay`, and what the
memory manager hands out (0 for `NULL`); then the status of the adapter's
`setParameters`, the size the preview resolution query stores in the frame, the
`REQUIRED_PREVIEW_BUFS` property read through `atoi`, what the display adapter hands
out and returns (`displayAllocatedBytes` is the length `allocateBuffer` leaves in its
reference argument, `displayCreated` is whether `new` gave an object), and the status
of the notifier's `start`. -/
structure Env where
  sendCommand : CameraCommands → Int
  queriedLength : Nat
  pauseDisplay : Int
  allocateBuffer : Nat
  getFd : Int
  getOffsets : Nat
  adapterSetParameters : Int
  queriedWidth : Int
  queriedHeight : Int
  required_buffer_count : Nat
  displayAllocateBuffer : Nat
  displayAllocatedBytes : Int
  displayGetOffsets : Nat
  displayGetFd : Int
  displayMaxQueueableBuffers : Int
  enableDisplay : Int
  displayCreated : Bool
  displayInitialize : Int
  displaySetPreviewWindow : Int
  notifierStart : Int

/-- The camera adapter as `takePicture` sees it through `getState()` and
`getNextState()`. -/
structure CameraAdapter where
  state : AdapterState
  nextState : AdapterState

/-- The fields of `CameraHal` that the preview and capture functions read or write.
`mCameraAdapter` is `none` for a `NULL` pointer, `mDisplayAdapter` and
`mAppCallbackNotifier` tell whether the object is set, `mImageBufs`, `mPreviewBufs` and
`mPreviewOffsets` are 0 for `NULL`. -/
structure State where
  mPreviewEnabled : Bool
  mPreviewStartInProgress : Bool
  mDisplayPaused : Bool
  mBracketingRunning : Bool
  mMsgEnabled : Nat
  mCameraAdapter : Option CameraAdapter
  mDisplayAdapter : Bool
  mImageBufs : Nat
  mImageFd : Int
  mImageLength : Int
  mImageOffsets : Nat
  mRecordingEnabled : Bool
  mSetPreviewWindowCalled : Bool
  mAppCallbackNotifier : Bool
  mPreviewBufs : Nat
  mPreviewOffsets : Nat
  mPreviewFd : Int
  mPreviewLength : Int
  mPreviewWidth : Int
  mPreviewHeight : Int
  trace : List Effect

/-- Record one outgoing call. -/
def State.emit (s : State) (e : Effect) : State :=
  { s with trace := s.trace ++ [e] }

/-- The function `CameraHal::previewEnabled`. -/
def previewEnabled (s : State) : Bool :=
  s.mPreviewEnabled || s.mPreviewStartInProgress

/-- The function `CameraHal::allocImageBufs`; the width, height and format arguments
only reach the memory manager, which is taken to be set. -/
def allocImageBufs (env : Env) (s : State) (size : Nat) (bufferCount : Nat) : Int × State :=
  if s.mImageBufs ≠ 0 then
    (NO_ERROR, s)
  else
    let bytes : Int := (((size : Int) + 4095) / 4096) * 4096
    let s1 : State := { s.emit (Effect.allocateBuffer bytes bufferCount) with
      mImageBufs := env.allocateBuffer }
    if s1.mImageBufs = 0 then
      (-NO_MEMORY, { s1 with mImageFd := -1, mImageLength := 0, mImageOffsets := 0 })
    else
      let s2 := s1.emit Effect.getFd
      let s3 := { s2 with mImageFd := env.getFd, mImageLength := (size : Int) }
      (NO_ERROR, { s3.emit Effect.getOffsets with mImageOffsets := env.getOffsets })

/-- The block of `takePicture` run when no bracketing is running, entered with the
adapter the checks before it have read (the notifier is taken to be set). In
`src/libcamera/` the blocks under the two tests of `mMsgEnabled` are empty: the notifier
is not called. -/
def takePictureSetup (variant : Variant) (env : Env) (s : State) (a : CameraAdapter)
    (burst : Int) : Int × State :=
  let bufferCount : Nat :=
    match variant with
    | Variant.camera => 1
    | Variant.libcamera => if burst > 1 then NO_BUFFERS_IMAGE_CAPTURE else 1
  -- pause preview during normal image capture, not if recording (video state)
  let r1 : Int × State :=
    if s.mDisplayAdapter ∧ burst < 1 ∧ a.state ≠ AdapterState.VIDEO_STATE then
      let s1 := { s with mDisplayPaused := true, mPreviewEnabled := false }
      let s2 := s1.emit (Effect.pauseDisplay s1.mDisplayPaused)
      (env.pauseDisplay,
        -- since preview is paused we should stop sending preview frames too
        match variant with
        | Variant.camera =>
          if s2.mMsgEnabled &&& CAMERA_MSG_PREVIEW_FRAME ≠ 0 then
            s2.emit (Effect.disableMsgType CAMERA_MSG_PREVIEW_FRAME)
          else s2
        | Variant.libcamera => s2)
    else (NO_ERROR, s)
  -- if we are taking a video snapshot
  let s3 : State :=
    match variant with
    | Variant.camera =>
      if r1.1 = NO_ERROR ∧ a.state = AdapterState.VIDEO_STATE ∧
          r1.2.mMsgEnabled &&& CAMERA_MSG_POSTVIEW_FRAME = 0 then
        r1.2.emit (Effect.enableMsgType CAMERA_MSG_POSTVIEW_FRAME)
      else r1.2
    | Variant.libcamera => r1.2
  let r4 : Int × State :=
    if r1.1 = NO_ERROR then
      (env.sendCommand CameraCommands.CAMERA_QUERY_BUFFER_SIZE_IMAGE_CAPTURE,
        s3.emit (Effect.sendCommand CameraCommands.CAMERA_QUERY_BUFFER_SIZE_IMAGE_CAPTURE
          bufferCount))
    else (r1.1, s3)
  let r5 : Int × State :=
    if r4.1 = NO_ERROR then allocImageBufs env r4.2 env.queriedLength bufferCount else r4
  if r5.1 = NO_ERROR then
    (env.sendCommand CameraCommands.CAMERA_USE_BUFFERS_IMAGE_CAPTURE,
      r5.2.emit (Effect.sendCommand CameraCommands.CAMERA_USE_BUFFERS_IMAGE_CAPTURE bufferCount))
  else r5

/-- The function `CameraHal::takePicture`. The local `burst` is read without ever
being assigned, so its value is an argument. `none` when the code dereferences a
`NULL` `mCameraAdapter`. -/
def takePicture (variant : Variant) (env : Env) (s : State) (burst : Int) :
    Option (Int × State) :=
  if !previewEnabled s && !s.mDisplayPaused then
    some (NO_INIT, s)
  else
    match s.mCameraAdapter with
    | none => none
    | some a =>
      -- return error if we are already capturing
      if (a.state = AdapterState.CAPTURE_STATE ∧ a.nextState ≠ AdapterState.PREVIEW_STATE) ∨
          (a.state = AdapterState.VIDEO_CAPTURE_STATE ∧
            a.nextState ≠ AdapterState.VIDEO_STATE) then
        some (NO_INIT, s)
      else if a.state = AdapterState.VIDEO_STATE then
        some (INVALID_OPERATION, s)
      else
        let r : Int × State :=
          if !s.mBracketingRunning then takePictureSetup variant env s a burst
          else (NO_ERROR, s)
        if r.1 = NO_ERROR then
          some (env.sendCommand CameraCommands.CAMERA_START_IMAGE_CAPTURE,
            r.2.emit (Effect.sendCommand CameraCommands.CAMERA_START_IMAGE_CAPTURE 0))
        else some r

/-- An orchestrator with preview running, a display adapter, no image buffers, and an
adapter that is capturing a still whose next state is not preview. -/
def busyCapture : State :=
  { mPreviewEnabled := true, mPreviewStartInProgress := false, mDisplayPaused := false,
    mBracketingRunning := false, mMsgEnabled := 0x10,
    mCameraAdapter := some { state := AdapterState.CAPTURE_STATE,
                             nextState := AdapterState.CAPTURE_STATE },
    mDisplayAdapter := true, mImageBufs := 0, mImageFd := -1, mImageLength := 0,
    mImageOffsets := 0, mRecordingEnabled := false, mSetPreviewWindowCalled := true,
    mAppCallbackNotifier := true, mPreviewBufs := 8192, mPreviewOffsets := 12288,
    mPreviewFd := 4, mPreviewLength := 4096, mPreviewWidth := 640, mPreviewHeight := 480,
    trace := [] }

/-- Collaborators that accept every call. -/
def Env.ok : Env :=
  { sendCommand := fun _ => 0, queriedLength := 4096, pauseDisplay := 0,
    allocateBuffer := 65536, getFd := 3, getOffsets := 131072,
    adapterSetParameters := 0, queriedWidth := 640, queriedHeight := 480,
    required_buffer_count := 4, displayAllocateBuffer := 8192,
    displayAllocatedBytes := 4096, displayGetOffsets := 12288,
    displayGetFd := 4, displayMaxQueueableBuffers := 0, enableDisplay := 0,
    displayCreated := true, displayInitialize := 0, displaySetPreviewWindow := 0,
    notifierStart := 0 }

/-- Keys of `CameraParameters` that `setParameters` of `src/libcamera/` names. -/
inductive Key
  | KEY_PREVIEW_FORMAT
  | KEY_PREVIEW_SIZE
  | KEY_VIDEO_STABILIZATION
  | KEY_RECORDING_HINT
  | KEY_FOCUS_MODE
  | KEY_PICTURE_FORMAT
  | KEY_PICTURE_SIZE
  | KEY_PREVIEW_FRAME_RATE
  | KEY_PREVIEW_FPS_RANGE
  | KEY_WHITE_BALANCE
  | KEY_ANTIBANDING
  | KEY_FOCUS_AREAS
  | KEY_EXPOSURE_COMPENSATION
  | KEY_SCENE_MODE
  | KEY_FLASH_MODE
  | KEY_EFFECT
  | KEY_ROTATION
  | KEY_JPEG_QUALITY
  | KEY_JPEG_THUMBNAIL_WIDTH
  | KEY_JPEG_THUMBNAIL_HEIGHT
  | KEY_JPEG_THUMBNAIL_QUALITY
  | KEY_GPS_LATITUDE
  | KEY_GPS_LONGITUDE
  | KEY_GPS_ALTITUDE
  | KEY_GPS_TIMESTAMP
  | KEY_GPS_PROCESSING_METHOD
  | KEY_ZOOM
  | KEY_AUTO_EXPOSURE_LOCK
  | KEY_AUTO_WHITEBALANCE_LOCK
  | KEY_METERING_AREAS
  deriving DecidableEq, Repr

/-- The class `CameraParameters` of the Android framework: a map from keys to strings,
held as the list of its entries. -/
structure CameraParameters where
  mMap : List (Key × String)
  deriving DecidableEq, Repr

/-- The accessor `CameraParameters::get`: `none` for `NULL`. -/
def CameraParameters.get (p : CameraParameters) (key : Key) : Option String :=
  (p.mMap.find? (fun e => e.1 = key)).map (fun e => e.2)

/-- The setter `CameraParameters::set(key, value)`: the value of the key is replaced,
or the entry is added. -/
def CameraParameters.set (p : CameraParameters) (key : Key) (value : String) :
    CameraParameters :=
  if p.mMap.any (fun e => e.1 = key) then
    { mMap := p.mMap.map (fun e => if e.1 = key then (key, value) else e) }
  else { mMap := p.mMap ++ [(key, value)] }

/-- The call `CameraParameters::remove(key)`. -/
def CameraParameters.remove (p : CameraParameters) (key : Key) : CameraParameters :=
  { mMap := p.mMap.filter (fun e => e.1 ≠ key) }

/-- The setters `setPreviewSize` and `setPictureSize`: the value is `"%dx%d"`. -/
def CameraParameters.setSize (p : CameraParameters) (key : Key) (w h : Int) :
    CameraParameters :=
  p.set key (toString w ++ "x" ++ toString h)

/-- What the parsers of `CameraParameters` and the preview restart return: `strtol` as
`getInt` calls it, `parse_pair` on a size string (`none` when it fails), and the status
of `restartPreview`. -/
structure ParamEnv where
  strtol : String → Int
  parse_pair : String → Option (Int × Int)
  restartPreview : Int

/-- The accessor `CameraParameters::getInt`: `-1` for a key that is not set. -/
def CameraParameters.getInt (env : ParamEnv) (p : CameraParameters) (key : Key) : Int :=
  match p.get key with
  | none => -1
  | some v => env.strtol v

/-- The accessors `getPreviewSize` and `getPictureSize`: `(-1, -1)` when the key is not
set or its value is not a size. -/
def CameraParameters.getSize (env : ParamEnv) (p : CameraParameters) (key : Key) :
    Int × Int :=
  match p.get key with
  | none => (-1, -1)
  | some v =>
    match env.parse_pair v with
    | none => (-1, -1)
    | some wh => wh

/-- Calls `setParameters` makes on `CameraHal` itself that reach the adapters. -/
inductive ParamEffect
  | restartPreview
  | forceStopPreview
  deriving DecidableEq, Repr

/-- The fields of `CameraHal` that `setParameters` reads or writes, and the trace of the
preview restarts it asks for. -/
structure Hal where
  mParameters : CameraParameters
  mVideoWidth : Int
  mVideoHeight : Int
  mPreviewEnabled : Bool
  mPreviewStartInProgress : Bool
  mDisplayPaused : Bool
  mRecordingEnabled : Bool
  mMaxZoomSupported : Int
  trace : List ParamEffect
  deriving DecidableEq, Repr

/-- The pattern `if ((valstr = params.get(key)) != NULL) mParameters.set(key, valstr);`. -/
def copyKey (params : CameraParameters) (key : Key) (s : Hal) : Hal :=
  match params.get key with
  | some valstr => { s with mParameters := s.mParameters.set key valstr }
  | none => s

/-- The pattern `if (((valstr = params.get(key)) != NULL) && (params.getInt(key) >= 0))
mParameters.set(key, valstr);`. -/
def copyKeyNonNegative (env : ParamEnv) (params : CameraParameters) (key : Key) (s : Hal) :
    Hal :=
  match params.get key with
  | some valstr =>
    if params.getInt env key ≥ 0 then { s with mParameters := s.mParameters.set key valstr }
    else s
  | none => s

/-- The pattern `if ((valstr = params.get(key)) != NULL) mParameters.set(key, valstr);
else mParameters.remove(key);` of the GPS keys. -/
def copyKeyOrRemove (params : CameraParameters) (key : Key) (s : Hal) : Hal :=
  match params.get key with
  | some valstr => { s with mParameters := s.mParameters.set key valstr }
  | none => { s with mParameters := s.mParameters.remove key }

/-- The function `CameraHal::setPreferredPreviewRes` of `src/libcamera/`. -/
def setPreferredPreviewRes (s : Hal) (width height : Int) : Hal :=
  let s1 :=
    if width = 320 ∧ height = 240 then
      { s with mParameters := s.mParameters.setSize Key.KEY_PREVIEW_SIZE 640 480 }
    else s
  if width = 176 ∧ height = 144 then
    { s1 with mParameters := s1.mParameters.setSize Key.KEY_PREVIEW_SIZE 704 576 }
  else s1

/-- The `KEY_RECORDING_HINT` block of `setParameters`, entered with the restart flag
reached so far: `none` for the `return -EINVAL` on a hint that is neither `"true"` nor
`"false"`, else the restart flag and the state. `setVideoModeParameters` and
`resetVideoModeParameters` return `false` and change nothing. -/
def setRecordingHint (env : ParamEnv) (params : CameraParameters) (s : Hal)
    (restartPreviewRequired : Bool) : Option (Bool × Hal) :=
  match params.get Key.KEY_RECORDING_HINT with
  | some valstr =>
    if valstr = "true" then
      let s1 : Hal := { s with
        mParameters := s.mParameters.set Key.KEY_RECORDING_HINT valstr }
      let wh := params.getSize env Key.KEY_PREVIEW_SIZE
      -- HACK FOR MMS
      let s2 : Hal := { s1 with mVideoWidth := wh.1, mVideoHeight := wh.2 }
      let s3 := setPreferredPreviewRes s2 wh.1 wh.2
      let wh2 := s3.mParameters.getSize env Key.KEY_PREVIEW_SIZE
      -- Avoid restarting preview for MMS HACK
      let restart : Bool :=
        if wh2.1 ≠ s3.mVideoWidth ∧ wh2.2 ≠ s3.mVideoHeight then false
        else restartPreviewRequired
      some (restart || false, s3)
    else if valstr = "false" then
      let s1 : Hal := { s with
        mParameters := s.mParameters.set Key.KEY_RECORDING_HINT valstr }
      let wh := params.getSize env Key.KEY_PREVIEW_SIZE
      some (restartPreviewRequired || false, { s1 with mVideoWidth := wh.1, mVideoHeight := wh.2 })
    else none
  | none =>
    let s1 : Hal := { s with mParameters := s.mParameters.set Key.KEY_RECORDING_HINT "" }
    let wh := params.getSize env Key.KEY_PREVIEW_SIZE
    some (restartPreviewRequired || false, { s1 with mVideoWidth := wh.1, mVideoHeight := wh.2 })

/-- The part of `setParameters` from `KEY_FOCUS_MODE` to `KEY_METERING_AREAS`, entered
with the status reached so far: the keys that can change while the preview runs. The
flag `updateRequired` is left out: the only statement that reads it is commented out. -/
def setRunningParameters (env : ParamEnv) (params : CameraParameters) (s : Hal) (ret : Int) :
    Int × Hal :=
  let s1 := copyKey params Key.KEY_FOCUS_MODE s
  let s2 := copyKey params Key.KEY_PICTURE_FORMAT s1
  let wh := params.getSize env Key.KEY_PICTURE_SIZE
  let s3 : Hal := { s2 with
    mParameters := s2.mParameters.setSize Key.KEY_PICTURE_SIZE wh.1 wh.2 }
  let s4 : Hal := { s3 with
    mParameters := (s3.mParameters.set Key.KEY_PREVIEW_FRAME_RATE "16000").set
      Key.KEY_PREVIEW_FPS_RANGE "16" }
  let s5 := copyKey params Key.KEY_WHITE_BALANCE s4
  let s6 := copyKey params Key.KEY_ANTIBANDING s5
  let s7 := copyKey params Key.KEY_FOCUS_AREAS s6
  let s8 := copyKey params Key.KEY_EXPOSURE_COMPENSATION s7
  let s9 := copyKey params Key.KEY_SCENE_MODE s8
  let s10 := copyKey params Key.KEY_FLASH_MODE s9
  let s11 := copyKey params Key.KEY_EFFECT s10
  let s12 := copyKeyNonNegative env params Key.KEY_ROTATION s11
  let s13 := copyKeyNonNegative env params Key.KEY_JPEG_QUALITY s12
  let s14 := copyKeyNonNegative env params Key.KEY_JPEG_THUMBNAIL_WIDTH s13
  let s15 := copyKeyNonNegative env params Key.KEY_JPEG_THUMBNAIL_HEIGHT s14
  let s16 := copyKeyNonNegative env params Key.KEY_JPEG_THUMBNAIL_QUALITY s15
  let s17 := copyKeyOrRemove params Key.KEY_GPS_LATITUDE s16
  let s18 := copyKeyOrRemove params Key.KEY_GPS_LONGITUDE s17
  let s19 := copyKeyOrRemove params Key.KEY_GPS_ALTITUDE s18
  let s20 := copyKeyOrRemove params Key.KEY_GPS_TIMESTAMP s19
  let s21 := copyKeyOrRemove params Key.KEY_GPS_PROCESSING_METHOD s20
  let r22 : Int × Hal :=
    match params.get Key.KEY_ZOOM with
    | some valstr =>
      if params.getInt env Key.KEY_ZOOM ≥ 0 ∧
          params.getInt env Key.KEY_ZOOM ≤ s21.mMaxZoomSupported then
        (ret, { s21 with mParameters := s21.mParameters.set Key.KEY_ZOOM valstr })
      else (-EINVAL, s21)
    | none => (ret, s21)
  let s23 := copyKey params Key.KEY_AUTO_EXPOSURE_LOCK r22.2
  let s24 := copyKey params Key.KEY_AUTO_WHITEBALANCE_LOCK s23
  (r22.1, copyKey params Key.KEY_METERING_AREAS s24)

/-- The end of `setParameters`: "On fail restore old parameters", then the preview is
restarted or stopped if the recording hint block asked for it. -/
def setParametersEnd (env : ParamEnv) (oldParams : CameraParameters) (s : Hal) (ret : Int)
    (restartPreviewRequired : Bool) : Int × Hal :=
  let s1 : Hal := if ret ≠ NO_ERROR then { s with mParameters := oldParams } else s
  if restartPreviewRequired ∧ (s1.mPreviewEnabled || s1.mPreviewStartInProgress) ∧
      !s1.mRecordingEnabled then
    (env.restartPreview, { s1 with trace := s1.trace ++ [ParamEffect.restartPreview] })
  else if restartPreviewRequired ∧ !(s1.mPreviewEnabled || s1.mPreviewStartInProgress) ∧
      s1.mDisplayPaused ∧ !s1.mRecordingEnabled then
    (ret, { s1 with trace := s1.trace ++ [ParamEffect.forceStopPreview] })
  else (ret, s1)

/-- The function `CameraHal::setParameters(const CameraParameters&)` of a tree. In
`src/camera/` its first statement is `return NO_ERROR;`. -/
def setParameters (variant : Variant) (env : ParamEnv) (s : Hal) (params : CameraParameters) :
    Int × Hal :=
  match variant with
  | Variant.camera => (NO_ERROR, s)
  | Variant.libcamera =>
    let oldParams := s.mParameters
    -- Ensure that preview is not enabled when the below parameters are changed.
    let r1 : Option Hal :=
      if !(s.mPreviewEnabled || s.mPreviewStartInProgress) then
        match params.get Key.KEY_PREVIEW_FORMAT with
        | some valstr =>
          some { s with mParameters := s.mParameters.set Key.KEY_PREVIEW_FORMAT valstr }
        | none => none
      else some s
    match r1 with
    | none => (-EINVAL, s)
    | some s1 =>
      let ret : Int :=
        if (params.get Key.KEY_VIDEO_STABILIZATION).isSome then -EINVAL else NO_ERROR
      let wh := params.getSize env Key.KEY_PREVIEW_SIZE
      if wh.1 = -1 ∧ wh.2 = -1 then (-EINVAL, s1)
      else
        let old := s1.mParameters.getSize env Key.KEY_PREVIEW_SIZE
        let s2 : Hal := { s1 with
          mParameters := s1.mParameters.setSize Key.KEY_PREVIEW_SIZE wh.1 wh.2
          mVideoWidth := wh.1
          mVideoHeight := wh.2 }
        let restartPreviewRequired : Bool := decide (old.1 ≠ wh.1 ∨ old.2 ≠ wh.2)
        -- Handle RECORDING_HINT to Set/Reset Video Mode Parameters
        match setRecordingHint env params s2 restartPreviewRequired with
        | none => (-EINVAL, s2)
        | some (restart, s3) =>
          let r4 := setRunningParameters env params s3 ret
          setParametersEnd env oldParams r4.2 r4.1 restart

/-- A parser environment that reads the sizes `"320x240"` and `"640x480"`; a restart of
the preview succeeds. -/
def ParamEnv.sizes : ParamEnv :=
  { strtol := fun _ => 0
    parse_pair := fun v =>
      if v = "320x240" then some (320, 240)
      else if v = "640x480" then some (640, 480)
      else none
    restartPreview := NO_ERROR }

/-- A `CameraHal` with a stopped preview whose stored parameters and video size are
640x480. -/
def Hal.vga : Hal :=
  { mParameters := { mMap := [(Key.KEY_PREVIEW_FORMAT, "yuv420sp"),
                              (Key.KEY_PREVIEW_SIZE, "640x480")] }
    mVideoWidth := 640
    mVideoHeight := 480
    mPreviewEnabled := false
    mPreviewStartInProgress := false
    mDisplayPaused := false
    mRecordingEnabled := false
    mMaxZoomSupported := 0
    trace := [] }

/-- A request for a 320x240 preview whose recording hint is neither `"true"` nor
`"false"`. -/
def badHint : CameraParameters :=
  { mMap := [(Key.KEY_PREVIEW_FORMAT, "yuv422i-yuyv"),
             (Key.KEY_PREVIEW_SIZE, "320x240"),
             (Key.KEY_RECORDING_HINT, "maybe")] }

/-- A request for a 320x240 preview that also sets the video stabilization key. -/
def withVstab : CameraParameters :=
  { mMap := [(Key.KEY_PREVIEW_FORMAT, "yuv422i-yuyv"),
             (Key.KEY_PREVIEW_SIZE, "320x240"),
             (Key.KEY_VIDEO_STABILIZATION, "true")] }

/-- Values of the enumeration `CameraAdapter::AdapterState`, which `forceStopPreview`
compares with `>`; the enumeration is declared in `CameraHal.h`, which is not part of
the tree. -/
structure Constants where
  stateValue : AdapterState → Int

/-- The function `CameraHal::msgTypeEnabled` (the same in both trees): the value
`mMsgEnabled & msgType`, which a caller reads as a truth value. -/
def msgTypeEnabled (s : State) (msgType : Nat) : Nat :=
  s.mMsgEnabled &&& msgType

/-- The command `CAMERA_CMD_START_SMOOTH_ZOOM` of `system/camera.h`. -/
def CAMERA_CMD_START_SMOOTH_ZOOM : Int := 1

/-- The command `CAMERA_CMD_STOP_SMOOTH_ZOOM` of `system/camera.h`. -/
def CAMERA_CMD_STOP_SMOOTH_ZOOM : Int := 2

/-- The command `CAMERA_CMD_START_FACE_DETECTION` of `system/camera.h`. -/
def CAMERA_CMD_START_FACE_DETECTION : Int := 6

/-- The command `CAMERA_CMD_STOP_FACE_DETECTION` of `system/camera.h`. -/
def CAMERA_CMD_STOP_FACE_DETECTION : Int := 7

/-- The function `CameraHal::sendCommand` of `src/camera/`; its third argument `arg2`
is not read. The case `CAMERA_CMD_STOP_SMOOTH_ZOOM` has no `break`: control falls into
the case `CAMERA_CMD_START_FACE_DETECTION`. -/
def sendCommand (env : Env) (s : State) (cmd arg1 : Int) : Int × State :=
  let ret1 : Int := if s.mCameraAdapter.isNone then -EINVAL else NO_ERROR
  let ret2 : Int := if ret1 = NO_ERROR ∧ !previewEnabled s then -EINVAL else ret1
  if ret2 = NO_ERROR then
    if cmd = CAMERA_CMD_START_SMOOTH_ZOOM then
      (env.sendCommand CameraCommands.CAMERA_START_SMOOTH_ZOOM,
        s.emit (Effect.sendCommandValue CameraCommands.CAMERA_START_SMOOTH_ZOOM arg1))
    else if cmd = CAMERA_CMD_STOP_SMOOTH_ZOOM then
      let s1 := s.emit (Effect.sendCommand CameraCommands.CAMERA_STOP_SMOOTH_ZOOM 0)
      (env.sendCommand CameraCommands.CAMERA_START_FD,
        s1.emit (Effect.sendCommand CameraCommands.CAMERA_START_FD 0))
    else if cmd = CAMERA_CMD_START_FACE_DETECTION then
      (env.sendCommand CameraCommands.CAMERA_START_FD,
        s.emit (Effect.sendCommand CameraCommands.CAMERA_START_FD 0))
    else if cmd = CAMERA_CMD_STOP_FACE_DETECTION then
      (env.sendCommand CameraCommands.CAMERA_STOP_FD,
        s.emit (Effect.sendCommand CameraCommands.CAMERA_STOP_FD 0))
    else (ret2, s)
  else (ret2, s)

/-- The function `CameraHal::stopImageBracketing`; `none` when the code dereferences a
`NULL` `mCameraAdapter`. -/
def stopImageBracketing (env : Env) (s : State) : Option (Int × State) :=
  if !previewEnabled s then some (NO_INIT, s)
  else
    let s1 : State := { s with mBracketingRunning := false }
    match s1.mCameraAdapter with
    | none => none
    | some _ =>
      some (env.sendCommand CameraCommands.CAMERA_STOP_BRACKET_CAPTURE,
        s1.emit (Effect.sendCommand CameraCommands.CAMERA_STOP_BRACKET_CAPTURE 0))

/-- The function `CameraHal::freePreviewBufs`; `none` when the code dereferences a
`NULL` `mDisplayAdapter`. -/
def freePreviewBufs (s : State) : Option State :=
  if s.mPreviewBufs ≠ 0 then
    if s.mDisplayAdapter then
      some { s.emit Effect.displayFreeBuffers with mPreviewBufs := 0 }
    else none
  else some s

/-- The part of `forceStopPreview` between the call of `stopImageBracketing` and the
call of `freePreviewBufs`: the display, the notifier and the adapter are stopped. -/
def forceStopPreviewStop (k : Constants) (s : State) : State :=
  let s1 := if s.mDisplayAdapter then s.emit (Effect.disableDisplay none) else s
  let s2 :=
    if s1.mAppCallbackNotifier then
      ((s1.emit Effect.notifierStop).emit Effect.notifierFlushAndReturnFrames).emit
        Effect.notifierStopPreviewCallbacks
    else s1
  match s2.mCameraAdapter with
  | some a =>
    -- cancel all captures before stopping preview
    let s3 :=
      if a.state = AdapterState.CAPTURE_STATE ∧ a.nextState ≠ AdapterState.PREVIEW_STATE then
        s2.emit (Effect.sendCommand CameraCommands.CAMERA_STOP_IMAGE_CAPTURE 0)
      else s2
    let s4 :=
      if k.stateValue a.state > k.stateValue AdapterState.LOADED_PREVIEW_STATE then
        (s3.emit (Effect.sendCommand CameraCommands.CAMERA_STOP_FD 0)).emit
          (Effect.sendCommand CameraCommands.CAMERA_CANCEL_AUTOFOCUS 0)
      else s3
    if k.stateValue a.state > k.stateValue AdapterState.INTIALIZED_STATE then
      -- Stop the source of frames
      s4.emit (Effect.sendCommand CameraCommands.CAMERA_STOP_PREVIEW 0)
    else s4
  | none => s2

/-- The function `CameraHal::forceStopPreview` (`void`). -/
def forceStopPreview (k : Constants) (env : Env) (s : State) : Option State :=
  -- stop bracketing if it is running
  match stopImageBracketing env s with
  | none => none
  | some r =>
    (freePreviewBufs (forceStopPreviewStop k r.2)).map (fun s1 =>
      { s1 with mPreviewEnabled := false, mDisplayPaused := false,
                mPreviewStartInProgress := false })

/-- The function `CameraHal::allocPreviewBufs`; `mPreviewLength` is set to 0 and passed
by reference to `allocateBuffer`; the reference `max_queueable` is local to the caller
and is not kept. -/
def allocPreviewBufs (env : Env) (s : State) (width height : Int) (buffercount : Nat) :
    Int × State :=
  if !s.mDisplayAdapter then (NO_MEMORY, s)
  else if s.mPreviewBufs = 0 then
    let s1 : State := { s.emit (Effect.displayAllocateBuffer width height buffercount) with
      mPreviewLength := env.displayAllocatedBytes, mPreviewBufs := env.displayAllocateBuffer }
    if s1.mPreviewBufs = 0 then (NO_MEMORY, s1)
    else
      let s2 : State := { s1.emit Effect.displayGetOffsets with
        mPreviewOffsets := env.displayGetOffsets }
      if s2.mPreviewOffsets = 0 then (BAD_VALUE, s2)
      else
        let s3 : State := { s2.emit Effect.displayGetFd with mPreviewFd := env.displayGetFd }
        if s3.mPreviewFd = -1 then (BAD_VALUE, s3)
        else (env.displayMaxQueueableBuffers, s3.emit Effect.displayMaxQueueableBuffers)
  else (NO_ERROR, s)

/-- The label `error` of `startPreview`; `none` when the code dereferences a `NULL`
pointer. -/
def startPreviewError (s : State) (ret : Int) : Option (Int × State) :=
  match freePreviewBufs s with
  | none => none
  | some s1 =>
    if s1.mCameraAdapter.isNone ∨ !s1.mAppCallbackNotifier then none
    else
      let s2 := s1.emit (Effect.sendCommand CameraCommands.CAMERA_STOP_PREVIEW 0)
      let s3 := if s2.mDisplayAdapter then s2.emit (Effect.disableDisplay (some false)) else s2
      let s4 := s3.emit Effect.notifierStop
      some (ret, { s4 with mPreviewStartInProgress := false, mPreviewEnabled := false })

/-- The branch "Preview is in paused state" of `startPreview`, entered with the status
reached so far. -/
def startPreviewResume (env : Env) (s : State) (ret : Int) : Option (Int × State) :=
  let s1 : State := { s with mDisplayPaused := false, mPreviewEnabled := true }
  let r2 : Int × State :=
    if ret = NO_ERROR then (env.pauseDisplay, s1.emit (Effect.pauseDisplay s1.mDisplayPaused))
    else (ret, s1)
  -- restart preview callbacks
  if r2.2.mMsgEnabled &&& CAMERA_MSG_PREVIEW_FRAME ≠ 0 then
    if r2.2.mAppCallbackNotifier then
      some (r2.1, r2.2.emit (Effect.enableMsgType CAMERA_MSG_PREVIEW_FRAME))
    else none
  else some r2

/-- The end of `startPreview`: the display is enabled if a display adapter is present,
then `CAMERA_START_PREVIEW` is sent. -/
def startPreviewDisplay (env : Env) (s : State) : Option (Int × State) :=
  -- Enable the display adapter if present
  let r1 : Int × State :=
    if s.mDisplayAdapter then (env.enableDisplay, s.emit Effect.enableDisplay)
    else (NO_ERROR, s)
  if r1.1 ≠ NO_ERROR then startPreviewError r1.2 r1.1
  else
    -- Send START_PREVIEW command to adapter
    let s2 := r1.2.emit (Effect.sendCommand CameraCommands.CAMERA_START_PREVIEW 0)
    if env.sendCommand CameraCommands.CAMERA_START_PREVIEW ≠ NO_ERROR then
      startPreviewError s2 (env.sendCommand CameraCommands.CAMERA_START_PREVIEW)
    else
      some (env.sendCommand CameraCommands.CAMERA_START_PREVIEW,
        { s2 with mPreviewEnabled := true, mPreviewStartInProgress := false })

/-- The part of `startPreview` that starts the callback notifier, and what follows. -/
def startPreviewNotifier (env : Env) (s : State) : Option (Int × State) :=
  if !s.mAppCallbackNotifier then none
  else
    let s1 := s.emit (Effect.notifierStartPreviewCallbacks env.required_buffer_count)
    -- Start the callback notifier
    let s2 := s1.emit Effect.notifierStart
    if env.notifierStart = ALREADY_EXISTS then
      -- Already running, do nothing
      startPreviewDisplay env s2
    else if env.notifierStart = NO_ERROR then
      startPreviewDisplay env (s2.emit Effect.notifierSetMeasurements)
    else startPreviewError s2 env.notifierStart

/-- The part of `startPreview` from the allocation of the preview buffers on. -/
def startPreviewBuffers (env : Env) (s : State) : Option (Int × State) :=
  -- Allocate the preview buffers
  let r1 := allocPreviewBufs env s s.mPreviewWidth s.mPreviewHeight env.required_buffer_count
  if r1.1 ≠ NO_ERROR then startPreviewError r1.2 r1.1
  else
    -- Pass the buffers to Camera Adapter
    match r1.2.mCameraAdapter with
    | none => none
    | some _ =>
      let s2 := r1.2.emit (Effect.sendCommand CameraCommands.CAMERA_USE_BUFFERS_PREVIEW
        env.required_buffer_count)
      if env.sendCommand CameraCommands.CAMERA_USE_BUFFERS_PREVIEW ≠ NO_ERROR then
        (freePreviewBufs s2).map (fun s3 =>
          (env.sendCommand CameraCommands.CAMERA_USE_BUFFERS_PREVIEW, s3))
      else startPreviewNotifier env s2

/-- The part of `startPreview` after the resolution query, entered with the status
reached so far. -/
def startPreviewWindow (env : Env) (s : State) (ret : Int) : Option (Int × State) :=
  -- If we don't have the preview callback enabled and display adapter,
  if !s.mSetPreviewWindowCalled ∨ !s.mDisplayAdapter then
    let s1 : State := { s with mPreviewStartInProgress := true }
    match s1.mCameraAdapter with
    | none => none
    | some _ =>
      let s2 := s1.emit (Effect.sendCommand CameraCommands.CAMERA_SWITCH_TO_EXECUTING 0)
      if env.sendCommand CameraCommands.CAMERA_SWITCH_TO_EXECUTING ≠ NO_ERROR then
        some (env.sendCommand CameraCommands.CAMERA_SWITCH_TO_EXECUTING, s2)
      else some (NO_ERROR, s2)
  else if s.mDisplayAdapter ∧ !s.mPreviewEnabled ∧ s.mDisplayPaused then
    startPreviewResume env s ret
  else startPreviewBuffers env s

/-- The part of `startPreview` from the resolution query on, entered with the status
of the adapter's `setParameters`. -/
def startPreviewQuery (env : Env) (s : State) (ret : Int) : Option (Int × State) :=
  if s.mPreviewStartInProgress = false ∧ s.mDisplayPaused = false then
    match s.mCameraAdapter with
    | none => none
    | some _ =>
      let s1 := s.emit (Effect.sendCommand CameraCommands.CAMERA_QUERY_RESOLUTION_PREVIEW 0)
      if env.sendCommand CameraCommands.CAMERA_QUERY_RESOLUTION_PREVIEW ≠ NO_ERROR then
        some (env.sendCommand CameraCommands.CAMERA_QUERY_RESOLUTION_PREVIEW, s1)
      else
        -- Update the current preview width and height
        startPreviewWindow env
          { s1 with mPreviewWidth := env.queriedWidth, mPreviewHeight := env.queriedHeight }
          (env.sendCommand CameraCommands.CAMERA_QUERY_RESOLUTION_PREVIEW)
  else startPreviewWindow env s ret

/-- The function `CameraHal::startPreview` of `src/camera/`; `none` when the code
dereferences a `NULL` pointer. -/
def startPreview (env : Env) (s : State) : Option (Int × State) :=
  if s.mPreviewEnabled then some (ALREADY_EXISTS, s)
  else
    match s.mCameraAdapter with
    | some _ =>
      startPreviewQuery env (s.emit Effect.adapterSetParameters) env.adapterSetParameters
    | none => startPreviewQuery env s NO_ERROR

/-- The function `CameraHal::stopPreview` (`void`); `none` when the code dereferences a
`NULL` `mCameraAdapter`. -/
def stopPreview (k : Constants) (env : Env) (s : State) : Option State :=
  if (!previewEnabled s && !s.mDisplayPaused) || s.mRecordingEnabled then some s
  else
    match s.mCameraAdapter with
    | none => none
    | some a =>
      let imageCaptureRunning : Bool :=
        a.state = AdapterState.CAPTURE_STATE ∧ a.nextState ≠ AdapterState.PREVIEW_STATE
      if s.mDisplayPaused ∧ !imageCaptureRunning then some s
      else forceStopPreview k env s

/-- The function `CameraHal::setPreviewWindow`; `window` tells whether the argument is
a window (`false` for `NULL`). -/
def setPreviewWindow (env : Env) (s : State) (window : Bool) : Option (Int × State) :=
  let s0 : State := { s with mSetPreviewWindowCalled := true }
  if !window then
    if s0.mDisplayAdapter then
      -- NULL window passed, destroy the display adapter if present
      some (NO_ERROR, { s0 with mDisplayAdapter := false, mSetPreviewWindowCalled := false })
    else some (NO_ERROR, s0)
  else if !s0.mDisplayAdapter then
    -- Need to create the display adapter since it has not been created
    if !env.displayCreated then some (NO_MEMORY, s0)
    else
      let s1 : State := { s0 with mDisplayAdapter := true }
      let s2 := s1.emit Effect.displayInitialize
      if env.displayInitialize ≠ NO_ERROR then
        some (env.displayInitialize, { s2 with mDisplayAdapter := false })
      else
        let s3 := (s2.emit Effect.displaySetFrameProvider).emit Effect.displaySetErrorHandler
        -- Update the display adapter with the new window
        let s4 := s3.emit Effect.displaySetPreviewWindow
        if s4.mPreviewStartInProgress then
          -- Start the preview since the window is now available
          startPreview env s4
        else some (env.displaySetPreviewWindow, s4)
  else some (NO_ERROR, s0)

/-- The function `CameraHal::restartPreview`; `none` when the code dereferences a `NULL`
`mCameraAdapter`. -/
def restartPreview (k : Constants) (env : Env) (s : State) : Option (Int × State) :=
  match forceStopPreview k env s with
  | none => none
  | some s1 =>
    match s1.mCameraAdapter with
    | none => none
    | some _ => startPreview env (s1.emit Effect.adapterSetParameters)

/-- The function `CameraHal::deinitialize` (`void`). -/
def deinitialize (k : Constants) (env : Env) (s : State) : Option State :=
  let r : Option State :=
    if s.mPreviewEnabled ∨ s.mDisplayPaused then forceStopPreview k env s else some s
  r.map (fun s1 => { s1 with mSetPreviewWindowCalled := false })


/-- The state the constructor `CameraHal::CameraHal` leaves: every flag false, every
pointer `NULL`. -/
def constructed : State :=
  { mPreviewEnabled := false, mPreviewStartInProgress := false, mDisplayPaused := false,
    mBracketingRunning := false, mMsgEnabled := 0, mCameraAdapter := none,
    mDisplayAdapter := false, mImageBufs := 0, mImageFd := 0, mImageLength := 0,
    mImageOffsets := 0, mRecordingEnabled := false, mSetPreviewWindowCalled := false,
    mAppCallbackNotifier := false, mPreviewBufs := 0, mPreviewOffsets := 0,
    mPreviewFd := 0, mPreviewLength := 0, mPreviewWidth := 0, mPreviewHeight := 0,
    trace := [] }

/-- A constructed `CameraHal` whose adapter (in the given state, with the same next
state) and notifier are set, as after `initialize`. -/
def initialized (state : AdapterState) : State :=
  { constructed with
    mCameraAdapter := some { state := state, nextState := state }
    mAppCallbackNotifier := true }

/-- An initialized `CameraHal` with a display adapter and a running preview; the adapter
is in `PREVIEW_STATE`. -/
def previewing : State :=
  { initialized AdapterState.PREVIEW_STATE with
    mPreviewEnabled := true, mDisplayAdapter := true, mSetPreviewWindowCalled := true,
    mPreviewBufs := 8192 }

/-- Values of the adapter states that increase in the order the adapter passes through
them. -/
def Constants.ordered : Constants :=
  { stateValue := fun st =>
      match st with
      | AdapterState.INTIALIZED_STATE => 1
      | AdapterState.LOADED_PREVIEW_STATE => 2
      | AdapterState.PREVIEW_STATE => 3
      | AdapterState.LOADED_CAPTURE_STATE => 4
      | AdapterState.CAPTURE_STATE => 5
      | AdapterState.BRACKETING_STATE => 6
      | AdapterState.VIDEO_STATE => 7
      | AdapterState.VIDEO_CAPTURE_STATE => 8
      | AdapterState.OTHER_STATE => 9 }

/-- An adapter that accepts every command but `CAMERA_START_FD`, which it rejects with
`-EINVAL`. -/
def Env.faceDetectionRejected : Env :=
  { Env.ok with
    sendCommand := fun cmd => if cmd = CameraCommands.CAMERA_START_FD then -EINVAL else 0 }

/-- Calls of `CameraHal` a client makes, with their arguments (`burst` is the value of
the uninitialised local of `takePicture`). -/
inductive Call
  | startPreview
  | stopPreview
  | takePicture (burst : Int)
  | setPreviewWindow (window : Bool)
  | restartPreview
  | forceStopPreview
  | deinitialize

/-- One call, with what the collaborators return during it and the state the adapter
reports through `getState` and `getNextState`. -/
structure Step where
  call : Call
  env : Env
  adapter : CameraAdapter

/-- One call of `CameraHal` of `src/camera/`; the status is dropped. -/
def step (k : Constants) (st : Step) (s : State) : Option State :=
  let s0 : State := { s with mCameraAdapter := s.mCameraAdapter.map (fun _ => st.adapter) }
  match st.call with
  | Call.startPreview => (startPreview st.env s0).map (fun r => r.2)
  | Call.stopPreview => stopPreview k st.env s0
  | Call.takePicture burst => (takePicture Variant.camera st.env s0 burst).map (fun r => r.2)
  | Call.setPreviewWindow window => (setPreviewWindow st.env s0 window).map (fun r => r.2)
  | Call.restartPreview => (restartPreview k st.env s0).map (fun r => r.2)
  | Call.forceStopPreview => forceStopPreview k st.env s0
  | Call.deinitialize => deinitialize k st.env s0

/-- A sequence of calls, from the first on; `none` as soon as one has no result. -/
def run (k : Constants) : List Step → State → Option State
  | [], s => some s
  | st :: rest, s =>
    match step k st s with
    | none => none
    | some s1 => run k rest s1

/-- A session: the window is set, the preview is started, a picture is taken, the
preview is resumed, restarted and stopped, and the object is released. -/
def session : List Step :=
  [ { call := Call.setPreviewWindow true, env := Env.ok,
      adapter := { state := AdapterState.INTIALIZED_STATE,
                   nextState := AdapterState.INTIALIZED_STATE } },
    { call := Call.startPreview, env := Env.ok,
      adapter := { state := AdapterState.INTIALIZED_STATE,
                   nextState := AdapterState.INTIALIZED_STATE } },
    { call := Call.takePicture 0, env := Env.ok,
      adapter := { state := AdapterState.PREVIEW_STATE,
                   nextState := AdapterState.PREVIEW_STATE } },
    { call := Call.startPreview, env := Env.ok,
      adapter := { state := AdapterState.PREVIEW_STATE,
                   nextState := AdapterState.PREVIEW_STATE } },
    { call := Call.restartPreview, env := Env.ok,
      adapter := { state := AdapterState.PREVIEW_STATE,
                   nextState := AdapterState.PREVIEW_STATE } },
    { call := Call.stopPreview, env := Env.ok,
      adapter := { state := AdapterState.PREVIEW_STATE,
                   nextState := AdapterState.PREVIEW_STATE } },
    { call := Call.deinitialize, env := Env.ok,
      adapter := { state := AdapterState.INTIALIZED_STATE,
                   nextState := AdapterState.INTIALIZED_STATE } } ]


/-- Whether `mPreviewEnabled` and `mDisplayPaused` are both true. -/
def previewAndPaused (s : State) : Bool :=
  s.mPreviewEnabled && s.mDisplayPaused


end CameraCodes.CameraHal

/-! ## ANativeWindowDisplayAdapter: `handleFrameReturn`
(`src/camera/ANativeWindowDisplayAdapter.cpp`, `src/libcamera/NativeWindowDisplayAdapter.cpp`) -/

namespace CameraCodes.ANativeWindowDisplayAdapter

/-- The tree a function of the display adapter is taken from. -/
inductive Variant
  | camera
  | libcamera
  deriving DecidableEq, Repr

/-- The constant `ANativeWindowDisplayAdapter::FAILED_DQS_TO_SUSPEND`, commented in the
source as "Suspends buffers after given amount of failed dq's". -/
def FAILED_DQS_TO_SUSPEND : Int := 3

/-- Calls that leave the display adapter in `allocateBuffer`, `handleFrameReturn` and
`postFrame`: the window, the gralloc mapper, the frame provider, the display queue and
the error notifier. -/
inductive Effect
  | dequeue_buffer
  | lock_buffer (buf : Nat)
  | mapper_lock (handle : Nat)
  | usleep (usec : Nat)
  | returnFrame (frameBuf : Nat) (t : FrameType)
  | errorNotify
  | mapper_unlock (handle : Nat)
  | enqueue_buffer (buf : Nat)
  | cancel_buffer (buf : Nat)
  | mDisplayQ_put
  | set_usage
  | set_buffer_count (numBufs : Nat)
  | set_buffers_geometry (width height : Int)
  | get_min_undequeued_buffer_count
  | addFramePointers (frameBuf : Nat)
  deriving DecidableEq, Repr

/-- What the window and the mapper return in one `handleFrameReturn`: the status of
`dequeue_buffer` and the buffer it hands out, the status of `lock_buffer`, the status
of the `n`-th `mapper.lock` attempt and the address the mapping is made at. -/
structure Env where
  dequeue_buffer : Int
  buf : Nat
  lock_buffer : Int
  mapper_lock : Nat → Int
  y_uv : Nat

/-- The fields of the display adapter `allocateBuffer`, `handleFrameReturn` and
`postFrame` read or write. `mANativeWindow` and `mFrameProvider` tell whether the
pointer is set; `mBufferHandleMap` and `mGrallocHandleMap` are the arrays, slot by slot
(the slots written so far, for an array fresh from `new`), and `mGrallocHandleMapSet`
tells whether the pointer `mGrallocHandleMap` is not `NULL`;
`mFramesWithCameraAdapterMap` is the `KeyedVector` as the list of its entries in key
order. -/
structure State where
  mANativeWindow : Bool
  mFrameProvider : Bool
  mErrorNotifier : Bool
  mBufferCount : Nat
  mBufferHandleMap : List Nat
  mGrallocHandleMap : List Nat
  mGrallocHandleMapSet : Bool
  mFramesWithCameraAdapterMap : List (Nat × Nat)
  mSuspend : Bool
  mFailedDQs : Int
  mPaused : Bool
  trace : List Effect

/-- Record one outgoing call. -/
def State.emit (s : State) (e : Effect) : State :=
  { s with trace := s.trace ++ [e] }

/-- The insertion `KeyedVector::add`: the entry is put at its place in key order and
replaces an entry with the same key. -/
def KeyedVector_add (key value : Nat) : List (Nat × Nat) → List (Nat × Nat)
  | [] => [(key, value)]
  | e :: rest =>
    if key < e.1 then (key, value) :: e :: rest
    else if key = e.1 then (key, value) :: rest
    else e :: KeyedVector_add key value rest

/-- The search `for (i = 0; i < mBufferCount; i++) if (mBufferHandleMap[i] == buf) break;`
from slot `i` on, over the `remaining` slots: the value of `i` after the loop. `none`
when a slot below `mBufferCount` is outside the array. -/
def findBuffer (map : List Nat) (buf : Nat) : Nat → Nat → Option Nat
  | 0, i => some i
  | remaining + 1, i =>
    match map.get? i with
    | none => none
    | some h => if h = buf then some i else findBuffer map buf remaining (i + 1)

/-- The loop `while (mapper.lock(...) < 0) { if (++lock_try_count > LOCK_BUFFER_TRIES)
return false; usleep(15000); }` entered with `lock_try_count` failed attempts so far:
whether the buffer got locked, and the state. `none` when `fuel` attempts do not end
the loop. -/
def mapperLockLoop (env : Env) (LOCK_BUFFER_TRIES : Nat) (handle : Nat) :
    Nat → Nat → State → Option (Bool × State)
  | 0, _, _ => none
  | fuel + 1, lock_try_count, s =>
    let s1 := s.emit (Effect.mapper_lock handle)
    if env.mapper_lock lock_try_count < 0 then
      if lock_try_count + 1 > LOCK_BUFFER_TRIES then some (false, s1)
      else mapperLockLoop env LOCK_BUFFER_TRIES handle fuel (lock_try_count + 1)
        (s1.emit (Effect.usleep 15000))
    else some (true, s1)

/-- The block of `handleFrameReturn` after a failed window call: the surface is
dropped when the error is `ENODEV`, and the function returns `false`. -/
def windowFailed (s : State) (err : Int) : Bool × State :=
  (false, if err = ENODEV then { s with mANativeWindow := false } else s)

/-- The end of `handleFrameReturn`: the buffer of slot `i` is locked for the CPU, entered
in `mGrallocHandleMap` and in the frames-with-camera-adapter map, and (in `camera/`)
returned to the frame provider. -/
def lockAndReturn (variant : Variant) (env : Env) (LOCK_BUFFER_TRIES : Nat) (s : State)
    (i : Nat) : Option (Bool × State) :=
  match s.mBufferHandleMap.get? i with
  | none => none
  | some handle =>
    match mapperLockLoop env LOCK_BUFFER_TRIES handle (LOCK_BUFFER_TRIES + 1) 0 s with
    | none => none
    | some (false, s1) =>
      match variant with
      | Variant.camera => some (false, s1)
      | Variant.libcamera =>
        some (false, if s1.mErrorNotifier then s1.emit Effect.errorNotify else s1)
    | some (true, s1) =>
      let s2 := { s1 with
        mGrallocHandleMap := s1.mGrallocHandleMap.set i env.y_uv
        mFramesWithCameraAdapterMap :=
          KeyedVector_add env.y_uv i s1.mFramesWithCameraAdapterMap }
      match variant with
      | Variant.camera =>
        if s2.mFrameProvider then
          some (true, s2.emit (Effect.returnFrame env.y_uv FrameType.PREVIEW_FRAME_SYNC))
        else none
      | Variant.libcamera => some (true, s2)

/-- The function `ANativeWindowDisplayAdapter::handleFrameReturn` of a tree;
`LOCK_BUFFER_TRIES` is a macro of the header, which is not part of the tree. `none`
when the code reads outside `mBufferHandleMap` or calls through a `NULL` frame
provider. -/
def handleFrameReturn (variant : Variant) (env : Env) (LOCK_BUFFER_TRIES : Nat) (s : State) :
    Option (Bool × State) :=
  if !s.mANativeWindow then
    some (false, s)
  else
    let s1 := s.emit Effect.dequeue_buffer
    if env.dequeue_buffer ≠ 0 then
      some (windowFailed s1 env.dequeue_buffer)
    else
      match variant with
      | Variant.camera =>
        let s2 := s1.emit (Effect.lock_buffer env.buf)
        if env.lock_buffer ≠ 0 then some (windowFailed s2 env.lock_buffer)
        else
          match findBuffer s2.mBufferHandleMap env.buf s2.mBufferCount 0 with
          | none => none
          | some i =>
            -- `return -EINVAL;` in a function returning `bool`
            if i ≥ s2.mBufferCount then some (true, s2)
            else lockAndReturn variant env LOCK_BUFFER_TRIES s2 i
      | Variant.libcamera =>
        match findBuffer s1.mBufferHandleMap env.buf s1.mBufferCount 0 with
        | none => none
        | some i =>
          let s2 := s1.emit (Effect.lock_buffer env.buf)
          if env.lock_buffer ≠ 0 then some (windowFailed s2 env.lock_buffer)
          else lockAndReturn variant env LOCK_BUFFER_TRIES s2 i

/-- The adapter as its constructor leaves it (`mSuspend = false`, `mFailedDQs = 0`),
with a preview window and a frame provider set and two buffers allocated. -/
def withWindow : State :=
  { mANativeWindow := true, mFrameProvider := true, mErrorNotifier := true,
    mBufferCount := 2, mBufferHandleMap := [100, 200], mGrallocHandleMap := [0, 0],
    mGrallocHandleMapSet := true,
    mFramesWithCameraAdapterMap := [], mSuspend := false, mFailedDQs := 0,
    mPaused := false, trace := [] }

/-- A compositor whose `dequeue_buffer` fails with `-EBUSY`. -/
def Env.dequeueFails : Env :=
  { dequeue_buffer := -16, buf := 0, lock_buffer := 0, mapper_lock := fun _ => 0, y_uv := 0 }

/-- A compositor that hands out the buffer of slot 0, mapped at address 4096. -/
def Env.dequeueOk : Env :=
  { dequeue_buffer := 0, buf := 100, lock_buffer := 0, mapper_lock := fun _ => 0,
    y_uv := 4096 }

/-- Run `handleFrameReturn` once per environment, in turn. -/
def handleFrameReturns (variant : Variant) (LOCK_BUFFER_TRIES : Nat) :
    List Env → State → Option State
  | [], s => some s
  | env :: rest, s =>
    match handleFrameReturn variant env LOCK_BUFFER_TRIES s with
    | none => none
    | some r => handleFrameReturns variant LOCK_BUFFER_TRIES rest r.2

/-- The removal `KeyedVector::removeItem`: the entry with the key, if there is one, is
dropped. -/
def KeyedVector_removeItem (key : Nat) (m : List (Nat × Nat)) : List (Nat × Nat) :=
  m.filter (fun e => e.1 ≠ key)

/-- The function `ANativeWindowDisplayAdapter::postFrame` of `src/camera/`, for a frame
descriptor whose `mBuffer` is the address `mBuffer` (0 for `NULL`). The search loop has
the shape of the one of `handleFrameReturn`, run over `mGrallocHandleMap`. `none` when
the code reads outside an array or calls through a `NULL` window. The status of
`mapper.unlock` is not read and that of `enqueue_buffer` is only logged, so the result
does not depend on them. -/
def postFrame (s : State) (mBuffer : Nat) : Option (Int × State) :=
  if s.mGrallocHandleMapSet = false ∨ mBuffer = 0 then
    some (-EINVAL, s)
  else
    match findBuffer s.mGrallocHandleMap mBuffer s.mBufferCount 0 with
    | none => none
    | some index =>
      if index ≥ s.mBufferCount then some (-EINVAL, s)
      else
        match s.mBufferHandleMap.get? index with
        | none => none
        | some handle =>
          -- unlock buffer before sending to display
          let s1 := s.emit (Effect.mapper_unlock handle)
          if s1.mANativeWindow = false then none
          else
            let s2 := s1.emit (Effect.enqueue_buffer handle)
            let s3 := { s2 with
              mFramesWithCameraAdapterMap :=
                KeyedVector_removeItem mBuffer s2.mFramesWithCameraAdapterMap }
            some (NO_ERROR, s3.emit Effect.mDisplayQ_put)

/-- What the window and the mapper return in one `allocateBuffer`: the status of the
three window set-up calls, then per slot the status of `dequeue_buffer`, the buffer it
hands out, the status of `mapper.lock` (which the code does not read) and the address
left in `y_uv`; `cancel_buffer n` is the status of the `n`-th `cancel_buffer` call. -/
structure AllocEnv where
  set_usage : Int
  set_buffer_count : Int
  set_buffers_geometry : Int
  dequeue_buffer : Nat → Int
  buf : Nat → Nat
  mapper_lock : Nat → Int
  y_uv : Nat → Nat
  cancel_buffer : Nat → Int

/-- The loop `for (i = 0; i < mBufferCount; i++)` of `allocateBuffer` from slot `i` on,
over the `remaining` slots: whether it left through `fail`, the value of `i`, and the
state. `none` when it calls through a `NULL` frame provider. -/
def allocateLoop (env : AllocEnv) : Nat → Nat → State → Option (Bool × Nat × State)
  | 0, i, s => some (false, i, s)
  | remaining + 1, i, s =>
    let s1 := s.emit Effect.dequeue_buffer
    if env.dequeue_buffer i ≠ 0 then
      some (true, i, (windowFailed s1 (env.dequeue_buffer i)).2)
    else
      let s2 := { s1 with mBufferHandleMap := s1.mBufferHandleMap ++ [env.buf i] }
      let s3 := s2.emit (Effect.mapper_lock (env.buf i))
      let s4 := { s3 with mGrallocHandleMap := s3.mGrallocHandleMap ++ [env.y_uv i] }
      let s5 := s4.emit (Effect.lock_buffer (env.buf i))
      let s6 := { s5 with
        mFramesWithCameraAdapterMap :=
          KeyedVector_add (env.y_uv i) i s5.mFramesWithCameraAdapterMap }
      if s6.mFrameProvider then
        allocateLoop env remaining (i + 1) (s6.emit (Effect.addFramePointers (env.y_uv i)))
      else none

/-- The loop `for (int start = 0; start < i && i > 0; start++)` under the label `fail`
of `allocateBuffer`, over the `remaining` slots from `start` on: the state and the
number of `cancel_buffer` calls made. `none` when it calls through a `NULL` window. -/
def cancelLoop (env : AllocEnv) : Nat → Nat → State → Option (State × Nat)
  | 0, start, s => some (s, start)
  | remaining + 1, start, s =>
    match s.mBufferHandleMap.get? start, s.mGrallocHandleMap.get? start with
    | some b, some g =>
      if s.mANativeWindow = false then none
      else
        let s1 := s.emit (Effect.cancel_buffer b)
        if env.cancel_buffer start ≠ 0 then some (s1, start + 1)
        else
          cancelLoop env remaining (start + 1)
            { s1 with
              mFramesWithCameraAdapterMap :=
                KeyedVector_removeItem g s1.mFramesWithCameraAdapterMap }
    | _, _ => none

/-- The loop of `returnBuffersToWindow` from slot `i` on, after `cancelled` earlier
`cancel_buffer` calls: whether the function returned from inside the loop, and the
state. `none` when it reads a slot of `mBufferHandleMap` that was not written. -/
def returnLoop (env : AllocEnv) (cancelled : Nat) : Nat → Nat → State → Option (Bool × State)
  | 0, _, s => some (false, s)
  | remaining + 1, i, s =>
    match s.mBufferHandleMap.get? i with
    | none => none
    | some b =>
      let s1 := s.emit (Effect.mapper_unlock b)
      let s2 := s1.emit (Effect.cancel_buffer b)
      if env.cancel_buffer (cancelled + i) = ENODEV then
        some (true, { s2 with mANativeWindow := false })
      else if env.cancel_buffer (cancelled + i) ≠ NO_ERROR then some (true, s2)
      else returnLoop env cancelled remaining (i + 1) s2

/-- The function `ANativeWindowDisplayAdapter::returnBuffersToWindow`, whose status the
caller does not read. -/
def returnBuffersToWindow (env : AllocEnv) (cancelled : Nat) (s : State) : Option State :=
  if s.mANativeWindow then
    match returnLoop env cancelled s.mBufferCount 0 s with
    | none => none
    | some (true, s1) => some s1
    | some (false, s1) => some { s1 with mFramesWithCameraAdapterMap := [] }
  else some { s with mFramesWithCameraAdapterMap := [] }

/-- The call `freeBuffers(mGrallocHandleMap)` of `allocateBuffer`: the buffers go back
to the window and both arrays are deleted (`mOffsetsMap` and `mFD` are not held). -/
def freeBuffers (env : AllocEnv) (cancelled : Nat) (s : State) : Option State :=
  match returnBuffersToWindow env cancelled s with
  | none => none
  | some s1 =>
    some { s1 with
      mGrallocHandleMap := [], mGrallocHandleMapSet := false, mBufferHandleMap := [] }

/-- The label `fail` of `allocateBuffer`, reached from slot `i`. -/
def allocateFail (env : AllocEnv) (i : Nat) (s : State) : Option (Bool × State) :=
  match cancelLoop env i 0 s with
  | none => none
  | some (s1, cancelled) =>
    match freeBuffers env cancelled s1 with
    | none => none
    | some s2 => some (false, if s2.mErrorNotifier then s2.emit Effect.errorNotify else s2)

/-- The function `ANativeWindowDisplayAdapter::allocateBuffer` of `src/camera/`: whether
it returns `mGrallocHandleMap` (and not `NULL`), and the state. Both arrays are fresh
from `new` before the first test. The out parameter `bytes` and the writes to
`mFirstInit`, `mPixelFormat`, `mFrameWidth` and `mFrameHeight` are not held. -/
def allocateBuffer (env : AllocEnv) (s : State) (width height : Int) (numBufs : Nat) :
    Option (Bool × State) :=
  let s0 : State := { s with
    mBufferHandleMap := [], mGrallocHandleMap := [], mGrallocHandleMapSet := true }
  if s0.mANativeWindow = false then some (false, s0)
  else
    let s1 := s0.emit Effect.set_usage
    if env.set_usage ≠ 0 then some (false, (windowFailed s1 env.set_usage).2)
    else
      let s2 := s1.emit (Effect.set_buffer_count numBufs)
      if env.set_buffer_count ≠ 0 then some (false, (windowFailed s2 env.set_buffer_count).2)
      else
        let s3 : State := { s2 with mBufferCount := numBufs }
        let s4 := s3.emit (Effect.set_buffers_geometry width height)
        if env.set_buffers_geometry ≠ 0 then
          some (false, (windowFailed s4 env.set_buffers_geometry).2)
        else
          let s5 := s4.emit Effect.get_min_undequeued_buffer_count
          match allocateLoop env s5.mBufferCount 0 s5 with
          | none => none
          | some (false, _, s6) => some (true, s6)
          | some (true, i, s6) => allocateFail env i s6

/-- What the mapper and the window return in one `postFrame`: the status of
`mapper.unlock` (which the code does not read) and of `enqueue_buffer` (which it only
logs). -/
structure PostEnv where
  mapper_unlock : Int
  enqueue_buffer : Int

/-- The buffers of the window, by handle, as the gralloc mapper and the compositor hold
them: those whose CPU mapping is locked, and those enqueued to the compositor. -/
structure Buffers where
  locked : List Nat
  queued : List Nat

/-- How the mapper and the window answered the calls of one function: the buffer handed
out by the `n`-th `dequeue_buffer` (`none` when it failed), whether the `n`-th
`mapper.lock` succeeded, whether `mapper.unlock` and `enqueue_buffer` succeeded, and
whether the `n`-th `cancel_buffer` succeeded. -/
structure Answers where
  dequeued : Nat → Option Nat
  locked : Nat → Bool
  unlocked : Bool
  enqueued : Bool
  cancelled : Nat → Bool

/-- The effect of a list of calls on the buffers, given how they were answered: a
successful `mapper.lock` locks the CPU mapping of the buffer and a successful
`mapper.unlock` releases it; a successful `enqueue_buffer` or `cancel_buffer` hands the
buffer to the compositor and a successful `dequeue_buffer` takes it back. `nd`, `nl` and
`nc` count the `dequeue_buffer`, `mapper.lock` and `cancel_buffer` calls so far. -/
def world (a : Answers) : List Effect → Nat → Nat → Nat → Buffers → Buffers
  | [], _, _, _, b => b
  | Effect.dequeue_buffer :: rest, nd, nl, nc, b =>
    world a rest (nd + 1) nl nc
      (match a.dequeued nd with
       | some h => { b with queued := b.queued.filter (fun x => x ≠ h) }
       | none => b)
  | Effect.mapper_lock h :: rest, nd, nl, nc, b =>
    world a rest nd (nl + 1) nc (if a.locked nl then { b with locked := h :: b.locked } else b)
  | Effect.mapper_unlock h :: rest, nd, nl, nc, b =>
    world a rest nd nl nc
      (if a.unlocked then { b with locked := b.locked.filter (fun x => x ≠ h) } else b)
  | Effect.enqueue_buffer h :: rest, nd, nl, nc, b =>
    world a rest nd nl nc (if a.enqueued then { b with queued := h :: b.queued } else b)
  | Effect.cancel_buffer h :: rest, nd, nl, nc, b =>
    world a rest nd nl (nc + 1) (if a.cancelled nc then { b with queued := h :: b.queued } else b)
  | _ :: rest, nd, nl, nc, b => world a rest nd nl nc b

/-- The answers of one `allocateBuffer`; a status below 0 is a failed `mapper.lock`. -/
def AllocEnv.answers (env : AllocEnv) : Answers :=
  { dequeued := fun n => if env.dequeue_buffer n = 0 then some (env.buf n) else none
    locked := fun n => decide (¬ env.mapper_lock n < 0)
    unlocked := true
    enqueued := true
    cancelled := fun n => decide (env.cancel_buffer n = 0) }

/-- The answers of one `handleFrameReturn`, which makes one `dequeue_buffer` call. -/
def Env.answers (env : Env) : Answers :=
  { dequeued := fun _ => if env.dequeue_buffer = 0 then some env.buf else none
    locked := fun n => decide (¬ env.mapper_lock n < 0)
    unlocked := true
    enqueued := true
    cancelled := fun _ => true }

/-- The answers of one `postFrame`. -/
def PostEnv.answers (env : PostEnv) : Answers :=
  { dequeued := fun _ => none
    locked := fun _ => true
    unlocked := decide (env.mapper_unlock = 0)
    enqueued := decide (env.enqueue_buffer = 0)
    cancelled := fun _ => true }

/-- One step of the display adapter after allocation: a frame posted by the capture
side, or a buffer taken back from the compositor. -/
inductive Step
  | postFrame (env : PostEnv) (mBuffer : Nat)
  | handleFrameReturn (env : Env)

/-- Run one step (`src/camera/`) on the adapter and on the buffers: the buffers change
by the calls the step has added to the trace. -/
def step (LOCK_BUFFER_TRIES : Nat) : Step → State × Buffers → Option (State × Buffers)
  | Step.postFrame env mBuffer, sb =>
    (postFrame sb.1 mBuffer).map (fun r =>
      (r.2, world env.answers (r.2.trace.drop sb.1.trace.length) 0 0 0 sb.2))
  | Step.handleFrameReturn env, sb =>
    (handleFrameReturn Variant.camera env LOCK_BUFFER_TRIES sb.1).map (fun r =>
      (r.2, world env.answers (r.2.trace.drop sb.1.trace.length) 0 0 0 sb.2))

/-- Run a sequence of steps, in turn. -/
def run (LOCK_BUFFER_TRIES : Nat) : List Step → State × Buffers → Option (State × Buffers)
  | [], sb => some sb
  | st :: rest, sb =>
    match step LOCK_BUFFER_TRIES st sb with
    | none => none
    | some sb1 => run LOCK_BUFFER_TRIES rest sb1

/-- The mapper and the window behave in a step: `mapper.unlock` succeeds; a successful
`dequeue_buffer` hands out a buffer the compositor holds, and the mapper maps it at its
address `addr`. -/
def Step.behaved (addr : Nat → Nat) : Step → Buffers → Bool
  | Step.postFrame env _, _ => decide (env.mapper_unlock = 0)
  | Step.handleFrameReturn env, b =>
    decide (env.dequeue_buffer = 0 → env.buf ∈ b.queued ∧ env.y_uv = addr env.buf)

/-- The mapper and the window behave in every step of a run. -/
def behaved (LOCK_BUFFER_TRIES : Nat) (addr : Nat → Nat) :
    List Step → State × Buffers → Bool
  | [], _ => true
  | st :: rest, sb =>
    st.behaved addr sb.2 &&
      (match step LOCK_BUFFER_TRIES st sb with
       | none => true
       | some sb1 => behaved LOCK_BUFFER_TRIES addr rest sb1)

/-- The keys of the frames-with-camera-adapter map: the addresses of the frames the
capture side holds. -/
def trackedKeys (s : State) : List Nat :=
  s.mFramesWithCameraAdapterMap.map Prod.fst

/-- The buffers right after `allocateBuffer`, from a window whose buffers were all with
the compositor and unlocked. -/
def allocated (env : AllocEnv) (s s1 : State) : Buffers :=
  world env.answers (s1.trace.drop s.trace.length) 0 0 0 { locked := [], queued := [] }

/-- The relation between the adapter and the buffers that the steps keep, for the ring
`ring` of buffer handles mapped at `addr`: the arrays hold the ring and its addresses; a
buffer is CPU-locked exactly when it is a buffer of the ring whose address is a key of
the frames-with-camera-adapter map; every key is the address of a buffer of the ring;
a buffer enqueued to the compositor is a buffer of the ring that is not CPU-locked. -/
def Held (addr : Nat → Nat) (ring : List Nat) (sb : State × Buffers) : Prop :=
  sb.1.mBufferHandleMap = ring ∧ sb.1.mBufferCount = ring.length ∧
  sb.1.mGrallocHandleMap = ring.map addr ∧ sb.1.mGrallocHandleMapSet = true ∧
  (∀ h, h ∈ sb.2.locked ↔ h ∈ ring ∧ addr h ∈ trackedKeys sb.1) ∧
  (∀ k, k ∈ trackedKeys sb.1 → ∃ h, h ∈ ring ∧ addr h = k) ∧
  (∀ h, h ∈ sb.2.queued → h ∈ ring ∧ h ∉ sb.2.locked)

/-- A display adapter with a window, a frame provider and an error notifier set and
nothing allocated; the frames-with-camera-adapter map is empty. -/
def fresh : State :=
  { mANativeWindow := true, mFrameProvider := true, mErrorNotifier := true,
    mBufferCount := 0, mBufferHandleMap := [], mGrallocHandleMap := [],
    mGrallocHandleMapSet := false, mFramesWithCameraAdapterMap := [], mSuspend := false,
    mFailedDQs := 0, mPaused := false, trace := [] }

/-- A mapper that maps the buffer with handle `h` at address `4096 + h`. -/
def addr2 (h : Nat) : Nat := 4096 + h

/-- A window and a mapper that accept every call of `allocateBuffer`; the window hands
out the buffers 100, 200, ... -/
def AllocEnv.ok : AllocEnv :=
  { set_usage := 0, set_buffer_count := 0, set_buffers_geometry := 0,
    dequeue_buffer := fun _ => 0, buf := fun i => 100 * (i + 1),
    mapper_lock := fun _ => 0, y_uv := fun i => addr2 (100 * (i + 1)),
    cancel_buffer := fun _ => 0 }

/-- The same, except that `mapper.lock` fails on the first buffer and leaves `y_uv`
`NULL`. -/
def AllocEnv.lockFails : AllocEnv :=
  { AllocEnv.ok with
    mapper_lock := fun i => if i = 0 then -1 else 0,
    y_uv := fun i => if i = 0 then 0 else addr2 (100 * (i + 1)) }

/-- The adapter after `allocateBuffer` of two buffers of 640x480 from `fresh`, every
call accepted. -/
def ring2 : State :=
  { mANativeWindow := true, mFrameProvider := true, mErrorNotifier := true,
    mBufferCount := 2, mBufferHandleMap := [100, 200], mGrallocHandleMap := [4196, 4296],
    mGrallocHandleMapSet := true, mFramesWithCameraAdapterMap := [(4196, 0), (4296, 1)],
    mSuspend := false, mFailedDQs := 0, mPaused := false,
    trace := [Effect.set_usage, Effect.set_buffer_count 2,
      Effect.set_buffers_geometry 640 480, Effect.get_min_undequeued_buffer_count,
      Effect.dequeue_buffer, Effect.mapper_lock 100, Effect.lock_buffer 100,
      Effect.addFramePointers 4196,
      Effect.dequeue_buffer, Effect.mapper_lock 200, Effect.lock_buffer 200,
      Effect.addFramePointers 4296] }

/-- A compositor that hands out buffer 100, and a mapper that locks it at the second
attempt, at address 4196. -/
def Env.secondTry : Env :=
  { dequeue_buffer := 0, buf := 100, lock_buffer := 0,
    mapper_lock := fun n => if n = 0 then -1 else 0, y_uv := 4196 }

/-- A run on two buffers: the first frame is posted; the compositor gives buffer 100
back, locked for the CPU at the second attempt; the second frame is posted but the
window rejects it; a dequeue fails. -/
def steps2 : List Step :=
  [Step.postFrame { mapper_unlock := 0, enqueue_buffer := 0 } 4196,
   Step.handleFrameReturn Env.secondTry,
   Step.postFrame { mapper_unlock := 0, enqueue_buffer := -19 } 4296,
   Step.handleFrameReturn Env.dequeueFails]

/-- A compositor whose surface was abandoned: `dequeue_buffer` returns `ENODEV`. -/
def Env.surfaceAbandoned : Env :=
  { dequeue_buffer := ENODEV, buf := 0, lock_buffer := 0, mapper_lock := fun _ => 0, y_uv := 0 }

end CameraCodes.ANativeWindowDisplayAdapter

/-! ## AppCallbackNotifier: frame routing (`src/camera/AppCallbackNotifier.cpp`) -/

namespace CameraCodes.AppCallbackNotifier

/-- The message type `CAMERA_MSG_PREVIEW_FRAME` of `system/camera.h`. -/
def CAMERA_MSG_PREVIEW_FRAME : Nat := 0x10

/-- The message type `CAMERA_MSG_VIDEO_FRAME` of `system/camera.h`. -/
def CAMERA_MSG_VIDEO_FRAME : Nat := 0x20

/-- The message type `CAMERA_MSG_POSTVIEW_FRAME` of `system/camera.h`. -/
def CAMERA_MSG_POSTVIEW_FRAME : Nat := 0x40

/-- The message type `CAMERA_MSG_RAW_IMAGE` of `system/camera.h`. -/
def CAMERA_MSG_RAW_IMAGE : Nat := 0x80

/-- The message type `CAMERA_MSG_COMPRESSED_IMAGE` of `system/camera.h`. -/
def CAMERA_MSG_COMPRESSED_IMAGE : Nat := 0x100

/-- The message type `CAMERA_MSG_RAW_IMAGE_NOTIFY` of `system/camera.h`. -/
def CAMERA_MSG_RAW_IMAGE_NOTIFY : Nat := 0x200

/-- States of the notifier (`mNotifierState`). -/
inductive NotifierState
  | NOTIFIER_STOPPED
  | NOTIFIER_STARTED
  | NOTIFIER_EXITED
  deriving DecidableEq, Repr

/-- Commands carried by the messages of the notifier queues. -/
inductive NotifierCommands
  | NOTIFIER_CMD_PROCESS_EVENT
  | NOTIFIER_CMD_PROCESS_FRAME
  | NOTIFIER_CMD_PROCESS_ERROR
  deriving DecidableEq, Repr

/-- The fields of `CameraFrame` the notifier reads. Pointers are addresses, 0 for
`NULL`; the two quirk bits of `mQuirks` the notifier tests are held as flags. -/
structure CameraFrame where
  mFrameType : FrameType
  mBuffer : Nat
  mLength : Nat
  mWidth : Nat
  mHeight : Nat
  mAlignment : Nat
  mOffset : Nat
  mTimestamp : Int
  ENCODE_RAW_YUV422I_TO_JPEG : Bool
  HAS_EXIF_DATA : Bool
  mYuv0 : Nat
  mYuv1 : Nat
  deriving DecidableEq, Repr

/-- A message of the frame queue: the command and `arg1`, the frame (`none` for `NULL`). -/
structure Message where
  command : NotifierCommands
  arg1 : Option CameraFrame
  deriving DecidableEq, Repr

/-- Event types of `CameraHalEvent` that `notifyEvent` names; any other value is
`other`. -/
inductive CameraHalEventType
  | EVENT_SHUTTER
  | EVENT_FOCUS_LOCKED
  | EVENT_FOCUS_ERROR
  | EVENT_ZOOM_INDEX_REACHED
  | EVENT_FACE
  | ALL_EVENTS
  | other
  deriving DecidableEq, Repr

/-- The fields of `CameraHalEvent` and of its event data that `notifyEvent` reads. -/
structure CameraHalEvent where
  mEventType : CameraHalEventType
  focusLocked : Bool
  focusError : Bool
  currentZoomIndex : Int
  targetZoomIndexReached : Bool
  deriving DecidableEq, Repr

/-- A message of the event queue: the command and `arg1`, the event (`none` for
`NULL`). -/
structure EventMessage where
  command : NotifierCommands
  arg1 : Option CameraHalEvent
  deriving DecidableEq, Repr

/-- Commands of the queue of the notification thread: `processMessage` names
`NOTIFIER_EXIT`; any other command is `other`. -/
inductive NotificationCommands
  | NOTIFIER_EXIT
  | other
  deriving DecidableEq, Repr

/-- A block of client memory (`camera_memory_t`): the address of its data (0 for
`NULL`) and its size in bytes. -/
structure camera_memory_t where
  data : Nat
  size : Nat
  deriving DecidableEq, Repr

/-- Calls that leave the notifier: the client callbacks, the client allocator, the
frame provider, the copies and the encoder. -/
inductive Effect
  | mNotifyCb (msgType : Nat) (ext1 ext2 : Int)
  | mDataCb (msgType : Nat) (mem : camera_memory_t) (index : Nat)
  | mDataCbTimestamp (timestamp : Int) (msgType : Nat) (mem : camera_memory_t)
  | mRequestMemory (buf_size num_bufs : Nat)
  | release (mem : camera_memory_t)
  | returnFrame (mBuffer : Nat) (t : FrameType)
  | memcpy (dst src len : Nat)
  | memset (dst len : Nat)
  | copy2Dto1D (dst : Nat)
  | encoderRun (src : Nat) (quality : Int) (thumbnail : Option (Int × Int × Int)) (exif : Bool)
  | mRecordingLock_lock
  | mRecordingLock_unlock
  | deleteFrame
  | waitForMsg
  | mDataCbMetadata (msgType : Nat) (mem : Option camera_memory_t)
  | disableFrameNotification (t : FrameType)
  | deleteEvent
  deriving DecidableEq, Repr

/-- What the client allocator returns: the data address of the block handed out for a
request of `num_bufs` buffers of `buf_size` bytes, `none` when it returns `NULL`. -/
structure Env where
  mRequestMemory : Nat → Nat → Option Nat

/-- What the notifier takes from headers that are not part of the tree: whether
`COPY_IMAGE_BUFFER` is defined, and `AppCallbackNotifier::MAX_BUFFERS`. -/
structure Config where
  COPY_IMAGE_BUFFER : Bool
  MAX_BUFFERS : Nat

/-- The fields of `AppCallbackNotifier` the notification thread reads or writes.
`mCameraHal` is the enabled-message mask of the orchestrator (`none` for a `NULL`
pointer); the callbacks and the allocator are held through whether they are set. The
four `KEY_` fields are what `mParameters.getInt` yields. `gEncoderQueue` holds the
source buffers of the encoders in flight. `msgQ` is the command queue of the
notification thread (`mNotificationThread->msgQ()`). -/
structure State where
  mNotifierState : NotifierState
  mCameraHal : Option Nat
  mNotifyCb : Bool
  mDataCb : Bool
  mDataCbTimestamp : Bool
  mRequestMemory : Bool
  mRawAvailable : Bool
  mRecording : Bool
  mUseMetaDataBufferMode : Bool
  mMeasurementEnabled : Bool
  mPreviewMemory : Option camera_memory_t
  mPreviewBufs : List Nat
  mPreviewBufCount : Nat
  mFrameQ : List Message
  mEventQ : List EventMessage
  msgQ : List NotificationCommands
  mVideoMetadataBufferMemoryMap : List (Nat × Option camera_memory_t)
  KEY_JPEG_QUALITY : Int
  KEY_JPEG_THUMBNAIL_QUALITY : Int
  KEY_JPEG_THUMBNAIL_WIDTH : Int
  KEY_JPEG_THUMBNAIL_HEIGHT : Int
  gEncoderQueue : List Nat
  trace : List Effect

/-- Record one outgoing call. -/
def State.emit (s : State) (e : Effect) : State :=
  { s with trace := s.trace ++ [e] }

/-- The test `mCameraHal->msgTypeEnabled(msgType)`: `mMsgEnabled & msgType`, non-zero. -/
def msgTypeEnabled (mMsgEnabled msgType : Nat) : Bool :=
  mMsgEnabled &&& msgType ≠ 0

/-- A call of `mRequestMemory(-1, buf_size, num_bufs, NULL)`: the block handed out
(`none` for `NULL`) and the state; no result at all when the allocator is not set. -/
def requestMemory (env : Env) (s : State) (buf_size num_bufs : Nat) :
    Option (Option camera_memory_t × State) :=
  if !s.mRequestMemory then none
  else
    some ((env.mRequestMemory buf_size num_bufs).map
        (fun d => { data := d, size := buf_size * num_bufs }),
      s.emit (Effect.mRequestMemory buf_size num_bufs))

/-- The function `AppCallbackNotifier::dummyRaw`. -/
def dummyRaw (env : Env) (s : State) : Option (Int × State) :=
  if !s.mRequestMemory then
    some (NO_INIT, s)
  else
    match s.mCameraHal with
    | none => some (NO_ERROR, s)
    | some mMsgEnabled =>
      if s.mDataCb ∧ s.mNotifyCb then
        if msgTypeEnabled mMsgEnabled CAMERA_MSG_RAW_IMAGE then
          match requestMemory env s 1 1 with
          | none => none
          | some (none, s1) => some (NO_MEMORY, s1)
          | some (some mem, s1) =>
            let s2 := s1.emit (Effect.mDataCb CAMERA_MSG_RAW_IMAGE mem 0)
            some (NO_ERROR, s2.emit (Effect.release mem))
        else if msgTypeEnabled mMsgEnabled CAMERA_MSG_RAW_IMAGE_NOTIFY then
          some (NO_ERROR, s.emit (Effect.mNotifyCb CAMERA_MSG_RAW_IMAGE_NOTIFY 0 0))
        else some (NO_ERROR, s)
      else some (NO_ERROR, s)

/-- The function `AppCallbackNotifier::copyAndSendPictureFrame`, called with
`mCameraHal` set (its mask is `mMsgEnabled`). -/
def copyAndSendPictureFrame (env : Env) (s : State) (mMsgEnabled : Nat) (frame : CameraFrame)
    (msgType : Nat) : Option State :=
  let r : Option (Option camera_memory_t × State) :=
    if s.mNotifierState ≠ NotifierState.NOTIFIER_STARTED then some (none, s)
    else
      match requestMemory env s frame.mLength 1 with
      | none => none
      | some (none, s1) => some (none, s1)
      | some (some picture, s1) =>
        if picture.data ≠ 0 then
          some (some picture,
            s1.emit (Effect.memcpy picture.data (frame.mBuffer + frame.mOffset) frame.mLength))
        else some (some picture, s1)
  match r with
  | none => none
  | some (picture, s1) =>
    let s2 := s1.emit (Effect.returnFrame frame.mBuffer frame.mFrameType)
    match picture with
    | none => some s2
    | some mem =>
      let s3 :=
        if s2.mNotifierState = NotifierState.NOTIFIER_STARTED ∧ msgTypeEnabled mMsgEnabled msgType
        then s2.emit (Effect.mDataCb msgType mem 0)
        else s2
      some (s3.emit (Effect.release mem))

/-- The part of `copyAndSendPreviewFrame` under `mLock`, up to the label `exit`: the
copy into the next client-visible preview buffer. The result is `dest` (0 for `NULL`)
and the state; no result when `mPreviewBufs` has no slot `mPreviewBufCount`. -/
def copyPreviewFrame (cfg : Config) (s : State) (frame : CameraFrame) : Option (Nat × State) :=
  if s.mNotifierState ≠ NotifierState.NOTIFIER_STARTED then some (0, s)
  else
    match s.mPreviewMemory with
    | none => some (0, s)
    | some mPreviewMemory =>
      if frame.mBuffer = 0 then some (0, s)
      else
        match s.mPreviewBufs.get? s.mPreviewBufCount with
        | none => none
        | some dest =>
          if dest ≠ 0 then
            -- data sync frames don't need conversion
            if frame.mFrameType = FrameType.FRAME_DATA_SYNC then
              if mPreviewMemory.size / cfg.MAX_BUFFERS ≥ frame.mLength then
                some (dest, s.emit (Effect.memcpy dest frame.mBuffer frame.mLength))
              else
                some (dest, s.emit (Effect.memset dest (mPreviewMemory.size / cfg.MAX_BUFFERS)))
            else if frame.mYuv0 = 0 ∨ frame.mYuv1 = 0 then some (dest, s)
            else some (dest, s.emit (Effect.copy2Dto1D dest))
          else some (dest, s)

/-- The function `AppCallbackNotifier::copyAndSendPreviewFrame`, called with
`mCameraHal` set (its mask is `mMsgEnabled`). -/
def copyAndSendPreviewFrame (cfg : Config) (s : State) (mMsgEnabled : Nat)
    (frame : CameraFrame) (msgType : Nat) : Option State :=
  match copyPreviewFrame cfg s frame with
  | none => none
  | some (dest, s1) =>
    let s2 := s1.emit (Effect.returnFrame frame.mBuffer frame.mFrameType)
    match s2.mPreviewMemory with
    | some mPreviewMemory =>
      let s3 :=
        if s2.mNotifierState = NotifierState.NOTIFIER_STARTED ∧
            msgTypeEnabled mMsgEnabled msgType ∧ dest ≠ 0 then
          s2.emit (Effect.mDataCb msgType mPreviewMemory s2.mPreviewBufCount)
        else s2
      some { s3 with mPreviewBufCount := (s3.mPreviewBufCount + 1) % cfg.MAX_BUFFERS }
    | none =>
      -- `dest` is `NULL` here, so the callback is not made
      some { s2 with mPreviewBufCount := (s2.mPreviewBufCount + 1) % cfg.MAX_BUFFERS }

/-- The software encode branch of `notifyFrame` for an image frame: the output block
is requested from the client, the encoder is started on the frame buffer and entered
in `gEncoderQueue` (the parameter blocks are taken to be allocated). No result when
the allocator is not set, or a thumbnail is asked for while `mPreviewMemory` is
`NULL`. -/
def encodeImageFrame (env : Env) (s : State) (frame : CameraFrame) : Option State :=
  match requestMemory env s frame.mLength 1 with
  | none => none
  | some (_, s1) =>
    let encode_quality : Int :=
      if s1.KEY_JPEG_QUALITY < 0 ∨ s1.KEY_JPEG_QUALITY > 100 then 100 else s1.KEY_JPEG_QUALITY
    let tn_quality : Int :=
      if s1.KEY_JPEG_THUMBNAIL_QUALITY < 0 ∨ s1.KEY_JPEG_THUMBNAIL_QUALITY > 100 then 100
      else s1.KEY_JPEG_THUMBNAIL_QUALITY
    let thumbnail : Option (Int × Int × Int) :=
      if s1.KEY_JPEG_THUMBNAIL_WIDTH > 0 ∧ s1.KEY_JPEG_THUMBNAIL_HEIGHT > 0 then
        some (tn_quality, s1.KEY_JPEG_THUMBNAIL_WIDTH, s1.KEY_JPEG_THUMBNAIL_HEIGHT)
      else none
    if thumbnail.isSome ∧ s1.mPreviewMemory.isNone then none
    else
      let s2 := s1.emit
        (Effect.encoderRun frame.mBuffer encode_quality thumbnail frame.HAS_EXIF_DATA)
      some { s2 with gEncoderQueue := s2.gEncoderQueue ++ [frame.mBuffer] }

/-- The video branch of `notifyFrame` between `mRecordingLock.lock()` and the end of the
branch; a `break` taken inside leaves the lock held. -/
def sendVideoFrame (env : Env) (s : State) (frame : CameraFrame) : Option State :=
  let s1 := s.emit Effect.mRecordingLock_lock
  if s1.mRecording then
    if s1.mUseMetaDataBufferMode then
      match (s1.mVideoMetadataBufferMemoryMap.find? (fun e => e.1 = frame.mBuffer)).map
          (fun e => e.2) with
      | none => none
      | some none => none
      | some (some mem) =>
        if mem.data = 0 ∨ frame.mBuffer = 0 then some s1
        else
          let s2 := s1.emit
            (Effect.mDataCbTimestamp frame.mTimestamp CAMERA_MSG_VIDEO_FRAME mem)
          some (s2.emit Effect.mRecordingLock_unlock)
    else
      match requestMemory env s1 4 1 with
      | none => none
      | some (none, s2) => some s2
      | some (some fakebuf, s2) =>
        if fakebuf.data = 0 ∨ frame.mBuffer = 0 then some s2
        else
          let mem : camera_memory_t := { fakebuf with data := frame.mBuffer }
          let s3 := s2.emit
            (Effect.mDataCbTimestamp frame.mTimestamp CAMERA_MSG_VIDEO_FRAME mem)
          let s4 := s3.emit (Effect.release mem)
          some (s4.emit Effect.mRecordingLock_unlock)
  else some (s1.emit Effect.mRecordingLock_unlock)

/-- The hardware-encoded still branch of `notifyFrame`: a raw callback is made sure of
first, then the compressed image is copied and sent when `COPY_IMAGE_BUFFER` is
defined. -/
def sendImageFrame (cfg : Config) (env : Env) (s : State) (mMsgEnabled : Nat)
    (frame : CameraFrame) : Option State :=
  let r : Option State :=
    if !s.mRawAvailable then (dummyRaw env s).map (fun x => x.2)
    else some { s with mRawAvailable := false }
  match r with
  | none => none
  | some s1 =>
    if cfg.COPY_IMAGE_BUFFER then
      copyAndSendPictureFrame env s1 mMsgEnabled frame CAMERA_MSG_COMPRESSED_IMAGE
    else some s1

/-- The routing chain of `notifyFrame` for a frame taken from the queue. -/
def routeFrame (cfg : Config) (env : Env) (s : State) (frame : CameraFrame) : Option State :=
  let returned := s.emit (Effect.returnFrame frame.mBuffer frame.mFrameType)
  match s.mCameraHal with
  | none => some returned
  | some mMsgEnabled =>
    if frame.mFrameType = FrameType.RAW_FRAME ∧ s.mDataCb ∧ s.mNotifyCb then
      let s1 :=
        if msgTypeEnabled mMsgEnabled CAMERA_MSG_RAW_IMAGE then s
        else
          let s2 :=
            if msgTypeEnabled mMsgEnabled CAMERA_MSG_RAW_IMAGE_NOTIFY then
              s.emit (Effect.mNotifyCb CAMERA_MSG_RAW_IMAGE_NOTIFY 0 0)
            else s
          s2.emit (Effect.returnFrame frame.mBuffer frame.mFrameType)
      some { s1 with mRawAvailable := true }
    else if frame.mFrameType = FrameType.IMAGE_FRAME ∧ s.mDataCb ∧
        frame.ENCODE_RAW_YUV422I_TO_JPEG then
      encodeImageFrame env s frame
    else if frame.mFrameType = FrameType.IMAGE_FRAME ∧ s.mDataCb then
      sendImageFrame cfg env s mMsgEnabled frame
    else if frame.mFrameType = FrameType.VIDEO_FRAME_SYNC ∧ s.mDataCb ∧
        msgTypeEnabled mMsgEnabled CAMERA_MSG_VIDEO_FRAME then
      sendVideoFrame env s frame
    else if frame.mFrameType = FrameType.SNAPSHOT_FRAME ∧ s.mDataCb ∧ s.mNotifyCb then
      -- when enabled, measurement data is sent instead of video data
      if !s.mMeasurementEnabled then
        copyAndSendPreviewFrame cfg s mMsgEnabled frame CAMERA_MSG_POSTVIEW_FRAME
      else some returned
    else if frame.mFrameType = FrameType.PREVIEW_FRAME_SYNC ∧ s.mDataCb ∧
        msgTypeEnabled mMsgEnabled CAMERA_MSG_PREVIEW_FRAME then
      if !s.mMeasurementEnabled then
        copyAndSendPreviewFrame cfg s mMsgEnabled frame CAMERA_MSG_PREVIEW_FRAME
      else some returned
    else if frame.mFrameType = FrameType.FRAME_DATA_SYNC ∧ s.mDataCb ∧
        msgTypeEnabled mMsgEnabled CAMERA_MSG_PREVIEW_FRAME then
      copyAndSendPreviewFrame cfg s mMsgEnabled frame CAMERA_MSG_PREVIEW_FRAME
    else some returned

/-- The function `AppCallbackNotifier::notifyFrame`: one message is taken from the
frame queue, a frame to process is routed and then deleted. No result when the code
calls through a pointer that is not set or reads outside an array. -/
def notifyFrame (cfg : Config) (env : Env) (s : State) : Option State :=
  match s.mFrameQ with
  | [] => some s
  | msg :: rest =>
    let s0 := { s with mFrameQ := rest }
    match msg.command, msg.arg1 with
    | NotifierCommands.NOTIFIER_CMD_PROCESS_FRAME, some frame =>
      (routeFrame cfg env s0 frame).map (fun s1 => s1.emit Effect.deleteFrame)
    | _, _ => some s0

/-- The position of the first call of a trace that satisfies a test. -/
def firstIndex (test : Effect → Bool) (tr : List Effect) : Option Nat :=
  let i := tr.findIdx test
  if i < tr.length then some i else none

/-- Test for the delivery of a data callback of a message type. -/
def isDataCb (msgType : Nat) : Effect → Bool
  | Effect.mDataCb m _ _ => m = msgType
  | _ => false

/-- A hardware-encoded still of 1000 bytes in the buffer at address 4096. -/
def encodedStill : CameraFrame :=
  { mFrameType := FrameType.IMAGE_FRAME, mBuffer := 4096, mLength := 1000, mWidth := 640,
    mHeight := 480, mAlignment := 1280, mOffset := 0, mTimestamp := 0,
    ENCODE_RAW_YUV422I_TO_JPEG := false, HAS_EXIF_DATA := false, mYuv0 := 0, mYuv1 := 0 }

/-- A started notifier with every callback set, no raw frame seen, the encoded still
in its frame queue, and the given enabled-message mask of the client. -/
def stillQueued (mMsgEnabled : Nat) : State :=
  { mNotifierState := NotifierState.NOTIFIER_STARTED, mCameraHal := some mMsgEnabled,
    mNotifyCb := true, mDataCb := true, mDataCbTimestamp := true, mRequestMemory := true,
    mRawAvailable := false, mRecording := false, mUseMetaDataBufferMode := true,
    mMeasurementEnabled := false, mPreviewMemory := none, mPreviewBufs := [],
    mPreviewBufCount := 0,
    mFrameQ := [{ command := NotifierCommands.NOTIFIER_CMD_PROCESS_FRAME,
                  arg1 := some encodedStill }],
    mEventQ := [], msgQ := [],
    mVideoMetadataBufferMemoryMap := [], KEY_JPEG_QUALITY := 95,
    KEY_JPEG_THUMBNAIL_QUALITY := 60, KEY_JPEG_THUMBNAIL_WIDTH := 160,
    KEY_JPEG_THUMBNAIL_HEIGHT := 120, gEncoderQueue := [], trace := [] }

/-- A client allocator that hands out every block at address 8192. -/
def Env.ok : Env :=
  { mRequestMemory := fun _ _ => some 8192 }

/-- The configuration of the tree: `COPY_IMAGE_BUFFER` defined, eight preview buffers. -/
def Config.ti : Config :=
  { COPY_IMAGE_BUFFER := true, MAX_BUFFERS := 8 }

/-- A raw frame of 1000 bytes in the buffer at address 4096. -/
def rawFrame : CameraFrame :=
  { encodedStill with mFrameType := FrameType.RAW_FRAME }

/-- A video frame in the buffer at address 4096. -/
def videoFrame : CameraFrame :=
  { encodedStill with mFrameType := FrameType.VIDEO_FRAME_SYNC }

/-- A frame of a type that no branch of `notifyFrame` names (`PREVIEW_FRAME`). -/
def otherFrame : CameraFrame :=
  { encodedStill with mFrameType := FrameType.PREVIEW_FRAME }

/-- A started notifier with every callback set, not recording, the given frame in its
frame queue, and the given enabled-message mask of the client. -/
def frameQueued (mMsgEnabled : Nat) (frame : CameraFrame) : State :=
  { stillQueued mMsgEnabled with
    mFrameQ := [{ command := NotifierCommands.NOTIFIER_CMD_PROCESS_FRAME, arg1 := some frame }] }

/-- Test for a call that hands the buffer at `mBuffer` on: its return to the frame
provider, an encoder started on it, or a delivery to the client (a data callback, with
or without timestamp). -/
def handsOn (mBuffer : Nat) : Effect → Bool
  | Effect.returnFrame b _ => b = mBuffer
  | Effect.encoderRun src _ _ _ => src = mBuffer
  | Effect.mDataCb _ _ _ => true
  | Effect.mDataCbTimestamp _ _ _ => true
  | _ => false

/-- The message type `CAMERA_MSG_SHUTTER` of `system/camera.h`. -/
def CAMERA_MSG_SHUTTER : Nat := 0x2

/-- The message type `CAMERA_MSG_FOCUS` of `system/camera.h`. -/
def CAMERA_MSG_FOCUS : Nat := 0x4

/-- The message type `CAMERA_MSG_ZOOM` of `system/camera.h`. -/
def CAMERA_MSG_ZOOM : Nat := 0x8

/-- The message type `CAMERA_MSG_PREVIEW_METADATA` of `system/camera.h`. -/
def CAMERA_MSG_PREVIEW_METADATA : Nat := 0x400

/-- The call `mCameraHal->disableMsgType(msgType)` (`src/camera/CameraHal.cpp`) with
`mCameraHal` set: `mMsgEnabled &= ~msgType` on the 32-bit mask, then
`AppCallbackNotifier::disableMsgType`, which turns the preview frame notification off
once neither preview nor postview frames are enabled. -/
def disableMsgType (s : State) (mMsgEnabled msgType : Nat) : State :=
  let mask := mMsgEnabled &&& (4294967295 ^^^ msgType)
  let s1 := { s with mCameraHal := some mask }
  if !msgTypeEnabled mask (CAMERA_MSG_PREVIEW_FRAME ||| CAMERA_MSG_POSTVIEW_FRAME) then
    s1.emit (Effect.disableFrameNotification FrameType.PREVIEW_FRAME_SYNC)
  else s1

/-- The `switch (evt->mEventType)` of `notifyEvent`. No result when the face branch
calls through an allocator or a data callback that is not set. -/
def dispatchEvent (env : Env) (s : State) (evt : CameraHalEvent) : Option State :=
  match evt.mEventType with
  | CameraHalEventType.EVENT_SHUTTER =>
    let s1 :=
      match s.mCameraHal with
      | some mMsgEnabled =>
        if s.mNotifyCb ∧ msgTypeEnabled mMsgEnabled CAMERA_MSG_SHUTTER then
          s.emit (Effect.mNotifyCb CAMERA_MSG_SHUTTER 0 0)
        else s
      | none => s
    some { s1 with mRawAvailable := false }
  | CameraHalEventType.EVENT_FOCUS_LOCKED | CameraHalEventType.EVENT_FOCUS_ERROR =>
    match s.mCameraHal with
    | some mMsgEnabled =>
      if evt.focusLocked ∧ s.mNotifyCb ∧ msgTypeEnabled mMsgEnabled CAMERA_MSG_FOCUS then
        some (disableMsgType (s.emit (Effect.mNotifyCb CAMERA_MSG_FOCUS 1 0)) mMsgEnabled
          CAMERA_MSG_FOCUS)
      else if evt.focusError ∧ s.mNotifyCb ∧ msgTypeEnabled mMsgEnabled CAMERA_MSG_FOCUS then
        some (disableMsgType (s.emit (Effect.mNotifyCb CAMERA_MSG_FOCUS 0 0)) mMsgEnabled
          CAMERA_MSG_FOCUS)
      else some s
    | none => some s
  | CameraHalEventType.EVENT_ZOOM_INDEX_REACHED =>
    match s.mCameraHal with
    | some mMsgEnabled =>
      if s.mNotifyCb ∧ msgTypeEnabled mMsgEnabled CAMERA_MSG_ZOOM then
        some (s.emit (Effect.mNotifyCb CAMERA_MSG_ZOOM evt.currentZoomIndex
          (if evt.targetZoomIndexReached then 1 else 0)))
      else some s
    | none => some s
  | CameraHalEventType.EVENT_FACE =>
    match s.mCameraHal with
    | some mMsgEnabled =>
      if s.mNotifyCb ∧ msgTypeEnabled mMsgEnabled CAMERA_MSG_PREVIEW_METADATA then
        -- WA for an issue inside CameraService
        match requestMemory env s 1 1 with
        | none => none
        | some (tmpBuffer, s1) =>
          if !s1.mDataCb then none
          else
            let s2 := s1.emit (Effect.mDataCbMetadata CAMERA_MSG_PREVIEW_METADATA tmpBuffer)
            match tmpBuffer with
            | some mem => some (s2.emit (Effect.release mem))
            | none => some s2
      else some s
    | none => some s
  | CameraHalEventType.ALL_EVENTS => some s
  | CameraHalEventType.other => some s

/-- The function `AppCallbackNotifier::notifyEvent`: one message is taken from the event
queue; when the notifier is started, the event it carries is dispatched and then
deleted. No result when the queue is empty (`get` does not return) or the dispatch has
none. -/
def notifyEvent (env : Env) (s : State) : Option State :=
  match s.mEventQ with
  | [] => none
  | msg :: rest =>
    let s0 := { s with mEventQ := rest }
    if s0.mNotifierState ≠ NotifierState.NOTIFIER_STARTED then some s0
    else
      match msg.command, msg.arg1 with
      | NotifierCommands.NOTIFIER_CMD_PROCESS_EVENT, some evt =>
        (dispatchEvent env s0 evt).map (fun s1 => s1.emit Effect.deleteEvent)
      | _, _ => some s0

/-- The function `AppCallbackNotifier::processMessage`: one command is taken from the
queue of the notification thread; `NOTIFIER_EXIT` moves the notifier to
`NOTIFIER_EXITED` and yields `false`. No result when the queue is empty (`get` does not
return). -/
def processMessage (s : State) : Option (Bool × State) :=
  match s.msgQ with
  | [] => none
  | msg :: rest =>
    let s0 := { s with msgQ := rest }
    match msg with
    | NotificationCommands.NOTIFIER_EXIT =>
      some (false, { s0 with mNotifierState := NotifierState.NOTIFIER_EXITED })
    | NotificationCommands.other => some (true, s0)

/-- The function `AppCallbackNotifier::notificationThread`, one wake cycle: `s` holds the
three queues as they are when `waitForMsg` returns. The result is `shouldLive` and the
state. -/
def notificationThread (cfg : Config) (env : Env) (s : State) : Option (Bool × State) :=
  let s0 := s.emit Effect.waitForMsg
  -- Received a message from CameraHal, process it
  let r1 : Option (Bool × State) :=
    if s0.msgQ ≠ [] then processMessage s0 else some (true, s0)
  match r1 with
  | none => none
  | some (shouldLive, s1) =>
    -- Received an event from one of the event providers
    let r2 : Option State := if s1.mEventQ ≠ [] then notifyEvent env s1 else some s1
    match r2 with
    | none => none
    | some s2 =>
      -- Received a frame from one of the frame providers
      let r3 : Option State := if s2.mFrameQ ≠ [] then notifyFrame cfg env s2 else some s2
      r3.map (fun s3 => (shouldLive, s3))

/-- The three queues of the notifier: commands, events, frames. -/
def queuesOf (s : State) : List NotificationCommands × List EventMessage × List Message :=
  (s.msgQ, s.mEventQ, s.mFrameQ)

/-- A shutter event. -/
def shutterEvent : EventMessage :=
  { command := NotifierCommands.NOTIFIER_CMD_PROCESS_EVENT,
    arg1 := some { mEventType := CameraHalEventType.EVENT_SHUTTER, focusLocked := false,
                   focusError := false, currentZoomIndex := 0,
                   targetZoomIndexReached := false } }

/-- A started notifier at wake-up with the given command, a shutter event and the
encoded still pending, a raw frame already seen (`mRawAvailable`), and a client that
has enabled the shutter, raw-image and compressed-image message types. -/
def cyclePending (command : NotificationCommands) : State :=
  { stillQueued (CAMERA_MSG_SHUTTER ||| CAMERA_MSG_RAW_IMAGE ||| CAMERA_MSG_COMPRESSED_IMAGE)
    with mRawAvailable := true, mEventQ := [shutterEvent], msgQ := [command] }

/-- The message type `CAMERA_MSG_ERROR` of `system/camera.h`. -/
def CAMERA_MSG_ERROR : Nat := 0x1

/-- The error code `CAMERA_ERROR_UNKNOWN` of `system/camera.h`. -/
def CAMERA_ERROR_UNKNOWN : Int := 1

/-- The error codes `errorNotify` compares its argument with; they are declared in
`CameraHal.h`, which is not part of the tree. -/
structure ErrorCodes where
  CAMERA_ERROR_FATAL : Int
  CAMERA_ERROR_HARD : Int

/-- How a call of `errorNotify` ends: it returns, or the process is ended by `abort()`;
either way with the state reached. -/
inductive Outcome
  | returned (s : State)
  | aborted (s : State)

/-- The state an outcome carries. -/
def Outcome.state : Outcome → State
  | Outcome.returned s => s
  | Outcome.aborted s => s

/-- Whether the outcome is the end of the process. -/
def Outcome.isAborted : Outcome → Bool
  | Outcome.returned _ => false
  | Outcome.aborted _ => true

/-- The function `AppCallbackNotifier::errorNotify`. -/
def errorNotify (k : ErrorCodes) (s : State) (error : Int) : Outcome :=
  -- If it is a fatal error abort here!
  if error = k.CAMERA_ERROR_FATAL ∨ error = k.CAMERA_ERROR_HARD then
    Outcome.aborted s
  else
    match s.mCameraHal with
    | some mMsgEnabled =>
      if s.mNotifyCb ∧ msgTypeEnabled mMsgEnabled CAMERA_MSG_ERROR then
        Outcome.returned (s.emit (Effect.mNotifyCb CAMERA_MSG_ERROR CAMERA_ERROR_UNKNOWN 0))
      else Outcome.returned s
    | none => Outcome.returned s

/-- Error codes with `CAMERA_ERROR_FATAL = 1` and `CAMERA_ERROR_HARD = 2`. -/
def ErrorCodes.ti : ErrorCodes :=
  { CAMERA_ERROR_FATAL := 1, CAMERA_ERROR_HARD := 2 }

/-- Test for a call that passes the capture buffer at `mBuffer` on: its return to the
frame provider, or an encoder started on it. -/
def passesOn (mBuffer : Nat) : Effect → Bool
  | Effect.returnFrame b _ => b = mBuffer
  | Effect.encoderRun src _ _ _ => src = mBuffer
  | _ => false

/-- A preview frame of the display path in the buffer at address 4096, with both plane
pointers set. -/
def previewSyncFrame : CameraFrame :=
  { encodedStill with mFrameType := FrameType.PREVIEW_FRAME_SYNC, mYuv0 := 4096, mYuv1 := 311296 }

/-- A started notifier with every callback set and the given frame in its frame queue,
while a recording runs in metadata mode: the eight client-visible preview buffers are
registered, and the buffer at 4096 has its video metadata block. -/
def streaming (mMsgEnabled : Nat) (frame : CameraFrame) : State :=
  { frameQueued mMsgEnabled frame with
    mRecording := true,
    mPreviewMemory := some { data := 8192, size := 8000 },
    mPreviewBufs := [8192, 9192, 10192, 11192, 12192, 13192, 14192, 15192],
    mVideoMetadataBufferMemoryMap := [(4096, some { data := 20480, size := 16 })] }

end CameraCodes.AppCallbackNotifier

/-! ## Properties -/

namespace CameraCodes.OMXCameraAdapter

theorem doBracketing_cap (s : State) (i : Nat) (t : FrameType) :
    (doBracketing s i t).2.cap = s.cap := by
  unfold doBracketing
  simp only []
  split_ifs <;> rfl

theorem doBracketing_returned (s : State) (i : Nat) (t : FrameType) :
    ∀ j ∈ returnedSlots ((doBracketing s i t).2.trace.drop s.trace.length),
      j = (i + 1) % s.cap.mNumBufs ∧ i < s.cap.mNumBufs := by
  unfold doBracketing
  simp only []
  split_ifs with h1 h2 h3
  · simp [returnedSlots]
  · simp [returnedSlots]
  · intro j hj
    simp [State.emit, returnedSlots] at hj
    exact ⟨hj, by omega⟩
  · simp [returnedSlots]

theorem bracketingRun_successor (n : Nat) (fills : List Fill) :
    ∀ s : State, s.cap.mNumBufs = n →
      ∀ p ∈ bracketingRun s fills, p.1 < n ∧ p.2 = (p.1 + 1) % n := by
  induction fills with
  | nil => intro s _ p hp; simp [bracketingRun] at hp
  | cons f rest ih =>
    intro s hs p hp
    simp only [bracketingRun, List.mem_append, List.mem_map] at hp
    rcases hp with ⟨j, hj, rfl⟩ | hp
    · have h := doBracketing_returned { s with mComponentState := f.componentState }
        f.index f.typeOfFrame j hj
      simp only [] at h
      rw [hs] at h
      exact ⟨h.2, h.1⟩
    · refine ih _ ?_ p hp
      rw [doBracketing_cap]
      exact hs

theorem ledgerOf_emit (s : State) (e : Effect) : ledgerOf (s.emit e) = ledgerOf s := rfl

theorem ledgerOf_wait (env : Env) (s : State) (sem : Sem) :
    ledgerOf (s.wait env sem) = ledgerOf s := by
  unfold State.wait
  cases sem <;> simp only [] <;> split_ifs <;> rfl

theorem ledgerOf_forEachBuffer (call : Nat → Nat) (eff : Nat → Effect) (remaining : Nat) :
    ∀ (index : Nat) (s : State) (e : Nat),
      ledgerOf (forEachBuffer call eff remaining index s e).1 = ledgerOf s := by
  induction remaining with
  | zero => intro index s e; rfl
  | succ k ih =>
    intro index s e
    unfold forEachBuffer
    simp only []
    split_ifs
    · rfl
    · rw [ih]; rfl

theorem ledgerOf_setShutterCallback (env : Env) (s : State) (b : Bool) :
    ledgerOf (setShutterCallback env s b).2 = ledgerOf s := by
  unfold setShutterCallback
  simp only []
  split_ifs <;> rfl

theorem ledgerOf_startImageCaptureExit (env : Env) (s : State) (ret : Int) (e : Nat) :
    ledgerOf (startImageCaptureExit env s ret e).2 = ledgerOf s := rfl

theorem ledgerOf_startImageCaptureWait (env : Env) (s : State) (ret : Int) (e : Nat) :
    ledgerOf (startImageCaptureWait env s ret e).2 = ledgerOf s := by
  unfold startImageCaptureWait
  simp only []
  split_ifs <;>
    simp only [ledgerOf_startImageCaptureExit, ledgerOf_emit, ledgerOf_wait]

theorem ledgerOf_startImageCaptureRotation (env : Env) (s : State) :
    ledgerOf (startImageCaptureRotation env s).2 = ledgerOf s := by
  unfold startImageCaptureRotation
  simp only []
  split_ifs <;> rfl

theorem ledgerOf_startImageCaptureShutter (env : Env) (r : Int × State) :
    ledgerOf (startImageCaptureShutter env r).2 = ledgerOf r.2 := by
  unfold startImageCaptureShutter
  simp only []
  split_ifs <;> simp only [ledgerOf_setShutterCallback, ledgerOf_emit]

theorem ledgerOf_startImageCaptureQueue (env : Env) (r : Int × State) :
    ledgerOf (startImageCaptureQueue env r).2 = ledgerOf r.2 := by
  unfold startImageCaptureQueue
  simp only []
  split_ifs <;>
    simp only [ledgerOf_startImageCaptureExit, ledgerOf_startImageCaptureWait, ledgerOf_emit]
  all_goals exact ledgerOf_forEachBuffer _ _ _ _ _ _

theorem ledgerOf_startImageCapture (env : Env) (fuel : Nat) (s : State) (r : Int × State)
    (hen : s.mBracketingEnabled = false) (h : startImageCapture env fuel s = some r) :
    ledgerOf r.2 = ledgerOf s := by
  unfold startImageCapture at h
  have he : (s.emit (Effect.pauseFaceDetection true)).mBracketingEnabled = false := hen
  simp only [he, Bool.false_eq_true, if_false] at h
  split_ifs at h
  · cases h; rfl
  · cases h; rfl
  · cases h
    rw [ledgerOf_startImageCaptureQueue, ledgerOf_startImageCaptureShutter,
      ledgerOf_startImageCaptureRotation, ledgerOf_emit]

theorem startBracketing_sets_ledger (env : Env) (fuel : Nat) (s : State) (range : Int)
    (r : Int × State) (hen : s.mBracketingEnabled = false)
    (hst : s.mComponentState = OMX_STATETYPE.OMX_StateExecuting)
    (hn : s.cap.mNumBufs ≠ 0) (h : startBracketing env fuel s range = some r) :
    LedgerAfterStart s.cap.mNumBufs r.2 := by
  unfold startBracketing at h
  simp only [hen, hst, hn, ne_eq, not_true_eq_false, if_false, Bool.false_eq_true,
    if_true] at h
  have hs1 : ∀ t : State, t = (if ¬ s.mPending3Asettings = 0 then
      s.emit Effect.apply3Asettings else s) →
      t.cap.mNumBufs = s.cap.mNumBufs ∧ t.mBracketingEnabled = false := by
    intro t ht; subst ht; split_ifs <;> exact ⟨rfl, hen⟩
  generalize (if ¬ s.mPending3Asettings = 0 then s.emit Effect.apply3Asettings else s) = s1
    at h hs1
  obtain ⟨hcap, hen1⟩ := hs1 s1 rfl
  cases hsc : startImageCapture env fuel (startBracketingLedger s1 range) with
  | none => rw [hsc] at h; cases h
  | some p =>
    rw [hsc] at h
    simp only [Option.some.injEq] at h
    have hl := ledgerOf_startImageCapture env fuel (startBracketingLedger s1 range) p hen1 hsc
    subst h
    simp only [ledgerOf, startBracketingLedger, Prod.mk.injEq, hcap] at hl
    obtain ⟨h1, h2, h3, h4⟩ := hl
    exact ⟨h1, h2, h3, h4⟩

theorem markPending_eq (s : State) (c : Bool) (flag : Nat) :
    s.markPending c flag
      = { s with mPendingCaptureSettings := s.mPendingCaptureSettings ||| flagIf c flag } := by
  cases c <;> simp [State.markPending, flagIf]

theorem setPictureSize_eq (params : CameraParameters) (s : State) :
    setPictureSize params s = { s with
      cap := { s.cap with
        mWidth := params.pictureWidth, mHeight := params.pictureHeight, mStride := 2 }
      mPendingCaptureSettings := s.mPendingCaptureSettings ||| flagIf
        (decide (params.pictureWidth ≠ s.cap.mWidth ∨ params.pictureHeight ≠ s.cap.mHeight))
        SetFormat } := by
  simp only [setPictureSize, markPending_eq]

theorem setPictureFormat_eq (params : CameraParameters) (s : State) :
    setPictureFormat params s = { s with
      cap := { s.cap with mColorFormat := effectivePixFormat params }
      mCodingMode := codingModeOf s.mCodingMode params.pictureFormat
      mPendingCaptureSettings := s.mPendingCaptureSettings ||| flagIf
        (decide (effectivePixFormat params ≠ s.cap.mColorFormat)) SetFormat } := by
  unfold setPictureFormat
  simp only []
  split_ifs with h
  · simp [flagIf, h]
  · simp only [ne_eq, not_not] at h
    simp [flagIf, h]

theorem setExpBracketingRange_eq (k : Constants) (params : CameraParameters) (s : State) :
    setExpBracketingRange k params s = { s with
      mExposureBracketingValues := effExpValues k params s.mExposureBracketingValues
      mExposureBracketingValidEntries := effExpValid k params s.mExposureBracketingValues
      mPendingCaptureSettings := s.mPendingCaptureSettings ||| flagIf
        (decide (params.KEY_EXP_BRACKETING_RANGE = none ∧ s.mExposureBracketingValidEntries ≠ 0))
        SetExpBracket } := by
  unfold setExpBracketingRange effExpValues effExpValid
  cases h : params.KEY_EXP_BRACKETING_RANGE with
  | none => simp [markPending_eq]
  | some str => simp [parseExpRange, flagIf]

theorem setRotation_eq (params : CameraParameters) (s : State) :
    setRotation params s = { s with
      mPictureRotation := effRotation params
      mPendingCaptureSettings := s.mPendingCaptureSettings ||| flagIf
        (decide (effRotation params ≠ s.mPictureRotation)) SetRotation } := by
  unfold setRotation effRotation
  split_ifs with h
  · simp [markPending_eq]
  · simp [markPending_eq, eq_comm]

theorem setSensorOrientation_eq (params : CameraParameters) (s : State) :
    setSensorOrientation params s
      = { s with mSensorOrientation := effSensorOrientation params s.mCapMode } := by
  unfold setSensorOrientation effSensorOrientation
  split_ifs <;> rfl

theorem setBurst_eq (params : CameraParameters) (s : State) :
    setBurst params s = { s with
      mBurstFrames := effBurst params
      mPendingCaptureSettings := s.mPendingCaptureSettings ||| flagIf
        (decide (effBurst params ≠ s.mBurstFrames)) SetExpBracket } := by
  unfold setBurst effBurst
  split_ifs with h
  · simp [markPending_eq]
  · simp [markPending_eq, eq_comm]

theorem setQuality_eq (k : Constants) (params : CameraParameters) (s : State) :
    setQuality k params s = { s with
      mPictureQuality := effQuality k params
      mPendingCaptureSettings := s.mPendingCaptureSettings ||| flagIf
        (decide (effQuality k params ≠ s.mPictureQuality)) SetQuality } := by
  unfold setQuality effQuality
  split_ifs with h
  · simp [markPending_eq]
  · simp [markPending_eq, eq_comm]

theorem setThumbWidth_eq (k : Constants) (params : CameraParameters) (s : State) :
    setThumbWidth k params s = { s with
      mThumbWidth := effThumbWidth k params
      mPendingCaptureSettings := s.mPendingCaptureSettings ||| flagIf
        (decide (effThumbWidth k params ≠ s.mThumbWidth)) SetThumb } := by
  unfold setThumbWidth effThumbWidth
  split_ifs with h
  · simp [markPending_eq]
  · simp [markPending_eq, eq_comm]

theorem setThumbHeight_eq (k : Constants) (params : CameraParameters) (s : State) :
    setThumbHeight k params s = { s with
      mThumbHeight := effThumbHeight k params
      mPendingCaptureSettings := s.mPendingCaptureSettings ||| flagIf
        (decide (effThumbHeight k params ≠ s.mThumbHeight)) SetThumb } := by
  unfold setThumbHeight effThumbHeight
  split_ifs with h
  · simp [markPending_eq]
  · simp [markPending_eq, eq_comm]

theorem setThumbQuality_eq (k : Constants) (params : CameraParameters) (s : State) :
    setThumbQuality k params s = { s with
      mThumbQuality := effThumbQuality k params
      mPendingCaptureSettings := s.mPendingCaptureSettings ||| flagIf
        (decide (effThumbQuality k params ≠ s.mThumbQuality)) SetThumb } := by
  unfold setThumbQuality effThumbQuality
  split_ifs with h
  · simp [markPending_eq]
  · simp [markPending_eq, eq_comm]

theorem setParametersCaptureDiff_eq (k : Constants) (params : CameraParameters) (s : State) :
    setParametersCaptureDiff k params s = { s with
      cap := { s.cap with
        mWidth := params.pictureWidth, mHeight := params.pictureHeight, mStride := 2
        mColorFormat := effectivePixFormat params }
      mCodingMode := codingModeOf s.mCodingMode params.pictureFormat
      mExposureBracketingValues := effExpValues k params s.mExposureBracketingValues
      mExposureBracketingValidEntries := effExpValid k params s.mExposureBracketingValues
      mPictureRotation := effRotation params
      mSensorOrientation := effSensorOrientation params s.mCapMode
      mBurstFrames := effBurst params
      mPictureQuality := effQuality k params
      mThumbWidth := effThumbWidth k params
      mThumbHeight := effThumbHeight k params
      mThumbQuality := effThumbQuality k params
      mPendingCaptureSettings := diffMask k params s } := by
  simp only [setParametersCaptureDiff, setPictureSize_eq, setPictureFormat_eq,
    setExpBracketingRange_eq, setRotation_eq, setSensorOrientation_eq, setBurst_eq,
    setQuality_eq, setThumbWidth_eq, setThumbHeight_eq, setThumbQuality_eq, diffMask]

theorem codingModeOf_idem (c : CodingMode) (f : Option PictureFormat) :
    codingModeOf (codingModeOf c f) f = codingModeOf c f := by
  cases f with
  | none => rfl
  | some v => cases v <;> rfl

theorem parseExpRangeLoop_set_stable (count : Nat) (i : Nat) (v : Int) (toks : List (List Char)) :
    ∀ (j : Nat) (arr : List Int), i < j → arr.set i v = arr →
      (parseExpRangeLoop count toks j arr).1.set i v = (parseExpRangeLoop count toks j arr).1 := by
  induction toks with
  | nil => intro j arr _ h; simpa [parseExpRangeLoop] using h
  | cons t ts ih =>
    intro j arr hij h
    unfold parseExpRangeLoop
    split_ifs with hc
    · apply ih (j + 1) _ (by omega)
      rw [List.set_comm (atoi t) v arr (by omega : j ≠ i), h]
    · exact h

theorem parseExpRangeLoop_idem (count : Nat) (toks : List (List Char)) :
    ∀ (i : Nat) (arr : List Int),
      parseExpRangeLoop count toks i (parseExpRangeLoop count toks i arr).1
        = parseExpRangeLoop count toks i arr := by
  induction toks with
  | nil => intro i arr; rfl
  | cons t ts ih =>
    intro i arr
    by_cases hc : i < count
    · have hs : (parseExpRangeLoop count ts (i + 1) (arr.set i (atoi t))).1.set i (atoi t)
          = (parseExpRangeLoop count ts (i + 1) (arr.set i (atoi t))).1 :=
        parseExpRangeLoop_set_stable count i (atoi t) ts (i + 1) _ (by omega) (by simp)
      simp only [parseExpRangeLoop, hc, if_true]
      rw [hs]
      exact ih (i + 1) _
    · simp only [parseExpRangeLoop, hc, if_false]

theorem effExpValues_idem (k : Constants) (params : CameraParameters) (cur : List Int) :
    effExpValues k params (effExpValues k params cur) = effExpValues k params cur ∧
      effExpValid k params (effExpValues k params cur) = effExpValid k params cur := by
  unfold effExpValues effExpValid
  cases params.KEY_EXP_BRACKETING_RANGE with
  | none => exact ⟨rfl, rfl⟩
  | some str =>
    simp only []
    rw [parseExpRangeLoop_idem]
    exact ⟨rfl, rfl⟩

theorem coreOf_emit (s : State) (e : Effect) : coreOf (s.emit e) = coreOf s := rfl

theorem coreOf_wait (env : Env) (s : State) (sem : Sem) :
    coreOf (s.wait env sem) = coreOf s := by
  unfold State.wait
  cases sem <;> simp only [] <;> split_ifs <;> rfl

theorem coreOf_forEachBuffer (call : Nat → Nat) (eff : Nat → Effect) (remaining : Nat) :
    ∀ (index : Nat) (s : State) (e : Nat),
      coreOf (forEachBuffer call eff remaining index s e).1 = coreOf s := by
  induction remaining with
  | zero => intro index s e; rfl
  | succ k ih =>
    intro index s e
    unfold forEachBuffer
    simp only []
    split_ifs
    · rfl
    · rw [ih]; rfl

theorem coreOf_disableImagePortFree (env : Env) (s : State) :
    coreOf (disableImagePortFree env s).2 = coreOf s := by
  unfold disableImagePortFree
  simp only []
  split_ifs <;> simp only [coreOf_emit, coreOf_wait]
  all_goals exact coreOf_forEachBuffer _ _ _ _ _ _

theorem coreOf_disableImagePort (env : Env) (s : State) :
    coreOf (disableImagePort env s).2 = coreOf s := by
  unfold disableImagePort
  simp only []
  split_ifs
  · rfl
  · rw [coreOf_disableImagePortFree]; rfl

theorem coreOf_releaseImageBuffers (s : State) : coreOf s.releaseImageBuffers = coreOf s := by
  unfold State.releaseImageBuffers
  split_ifs <;> rfl

theorem trace_wait (env : Env) (s : State) (sem : Sem) :
    (s.wait env sem).trace = s.trace ++ [Effect.WaitTimeout sem] := by
  unfold State.wait
  cases sem <;> simp only [] <;> split_ifs <;> rfl

theorem trace_forEachBuffer (call : Nat → Nat) (eff : Nat → Effect) (remaining : Nat) :
    ∀ (index : Nat) (s : State) (e : Nat),
      ∃ extra, (forEachBuffer call eff remaining index s e).1.trace = s.trace ++ extra ∧
        ∀ x ∈ extra, ∃ i, x = eff i := by
  induction remaining with
  | zero => intro index s e; exact ⟨[], by simp [forEachBuffer], by simp⟩
  | succ k ih =>
    intro index s e
    unfold forEachBuffer
    simp only []
    split_ifs
    · exact ⟨[eff index], rfl, by simp⟩
    · obtain ⟨extra, h1, h2⟩ := ih (index + 1) (s.emit (eff index)) (call index)
      refine ⟨eff index :: extra, ?_, ?_⟩
      · rw [h1]; simp [State.emit]
      · intro x hx
        rcases List.mem_cons.mp hx with rfl | hx
        · exact ⟨index, rfl⟩
        · exact h2 x hx

theorem configured_forEachBuffer (call : Nat → Nat) (eff : Nat → Effect) (remaining : Nat) :
    ∀ (index : Nat) (s : State) (e : Nat),
      (forEachBuffer call eff remaining index s e).1.mCaptureConfigured
        = s.mCaptureConfigured := by
  induction remaining with
  | zero => intro index s e; rfl
  | succ k ih =>
    intro index s e
    unfold forEachBuffer
    simp only []
    split_ifs
    · rfl
    · rw [ih]; rfl

theorem configured_wait (env : Env) (s : State) (sem : Sem) :
    (s.wait env sem).mCaptureConfigured = s.mCaptureConfigured := by
  unfold State.wait
  cases sem <;> simp only [] <;> split_ifs <;> rfl

theorem disableImagePortFree_configured (env : Env) (s : State) :
    (disableImagePortFree env s).2.mCaptureConfigured = s.mCaptureConfigured := by
  unfold disableImagePortFree
  simp only []
  split_ifs <;>
    simp only [State.emit, configured_wait, configured_forEachBuffer]

theorem disableImagePort_configured (env : Env) (s : State) :
    (disableImagePort env s).2.mCaptureConfigured = false := by
  unfold disableImagePort
  simp only []
  split_ifs with h
  · simpa using h
  · rw [disableImagePortFree_configured]; rfl

theorem disableImagePortFree_trace (env : Env) (s : State) :
    ∃ extra, (disableImagePortFree env s).2.trace = s.trace ++ extra ∧
      extra.count Effect.mReleaseImageBuffersCallback = 0 ∧
      extra.count (Effect.OMX_SendCommand OMX_COMMANDTYPE.OMX_CommandPortDisable) = 0 := by
  obtain ⟨ex, h1, h2⟩ := trace_forEachBuffer env.OMX_FreeBuffer Effect.OMX_FreeBuffer
    s.cap.mNumBufs 0 s env.OMX_SendCommand
  have hcb : ex.count Effect.mReleaseImageBuffersCallback = 0 := by
    rw [List.count_eq_zero]
    intro hm
    obtain ⟨i, hi⟩ := h2 _ hm
    cases hi
  have hcmd : ex.count (Effect.OMX_SendCommand OMX_COMMANDTYPE.OMX_CommandPortDisable) = 0 := by
    rw [List.count_eq_zero]
    intro hm
    obtain ⟨i, hi⟩ := h2 _ hm
    cases hi
  unfold disableImagePortFree
  simp only []
  split_ifs
  · exact ⟨ex, h1, hcb, hcmd⟩
  · refine ⟨ex ++ [Effect.WaitTimeout Sem.mStopCaptureSem], ?_, ?_, ?_⟩
    · rw [trace_wait, h1]; simp
    · simp [List.count_cons, hcb]
    · simp [List.count_cons, hcmd]
  · refine ⟨ex ++ [Effect.WaitTimeout Sem.mStopCaptureSem], ?_, ?_, ?_⟩
    · rw [trace_wait, h1]; simp
    · simp [List.count_cons, hcb]
    · simp [List.count_cons, hcmd]
  · refine ⟨ex ++ [Effect.WaitTimeout Sem.mStopCaptureSem, Effect.RemoveEvent], ?_, ?_, ?_⟩
    · simp only [State.emit]; rw [trace_wait, h1]; simp
    · simp [List.count_cons, hcb]
    · simp [List.count_cons, hcmd]

theorem disableImagePort_trace (env : Env) (s : State) :
    ∃ extra, (disableImagePort env s).2.trace = s.trace ++ extra ∧
      extra.count Effect.mReleaseImageBuffersCallback = 0 ∧
      extra.count (Effect.OMX_SendCommand OMX_COMMANDTYPE.OMX_CommandPortDisable)
        = if s.mCaptureConfigured then 1 else 0 := by
  unfold disableImagePort
  by_cases hc : s.mCaptureConfigured = true
  · obtain ⟨ex, h1, h2, h3⟩ := disableImagePortFree_trace env
      (({ s with mCaptureConfigured := false }.emit
        (Effect.RegisterForEvent Sem.mStopCaptureSem)).emit
        (Effect.OMX_SendCommand OMX_COMMANDTYPE.OMX_CommandPortDisable))
    refine ⟨[Effect.RegisterForEvent Sem.mStopCaptureSem,
      Effect.OMX_SendCommand OMX_COMMANDTYPE.OMX_CommandPortDisable] ++ ex, ?_, ?_, ?_⟩
    · simp only [hc, Bool.not_true, Bool.false_eq_true, if_false]
      rw [h1]; simp [State.emit]
    · simp [List.count_cons, h2]
    · simp [List.count_cons, h3, hc]
  · refine ⟨[], ?_, ?_, ?_⟩ <;> simp [hc]

theorem trace_setParametersCaptureDiff (k : Constants) (params : CameraParameters) (s : State) :
    (firstTimeInit (setParametersCaptureDiff k params s)).trace = s.trace ∧
      (firstTimeInit (setParametersCaptureDiff k params s)).mCaptureConfigured
        = s.mCaptureConfigured ∧
      (firstTimeInit (setParametersCaptureDiff k params s)).mReleaseImageBuffersCallback
        = s.mReleaseImageBuffersCallback := by
  rw [setParametersCaptureDiff_eq]
  unfold firstTimeInit
  split_ifs <;> exact ⟨rfl, rfl, rfl⟩

theorem setParametersCaptureDiff_fixed (k : Constants) (params : CameraParameters)
    (s u : State) (h : settingsOf u = settingsOf (setParametersCaptureDiff k params s))
    (hm : u.mPendingCaptureSettings = 0) : setParametersCaptureDiff k params u = u := by
  rw [setParametersCaptureDiff_eq] at h
  rw [setParametersCaptureDiff_eq]
  simp only [settingsOf, Prod.mk.injEq] at h
  obtain ⟨h1, h2, h3, h4, h5, h6, h7, h8, h9, h10, h11, h12, h13, h14, h15, -⟩ := h
  have e6 := (effExpValues_idem k params s.mExposureBracketingValues).1
  have e7 := (effExpValues_idem k params s.mExposureBracketingValues).2
  have hmask : diffMask k params u = 0 := by
    have hv : params.KEY_EXP_BRACKETING_RANGE = none → u.mExposureBracketingValidEntries = 0 := by
      intro hn
      rw [h7]
      simp [effExpValid, hn]
    unfold diffMask
    rw [hm, h1, h2, h4, h8, h10, h11, h12, h13, h14]
    by_cases hn : params.KEY_EXP_BRACKETING_RANGE = none
    · simp [flagIf, hn, hv hn]
    · simp [flagIf, hn]
  rw [hmask]
  rcases u with ⟨⟨w, hh, st, cf, nb, bs, bh⟩, m, cm, ev, en, pr, so, cmode, bf, pq, tw, th, tq,
    fti, cc, cb, cs, bq, bqc, lb, be, br, cfr, ws, csig, sc, fc, p3, us, ss, sts, cps, tr⟩
  simp only [] at h1 h2 h3 h4 h5 h6 h7 h8 h9 h10 h11 h12 h13 h14 h15 hm
  subst h1 h2 h3 h4 h8 h10 h11 h12 h13 h14 hm h15
  simp only [State.mk.injEq, OMXCameraPortParameters.mk.injEq, true_and, and_true]
  refine ⟨?_, ?_, ?_, ?_⟩
  · rw [h5]; exact codingModeOf_idem _ _
  · rw [h6]; exact e6
  · rw [h6, h7]; exact e7
  · exact h9.symm

theorem setParametersCapture_of_fixed (k : Constants) (env : Env) (params : CameraParameters)
    (u : State) (hfix : setParametersCaptureDiff k params u = u)
    (hfi : u.mFirstTimeInit = false) (hm : u.mPendingCaptureSettings = 0) :
    setParametersCapture k env params u = (NO_ERROR, u) := by
  have hfi2 : firstTimeInit u = u := by
    unfold firstTimeInit
    rw [if_neg]
    simp [hfi]
  unfold setParametersCapture setParametersCaptureRelease
  simp only [hfix, hfi2]
  rw [if_neg]
  simp [hm]

theorem setParametersCaptureRelease_spec (env : Env) (s : State)
    (hcb : s.mReleaseImageBuffersCallback = true) :
    (setParametersCaptureRelease env s).2.mPendingCaptureSettings = s.mPendingCaptureSettings ∧
    ((setParametersCaptureRelease env s).2.mPendingCaptureSettings ≠ 0 →
      (setParametersCaptureRelease env s).2.mCaptureConfigured = false ∧
      ∃ extra, (setParametersCaptureRelease env s).2.trace = s.trace ++ extra ∧
        extra.count Effect.mReleaseImageBuffersCallback = 1 ∧
        extra.count (Effect.OMX_SendCommand OMX_COMMANDTYPE.OMX_CommandPortDisable)
          = if s.mCaptureConfigured then 1 else 0) ∧
    ((setParametersCaptureRelease env s).2.mPendingCaptureSettings = 0 →
      (setParametersCaptureRelease env s).2.mCaptureConfigured = s.mCaptureConfigured ∧
      (setParametersCaptureRelease env s).2.trace = s.trace) := by
  have hcore := coreOf_disableImagePort env s
  simp only [coreOf, Prod.mk.injEq] at hcore
  obtain ⟨-, hmask, hcb2⟩ := hcore
  rw [hcb] at hcb2
  have hrel : (disableImagePort env s).2.releaseImageBuffers
      = (disableImagePort env s).2.emit Effect.mReleaseImageBuffersCallback := by
    unfold State.releaseImageBuffers
    rw [if_pos hcb2]
  unfold setParametersCaptureRelease
  by_cases hm : s.mPendingCaptureSettings = 0
  · simp [hm]
  · simp only [ne_eq, hm, not_false_eq_true, if_true, hrel]
    have hm2 : ((disableImagePort env s).2.emit
        Effect.mReleaseImageBuffersCallback).mPendingCaptureSettings
        = s.mPendingCaptureSettings := hmask
    refine ⟨hm2, ?_, ?_⟩
    · intro _
      refine ⟨disableImagePort_configured env s, ?_⟩
      obtain ⟨ex, h1, h2, h3⟩ := disableImagePort_trace env s
      refine ⟨ex ++ [Effect.mReleaseImageBuffersCallback], ?_, ?_, ?_⟩
      · simp [State.emit, h1]
      · simp [List.count_cons, h2]
      · simp [List.count_cons, h3]
    · intro h0
      rw [hm2] at h0
      exact absurd h0 hm

/-- C1: from the ledger `startBracketing` sets up for a ring of `n ≥ 1` image buffers,
in every sequence of `doBracketing` calls (any filled slots, frame types and component
states, hence any behaviour of the application in between) each slot the calls hand back
to the hardware queue is the cyclic successor `(i + 1) % n` of the slot `i` that had
just been filled, and both are slots of the ring. -/
theorem doBracketing_requeues_cyclic_successor (n : Nat) (hn : 1 ≤ n) (s : State)
    (hs : LedgerAfterStart n s) (fills : List Fill) :
    ∀ p ∈ bracketingRun s fills, p.1 < n ∧ p.2 = (p.1 + 1) % n ∧ p.2 < n := by
  intro p hp
  obtain ⟨h1, h2⟩ := bracketingRun_successor n fills s hs.1 p hp
  refine ⟨h1, h2, ?_⟩
  rw [h2]
  exact Nat.mod_lt _ (by omega)

/-- Witness of C1 on a ring of three buffers filled in the order 0, 1, 2, 0, 1: the
slots handed back are 0, 1, 2, after the fills of 2, 0, 1. -/
theorem doBracketing_requeues_cyclic_successor_witness :
    1 ≤ 3 ∧ LedgerAfterStart 3 ring3 ∧
      bracketingRun ring3 fills3 = [(2, 0), (0, 1), (1, 2)] ∧
      ∀ p ∈ bracketingRun ring3 fills3, p.1 < 3 ∧ p.2 = (p.1 + 1) % 3 ∧ p.2 < 3 :=
  ⟨by decide, ⟨rfl, rfl, rfl, rfl⟩, by decide,
    doBracketing_requeues_cyclic_successor 3 (by decide) ring3 ⟨rfl, rfl, rfl, rfl⟩ fills3⟩

/-- C3: with the image port already configured and the use-capture semaphore at count
0, `UseBuffersCapture` returns `NO_ERROR`; the only call it makes is `setupEXIF` (no
setting group is pushed, no port enable command is sent, `OMX_UseBuffer` is not called),
and the pending mask and the port parameters (buffer count and registered headers
included) are unchanged. -/
theorem UseBuffersCapture_configured_is_noop (env : Env) (s : State) (buffers : Nat → Nat)
    (num : Nat) (hc : s.mCaptureConfigured = true) (hsem : s.mUseCaptureSem = 0) :
    (UseBuffersCapture env s buffers num).1 = NO_ERROR ∧
      (UseBuffersCapture env s buffers num).2.trace = s.trace ++ [Effect.setupEXIF] ∧
      (UseBuffersCapture env s buffers num).2.mPendingCaptureSettings
        = s.mPendingCaptureSettings ∧
      (UseBuffersCapture env s buffers num).2.cap = s.cap ∧
      (UseBuffersCapture env s buffers num).2.mCaptureConfigured = true := by
  have h : UseBuffersCapture env s buffers num
      = (NO_ERROR, { s.emit Effect.setupEXIF with mCapturedFrames := s.mBurstFrames }) := by
    unfold UseBuffersCapture
    simp only [hc, hsem, ne_eq, not_true_eq_false, if_false, if_true]
    rfl
  rw [h]
  exact ⟨rfl, rfl, rfl, rfl, hc⟩

/-- Witness of C3 on a configured port with two buffers and every group pending. -/
theorem UseBuffersCapture_configured_is_noop_witness :
    configured2.mCaptureConfigured = true ∧ configured2.mUseCaptureSem = 0 ∧
      (UseBuffersCapture Env.allSucceed configured2 (fun i => 4096 * i) 5).1 = NO_ERROR ∧
      (UseBuffersCapture Env.allSucceed configured2 (fun i => 4096 * i) 5).2.trace
        = configured2.trace ++ [Effect.setupEXIF] ∧
      (UseBuffersCapture Env.allSucceed configured2 (fun i => 4096 * i) 5).2.mPendingCaptureSettings
        = configured2.mPendingCaptureSettings ∧
      (UseBuffersCapture Env.allSucceed configured2 (fun i => 4096 * i) 5).2.cap
        = configured2.cap ∧
      (UseBuffersCapture Env.allSucceed configured2 (fun i => 4096 * i) 5).2.mCaptureConfigured
        = true :=
  ⟨rfl, rfl, UseBuffersCapture_configured_is_noop Env.allSucceed configured2
    (fun i => 4096 * i) 5 rfl rfl⟩

/-- C5: when no capture is configured, `stopImageCapture` returns `NO_ERROR` and the
adapter, the trace of its calls included, is exactly as before: no semaphore is waited
on, no command is sent, the release callback is not invoked, no field changes. -/
theorem stopImageCapture_not_configured (env : Env) (s : State)
    (h : s.mCaptureConfigured = false) : stopImageCapture env s = (NO_ERROR, s) := by
  unfold stopImageCapture
  simp [h]

/-- Witness of C5 on an adapter with no capture configured. -/
theorem stopImageCapture_not_configured_witness :
    State.initial.mCaptureConfigured = false ∧
      stopImageCapture Env.allSucceed State.initial = (NO_ERROR, State.initial) :=
  ⟨rfl, stopImageCapture_not_configured Env.allSucceed State.initial rfl⟩

/-- C4, as stated, fails: on an adapter still in first-time initialisation the second
application of `setParametersCapture` on the same snapshot, with the mask cleared in
between, marks every group pending again. -/
theorem setParametersCapture_twice_firstTime_pending :
    (setParametersCapture Constants.ti Env.allSucceed CameraParameters.unset
      (clearPending (setParametersCapture Constants.ti Env.allSucceed CameraParameters.unset
        firstTime).2)).2.mPendingCaptureSettings = ECapturesettingsAll ∧
    (setParametersCapture Constants.ti Env.allSucceed CameraParameters.unset
      (clearPending (setParametersCapture Constants.ti Env.allSucceed CameraParameters.unset
        firstTime).2)).2.mPendingCaptureSettings ≠ 0 := by
  decide

/-- C4, amended: on an adapter past first-time initialisation (`mFirstTimeInit` false),
applying `setParametersCapture` to the same snapshot a second time, with the pending
mask cleared in between, returns `NO_ERROR` and leaves the adapter exactly as it was
after the first application and the clearing: the pending mask is zero, every capture
setting has its value from the first application, and no call is made. -/
theorem setParametersCapture_twice_is_fixed_point (k : Constants) (env1 env2 : Env)
    (params : CameraParameters) (s : State) (hinit : s.mFirstTimeInit = false) :
    setParametersCapture k env2 params
        (clearPending (setParametersCapture k env1 params s).2)
      = (NO_ERROR, clearPending (setParametersCapture k env1 params s).2) ∧
    (setParametersCapture k env2 params
        (clearPending (setParametersCapture k env1 params s).2)).2.mPendingCaptureSettings = 0 ∧
    settingsOf (setParametersCapture k env2 params
        (clearPending (setParametersCapture k env1 params s).2)).2
      = settingsOf (setParametersCapture k env1 params s).2 := by
  have hfi : firstTimeInit (setParametersCaptureDiff k params s)
      = setParametersCaptureDiff k params s := by
    unfold firstTimeInit
    rw [if_neg]
    rw [setParametersCaptureDiff_eq]
    simp [hinit]
  have hset : settingsOf (setParametersCapture k env1 params s).2
      = settingsOf (setParametersCaptureDiff k params s) := by
    unfold setParametersCapture setParametersCaptureRelease
    simp only [hfi]
    split_ifs
    · have h := coreOf_releaseImageBuffers (disableImagePort env1
        (setParametersCaptureDiff k params s)).2
      rw [coreOf_disableImagePort] at h
      exact congrArg Prod.fst h
    · rfl
  have hu : settingsOf (clearPending (setParametersCapture k env1 params s).2)
      = settingsOf (setParametersCaptureDiff k params s) := hset
  have hfix := setParametersCaptureDiff_fixed k params s
    (clearPending (setParametersCapture k env1 params s).2) hu rfl
  have hinit2 : (clearPending (setParametersCapture k env1 params s).2).mFirstTimeInit
      = false := by
    have h16 : (settingsOf (clearPending (setParametersCapture k env1 params s).2)).2.2.2.2.2.2.2.2.2.2.2.2.2.2.2
        = (settingsOf (setParametersCaptureDiff k params s)).2.2.2.2.2.2.2.2.2.2.2.2.2.2.2 := by
      rw [hu]
    rw [setParametersCaptureDiff_eq] at h16
    simpa [settingsOf, hinit] using h16
  have hres := setParametersCapture_of_fixed k env2 params
    (clearPending (setParametersCapture k env1 params s).2) hfix hinit2 rfl
  rw [hres]
  exact ⟨rfl, rfl, rfl⟩

/-- Witness of amended C4: a snapshot that only sets a bracketing range, applied twice
to an adapter past first-time initialisation. -/
theorem setParametersCapture_twice_is_fixed_point_witness :
    State.initial.mFirstTimeInit = false ∧
    (setParametersCapture Constants.ti Env.allSucceed bracketParams
        (clearPending (setParametersCapture Constants.ti Env.allSucceed bracketParams
          State.initial).2)
      = (NO_ERROR, clearPending (setParametersCapture Constants.ti Env.allSucceed bracketParams
          State.initial).2) ∧
    (setParametersCapture Constants.ti Env.allSucceed bracketParams
        (clearPending (setParametersCapture Constants.ti Env.allSucceed bracketParams
          State.initial).2)).2.mPendingCaptureSettings = 0 ∧
    settingsOf (setParametersCapture Constants.ti Env.allSucceed bracketParams
        (clearPending (setParametersCapture Constants.ti Env.allSucceed bracketParams
          State.initial).2)).2
      = settingsOf (setParametersCapture Constants.ti Env.allSucceed bracketParams
          State.initial).2) :=
  ⟨rfl, setParametersCapture_twice_is_fixed_point Constants.ti Env.allSucceed Env.allSucceed
    bracketParams State.initial rfl⟩

/-- C9, evaluated where the code departs from it: past first-time initialisation, with
no bracket values held and burst 1, a snapshot that sets the bracketing range
`-10,0,10` (and nothing else) changes the exposure-bracket value list, yet
`setParametersCapture` does not raise `SetExpBracket`: the pending mask stays 0. -/
theorem setParametersCapture_new_bracket_list_not_pending :
    State.initial.mFirstTimeInit = false ∧
    State.initial.mExposureBracketingValues.take State.initial.mExposureBracketingValidEntries
      = [] ∧
    (setParametersCapture Constants.ti Env.allSucceed bracketParams
      State.initial).2.mExposureBracketingValidEntries = 3 ∧
    (setParametersCapture Constants.ti Env.allSucceed bracketParams
      State.initial).2.mExposureBracketingValues.take 3 = [-10, 0, 10] ∧
    (setParametersCapture Constants.ti Env.allSucceed bracketParams
      State.initial).2.mBurstFrames = State.initial.mBurstFrames ∧
    (setParametersCapture Constants.ti Env.allSucceed bracketParams
      State.initial).2.mPendingCaptureSettings &&& SetExpBracket = 0 ∧
    (setParametersCapture Constants.ti Env.allSucceed bracketParams
      State.initial).2.mPendingCaptureSettings = 0 := by
  decide

/-- C10: for every call of `setParametersCapture` with a release callback registered,
the mask the function returns is the mask it tests once the diff is finished (the diff
of the groups followed by the first-time override, which only raises flags); if that
mask is non-zero, then on return `mCaptureConfigured` is false, the
release-image-buffers callback has been invoked exactly once, and the port disable
command was sent exactly when the port had been configured; if the mask is zero, the
port state is untouched and no call at all, the callback included, has been made. -/
theorem setParametersCapture_disables_port_iff_pending (k : Constants) (env : Env)
    (params : CameraParameters) (s : State) (hcb : s.mReleaseImageBuffersCallback = true) :
    (setParametersCapture k env params s).2.mPendingCaptureSettings
      = (firstTimeInit (setParametersCaptureDiff k params s)).mPendingCaptureSettings ∧
    ((setParametersCaptureDiff k params s).mPendingCaptureSettings ≠ 0 →
      (setParametersCapture k env params s).2.mPendingCaptureSettings ≠ 0) ∧
    ((setParametersCapture k env params s).2.mPendingCaptureSettings ≠ 0 →
      (setParametersCapture k env params s).2.mCaptureConfigured = false ∧
      ∃ extra, (setParametersCapture k env params s).2.trace = s.trace ++ extra ∧
        extra.count Effect.mReleaseImageBuffersCallback = 1 ∧
        extra.count (Effect.OMX_SendCommand OMX_COMMANDTYPE.OMX_CommandPortDisable)
          = if s.mCaptureConfigured then 1 else 0) ∧
    ((setParametersCapture k env params s).2.mPendingCaptureSettings = 0 →
      (setParametersCapture k env params s).2.mCaptureConfigured = s.mCaptureConfigured ∧
      (setParametersCapture k env params s).2.trace = s.trace) := by
  obtain ⟨ht, hc, hr⟩ := trace_setParametersCaptureDiff k params s
  have h := setParametersCaptureRelease_spec env
    (firstTimeInit (setParametersCaptureDiff k params s)) (hr.trans hcb)
  rw [ht, hc] at h
  refine ⟨h.1, ?_, h.2.1, h.2.2⟩
  intro hne
  have h1 : (setParametersCapture k env params s).2.mPendingCaptureSettings
      = (firstTimeInit (setParametersCaptureDiff k params s)).mPendingCaptureSettings := h.1
  rw [h1]
  unfold firstTimeInit
  split_ifs
  · exact (by decide : ECapturesettingsAll ≠ 0)
  · exact hne

/-- Witness of C10 on a configured port with every group pending: the port is disabled
and the callback invoked once. -/
theorem setParametersCapture_disables_port_iff_pending_witness :
    configured2.mReleaseImageBuffersCallback = true ∧
    (setParametersCapture Constants.ti Env.allSucceed CameraParameters.unset
      configured2).2.mPendingCaptureSettings ≠ 0 ∧
    ((setParametersCapture Constants.ti Env.allSucceed CameraParameters.unset
        configured2).2.mPendingCaptureSettings
      = (firstTimeInit (setParametersCaptureDiff Constants.ti CameraParameters.unset
          configured2)).mPendingCaptureSettings ∧
    ((setParametersCaptureDiff Constants.ti CameraParameters.unset
        configured2).mPendingCaptureSettings ≠ 0 →
      (setParametersCapture Constants.ti Env.allSucceed CameraParameters.unset
        configured2).2.mPendingCaptureSettings ≠ 0) ∧
    ((setParametersCapture Constants.ti Env.allSucceed CameraParameters.unset
        configured2).2.mPendingCaptureSettings ≠ 0 →
      (setParametersCapture Constants.ti Env.allSucceed CameraParameters.unset
        configured2).2.mCaptureConfigured = false ∧
      ∃ extra, (setParametersCapture Constants.ti Env.allSucceed CameraParameters.unset
          configured2).2.trace = configured2.trace ++ extra ∧
        extra.count Effect.mReleaseImageBuffersCallback = 1 ∧
        extra.count (Effect.OMX_SendCommand OMX_COMMANDTYPE.OMX_CommandPortDisable)
          = if configured2.mCaptureConfigured then 1 else 0) ∧
    ((setParametersCapture Constants.ti Env.allSucceed CameraParameters.unset
        configured2).2.mPendingCaptureSettings = 0 →
      (setParametersCapture Constants.ti Env.allSucceed CameraParameters.unset
        configured2).2.mCaptureConfigured = configured2.mCaptureConfigured ∧
      (setParametersCapture Constants.ti Env.allSucceed CameraParameters.unset
        configured2).2.trace = configured2.trace)) :=
  ⟨rfl, by decide, setParametersCapture_disables_port_iff_pending Constants.ti Env.allSucceed
    CameraParameters.unset configured2 rfl⟩

theorem clearFlag_and (m f g : Nat) :
    clearFlag m f &&& g = m &&& ((4294967295 ^^^ f) &&& g) := by
  unfold clearFlag
  exact Nat.and_assoc _ _ _

theorem useBufferLoop_ok (env : Env) (buffers : Nat → Nat) (remaining : Nat) :
    ∀ (index : Nat) (s : State) (e : Nat),
      (useBufferLoop env buffers remaining index s e).2.2 = false →
      (useBufferLoop env buffers remaining index s e).1.trace =
        s.trace ++ registrations buffers index remaining := by
  induction remaining with
  | zero => intro index s e _; simp [useBufferLoop, registrations]
  | succ k ih =>
    intro index s e h
    unfold useBufferLoop at h ⊢
    simp only [] at h ⊢
    split_ifs at h ⊢ with hc
    rw [ih _ _ _ h]
    simp [State.emit, registrations, List.range']

theorem useBufferLoop_keeps (env : Env) (buffers : Nat → Nat) (remaining : Nat) :
    ∀ (index : Nat) (s : State) (e : Nat),
      (useBufferLoop env buffers remaining index s e).1.mCaptureConfigured = s.mCaptureConfigured ∧
      pendingOf (useBufferLoop env buffers remaining index s e).1 = pendingOf s ∧
      (useBufferLoop env buffers remaining index s e).1.cap.mNumBufs = s.cap.mNumBufs := by
  induction remaining with
  | zero => intro index s e; simp [useBufferLoop]
  | succ k ih =>
    intro index s e
    unfold useBufferLoop
    simp only []
    split_ifs with hc
    · exact ⟨rfl, rfl, rfl⟩
    · obtain ⟨h1, h2, h3⟩ := ih (index + 1) _ (env.OMX_UseBuffer index)
      rw [h1, h2, h3]; exact ⟨rfl, rfl, rfl⟩

theorem pendingOf_wait (env : Env) (s : State) (sem : Sem) :
    pendingOf (s.wait env sem) = pendingOf s := by
  unfold State.wait
  cases sem <;> simp only [] <;> split_ifs <;> rfl

theorem cap_wait (env : Env) (s : State) (sem : Sem) :
    (s.wait env sem).cap = s.cap := by
  unfold State.wait
  cases sem <;> simp only [] <;> split_ifs <;> rfl

theorem UseBuffersCaptureExit_configured (env : Env) (s : State) (ret : Int) (e : Nat) :
    (UseBuffersCaptureExit env s ret e).2.mCaptureConfigured = s.mCaptureConfigured := by
  unfold UseBuffersCaptureExit State.releaseImageBuffers
  simp only []
  split_ifs <;> rfl

theorem UseBuffersCaptureEnable_configures (env : Env) (s : State) (buffers : Nat → Nat)
    (hs : s.mCaptureConfigured = false)
    (hc : (UseBuffersCaptureEnable env s buffers).2.mCaptureConfigured = true) :
    (UseBuffersCaptureEnable env s buffers).2.trace =
      s.trace ++ [Effect.RegisterForEvent Sem.mUseCaptureSem,
        Effect.OMX_SendCommand OMX_COMMANDTYPE.OMX_CommandPortEnable] ++
        registrations buffers 0 s.cap.mNumBufs ++
        [Effect.WaitTimeout Sem.mUseCaptureSem, Effect.setupEXIF] ∧
    pendingOf (UseBuffersCaptureEnable env s buffers).2 = pendingOf s ∧
    (UseBuffersCaptureEnable env s buffers).2.cap.mNumBufs = s.cap.mNumBufs := by
  unfold UseBuffersCaptureEnable at hc ⊢
  simp only [] at hc ⊢
  split_ifs at hc ⊢ with h1 h2 h3 h4
  · rw [UseBuffersCaptureExit_configured] at hc
    simp [State.emit, hs] at hc
  · rw [UseBuffersCaptureExit_configured, (useBufferLoop_keeps _ _ _ _ _ _).1] at hc
    simp [State.emit, hs] at hc
  · rw [UseBuffersCaptureExit_configured, configured_wait,
      (useBufferLoop_keeps _ _ _ _ _ _).1] at hc
    simp [State.emit, hs] at hc
  · rw [UseBuffersCaptureExit_configured] at hc
    simp only [State.emit] at hc
    rw [configured_wait, (useBufferLoop_keeps _ _ _ _ _ _).1] at hc
    simp [hs] at hc
  · have h2f : (useBufferLoop env buffers
        ((s.emit (Effect.RegisterForEvent Sem.mUseCaptureSem)).emit
          (Effect.OMX_SendCommand OMX_COMMANDTYPE.OMX_CommandPortEnable)).cap.mNumBufs 0
        ((s.emit (Effect.RegisterForEvent Sem.mUseCaptureSem)).emit
          (Effect.OMX_SendCommand OMX_COMMANDTYPE.OMX_CommandPortEnable))
        env.OMX_SendCommand).2.2 = false := by simpa using h2
    refine ⟨?_, ?_, ?_⟩
    · simp only [State.emit]
      rw [trace_wait]
      have := useBufferLoop_ok env buffers _ _ _ _ h2f
      simp only [State.emit] at this
      rw [this]
      simp
    · show pendingOf (State.wait env _ _) = _
      rw [pendingOf_wait, (useBufferLoop_keeps _ _ _ _ _ _).2.1]
      rfl
    · show (State.wait env _ _).cap.mNumBufs = _
      rw [cap_wait, (useBufferLoop_keeps _ _ _ _ _ _).2.2]
      rfl
theorem UseBuffersCapture_blocks (env : Env) (s : State) (buffers : Nat → Nat) (num : Nat) :
    UseBuffersCapture env s buffers num =
      if s.mUseCaptureSem ≠ 0 then (BAD_VALUE, s)
      else if s.mCaptureConfigured then
        (NO_ERROR, { s.emit Effect.setupEXIF with mCapturedFrames := s.mBurstFrames })
      else
        let r1 := pushFormat env { s with cap := { s.cap with mNumBufs := num } }
        if r1.1 ≠ NO_ERROR then r1
        else
          let r2 := pushThumb env r1
          if r2.1 ≠ NO_ERROR then r2
          else
            let r3 := pushExpBracket r2
            if r3.1 ≠ NO_ERROR then UseBuffersCaptureExit env r3.2 r3.1 OMX_ErrorNone
            else
              let r4 := pushQuality env r3
              if r4.1 ≠ NO_ERROR then UseBuffersCaptureExit env r4.2 r4.1 OMX_ErrorNone
              else UseBuffersCaptureEnable env r4.2 buffers := rfl

theorem pushFormat_spec (env : Env) (s : State) :
    (pushFormat env s).2.trace =
      s.trace ++ (if s.mPendingCaptureSettings &&& SetFormat ≠ 0 then [Effect.setFormat] else []) ∧
    (pushFormat env s).2.mPendingCaptureSettings =
      (if s.mPendingCaptureSettings &&& SetFormat ≠ 0
        then clearFlag s.mPendingCaptureSettings SetFormat else s.mPendingCaptureSettings) ∧
    pushedOf (pushFormat env s).2 = pushedOf s := by
  unfold pushFormat
  simp only []
  split_ifs <;> simp [State.emit, pushedOf]

theorem pushThumb_spec (env : Env) (r : Int × State) :
    (pushThumb env r).2.trace =
      r.2.trace ++ (if r.2.mPendingCaptureSettings &&& SetThumb ≠ 0 then
        [Effect.setThumbnailParams r.2.mThumbWidth r.2.mThumbHeight r.2.mThumbQuality] else []) ∧
    (pushThumb env r).2.mPendingCaptureSettings =
      (if r.2.mPendingCaptureSettings &&& SetThumb ≠ 0
        then clearFlag r.2.mPendingCaptureSettings SetThumb else r.2.mPendingCaptureSettings) ∧
    pushedOf (pushThumb env r).2 = pushedOf r.2 := by
  unfold pushThumb
  simp only []
  split_ifs <;> simp [State.emit, pushedOf]

theorem pushExpBracket_spec (r : Int × State) (h : (pushExpBracket r).1 = NO_ERROR) :
    (pushExpBracket r).2.trace =
      r.2.trace ++ (if r.2.mPendingCaptureSettings &&& SetExpBracket ≠ 0 then
        bracketingPush r.2 else []) ∧
    (pushExpBracket r).2.mPendingCaptureSettings =
      (if r.2.mPendingCaptureSettings &&& SetExpBracket ≠ 0
        then clearFlag r.2.mPendingCaptureSettings SetExpBracket
        else r.2.mPendingCaptureSettings) ∧
    pushedOf (pushExpBracket r).2 = pushedOf r.2 := by
  unfold pushExpBracket at h ⊢
  by_cases hb : r.2.mPendingCaptureSettings &&& SetExpBracket ≠ 0
  · rw [if_pos hb] at h
    rw [if_pos hb, if_pos hb, if_pos hb]
    unfold setExposureBracketing at h ⊢
    by_cases hi : r.2.mComponentState = OMX_STATETYPE.OMX_StateInvalid
    · simp [hi, EINVAL, NO_ERROR] at h
    · simp [hi, State.emit, pushedOf, bracketingPush]
  · rw [if_neg hb, if_neg hb, if_neg hb]
    simp

theorem pushQuality_spec (env : Env) (r : Int × State) :
    (pushQuality env r).2.trace =
      r.2.trace ++ (if r.2.mPendingCaptureSettings &&& SetQuality ≠ 0 then
        [Effect.setImageQuality r.2.mPictureQuality] else []) ∧
    (pushQuality env r).2.mPendingCaptureSettings =
      (if r.2.mPendingCaptureSettings &&& SetQuality ≠ 0
        then clearFlag r.2.mPendingCaptureSettings SetQuality
        else r.2.mPendingCaptureSettings) ∧
    pushedOf (pushQuality env r).2 = pushedOf r.2 := by
  unfold pushQuality
  simp only []
  split_ifs <;> simp [State.emit, pushedOf]

theorem clear_if_other (m F G : Nat) (h : (4294967295 ^^^ F) &&& G = G) :
    (if m &&& F ≠ 0 then clearFlag m F else m) &&& G = m &&& G := by
  split_ifs
  · rw [clearFlag_and, h]
  · rfl

theorem clear_if_self (m F : Nat) (h : (4294967295 ^^^ F) &&& F = 0) :
    (if m &&& F ≠ 0 then clearFlag m F else m) &&& F = 0 := by
  split_ifs with c
  · rw [clearFlag_and, h]; exact Nat.and_zero m
  · exact not_not.mp c

theorem pushExpBracket_configured (r : Int × State) :
    (pushExpBracket r).2.mCaptureConfigured = r.2.mCaptureConfigured := by
  unfold pushExpBracket setExposureBracketing
  simp only []
  split_ifs <;> rfl

/-- C12 (amended): for every call of `UseBuffersCapture` on a not-yet-configured image
port that succeeds (it returns `NO_ERROR` and has configured the port), the calls made
are, in this order: the push of every group among format, thumbnail, exposure
bracketing and quality that was pending on entry (format first), the port enable
registration and command, one `OMX_UseBuffer` per buffer, the wait and `setupEXIF`; on
return those four bits of the pending mask are zero and the rotation bit is what it was
on entry (rotation is pushed by `startImageCapture`). -/
theorem UseBuffersCapture_pushes_pending_before_registration (env : Env) (s : State)
    (buffers : Nat → Nat) (num : Nat)
    (hs : s.mCaptureConfigured = false)
    (hr : (UseBuffersCapture env s buffers num).1 = NO_ERROR)
    (hc : (UseBuffersCapture env s buffers num).2.mCaptureConfigured = true) :
    (UseBuffersCapture env s buffers num).2.trace =
      s.trace ++ pendingPushes s ++
        [Effect.RegisterForEvent Sem.mUseCaptureSem,
          Effect.OMX_SendCommand OMX_COMMANDTYPE.OMX_CommandPortEnable] ++
        registrations buffers 0 (UseBuffersCapture env s buffers num).2.cap.mNumBufs ++
        [Effect.WaitTimeout Sem.mUseCaptureSem, Effect.setupEXIF] ∧
    (UseBuffersCapture env s buffers num).2.mPendingCaptureSettings &&& SetFormat = 0 ∧
    (UseBuffersCapture env s buffers num).2.mPendingCaptureSettings &&& SetThumb = 0 ∧
    (UseBuffersCapture env s buffers num).2.mPendingCaptureSettings &&& SetExpBracket = 0 ∧
    (UseBuffersCapture env s buffers num).2.mPendingCaptureSettings &&& SetQuality = 0 ∧
    (UseBuffersCapture env s buffers num).2.mPendingCaptureSettings &&& SetRotation =
      s.mPendingCaptureSettings &&& SetRotation := by
  have _ := hr
  rw [UseBuffersCapture_blocks] at hc ⊢
  by_cases hsem : s.mUseCaptureSem ≠ 0
  · rw [if_pos hsem] at hc; rw [hs] at hc; cases hc
  rw [if_neg hsem, if_neg (by simp [hs])] at hc ⊢
  simp only [] at hc ⊢
  generalize hs0 : ({ s with cap := { s.cap with mNumBufs := num } } : State) = s0 at hc ⊢
  have hp0 : pushedOf s0 = pushedOf s := by rw [← hs0]; rfl
  have hm0 : s0.mPendingCaptureSettings = s.mPendingCaptureSettings := by rw [← hs0]
  have ht0 : s0.trace = s.trace := by rw [← hs0]
  obtain ⟨t1, m1, p1⟩ := pushFormat_spec env s0
  generalize pushFormat env s0 = r1 at hc t1 m1 p1 ⊢
  by_cases e1 : r1.1 ≠ NO_ERROR
  · rw [if_pos e1] at hc
    have := congrArg (fun p => p.2.2.2.2.2.2.2.1) (p1.trans hp0)
    simp only [pushedOf] at this
    rw [this, hs] at hc; cases hc
  rw [if_neg e1] at hc ⊢
  obtain ⟨t2, m2, p2⟩ := pushThumb_spec env r1
  generalize pushThumb env r1 = r2 at hc t2 m2 p2 ⊢
  by_cases e2 : r2.1 ≠ NO_ERROR
  · rw [if_pos e2] at hc
    have := congrArg (fun p => p.2.2.2.2.2.2.2.1) (p2.trans (p1.trans hp0))
    simp only [pushedOf] at this
    rw [this, hs] at hc; cases hc
  rw [if_neg e2] at hc ⊢
  by_cases e3 : (pushExpBracket r2).1 ≠ NO_ERROR
  · rw [if_pos e3, UseBuffersCaptureExit_configured, pushExpBracket_configured] at hc
    have := congrArg (fun p => p.2.2.2.2.2.2.2.1) (p2.trans (p1.trans hp0))
    simp only [pushedOf] at this
    rw [this, hs] at hc; cases hc
  rw [if_neg e3] at hc ⊢
  obtain ⟨t3, m3, p3⟩ := pushExpBracket_spec r2 (not_not.mp e3)
  generalize pushExpBracket r2 = r3 at hc t3 m3 p3 ⊢
  obtain ⟨t4, m4, p4⟩ := pushQuality_spec env r3
  generalize pushQuality env r3 = r4 at hc t4 m4 p4 ⊢
  have hp4 : pushedOf r4.2 = pushedOf s := p4.trans (p3.trans (p2.trans (p1.trans hp0)))
  have hcf : r4.2.mCaptureConfigured = false := by
    have := congrArg (fun p => p.2.2.2.2.2.2.2.1) hp4
    simp only [pushedOf] at this
    rw [this, hs]
  by_cases e4 : r4.1 ≠ NO_ERROR
  · rw [if_pos e4, UseBuffersCaptureExit_configured, hcf] at hc; cases hc
  rw [if_neg e4] at hc ⊢
  obtain ⟨tE, mE, nE⟩ := UseBuffersCaptureEnable_configures env r4.2 buffers hcf hc
  have hmE : (UseBuffersCaptureEnable env r4.2 buffers).2.mPendingCaptureSettings =
      r4.2.mPendingCaptureSettings := congrArg Prod.fst mE
  have q1 := p1.trans hp0
  have q2 := p2.trans q1
  have q3 := p3.trans q2
  simp only [pushedOf, Prod.mk.injEq] at q1 q2 q3
  -- the bits each block tests are the bits of the mask on entry
  have b1 : s0.mPendingCaptureSettings &&& SetFormat = s.mPendingCaptureSettings &&& SetFormat := by
    rw [hm0]
  have b2 : r1.2.mPendingCaptureSettings &&& SetThumb = s.mPendingCaptureSettings &&& SetThumb := by
    rw [m1, clear_if_other _ _ _ (by decide), hm0]
  have b3 : r2.2.mPendingCaptureSettings &&& SetExpBracket =
      s.mPendingCaptureSettings &&& SetExpBracket := by
    rw [m2, clear_if_other _ _ _ (by decide), m1, clear_if_other _ _ _ (by decide), hm0]
  have b4 : r3.2.mPendingCaptureSettings &&& SetQuality =
      s.mPendingCaptureSettings &&& SetQuality := by
    rw [m3, clear_if_other _ _ _ (by decide), m2, clear_if_other _ _ _ (by decide), m1,
      clear_if_other _ _ _ (by decide), hm0]
  refine ⟨?_, ?_, ?_, ?_, ?_, ?_⟩
  · rw [tE, nE, t4, t3, t2, t1, ht0, b1, b2, b3, b4]
    simp only [pendingPushes, bracketingPush, q1, q2, q3, List.append_assoc]
  · rw [hmE, m4, clear_if_other _ _ _ (by decide), m3, clear_if_other _ _ _ (by decide), m2,
      clear_if_other _ _ _ (by decide), m1]
    exact clear_if_self _ _ (by decide)
  · rw [hmE, m4, clear_if_other _ _ _ (by decide), m3, clear_if_other _ _ _ (by decide), m2]
    exact clear_if_self _ _ (by decide)
  · rw [hmE, m4, clear_if_other _ _ _ (by decide), m3]
    exact clear_if_self _ _ (by decide)
  · rw [hmE, m4]
    exact clear_if_self _ _ (by decide)
  · rw [hmE, m4, clear_if_other _ _ _ (by decide), m3, clear_if_other _ _ _ (by decide), m2,
      clear_if_other _ _ _ (by decide), m1, clear_if_other _ _ _ (by decide), hm0]

/-- Witness of C12 (amended): two buffers, every setting group pending, every call
accepted. -/
theorem UseBuffersCapture_pushes_pending_before_registration_witness :
    allPending.mCaptureConfigured = false ∧
    (UseBuffersCapture Env.allSucceed allPending (fun i => 4096 * i) 2).1 = NO_ERROR ∧
    (UseBuffersCapture Env.allSucceed allPending (fun i => 4096 * i) 2).2.mCaptureConfigured
      = true ∧
    ((UseBuffersCapture Env.allSucceed allPending (fun i => 4096 * i) 2).2.trace =
      allPending.trace ++ pendingPushes allPending ++
        [Effect.RegisterForEvent Sem.mUseCaptureSem,
          Effect.OMX_SendCommand OMX_COMMANDTYPE.OMX_CommandPortEnable] ++
        registrations (fun i => 4096 * i) 0
          (UseBuffersCapture Env.allSucceed allPending (fun i => 4096 * i) 2).2.cap.mNumBufs ++
        [Effect.WaitTimeout Sem.mUseCaptureSem, Effect.setupEXIF] ∧
    (UseBuffersCapture Env.allSucceed allPending (fun i => 4096 * i)
      2).2.mPendingCaptureSettings &&& SetFormat = 0 ∧
    (UseBuffersCapture Env.allSucceed allPending (fun i => 4096 * i)
      2).2.mPendingCaptureSettings &&& SetThumb = 0 ∧
    (UseBuffersCapture Env.allSucceed allPending (fun i => 4096 * i)
      2).2.mPendingCaptureSettings &&& SetExpBracket = 0 ∧
    (UseBuffersCapture Env.allSucceed allPending (fun i => 4096 * i)
      2).2.mPendingCaptureSettings &&& SetQuality = 0 ∧
    (UseBuffersCapture Env.allSucceed allPending (fun i => 4096 * i)
      2).2.mPendingCaptureSettings &&& SetRotation =
      allPending.mPendingCaptureSettings &&& SetRotation) :=
  ⟨rfl, by decide, by decide,
    UseBuffersCapture_pushes_pending_before_registration Env.allSucceed allPending
      (fun i => 4096 * i) 2 rfl (by decide) (by decide)⟩

/-- C12, as stated, fails: with every setting group pending (the mask
`setParametersCapture` leaves during first-time initialisation), two buffers and every
call accepted, `UseBuffersCapture` succeeds and configures the port, yet it has not
pushed the rotation group (no `setPictureRotation` call is made) and the pending mask
on return is `SetRotation`, not zero. -/
theorem UseBuffersCapture_leaves_rotation_pending :
    allPending.mCaptureConfigured = false ∧
    allPending.mPendingCaptureSettings &&& SetRotation ≠ 0 ∧
    (UseBuffersCapture Env.allSucceed allPending (fun i => 4096 * i) 2).1 = NO_ERROR ∧
    (UseBuffersCapture Env.allSucceed allPending (fun i => 4096 * i) 2).2.mCaptureConfigured
      = true ∧
    Effect.setPictureRotation allPending.mPictureRotation ∉
      (UseBuffersCapture Env.allSucceed allPending (fun i => 4096 * i) 2).2.trace ∧
    (UseBuffersCapture Env.allSucceed allPending (fun i => 4096 * i) 2).2.trace =
      [Effect.setFormat, Effect.setThumbnailParams 160 120 100,
        Effect.OMX_SetConfig (Config.OMX_IndexConfigCaptureMode true 1),
        Effect.OMX_SetConfig (Config.OMX_IndexConfigExtCaptureMode false []),
        Effect.setImageQuality 100,
        Effect.RegisterForEvent Sem.mUseCaptureSem,
        Effect.OMX_SendCommand OMX_COMMANDTYPE.OMX_CommandPortEnable,
        Effect.OMX_UseBuffer 0 0, Effect.OMX_UseBuffer 1 4096,
        Effect.WaitTimeout Sem.mUseCaptureSem, Effect.setupEXIF] ∧
    (UseBuffersCapture Env.allSucceed allPending (fun i => 4096 * i)
      2).2.mPendingCaptureSettings = SetRotation ∧
    SetRotation ≠ 0 := by
  decide

/-- C13, evaluated where the code departs from it: on a not-yet-configured port with
every group pending and a release callback registered, a rejected `setFormat` makes
`UseBuffersCapture` return the error at once (`return ret`, not `goto EXIT`): the only
call made is `setFormat`, the release-image-buffers callback is not invoked. The same
holds for a rejected `setThumbnailParams`. A rejected `setImageQuality` leaves through
`EXIT` and does invoke the callback. `mCaptureConfigured` is false in all three. -/
theorem UseBuffersCapture_format_rejected_no_release :
    allPending.mCaptureConfigured = false ∧
    allPending.mReleaseImageBuffersCallback = true ∧
    allPending.mPendingCaptureSettings &&& SetFormat ≠ 0 ∧
    allPending.mPendingCaptureSettings &&& SetThumb ≠ 0 ∧
    (UseBuffersCapture Env.formatRejected allPending (fun i => 4096 * i) 2).1 = -EINVAL ∧
    (UseBuffersCapture Env.formatRejected allPending (fun i => 4096 * i) 2).2.trace =
      [Effect.setFormat] ∧
    Effect.mReleaseImageBuffersCallback ∉
      (UseBuffersCapture Env.formatRejected allPending (fun i => 4096 * i) 2).2.trace ∧
    (UseBuffersCapture Env.formatRejected allPending (fun i => 4096 * i)
      2).2.mCaptureConfigured = false ∧
    (UseBuffersCapture Env.thumbRejected allPending (fun i => 4096 * i) 2).1 = -EINVAL ∧
    (UseBuffersCapture Env.thumbRejected allPending (fun i => 4096 * i) 2).2.trace =
      [Effect.setFormat, Effect.setThumbnailParams 160 120 100] ∧
    Effect.mReleaseImageBuffersCallback ∉
      (UseBuffersCapture Env.thumbRejected allPending (fun i => 4096 * i) 2).2.trace ∧
    (UseBuffersCapture Env.thumbRejected allPending (fun i => 4096 * i)
      2).2.mCaptureConfigured = false ∧
    Effect.mReleaseImageBuffersCallback ∈
      (UseBuffersCapture Env.qualityRejected allPending (fun i => 4096 * i) 2).2.trace ∧
    (UseBuffersCapture Env.qualityRejected allPending (fun i => 4096 * i)
      2).2.mCaptureConfigured = false := by
  decide

theorem forEachBuffer_all_ok (call : Nat → Nat) (eff : Nat → Effect)
    (h : ∀ i, call i = OMX_ErrorNone) (remaining : Nat) :
    ∀ (index : Nat) (s : State) (e : Nat),
      (forEachBuffer call eff remaining index s e).1 =
        { s with trace := s.trace ++ (List.range' index remaining).map eff } ∧
      (forEachBuffer call eff remaining index s e).2.2 = false := by
  induction remaining with
  | zero => intro index s e; simp [forEachBuffer]
  | succ k ih =>
    intro index s e
    unfold forEachBuffer
    simp only [h, ne_eq, not_true_eq_false, if_false]
    obtain ⟨h1, h2⟩ := ih (index + 1) (s.emit (eff index)) OMX_ErrorNone
    rw [h1, h2]
    simp [State.emit, List.range']

theorem Int_lor_ne_zero (a b : Int) (h : a ≠ 0) : Int.lor a b ≠ 0 := by
  cases a with
  | ofNat m =>
    cases b with
    | ofNat n =>
      intro hz
      have hm : m ≠ 0 := fun e => h (by rw [e]; rfl)
      have h0 : m ||| n = 0 := by
        have : ((m ||| n : Nat) : Int) = 0 := hz
        exact_mod_cast this
      apply hm
      apply Nat.eq_of_testBit_eq
      intro i
      have hi := congrArg (fun x => x.testBit i) h0
      simp only [Nat.testBit_or, Nat.zero_testBit, Bool.or_eq_false_iff] at hi
      rw [hi.1, Nat.zero_testBit]
    | negSucc n => intro hz; cases hz
  | negSucc m =>
    cases b with
    | ofNat n => intro hz; cases hz
    | negSucc n => intro hz; cases hz

theorem startImageCaptureRotation_ok (env : Env) (st : State)
    (hrot : env.setPictureRotation = NO_ERROR) :
    (startImageCaptureRotation env st).1 = NO_ERROR ∧
    (startImageCaptureRotation env st).2.trace = st.trace ++ rotationPush st ∧
    (startImageCaptureRotation env st).2.mCapMode = st.mCapMode ∧
    (startImageCaptureRotation env st).2.mComponentState = st.mComponentState ∧
    (startImageCaptureRotation env st).2.cap = st.cap := by
  unfold startImageCaptureRotation rotationPush
  split_ifs
  · exact ⟨hrot, rfl, rfl, rfl, rfl⟩
  · simp

theorem startImageCaptureShutter_ok (env : Env) (r : Int × State)
    (hr : r.1 = NO_ERROR)
    (hmode : r.2.mCapMode = CaptureMode.HIGH_QUALITY ∨ r.2.mCapMode = CaptureMode.HIGH_QUALITY_ZSL)
    (hexec : r.2.mComponentState = OMX_STATETYPE.OMX_StateExecuting)
    (hreg : env.RegisterForEvent = NO_ERROR)
    (hcfgs : ∀ c, env.OMX_SetConfig c = OMX_ErrorNone) :
    (startImageCaptureShutter env r).1 = NO_ERROR ∧
    (startImageCaptureShutter env r).2.trace = r.2.trace ++
      [Effect.RegisterForEvent Sem.mStartCaptureSem,
        Effect.OMX_SetConfig (Config.OMX_IndexConfigCallbackRequest true)] ∧
    (startImageCaptureShutter env r).2.mCapMode = r.2.mCapMode ∧
    (startImageCaptureShutter env r).2.mComponentState = r.2.mComponentState ∧
    (startImageCaptureShutter env r).2.cap = r.2.cap := by
  unfold startImageCaptureShutter
  rw [if_pos hmode]
  simp only [hr, hreg, if_true]
  unfold setShutterCallback
  simp [State.emit, hexec, hcfgs]

theorem startImageCaptureWait_timeout (env : Env) (st : State) (e : Nat)
    (hmode : st.mCapMode = CaptureMode.HIGH_QUALITY ∨ st.mCapMode = CaptureMode.HIGH_QUALITY_ZSL)
    (hexec : st.mComponentState = OMX_STATETYPE.OMX_StateExecuting)
    (hto : env.WaitTimeout Sem.mStartCaptureSem ≠ NO_ERROR)
    (hinv : env.invalidatedDuringWait = false) :
    (startImageCaptureWait env st NO_ERROR e).1 =
      Int.lor (Int.lor (env.WaitTimeout Sem.mStartCaptureSem) env.RemoveEvent)
        (env.omxToAndroidError e) ∧
    (startImageCaptureWait env st NO_ERROR e).2.trace = st.trace ++
      [Effect.WaitTimeout Sem.mStartCaptureSem, Effect.RemoveEvent,
        Effect.performCleanupAfterError] ∧
    (startImageCaptureWait env st NO_ERROR e).2.mWaitingForSnapshot = false ∧
    (startImageCaptureWait env st NO_ERROR e).2.mCaptureSignalled = false := by
  have hw : (st.wait env Sem.mStartCaptureSem).mComponentState ≠
      OMX_STATETYPE.OMX_StateInvalid := by
    unfold State.wait
    simp [hinv, State.emit, hexec]
  unfold startImageCaptureWait
  rw [if_pos hmode]
  simp only [if_true]
  rw [if_neg hw, if_neg hto]
  unfold startImageCaptureExit
  simp [State.emit, trace_wait]

theorem startImageCaptureQueue_timeout (env : Env) (r : Int × State)
    (hr : r.1 = NO_ERROR)
    (hmode : r.2.mCapMode = CaptureMode.HIGH_QUALITY ∨ r.2.mCapMode = CaptureMode.HIGH_QUALITY_ZSL)
    (hexec : r.2.mComponentState = OMX_STATETYPE.OMX_StateExecuting)
    (hcfgs : ∀ c, env.OMX_SetConfig c = OMX_ErrorNone)
    (hfill : ∀ i, env.OMX_FillThisBuffer i = OMX_ErrorNone)
    (hto : env.WaitTimeout Sem.mStartCaptureSem ≠ NO_ERROR)
    (hinv : env.invalidatedDuringWait = false) :
    (startImageCaptureQueue env r).1 =
      Int.lor (Int.lor (env.WaitTimeout Sem.mStartCaptureSem) env.RemoveEvent)
        (env.omxToAndroidError OMX_ErrorNone) ∧
    (startImageCaptureQueue env r).2.trace = r.2.trace ++ fills 0 r.2.cap.mNumBufs ++
      [Effect.OMX_SetConfig (Config.OMX_IndexConfigCapturing true),
        Effect.WaitTimeout Sem.mStartCaptureSem, Effect.RemoveEvent,
        Effect.performCleanupAfterError] ∧
    (startImageCaptureQueue env r).2.mWaitingForSnapshot = false ∧
    (startImageCaptureQueue env r).2.mCaptureSignalled = false := by
  obtain ⟨q1, q2⟩ := forEachBuffer_all_ok env.OMX_FillThisBuffer Effect.OMX_FillThisBuffer
    hfill r.2.cap.mNumBufs 0 r.2 OMX_ErrorNone
  have hnv : ¬ (r.2.mCapMode = CaptureMode.VIDEO_MODE) := by
    rcases hmode with h | h <;> rw [h] <;> decide
  unfold startImageCaptureQueue
  rw [if_pos hr]
  simp only [q2, Bool.false_eq_true, if_false, q1, State.emit, ne_eq, hnv, not_false_eq_true,
    if_true, hcfgs, not_true_eq_false, hr]
  obtain ⟨w1, w2, w3, w4⟩ := startImageCaptureWait_timeout env
    { r.2 with
      trace := r.2.trace ++ List.map Effect.OMX_FillThisBuffer (List.range' 0 r.2.cap.mNumBufs)
        ++ [Effect.OMX_SetConfig (Config.OMX_IndexConfigCapturing true)]
      mWaitingForSnapshot := true
      mCaptureSignalled := false } OMX_ErrorNone hmode hexec hto hinv
  refine ⟨w1, ?_, w3, w4⟩
  rw [w2]
  simp [fills]

/-- C14 (amended): in a high quality capture mode with the port configured, when every
step up to the shutter wait is accepted and the bounded wait on `mStartCaptureSem`
times out (the component still valid), `startImageCapture` removes the shutter event
registration, leaves through its `EXIT` label, which clears `mWaitingForSnapshot` and
`mCaptureSignalled` and runs `performCleanupAfterError` without invoking the
release-image-buffers callback, and returns a non-zero status: the wait status OR-ed
with the status of `RemoveEvent` and with the translated driver error. -/
theorem startImageCapture_shutter_timeout (env : Env) (fuel : Nat) (s : State)
    (hcfg : s.mCaptureConfigured = true) (hsem : s.mStartCaptureSem = 0)
    (hbr : s.mBracketingEnabled = false)
    (hmode : s.mCapMode = CaptureMode.HIGH_QUALITY ∨ s.mCapMode = CaptureMode.HIGH_QUALITY_ZSL)
    (hexec : s.mComponentState = OMX_STATETYPE.OMX_StateExecuting)
    (hrot : env.setPictureRotation = NO_ERROR)
    (hreg : env.RegisterForEvent = NO_ERROR)
    (hcfgs : ∀ c, env.OMX_SetConfig c = OMX_ErrorNone)
    (hfill : ∀ i, env.OMX_FillThisBuffer i = OMX_ErrorNone)
    (hto : env.WaitTimeout Sem.mStartCaptureSem ≠ NO_ERROR)
    (hinv : env.invalidatedDuringWait = false) :
    ∃ r, startImageCapture env fuel s = some r ∧
      r.1 = Int.lor (Int.lor (env.WaitTimeout Sem.mStartCaptureSem) env.RemoveEvent)
        (env.omxToAndroidError OMX_ErrorNone) ∧
      r.1 ≠ NO_ERROR ∧
      r.2.trace = s.trace ++ [Effect.pauseFaceDetection true] ++ rotationPush s ++
        [Effect.RegisterForEvent Sem.mStartCaptureSem,
          Effect.OMX_SetConfig (Config.OMX_IndexConfigCallbackRequest true)] ++
        fills 0 s.cap.mNumBufs ++
        [Effect.OMX_SetConfig (Config.OMX_IndexConfigCapturing true),
          Effect.WaitTimeout Sem.mStartCaptureSem, Effect.RemoveEvent,
          Effect.performCleanupAfterError] ∧
      r.2.trace.count Effect.mReleaseImageBuffersCallback =
        s.trace.count Effect.mReleaseImageBuffersCallback ∧
      r.2.mWaitingForSnapshot = false ∧ r.2.mCaptureSignalled = false := by
  obtain ⟨a1, a2, a3, a4, a5⟩ :=
    startImageCaptureRotation_ok env (s.emit (Effect.pauseFaceDetection true)) hrot
  obtain ⟨b1, b2, b3, b4, b5⟩ := startImageCaptureShutter_ok env
    (startImageCaptureRotation env (s.emit (Effect.pauseFaceDetection true))) a1
    (by rw [a3]; exact hmode) (by rw [a4]; exact hexec) hreg hcfgs
  obtain ⟨c1, c2, c3, c4⟩ := startImageCaptureQueue_timeout env
    (startImageCaptureShutter env
      (startImageCaptureRotation env (s.emit (Effect.pauseFaceDetection true)))) b1
    (by rw [b3, a3]; exact hmode) (by rw [b4, a4]; exact hexec) hcfgs hfill hto hinv
  have htr : (startImageCaptureQueue env (startImageCaptureShutter env
      (startImageCaptureRotation env (s.emit (Effect.pauseFaceDetection true))))).2.trace =
      s.trace ++ [Effect.pauseFaceDetection true] ++ rotationPush s ++
        [Effect.RegisterForEvent Sem.mStartCaptureSem,
          Effect.OMX_SetConfig (Config.OMX_IndexConfigCallbackRequest true)] ++
        fills 0 s.cap.mNumBufs ++
        [Effect.OMX_SetConfig (Config.OMX_IndexConfigCapturing true),
          Effect.WaitTimeout Sem.mStartCaptureSem, Effect.RemoveEvent,
          Effect.performCleanupAfterError] := by
    rw [c2, b2, a2, b5, a5]
    rfl
  refine ⟨startImageCaptureQueue env (startImageCaptureShutter env
    (startImageCaptureRotation env (s.emit (Effect.pauseFaceDetection true)))), ?_, c1, ?_,
    htr, ?_, c3, c4⟩
  · unfold startImageCapture
    simp [hcfg, hsem, hbr, State.emit]
  · rw [c1]
    exact Int_lor_ne_zero _ _ (Int_lor_ne_zero _ _ hto)
  · rw [htr]
    unfold rotationPush fills
    split_ifs <;> simp [List.count_eq_zero_of_not_mem]

/-- Witness of C14 (amended): a configured port with two buffers in high quality mode,
the shutter wait timing out. -/
theorem startImageCapture_shutter_timeout_witness :
    configured2.mCaptureConfigured = true ∧
    configured2.mCapMode = CaptureMode.HIGH_QUALITY ∧
    Env.shutterTimeout.WaitTimeout Sem.mStartCaptureSem ≠ NO_ERROR ∧
    ∃ r, startImageCapture Env.shutterTimeout 0 configured2 = some r ∧
      r.1 = Int.lor (Int.lor (Env.shutterTimeout.WaitTimeout Sem.mStartCaptureSem)
          Env.shutterTimeout.RemoveEvent)
        (Env.shutterTimeout.omxToAndroidError OMX_ErrorNone) ∧
      r.1 ≠ NO_ERROR ∧
      r.2.trace = configured2.trace ++ [Effect.pauseFaceDetection true] ++
        rotationPush configured2 ++
        [Effect.RegisterForEvent Sem.mStartCaptureSem,
          Effect.OMX_SetConfig (Config.OMX_IndexConfigCallbackRequest true)] ++
        fills 0 configured2.cap.mNumBufs ++
        [Effect.OMX_SetConfig (Config.OMX_IndexConfigCapturing true),
          Effect.WaitTimeout Sem.mStartCaptureSem, Effect.RemoveEvent,
          Effect.performCleanupAfterError] ∧
      r.2.trace.count Effect.mReleaseImageBuffersCallback =
        configured2.trace.count Effect.mReleaseImageBuffersCallback ∧
      r.2.mWaitingForSnapshot = false ∧ r.2.mCaptureSignalled = false :=
  ⟨rfl, rfl, by decide,
    startImageCapture_shutter_timeout Env.shutterTimeout 0 configured2 rfl rfl rfl
      (Or.inl rfl) rfl rfl rfl (fun _ => rfl) (fun _ => rfl) (by decide) rfl⟩

/-- C14, as stated, fails: in high quality mode with the port configured (two buffers),
a release callback registered and the shutter wait timing out, `startImageCapture`
leaves through its own `EXIT` label, which does not invoke the release-image-buffers
callback: the calls made end with the wait, `RemoveEvent` and
`performCleanupAfterError`. The `EXIT` labels of `UseBuffersCapture` and
`stopImageCapture` do invoke it. -/
theorem startImageCapture_timeout_no_release_callback :
    configured2.mCaptureConfigured = true ∧
    configured2.mCapMode = CaptureMode.HIGH_QUALITY ∧
    configured2.mReleaseImageBuffersCallback = true ∧
    (startImageCapture Env.shutterTimeout 0 configured2).map (fun r => r.2.trace) =
      some [Effect.pauseFaceDetection true, Effect.setPictureRotation 0,
        Effect.RegisterForEvent Sem.mStartCaptureSem,
        Effect.OMX_SetConfig (Config.OMX_IndexConfigCallbackRequest true),
        Effect.OMX_FillThisBuffer 0, Effect.OMX_FillThisBuffer 1,
        Effect.OMX_SetConfig (Config.OMX_IndexConfigCapturing true),
        Effect.WaitTimeout Sem.mStartCaptureSem, Effect.RemoveEvent,
        Effect.performCleanupAfterError] ∧
    (startImageCapture Env.shutterTimeout 0 configured2).map
      (fun r => decide (Effect.mReleaseImageBuffersCallback ∈ r.2.trace)) = some false ∧
    Effect.mReleaseImageBuffersCallback ∈
      (UseBuffersCaptureExit Env.shutterTimeout configured2 (-110) OMX_ErrorNone).2.trace ∧
    Effect.mReleaseImageBuffersCallback ∈
      (stopImageCaptureExit Env.shutterTimeout configured2 (-110) OMX_ErrorNone).2.trace := by
  decide

/-- C15, evaluated where the code departs from it: the component is found in
`OMX_StateInvalid` when the bounded wait returns, the wait itself returned `NO_ERROR`
and no driver call had failed (`omxToAndroidError(OMX_ErrorNone)` is `NO_ERROR`). Each
of `UseBuffersCapture`, `startImageCapture`, `stopImageCapture` and `disableImagePort`
leaves through its `EXIT` label and returns `ret | omxToAndroidError(eError)`, which is
`NO_ERROR`. -/
theorem invalid_state_after_wait_returns_NO_ERROR :
    Env.invalidated.omxToAndroidError OMX_ErrorNone = NO_ERROR ∧
    (UseBuffersCapture Env.invalidated allPending (fun i => 4096 * i) 2).2.mComponentState
      = OMX_STATETYPE.OMX_StateInvalid ∧
    Effect.WaitTimeout Sem.mUseCaptureSem ∈
      (UseBuffersCapture Env.invalidated allPending (fun i => 4096 * i) 2).2.trace ∧
    (UseBuffersCapture Env.invalidated allPending (fun i => 4096 * i) 2).1 = NO_ERROR ∧
    (startImageCapture Env.invalidated 0 configured2).map
      (fun r => (r.1, r.2.mComponentState,
        decide (Effect.WaitTimeout Sem.mStartCaptureSem ∈ r.2.trace),
        decide (Effect.performCleanupAfterError ∈ r.2.trace)))
      = some (NO_ERROR, OMX_STATETYPE.OMX_StateInvalid, true, true) ∧
    (stopImageCapture Env.invalidated configured2).2.mComponentState
      = OMX_STATETYPE.OMX_StateInvalid ∧
    Effect.WaitTimeout Sem.mCaptureSem ∈ (stopImageCapture Env.invalidated configured2).2.trace ∧
    (stopImageCapture Env.invalidated configured2).1 = NO_ERROR ∧
    (disableImagePort Env.invalidated configured2).2.mComponentState
      = OMX_STATETYPE.OMX_StateInvalid ∧
    Effect.WaitTimeout Sem.mStopCaptureSem ∈
      (disableImagePort Env.invalidated configured2).2.trace ∧
    (disableImagePort Env.invalidated configured2).1 = NO_ERROR := by
  decide


/-- C25: for every ledger state and every filled buffer of index `i`: while the
component is executing and `i` is below the ring size `n`, `doBracketing` returns
`NO_ERROR`, marks slot `i` not queued and decrements the queued count; exactly when the
resulting count is `<= 0` it also marks slot `(i + 1) mod n` queued, increments the
count, records that slot as the last bracketing index, sets its frame reference count
to 1 and returns it to the hardware queue (these two calls, in this order, are the only
ones); otherwise no call is made and the last index is kept. When the component is not
executing or `i >= n` it returns `-EINVAL` and the state is unchanged. -/
theorem doBracketing_marks_and_requeues (s : State) (i : Nat) (t : FrameType) :
    ((s.mComponentState = OMX_STATETYPE.OMX_StateExecuting ∧ i < s.cap.mNumBufs) →
      (doBracketing s i t).1 = NO_ERROR ∧
      (s.mBracketingBuffersQueuedCount - 1 ≤ 0 →
        (doBracketing s i t).2 = { s with
          mBracketingBuffersQueued :=
            (s.mBracketingBuffersQueued.set i false).set ((i + 1) % s.cap.mNumBufs) true
          mBracketingBuffersQueuedCount := s.mBracketingBuffersQueuedCount - 1 + 1
          mLastBracetingBufferIdx := (((i + 1) % s.cap.mNumBufs : Nat) : Int)
          trace := s.trace ++
            [Effect.setFrameRefCount ((i + 1) % s.cap.mNumBufs) t 1,
              Effect.returnFrame ((i + 1) % s.cap.mNumBufs) t] }) ∧
      (¬ s.mBracketingBuffersQueuedCount - 1 ≤ 0 →
        (doBracketing s i t).2 = { s with
          mBracketingBuffersQueued := s.mBracketingBuffersQueued.set i false
          mBracketingBuffersQueuedCount := s.mBracketingBuffersQueuedCount - 1 })) ∧
    (¬ (s.mComponentState = OMX_STATETYPE.OMX_StateExecuting ∧ i < s.cap.mNumBufs) →
      doBracketing s i t = (-EINVAL, s)) := by
  unfold doBracketing
  dsimp only
  constructor
  · rintro ⟨h1, h2⟩
    rw [if_neg (by simp [h1]), if_neg (by omega)]
    refine ⟨by split_ifs <;> rfl, fun h => ?_, fun h => ?_⟩
    · rw [if_pos (by omega)]
      simp [State.emit]
    · rw [if_neg (by omega)]
  · intro h
    by_cases h1 : s.mComponentState = OMX_STATETYPE.OMX_StateExecuting
    · rw [if_neg (by simp [h1]), if_pos (by by_contra h2; exact h ⟨h1, by omega⟩)]
    · rw [if_pos h1]

/-- Witness of C25 on the ring of three buffers right after `startBracketing`: the
fill of slot 0 leaves two slots queued and makes no call. -/
theorem doBracketing_marks_and_requeues_witness :
    (doBracketing ring3 0 FrameType.IMAGE_FRAME).1 = NO_ERROR ∧
    (doBracketing ring3 0 FrameType.IMAGE_FRAME).2 = { ring3 with
      mBracketingBuffersQueued := ring3.mBracketingBuffersQueued.set 0 false
      mBracketingBuffersQueuedCount := ring3.mBracketingBuffersQueuedCount - 1 } ∧
    (doBracketing ring3 0 FrameType.IMAGE_FRAME).2.mBracketingBuffersQueued =
      [false, true, true] :=
  ⟨((doBracketing_marks_and_requeues ring3 0 FrameType.IMAGE_FRAME).1
      ⟨rfl, by decide⟩).1,
    ((doBracketing_marks_and_requeues ring3 0 FrameType.IMAGE_FRAME).1
      ⟨rfl, by decide⟩).2.2 (by decide),
    by decide⟩

theorem count_true_set_false (l : List Bool) (i : Nat) (h : l.get? i = some true) :
    (l.set i false).count true + 1 = l.count true := by
  induction l generalizing i with
  | nil => simp at h
  | cons a rest ih =>
    cases i with
    | zero =>
      simp only [List.get?_cons_zero, Option.some.injEq] at h
      subst h
      simp
    | succ j =>
      simp only [List.get?_cons_succ] at h
      have := ih j h
      cases a <;> simp [List.set, List.count_cons] <;> omega

theorem count_true_set_true (l : List Bool) (i : Nat) (h : l.get? i = some false) :
    (l.set i true).count true = l.count true + 1 := by
  induction l generalizing i with
  | nil => simp at h
  | cons a rest ih =>
    cases i with
    | zero =>
      simp only [List.get?_cons_zero, Option.some.injEq] at h
      subst h
      simp
    | succ j =>
      simp only [List.get?_cons_succ] at h
      have := ih j h
      cases a <;> simp [List.set, List.count_cons] <;> omega

theorem get?_of_count_true_zero (l : List Bool) (h : l.count true = 0) (j : Nat)
    (hj : j < l.length) : l.get? j = some false := by
  rw [List.count_eq_zero] at h
  rw [List.get?_eq_get hj]
  cases hv : l.get ⟨j, hj⟩ with
  | false => rfl
  | true => exact absurd (hv ▸ List.get_mem l j hj) h

theorem doBracketing_keeps_ledger (n : Nat) (hn : 1 ≤ n) (s : State) (c : OMX_STATETYPE)
    (i : Nat) (t : FrameType)
    (hcap : s.cap.mNumBufs = n) (hlen : s.mBracketingBuffersQueued.length = n)
    (hcount : s.mBracketingBuffersQueuedCount = (queuedSlots s : Int))
    (hpos : 1 ≤ s.mBracketingBuffersQueuedCount)
    (hlast : 0 ≤ s.mLastBracetingBufferIdx ∧ s.mLastBracetingBufferIdx < (n : Int))
    (hq : s.mBracketingBuffersQueued.get? i = some true) :
    (doBracketing { s with mComponentState := c } i t).2.cap.mNumBufs = n ∧
    (doBracketing { s with mComponentState := c } i t).2.mBracketingBuffersQueued.length = n ∧
    (doBracketing { s with mComponentState := c } i t).2.mBracketingBuffersQueuedCount =
      (queuedSlots (doBracketing { s with mComponentState := c } i t).2 : Int) ∧
    1 ≤ (doBracketing { s with mComponentState := c } i t).2.mBracketingBuffersQueuedCount ∧
    0 ≤ (doBracketing { s with mComponentState := c } i t).2.mLastBracetingBufferIdx ∧
    (doBracketing { s with mComponentState := c } i t).2.mLastBracetingBufferIdx < (n : Int) := by
  have hi : i < n := by
    rw [← hlen]
    by_contra hge
    rw [List.get?_eq_none.mpr (by omega)] at hq
    cases hq
  have hc1 := count_true_set_false _ _ hq
  unfold queuedSlots at hcount ⊢
  unfold doBracketing
  dsimp only
  by_cases h1 : c ≠ OMX_STATETYPE.OMX_StateExecuting
  · rw [if_pos h1]
    exact ⟨hcap, hlen, hcount, hpos, hlast.1, hlast.2⟩
  rw [if_neg h1, if_neg (by omega)]
  by_cases h2 : 0 ≥ s.mBracketingBuffersQueuedCount - 1
  · rw [if_pos h2]
    have hz : (s.mBracketingBuffersQueued.set i false).count true = 0 := by omega
    have hnext : (i + 1) % s.cap.mNumBufs < n := by
      rw [hcap]; exact Nat.mod_lt _ (by omega)
    have hf := get?_of_count_true_zero _ hz ((i + 1) % s.cap.mNumBufs)
      (by rw [List.length_set, hlen]; exact hnext)
    have hc2 := count_true_set_true _ _ hf
    simp only [State.emit, List.length_set]
    refine ⟨hcap, hlen, ?_, ?_, ?_, ?_⟩
    · rw [hc2]; push_cast; omega
    · omega
    · exact Int.natCast_nonneg _
    · exact_mod_cast hnext
  · rw [if_neg h2]
    simp only [List.length_set]
    refine ⟨hcap, hlen, ?_, ?_, hlast.1, hlast.2⟩
    · omega
    · omega

theorem ledgerStates_keep_ledger (n : Nat) (hn : 1 ≤ n) (fills : List Fill) :
    ∀ s : State, s.cap.mNumBufs = n → s.mBracketingBuffersQueued.length = n →
      s.mBracketingBuffersQueuedCount = (queuedSlots s : Int) →
      1 ≤ s.mBracketingBuffersQueuedCount →
      (0 ≤ s.mLastBracetingBufferIdx ∧ s.mLastBracetingBufferIdx < (n : Int)) →
      onQueuedSlots s fills = true →
      ∀ t ∈ ledgerStates s fills,
        t.mBracketingBuffersQueuedCount = (queuedSlots t : Int) ∧
        1 ≤ t.mBracketingBuffersQueuedCount ∧ t.mBracketingBuffersQueuedCount ≤ (n : Int) ∧
        0 ≤ t.mLastBracetingBufferIdx ∧ t.mLastBracetingBufferIdx < (n : Int) := by
  induction fills with
  | nil => intro s _ _ _ _ _ _ t ht; simp [ledgerStates] at ht
  | cons f rest ih =>
    intro s hcap hlen hcount hpos hlast hq t ht
    simp only [onQueuedSlots, Bool.and_eq_true, decide_eq_true_eq] at hq
    obtain ⟨h1, h2, h3, h4, h5, h6⟩ := doBracketing_keeps_ledger n hn s f.componentState
      f.index f.typeOfFrame hcap hlen hcount hpos hlast hq.1
    simp only [ledgerStates, List.mem_cons] at ht
    rcases ht with rfl | ht
    · refine ⟨h3, h4, ?_, h5, h6⟩
      rw [h3]
      unfold queuedSlots
      have := List.count_le_length true
        (doBracketing { s with mComponentState := f.componentState } f.index
          f.typeOfFrame).2.mBracketingBuffersQueued
      rw [h2] at this
      exact_mod_cast this
    · exact ih _ h1 h2 h3 h4 ⟨h5, h6⟩ hq.2 t ht

/-- C26: from the ledger state `startBracketing` sets up for `n >= 1` buffers, for every
sequence of `doBracketing` calls each made on a slot that is marked queued when the
call is made (in whatever state the component is), after every call the queued count
equals the number of slots marked queued, lies in the range `1..n`, and the last
bracketing index is at least 0 and below `n`. -/
theorem doBracketing_run_keeps_ledger_invariant (n : Nat) (hn : 1 ≤ n) (s : State)
    (hs : LedgerAfterStart n s) (fills : List Fill) (hq : onQueuedSlots s fills = true) :
    ∀ t ∈ ledgerStates s fills,
      t.mBracketingBuffersQueuedCount = (queuedSlots t : Int) ∧
      1 ≤ t.mBracketingBuffersQueuedCount ∧ t.mBracketingBuffersQueuedCount ≤ (n : Int) ∧
      0 ≤ t.mLastBracetingBufferIdx ∧ t.mLastBracetingBufferIdx < (n : Int) := by
  obtain ⟨h1, h2, h3, h4⟩ := hs
  refine ledgerStates_keep_ledger n hn fills s h1 (by rw [h2]; simp) ?_ ?_ ?_ hq
  · rw [h3]; unfold queuedSlots; rw [h2]; simp
  · rw [h3]; exact_mod_cast hn
  · rw [h4]; omega

/-- Witness of C26 on a ring of three buffers filled in the order 0, 1, 2, 0, 1: the
queued counts after the calls are 2, 1, 1, 1, 1. -/
theorem doBracketing_run_keeps_ledger_invariant_witness :
    onQueuedSlots ring3 fills3 = true ∧
    (ledgerStates ring3 fills3).map
      (fun t => (t.mBracketingBuffersQueuedCount, queuedSlots t, t.mLastBracetingBufferIdx))
      = [(2, 2, 2), (1, 1, 2), (1, 1, 0), (1, 1, 1), (1, 1, 2)] ∧
    ∀ t ∈ ledgerStates ring3 fills3,
      t.mBracketingBuffersQueuedCount = (queuedSlots t : Int) ∧
      1 ≤ t.mBracketingBuffersQueuedCount ∧ t.mBracketingBuffersQueuedCount ≤ ((3 : Nat) : Int) ∧
      0 ≤ t.mLastBracetingBufferIdx ∧ t.mLastBracetingBufferIdx < ((3 : Nat) : Int) :=
  ⟨by decide, by decide,
    doBracketing_run_keeps_ledger_invariant 3 (by decide) ring3 ⟨rfl, rfl, rfl, rfl⟩ fills3
      (by decide)⟩

theorem visited_step (n last k : Nat) :
    ((((last + k) % n : Nat) : Int) + 1) % (n : Int) = (((last + 1 + k) % n : Nat) : Int) := by
  have h : (last + 1 + k) % n = ((last + k) % n + 1) % n := by
    rw [show last + 1 + k = (last + k) + 1 by omega]
    exact ((Nat.mod_modEq (last + k) n).add_right 1).symm
  rw [h]
  push_cast
  rfl

theorem visited_ne_last (n last k : Nat) (hl : last < n) (hk : k + 1 < n) :
    (last + 1 + k) % n ≠ last := by
  intro h
  have h1 : (last + (k + 1)) % n = (last + 0) % n := by
    rw [show last + (k + 1) = last + 1 + k by omega, h, Nat.add_zero, Nat.mod_eq_of_lt hl]
  have h2 : (k + 1) % n = 0 % n := Nat.ModEq.add_left_cancel' last h1
  rw [Nat.mod_eq_of_lt hk] at h2
  simp at h2

theorem visited_last (n last k : Nat) (hl : last < n) (hk : k + 1 = n) :
    (last + 1 + k) % n = last := by
  rw [show last + 1 + k = last + n by omega, Nat.add_mod_right, Nat.mod_eq_of_lt hl]

theorem sendBracketFramesLoop_step (s : State) (tr : List Effect) (c : Int) (j : Nat)
    (q : Bool) (fuel : Nat)
    (hidx : (c + 1) % ((s.cap.mNumBufs : Nat) : Int) = (j : Int))
    (hq : s.mBracketingBuffersQueued.get? j = some q) :
    sendBracketFramesLoop (fuel + 1) { s with trace := tr } c =
      if (j : Int) ≠ s.mLastBracetingBufferIdx then
        sendBracketFramesLoop fuel
          { s with trace := tr ++ (if q then [] else [Effect.sendCallBacks j]) } (j : Int)
      else some { s with trace := tr ++ (if q then [] else [Effect.sendCallBacks j]) } := by
  rw [sendBracketFramesLoop]
  dsimp only
  rw [hidx, Int.toNat_ofNat, hq]
  dsimp only
  cases q
  · simp only [Bool.not_false, if_true, State.emit, Bool.false_eq_true, if_false]
  · simp only [Bool.not_true, Bool.false_eq_true, if_false, if_true, List.append_nil]

theorem frameCallbacks_cons (s : State) (j : Nat) (q : Bool) (rest : List Nat)
    (hq : s.mBracketingBuffersQueued.get? j = some q) :
    frameCallbacks s (j :: rest) =
      (if q then [] else [Effect.sendCallBacks j]) ++ frameCallbacks s rest := by
  unfold frameCallbacks
  rw [List.get?_eq_getElem?] at hq
  cases q <;> simp [List.filter_cons, hq]

theorem sendBracketFramesLoop_spec (s : State) (n last : Nat) (hn : s.cap.mNumBufs = n)
    (hl : last < n) (hlast : s.mLastBracetingBufferIdx = (last : Int))
    (hlen : s.mBracketingBuffersQueued.length = n) :
    ∀ (m k : Nat) (tr : List Effect), k + m = n → 1 ≤ m →
      (∀ fuel, m ≤ fuel →
        sendBracketFramesLoop fuel { s with trace := tr } (((last + k) % n : Nat) : Int) =
          some { s with trace := tr ++
            frameCallbacks s ((List.range' k m).map (fun j => (last + 1 + j) % n)) }) ∧
      (∀ fuel, fuel < m →
        sendBracketFramesLoop fuel { s with trace := tr } (((last + k) % n : Nat) : Int) =
          none) := by
  intro m
  induction m with
  | zero => intro k tr _ h; omega
  | succ m ih =>
    intro k tr hkm _
    have hidx : ((((last + k) % n : Nat) : Int) + 1) % ((s.cap.mNumBufs : Nat) : Int) =
        (((last + 1 + k) % n : Nat) : Int) := by
      rw [hn]; exact visited_step n last k
    have hlt : (last + 1 + k) % n < s.mBracketingBuffersQueued.length := by
      rw [hlen]; exact Nat.mod_lt _ (by omega)
    obtain ⟨q, hq⟩ : ∃ q, s.mBracketingBuffersQueued.get? ((last + 1 + k) % n) = some q :=
      ⟨_, List.get?_eq_get hlt⟩
    have hcons : frameCallbacks s
        ((List.range' k (m + 1)).map (fun j => (last + 1 + j) % n)) =
        (if q then [] else [Effect.sendCallBacks ((last + 1 + k) % n)]) ++
          frameCallbacks s ((List.range' (k + 1) m).map (fun j => (last + 1 + j) % n)) := by
      rw [List.range'_succ, List.map_cons]
      exact frameCallbacks_cons s _ q _ hq
    have hk1 : (last + (k + 1)) % n = (last + 1 + k) % n := by
      rw [show last + (k + 1) = last + 1 + k by omega]
    by_cases hm : m = 0
    · subst hm
      have hend : (((last + 1 + k) % n : Nat) : Int) = s.mLastBracetingBufferIdx := by
        rw [hlast, visited_last n last k hl (by omega)]
      constructor
      · intro fuel hf
        obtain ⟨f, rfl⟩ : ∃ f, fuel = f + 1 := ⟨fuel - 1, by omega⟩
        rw [sendBracketFramesLoop_step s tr _ _ q f hidx hq, if_neg (by simp [hend]), hcons]
        simp [frameCallbacks]
      · intro fuel hf
        have : fuel = 0 := by omega
        subst this
        rfl
    · have hne : ((((last + 1 + k) % n : Nat) : Int)) ≠ s.mLastBracetingBufferIdx := by
        rw [hlast]; exact_mod_cast visited_ne_last n last k hl (by omega)
      obtain ⟨ih1, ih2⟩ := ih (k + 1)
        (tr ++ (if q then [] else [Effect.sendCallBacks ((last + 1 + k) % n)]))
        (by omega) (by omega)
      rw [hk1] at ih1 ih2
      constructor
      · intro fuel hf
        obtain ⟨f, rfl⟩ : ∃ f, fuel = f + 1 := ⟨fuel - 1, by omega⟩
        rw [sendBracketFramesLoop_step s tr _ _ q f hidx hq, if_pos hne, ih1 f (by omega),
          hcons, List.append_assoc]
      · intro fuel hf
        cases fuel with
        | zero => rfl
        | succ f =>
          rw [sendBracketFramesLoop_step s tr _ _ q f hidx hq, if_pos hne, ih2 f (by omega)]

theorem visited_nodup (n last : Nat) : (visited n last).Nodup := by
  unfold visited
  refine List.Nodup.map_on ?_ (List.nodup_range n)
  intro a ha b hb h
  rw [List.mem_range] at ha hb
  have h2 : a % n = b % n := Nat.ModEq.add_left_cancel' (last + 1) h
  rwa [Nat.mod_eq_of_lt ha, Nat.mod_eq_of_lt hb] at h2

theorem mem_visited (n last j : Nat) (hl : last < n) (hj : j < n) : j ∈ visited n last := by
  unfold visited
  rw [List.mem_map]
  by_cases h : last < j
  · refine ⟨j - last - 1, List.mem_range.mpr (by omega), ?_⟩
    rw [show last + 1 + (j - last - 1) = j by omega, Nat.mod_eq_of_lt hj]
  · refine ⟨j + n - last - 1, List.mem_range.mpr (by omega), ?_⟩
    rw [show last + 1 + (j + n - last - 1) = j + n by omega, Nat.add_mod_right,
      Nat.mod_eq_of_lt hj]

/-- C27: for every ring size `n >= 1` whose ledger array has `n` entries and every last
bracketing index `last` in `[0, n)`, while the component is executing, the loop of
`sendBracketFrames` ends after exactly `n` iterations (with `n` or more iterations
allowed the function returns `NO_ERROR`, with fewer the loop has not ended), the slots
it visits are `(last + 1) mod n, ..., last` in this order, each slot of the ring exactly
once, the last one being `last`, and the calls it makes are the frame callbacks for
exactly the visited slots that are not marked queued, in the order of the visit;
nothing else in the state changes. -/
theorem sendBracketFrames_visits_ring_once (s : State) (n last : Nat) (hn : 1 ≤ n)
    (hexec : s.mComponentState = OMX_STATETYPE.OMX_StateExecuting)
    (hcap : s.cap.mNumBufs = n) (hl : last < n)
    (hlast : s.mLastBracetingBufferIdx = (last : Int))
    (hlen : s.mBracketingBuffersQueued.length = n) :
    (∀ fuel, n ≤ fuel → sendBracketFrames fuel s =
      some (NO_ERROR, { s with trace := s.trace ++ frameCallbacks s (visited n last) })) ∧
    (∀ fuel, fuel < n → sendBracketFrames fuel s = none) ∧
    (visited n last).length = n ∧ (visited n last).Nodup ∧
    (∀ j, j < n → j ∈ visited n last) ∧
    (visited n last).get? 0 = some ((last + 1) % n) ∧
    (visited n last).get? (n - 1) = some last := by
  obtain ⟨h1, h2⟩ := sendBracketFramesLoop_spec s n last hcap hl hlast hlen n 0 s.trace
    (by omega) hn
  have hs : ({ s with trace := s.trace } : State) = s := rfl
  rw [hs, Nat.add_zero, Nat.mod_eq_of_lt hl, ← hlast] at h1 h2
  have hv : (List.range' 0 n).map (fun j => (last + 1 + j) % n) = visited n last := by
    unfold visited
    rw [List.range_eq_range']
  rw [hv] at h1
  refine ⟨fun fuel hf => ?_, fun fuel hf => ?_, ?_, visited_nodup n last,
    fun j hj => mem_visited n last j hl hj, ?_, ?_⟩
  · unfold sendBracketFrames
    rw [if_neg (by simp [hexec]), if_neg (by omega), h1 fuel hf]
    rfl
  · unfold sendBracketFrames
    rw [if_neg (by simp [hexec]), if_neg (by omega), h2 fuel hf]
    rfl
  · simp [visited]
  · unfold visited
    rw [List.get?_eq_getElem?, List.getElem?_map, List.getElem?_range (by omega)]
    rfl
  · unfold visited
    rw [List.get?_eq_getElem?, List.getElem?_map, List.getElem?_range (by omega)]
    simp only [Option.map_some']
    rw [visited_last n last (n - 1) hl (by omega)]

/-- Witness of C27 on a ring of three buffers with slots 0 and 2 held back and last
index 1: the loop visits 2, 0, 1 and sends the frames of slots 2 and 0. -/
theorem sendBracketFrames_visits_ring_once_witness :
    visited 3 1 = [2, 0, 1] ∧
    frameCallbacks ring3Held (visited 3 1) = [Effect.sendCallBacks 2, Effect.sendCallBacks 0] ∧
    sendBracketFrames 3 ring3Held = some (NO_ERROR, { ring3Held with
      trace := ring3Held.trace ++ frameCallbacks ring3Held (visited 3 1) }) ∧
    sendBracketFrames 2 ring3Held = none :=
  ⟨by decide, by decide,
    (sendBracketFrames_visits_ring_once ring3Held 3 1 (by decide) rfl rfl (by decide) rfl
      rfl).1 3 (Nat.le_refl 3),
    (sendBracketFrames_visits_ring_once ring3Held 3 1 (by decide) rfl rfl (by decide) rfl
      rfl).2.1 2 (by decide)⟩


theorem parseExpRangeLoop_spec (count : Nat) (toks : List (List Char)) :
    ∀ (i : Nat) (arr : List Int), i ≤ count → count ≤ arr.length →
      (parseExpRangeLoop count toks i arr).2 = min (i + toks.length) count ∧
      (parseExpRangeLoop count toks i arr).1.length = arr.length ∧
      (∀ j, i ≤ j → j < min (i + toks.length) count →
        (parseExpRangeLoop count toks i arr).1.get? j = (toks.get? (j - i)).map atoi) ∧
      (∀ j, j < i ∨ min (i + toks.length) count ≤ j →
        (parseExpRangeLoop count toks i arr).1.get? j = arr.get? j) := by
  induction toks with
  | nil =>
    intro i arr hi _
    refine ⟨?_, rfl, ?_, fun _ _ => rfl⟩
    · simp [parseExpRangeLoop]; omega
    · intro j h1 h2
      simp at h2
      omega
  | cons t rest ih =>
    intro i arr hi hlen
    unfold parseExpRangeLoop
    by_cases hc : i < count
    · rw [if_pos hc]
      obtain ⟨h1, h2, h3, h4⟩ := ih (i + 1) (arr.set i (atoi t)) (by omega)
        (by rw [List.length_set]; exact hlen)
      have hmin : min (i + (t :: rest).length) count = min (i + 1 + rest.length) count := by
        simp only [List.length_cons]; congr 1; omega
      rw [hmin]
      refine ⟨h1, by rw [h2, List.length_set], ?_, ?_⟩
      · intro j hj1 hj2
        by_cases hji : j = i
        · subst hji
          rw [h4 j (Or.inl (by omega)), Nat.sub_self]
          simp only [List.get?_cons_zero, Option.map_some']
          rw [List.get?_eq_getElem?, List.getElem?_set_self (by omega)]
        · rw [h3 j (by omega) hj2]
          rw [show j - i = (j - (i + 1)) + 1 by omega, List.get?_cons_succ]
      · intro j hj
        rw [h4 j (by omega)]
        rw [List.get?_eq_getElem?, List.get?_eq_getElem?, List.getElem?_set_ne (by omega)]
    · rw [if_neg hc]
      have hic : i = count := by omega
      refine ⟨?_, rfl, ?_, fun _ _ => rfl⟩
      · simp only [List.length_cons]; omega
      · intro j h1 h2
        have := Nat.min_le_right (i + (t :: rest).length) count
        omega

/-- C30: for every non-null range string and every non-null output array that holds at
least `count` entries, when the temporary copy of the string is allocated,
`parseExpRange` returns `NO_ERROR`, sets `validEntries` to the minimum of `count` and
the number of non-empty tokens the delimiter splits the string into (so
`validEntries <= count`), writes `atoi` of the `i`-th token to `expRange[i]` for every
`i < validEntries` and leaves the entries at index `>= validEntries` as they were; for
a null string or a null array it returns `-EINVAL`, and when the temporary copy cannot
be allocated it returns `-1`, in both cases with the array and `validEntries`
unchanged. -/
theorem parseExpRange_min_tokens_count (tmp : Bool) (rangeStr : Option (List Char))
    (expRange : Option (List Int)) (count validEntries : Nat) :
    (∀ str arr, rangeStr = some str → expRange = some arr → tmp = true →
      count ≤ arr.length →
      ∃ out, parseExpRange tmp rangeStr expRange count validEntries =
          (NO_ERROR, some out, min (strtokAll PARAMS_DELIMITER [] str).length count) ∧
        min (strtokAll PARAMS_DELIMITER [] str).length count ≤ count ∧
        out.length = arr.length ∧
        (∀ i, i < min (strtokAll PARAMS_DELIMITER [] str).length count →
          out.get? i = ((strtokAll PARAMS_DELIMITER [] str).get? i).map atoi) ∧
        (∀ i, min (strtokAll PARAMS_DELIMITER [] str).length count ≤ i →
          out.get? i = arr.get? i)) ∧
    ((rangeStr = none ∨ expRange = none) →
      parseExpRange tmp rangeStr expRange count validEntries =
        (-EINVAL, expRange, validEntries)) ∧
    (rangeStr ≠ none → expRange ≠ none → tmp = false →
      parseExpRange tmp rangeStr expRange count validEntries = (-1, expRange, validEntries)) := by
  refine ⟨?_, ?_, ?_⟩
  · rintro str arr rfl rfl rfl hlen
    obtain ⟨h1, h2, h3, h4⟩ := parseExpRangeLoop_spec count
      (strtokAll PARAMS_DELIMITER [] str) 0 arr (Nat.zero_le _) hlen
    rw [Nat.zero_add] at h1 h3 h4
    refine ⟨(parseExpRangeLoop count (strtokAll PARAMS_DELIMITER [] str) 0 arr).1, ?_,
      Nat.min_le_right _ _, h2, fun i hi => ?_, fun i hi => h4 i (Or.inr hi)⟩
    · simp only [parseExpRange, Bool.not_true, Bool.false_eq_true, if_false]
      rw [h1]
    · have := h3 i (Nat.zero_le _) hi
      rwa [Nat.sub_zero] at this
  · rintro (rfl | rfl)
    · rfl
    · cases rangeStr <;> rfl
  · intro h1 h2 h3
    subst h3
    cases rangeStr with
    | none => exact absurd rfl h1
    | some str =>
      cases expRange with
      | none => exact absurd rfl h2
      | some arr => rfl

/-- Witness of C30: the string `"-10,,0,20"` parsed into an array of four entries with
capacity 2: two entries are written, the rest is kept. -/
theorem parseExpRange_min_tokens_count_witness :
    strtokAll PARAMS_DELIMITER [] "-10,,0,20".toList = ["-10".toList, "0".toList, "20".toList] ∧
    parseExpRange true (some "-10,,0,20".toList) (some [7, 7, 7, 7]) 2 0 =
      (NO_ERROR, some [-10, 0, 7, 7], 2) ∧
    ∃ out, parseExpRange true (some "-10,,0,20".toList) (some [7, 7, 7, 7]) 2 0 =
        (NO_ERROR, some out, min (strtokAll PARAMS_DELIMITER [] "-10,,0,20".toList).length 2) ∧
      min (strtokAll PARAMS_DELIMITER [] "-10,,0,20".toList).length 2 ≤ 2 ∧
      out.length = [(7 : Int), 7, 7, 7].length ∧
      (∀ i, i < min (strtokAll PARAMS_DELIMITER [] "-10,,0,20".toList).length 2 →
        out.get? i = ((strtokAll PARAMS_DELIMITER [] "-10,,0,20".toList).get? i).map atoi) ∧
      (∀ i, min (strtokAll PARAMS_DELIMITER [] "-10,,0,20".toList).length 2 ≤ i →
        out.get? i = [(7 : Int), 7, 7, 7].get? i) :=
  ⟨by decide, by decide,
    (parseExpRange_min_tokens_count true (some "-10,,0,20".toList) (some [7, 7, 7, 7]) 2 0).1
      "-10,,0,20".toList [7, 7, 7, 7] rfl rfl rfl (by decide)⟩

end CameraCodes.OMXCameraAdapter

namespace CameraCodes.V4LCameraAdapter

/-- C2, evaluated where the code departs from it: in
`src/camera/V4LCameraAdapter/V4LCameraAdapter.cpp` and in
`src/libcamera/V4LCameraAdapter.cpp`, a preview frame dequeued from driver buffer 0 and
delivered to one subscriber is requeued by `previewThread` itself, while the
subscriber still holds its reference, and requeued a second time by `fillThisBuffer`
when the subscriber returns it; the variant `src/camera/V4LCameraAdapter.cpp` requeues
it once, on the return. -/
theorem previewThread_requeues_before_return :
    (previewThread Variant.camera_V4LCameraAdapter Env.ok oneBuffer 1).map
        (fun r => (r.1, qbufCount r.2.trace 0, r.2.frameRefCount 4096))
      = some (0, 1, 1) ∧
    (deliverAndReturn Variant.camera_V4LCameraAdapter).map
        (fun r => (r.1, qbufCount r.2.trace 0, r.2.frameRefCount 4096))
      = some (0, 2, 0) ∧
    (previewThread Variant.libcamera Env.ok oneBuffer 1).map
        (fun r => (r.1, qbufCount r.2.trace 0, r.2.frameRefCount 4096))
      = some (0, 1, 1) ∧
    (deliverAndReturn Variant.libcamera).map
        (fun r => (r.1, qbufCount r.2.trace 0, r.2.frameRefCount 4096))
      = some (0, 2, 0) ∧
    (previewThread Variant.camera Env.ok oneBuffer 1).map
        (fun r => (r.1, qbufCount r.2.trace 0, r.2.frameRefCount 4096))
      = some (0, 0, 1) ∧
    (deliverAndReturn Variant.camera).map
        (fun r => (r.1, qbufCount r.2.trace 0, r.2.frameRefCount 4096))
      = some (0, 1, 0) := by
  decide


/-- C29, evaluated where the code departs from it: in `camera/V4LCameraAdapter/` and in
`libcamera/`, `stopPreview` never writes `mPreviewing`. After a `startPreview` that
returned `NO_ERROR` and a `stopPreview` that returned `NO_ERROR`, the streaming flag is
false but the previewing flag is still true: a following `startPreview` is rejected
with `BAD_VALUE`, and a following `stopPreview` does not return `NO_INIT` (it goes on to
the preview thread object the first stop has cleared). In `camera/V4LCameraAdapter.cpp`,
where `stopPreview` clears the flag, the second start returns `NO_ERROR` and the second
stop `NO_INIT`. -/
theorem stopPreview_leaves_mPreviewing_set :
    idle.mPreviewing = false ∧ idle.isStreaming = false ∧
    startStopStart Variant.camera_V4LCameraAdapter =
      some (NO_ERROR, NO_ERROR, BAD_VALUE, true, false) ∧
    startStopStart Variant.libcamera = some (NO_ERROR, NO_ERROR, BAD_VALUE, true, false) ∧
    startStopStop Variant.camera_V4LCameraAdapter = none ∧
    startStopStop Variant.libcamera = none ∧
    startStopStart Variant.camera = some (NO_ERROR, NO_ERROR, NO_ERROR, false, false) ∧
    startStopStop Variant.camera = some NO_INIT := by
  refine ⟨by decide, by decide, by decide, by decide, by decide, by decide, by decide,
    by decide⟩

end CameraCodes.V4LCameraAdapter

namespace CameraCodes.CameraHal

/-- C6: with preview enabled or the display paused, and the adapter in `CAPTURE_STATE`
with a next state other than `PREVIEW_STATE` (or in `VIDEO_CAPTURE_STATE` with a next
state other than `VIDEO_STATE`), `takePicture` of either tree returns `NO_INIT` and the
orchestrator, the trace of its calls included, is exactly as before: no command is
sent to the adapter, no image buffer is allocated, the display is not paused, and
`mPreviewEnabled` and `mDisplayPaused` keep their values. -/
theorem takePicture_busy (variant : Variant) (env : Env) (s : State) (a : CameraAdapter)
    (burst : Int) (hprev : previewEnabled s = true ∨ s.mDisplayPaused = true)
    (hadapter : s.mCameraAdapter = some a)
    (hbusy : (a.state = AdapterState.CAPTURE_STATE ∧ a.nextState ≠ AdapterState.PREVIEW_STATE) ∨
      (a.state = AdapterState.VIDEO_CAPTURE_STATE ∧ a.nextState ≠ AdapterState.VIDEO_STATE)) :
    takePicture variant env s burst = some (NO_INIT, s) := by
  unfold takePicture
  have h1 : (!previewEnabled s && !s.mDisplayPaused) = false := by
    rcases hprev with h | h <;> simp [h]
  simp only [h1, hadapter, Bool.false_eq_true, if_false, hbusy, if_true]

/-- Witness of C6 on an orchestrator whose adapter is busy with a still capture. -/
theorem takePicture_busy_witness :
    (previewEnabled busyCapture = true ∨ busyCapture.mDisplayPaused = true) ∧
    takePicture Variant.camera Env.ok busyCapture 0 = some (NO_INIT, busyCapture) :=
  ⟨Or.inl rfl, takePicture_busy Variant.camera Env.ok busyCapture
    { state := AdapterState.CAPTURE_STATE, nextState := AdapterState.CAPTURE_STATE } 0
    (Or.inl rfl) rfl (Or.inl ⟨rfl, by decide⟩)⟩


/-- C11 (fails in `src/libcamera/`): a `setParameters` that returns `-EINVAL` does not
leave the stored parameters and the video size as they were. With a recording hint that
is neither `"true"` nor `"false"` the function returns before its "On fail restore old
parameters" statement: the stored preview format and preview size are those of the
request, and the video size is 320x240 instead of 640x480. With the video stabilization
key set the function reaches that statement and the stored parameters are restored, but
the video size stays 320x240. In `src/camera/` the function returns `NO_ERROR` at once
and changes nothing. -/
theorem setParameters_error_keeps_changes :
    ((setParameters Variant.libcamera ParamEnv.sizes Hal.vga badHint).1 = -EINVAL ∧
      (setParameters Variant.libcamera ParamEnv.sizes Hal.vga badHint).2.mParameters =
        { mMap := [(Key.KEY_PREVIEW_FORMAT, "yuv422i-yuyv"),
                   (Key.KEY_PREVIEW_SIZE, "320x240")] } ∧
      (setParameters Variant.libcamera ParamEnv.sizes Hal.vga badHint).2.mParameters ≠
        Hal.vga.mParameters ∧
      (setParameters Variant.libcamera ParamEnv.sizes Hal.vga badHint).2.mVideoWidth = 320 ∧
      (setParameters Variant.libcamera ParamEnv.sizes Hal.vga badHint).2.mVideoHeight = 240) ∧
    ((setParameters Variant.libcamera ParamEnv.sizes Hal.vga withVstab).1 = -EINVAL ∧
      (setParameters Variant.libcamera ParamEnv.sizes Hal.vga withVstab).2.mParameters =
        Hal.vga.mParameters ∧
      (setParameters Variant.libcamera ParamEnv.sizes Hal.vga withVstab).2.mVideoWidth = 320 ∧
      (setParameters Variant.libcamera ParamEnv.sizes Hal.vga withVstab).2.mVideoHeight = 240 ∧
      (setParameters Variant.libcamera ParamEnv.sizes Hal.vga withVstab).2.trace = []) ∧
    (Hal.vga.mVideoWidth = 640 ∧ Hal.vga.mVideoHeight = 480) ∧
    ∀ (env : ParamEnv) (s : Hal) (params : CameraParameters),
      setParameters Variant.camera env s params = (NO_ERROR, s) := by
  refine ⟨by decide, by decide, by decide, fun _ _ _ => rfl⟩

/-- C22 (fails): `msgTypeEnabled` does not operate as an AND. It returns
`mMsgEnabled & msgType`, which is non-zero as soon as one queried bit is enabled: for
every mask and every query the result is non-zero exactly when some bit is set in
both. With only preview frames enabled, the query for preview and postview frames
together returns `0x10` (true) although postview frames are off. -/
theorem msgTypeEnabled_true_when_any_bit_enabled :
    (∀ (s : State) (msgType : Nat),
      msgTypeEnabled s msgType ≠ 0 ↔
        ∃ i, s.mMsgEnabled.testBit i = true ∧ msgType.testBit i = true) ∧
    msgTypeEnabled { constructed with mMsgEnabled := CAMERA_MSG_PREVIEW_FRAME }
      (CAMERA_MSG_PREVIEW_FRAME ||| CAMERA_MSG_POSTVIEW_FRAME) = 0x10 ∧
    msgTypeEnabled { constructed with mMsgEnabled := CAMERA_MSG_PREVIEW_FRAME }
      CAMERA_MSG_POSTVIEW_FRAME = 0 := by
  refine ⟨fun s msgType => ?_, by decide, by decide⟩
  unfold msgTypeEnabled
  constructor
  · intro h
    obtain ⟨i, hi⟩ := Nat.ne_zero_implies_bit_true h
    rw [Nat.testBit_and, Bool.and_eq_true] at hi
    exact ⟨i, hi⟩
  · rintro ⟨i, h1, h2⟩ h0
    have : (s.mMsgEnabled &&& msgType).testBit i = true := by
      rw [Nat.testBit_and, h1, h2]; rfl
    rw [h0, Nat.zero_testBit] at this
    exact Bool.false_ne_true this

/-- C23, evaluated where the code departs from it: with an adapter present and the
preview running, `sendCommand(CAMERA_CMD_STOP_SMOOTH_ZOOM)` sends
`CAMERA_STOP_SMOOTH_ZOOM` and then `CAMERA_START_FD` (the case has no `break`), and
returns the status of `CAMERA_START_FD`, here `-EINVAL` although the zoom command was
accepted. The other commands behave as claimed: start-smooth-zoom sends
`CAMERA_START_SMOOTH_ZOOM` with `arg1`, start and stop face detection send one command
each, any other command sends none, and without an adapter or without preview the
result is `-EINVAL` with no command sent. -/
theorem sendCommand_stop_smooth_zoom_falls_through :
    previewing.mCameraAdapter.isSome = true ∧ previewEnabled previewing = true ∧
    previewing.trace = [] ∧
    Env.faceDetectionRejected.sendCommand CameraCommands.CAMERA_STOP_SMOOTH_ZOOM = NO_ERROR ∧
    (sendCommand Env.faceDetectionRejected previewing CAMERA_CMD_STOP_SMOOTH_ZOOM 0).2.trace =
      [Effect.sendCommand CameraCommands.CAMERA_STOP_SMOOTH_ZOOM 0,
        Effect.sendCommand CameraCommands.CAMERA_START_FD 0] ∧
    (sendCommand Env.faceDetectionRejected previewing CAMERA_CMD_STOP_SMOOTH_ZOOM 0).1 =
      -EINVAL ∧
    (sendCommand Env.ok previewing CAMERA_CMD_START_SMOOTH_ZOOM 3).2.trace =
      [Effect.sendCommandValue CameraCommands.CAMERA_START_SMOOTH_ZOOM 3] ∧
    (sendCommand Env.ok previewing CAMERA_CMD_START_FACE_DETECTION 0).2.trace =
      [Effect.sendCommand CameraCommands.CAMERA_START_FD 0] ∧
    (sendCommand Env.ok previewing CAMERA_CMD_STOP_FACE_DETECTION 0).2.trace =
      [Effect.sendCommand CameraCommands.CAMERA_STOP_FD 0] ∧
    (sendCommand Env.ok previewing 3 0).2.trace = [] ∧
    (sendCommand Env.ok previewing 3 0).1 = NO_ERROR ∧
    (sendCommand Env.ok constructed CAMERA_CMD_STOP_SMOOTH_ZOOM 0).1 = -EINVAL ∧
    (sendCommand Env.ok constructed CAMERA_CMD_STOP_SMOOTH_ZOOM 0).2.trace = [] ∧
    (sendCommand Env.ok (initialized AdapterState.INTIALIZED_STATE)
      CAMERA_CMD_STOP_SMOOTH_ZOOM 0).1 = -EINVAL ∧
    (sendCommand Env.ok (initialized AdapterState.INTIALIZED_STATE)
      CAMERA_CMD_STOP_SMOOTH_ZOOM 0).2.trace = [] := by
  decide


theorem freePreviewBufs_flags (s s1 : State) (h : freePreviewBufs s = some s1) :
    s1.mPreviewEnabled = s.mPreviewEnabled ∧ s1.mDisplayPaused = s.mDisplayPaused := by
  unfold freePreviewBufs at h
  split_ifs at h <;> cases h <;> exact ⟨rfl, rfl⟩

theorem allocPreviewBufs_flags (env : Env) (s : State) (width height : Int) (n : Nat) :
    (allocPreviewBufs env s width height n).2.mPreviewEnabled = s.mPreviewEnabled ∧
    (allocPreviewBufs env s width height n).2.mDisplayPaused = s.mDisplayPaused := by
  unfold allocPreviewBufs
  dsimp only
  split_ifs <;> exact ⟨rfl, rfl⟩

theorem startPreviewError_flags (s : State) (ret : Int) (r : Int × State)
    (h : startPreviewError s ret = some r) : r.2.mPreviewEnabled = false := by
  unfold startPreviewError at h
  cases hf : freePreviewBufs s with
  | none => rw [hf] at h; cases h
  | some s1 =>
    rw [hf] at h
    dsimp only at h
    split_ifs at h <;> cases h <;> rfl

theorem startPreviewResume_flags (env : Env) (s : State) (ret : Int) (r : Int × State)
    (h : startPreviewResume env s ret = some r) : r.2.mDisplayPaused = false := by
  unfold startPreviewResume at h
  dsimp only at h
  split_ifs at h <;> cases h <;> rfl

theorem startPreviewDisplay_flags (env : Env) (s : State) (r : Int × State)
    (h : startPreviewDisplay env s = some r) :
    r.2.mPreviewEnabled = false ∨ r.2.mDisplayPaused = s.mDisplayPaused := by
  unfold startPreviewDisplay at h
  by_cases hd : s.mDisplayAdapter = true
  · simp only [hd, if_true] at h
    by_cases h1 : env.enableDisplay ≠ NO_ERROR
    · rw [if_pos h1] at h
      exact Or.inl (startPreviewError_flags _ _ _ h)
    rw [if_neg h1] at h
    by_cases h2 : env.sendCommand CameraCommands.CAMERA_START_PREVIEW ≠ NO_ERROR
    · rw [if_pos h2] at h
      exact Or.inl (startPreviewError_flags _ _ _ h)
    rw [if_neg h2] at h
    injection h with h; subst h
    exact Or.inr rfl
  · simp only [hd, if_false, Bool.false_eq_true] at h
    rw [if_neg (by simp)] at h
    by_cases h2 : env.sendCommand CameraCommands.CAMERA_START_PREVIEW ≠ NO_ERROR
    · rw [if_pos h2] at h
      exact Or.inl (startPreviewError_flags _ _ _ h)
    rw [if_neg h2] at h
    injection h with h; subst h
    exact Or.inr rfl

theorem startPreviewNotifier_flags (env : Env) (s : State) (r : Int × State)
    (h : startPreviewNotifier env s = some r) :
    r.2.mPreviewEnabled = false ∨ r.2.mDisplayPaused = s.mDisplayPaused := by
  unfold startPreviewNotifier at h
  dsimp only at h
  by_cases h0 : (!s.mAppCallbackNotifier) = true
  · rw [if_pos h0] at h; cases h
  rw [if_neg h0] at h
  by_cases h1 : env.notifierStart = ALREADY_EXISTS
  · rw [if_pos h1] at h
    rcases startPreviewDisplay_flags _ _ _ h with h3 | h3
    · exact Or.inl h3
    · exact Or.inr h3
  rw [if_neg h1] at h
  by_cases h2 : env.notifierStart = NO_ERROR
  · rw [if_pos h2] at h
    rcases startPreviewDisplay_flags _ _ _ h with h3 | h3
    · exact Or.inl h3
    · exact Or.inr h3
  rw [if_neg h2] at h
  exact Or.inl (startPreviewError_flags _ _ _ h)

theorem startPreviewBuffers_flags (env : Env) (s : State) (r : Int × State)
    (h : startPreviewBuffers env s = some r) :
    r.2.mPreviewEnabled = false ∨ r.2.mDisplayPaused = s.mDisplayPaused := by
  unfold startPreviewBuffers at h
  dsimp only at h
  have ha := allocPreviewBufs_flags env s s.mPreviewWidth s.mPreviewHeight
    env.required_buffer_count
  generalize allocPreviewBufs env s s.mPreviewWidth s.mPreviewHeight
    env.required_buffer_count = r1 at h ha
  by_cases h1 : r1.1 ≠ NO_ERROR
  · rw [if_pos h1] at h
    exact Or.inl (startPreviewError_flags _ _ _ h)
  rw [if_neg h1] at h
  cases hc : r1.2.mCameraAdapter with
  | none => rw [hc] at h; cases h
  | some a =>
    rw [hc] at h
    dsimp only at h
    by_cases h2 : env.sendCommand CameraCommands.CAMERA_USE_BUFFERS_PREVIEW ≠ NO_ERROR
    · rw [if_pos h2] at h
      rw [Option.map_eq_some'] at h
      obtain ⟨s3, hs3, rfl⟩ := h
      exact Or.inr ((freePreviewBufs_flags _ _ hs3).2.trans ha.2)
    rw [if_neg h2] at h
    rcases startPreviewNotifier_flags _ _ _ h with h3 | h3
    · exact Or.inl h3
    · exact Or.inr (h3.trans ha.2)

theorem startPreviewWindow_keeps (env : Env) (s : State) (ret : Int) (r : Int × State)
    (h : startPreviewWindow env s ret = some r) (he : s.mPreviewEnabled = false) :
    previewAndPaused r.2 = false := by
  unfold startPreviewWindow at h
  by_cases h1 : (!s.mSetPreviewWindowCalled) = true ∨ (!s.mDisplayAdapter) = true
  · rw [if_pos h1] at h
    dsimp only at h
    cases hc : s.mCameraAdapter with
    | none => rw [hc] at h; cases h
    | some a =>
      rw [hc] at h
      dsimp only at h
      split_ifs at h <;> (injection h with h; subst h; simp [previewAndPaused, State.emit, he])
  rw [if_neg h1] at h
  by_cases h2 : s.mDisplayAdapter = true ∧ (!s.mPreviewEnabled) = true ∧ s.mDisplayPaused = true
  · rw [if_pos h2] at h
    have := startPreviewResume_flags _ _ _ _ h
    simp [previewAndPaused, this]
  rw [if_neg h2] at h
  have hp : s.mDisplayPaused = false := by
    simp only [not_or, Bool.not_eq_true, Bool.not_eq_false'] at h1
    cases hdp : s.mDisplayPaused with
    | false => rfl
    | true =>
      exfalso
      apply h2
      simp [h1.2, he, hdp]
  rcases startPreviewBuffers_flags _ _ _ h with h3 | h3
  · simp [previewAndPaused, h3]
  · simp [previewAndPaused, h3, hp]

theorem startPreviewQuery_keeps (env : Env) (s : State) (ret : Int) (r : Int × State)
    (h : startPreviewQuery env s ret = some r) (he : s.mPreviewEnabled = false) :
    previewAndPaused r.2 = false := by
  unfold startPreviewQuery at h
  by_cases h1 : s.mPreviewStartInProgress = false ∧ s.mDisplayPaused = false
  · rw [if_pos h1] at h
    cases hc : s.mCameraAdapter with
    | none => rw [hc] at h; cases h
    | some a =>
      rw [hc] at h
      dsimp only at h
      by_cases h2 : env.sendCommand CameraCommands.CAMERA_QUERY_RESOLUTION_PREVIEW ≠ NO_ERROR
      · rw [if_pos h2] at h
        injection h with h; subst h
        simp [previewAndPaused, State.emit, he]
      rw [if_neg h2] at h
      exact startPreviewWindow_keeps _ _ _ _ h he
  rw [if_neg h1] at h
  exact startPreviewWindow_keeps _ _ _ _ h he

theorem startPreview_keeps (env : Env) (s : State) (r : Int × State)
    (h : startPreview env s = some r) (hs : previewAndPaused s = false) :
    previewAndPaused r.2 = false := by
  unfold startPreview at h
  by_cases he : s.mPreviewEnabled = true
  · rw [if_pos he] at h
    cases h
    exact hs
  rw [if_neg he] at h
  have he2 : s.mPreviewEnabled = false := by simpa using he
  cases hc : s.mCameraAdapter with
  | none =>
    rw [hc] at h
    exact startPreviewQuery_keeps _ _ _ _ h he2
  | some a =>
    rw [hc] at h
    exact startPreviewQuery_keeps _ _ _ _ h he2

theorem forceStopPreview_flags (k : Constants) (env : Env) (s s1 : State)
    (h : forceStopPreview k env s = some s1) :
    s1.mPreviewEnabled = false ∧ s1.mDisplayPaused = false := by
  unfold forceStopPreview at h
  cases hb : stopImageBracketing env s with
  | none => rw [hb] at h; cases h
  | some r =>
    rw [hb] at h
    dsimp only at h
    rw [Option.map_eq_some'] at h
    obtain ⟨s2, _, rfl⟩ := h
    exact ⟨rfl, rfl⟩

theorem allocImageBufs_flags (env : Env) (s : State) (size n : Nat) :
    (allocImageBufs env s size n).2.mPreviewEnabled = s.mPreviewEnabled ∧
    (allocImageBufs env s size n).2.mDisplayPaused = s.mDisplayPaused := by
  unfold allocImageBufs
  dsimp only
  split_ifs <;> exact ⟨rfl, rfl⟩

theorem previewAndPaused_emit (s : State) (e : Effect) :
    previewAndPaused (s.emit e) = previewAndPaused s := rfl

theorem previewAndPaused_allocImageBufs (env : Env) (s : State) (size n : Nat) :
    previewAndPaused (allocImageBufs env s size n).2 = previewAndPaused s := by
  unfold previewAndPaused
  rw [(allocImageBufs_flags env s size n).1, (allocImageBufs_flags env s size n).2]

theorem takePictureSetup_keeps (variant : Variant) (env : Env) (s : State)
    (a : CameraAdapter) (burst : Int) (hs : previewAndPaused s = false) :
    previewAndPaused (takePictureSetup variant env s a burst).2 = false := by
  cases variant
  case libcamera =>
    unfold takePictureSetup
    dsimp only
    generalize hr1 : (if s.mDisplayAdapter = true ∧ burst < 1 ∧
        a.state ≠ AdapterState.VIDEO_STATE then
          (env.pauseDisplay,
            State.emit { s with mDisplayPaused := true, mPreviewEnabled := false }
              (Effect.pauseDisplay true))
        else (NO_ERROR, s)) = r1
    have h1 : previewAndPaused r1.2 = false := by
      rw [← hr1]
      split_ifs
      · simp [previewAndPaused, State.emit]
      · exact hs
    split_ifs <;>
      simp only [previewAndPaused_emit, previewAndPaused_allocImageBufs, h1]
  unfold takePictureSetup
  dsimp only
  generalize hr1 : (if s.mDisplayAdapter = true ∧ burst < 1 ∧
      a.state ≠ AdapterState.VIDEO_STATE then
        (env.pauseDisplay,
          if (State.emit { s with mDisplayPaused := true, mPreviewEnabled := false }
              (Effect.pauseDisplay true)).mMsgEnabled &&& CAMERA_MSG_PREVIEW_FRAME ≠ 0 then
            (State.emit { s with mDisplayPaused := true, mPreviewEnabled := false }
              (Effect.pauseDisplay true)).emit (Effect.disableMsgType CAMERA_MSG_PREVIEW_FRAME)
          else State.emit { s with mDisplayPaused := true, mPreviewEnabled := false }
              (Effect.pauseDisplay true))
      else (NO_ERROR, s)) = r1
  have h1 : previewAndPaused r1.2 = false := by
    rw [← hr1]
    split_ifs
    · simp [previewAndPaused, State.emit]
    · simp [previewAndPaused, State.emit]
    · exact hs
  split_ifs <;>
    simp only [previewAndPaused_emit, previewAndPaused_allocImageBufs, h1]

theorem takePicture_keeps (variant : Variant) (env : Env) (s : State) (burst : Int)
    (r : Int × State) (h : takePicture variant env s burst = some r)
    (hs : previewAndPaused s = false) : previewAndPaused r.2 = false := by
  unfold takePicture at h
  by_cases h0 : (!previewEnabled s && !s.mDisplayPaused) = true
  · rw [if_pos h0] at h
    injection h with h; subst h; exact hs
  rw [if_neg h0] at h
  cases hc : s.mCameraAdapter with
  | none => rw [hc] at h; cases h
  | some a =>
    rw [hc] at h
    dsimp only at h
    by_cases h1 : (a.state = AdapterState.CAPTURE_STATE ∧
        a.nextState ≠ AdapterState.PREVIEW_STATE) ∨
        (a.state = AdapterState.VIDEO_CAPTURE_STATE ∧ a.nextState ≠ AdapterState.VIDEO_STATE)
    · rw [if_pos h1] at h
      injection h with h; subst h; exact hs
    rw [if_neg h1] at h
    by_cases h2 : a.state = AdapterState.VIDEO_STATE
    · rw [if_pos h2] at h
      injection h with h; subst h; exact hs
    rw [if_neg h2] at h
    have hr : previewAndPaused (if (!s.mBracketingRunning) = true then
        takePictureSetup variant env s a burst else (NO_ERROR, s)).2 = false := by
      split_ifs
      · exact takePictureSetup_keeps variant env s a burst hs
      · exact hs
    generalize (if (!s.mBracketingRunning) = true then
        takePictureSetup variant env s a burst else (NO_ERROR, s)) = r0 at h hr
    split_ifs at h <;> (injection h with h; subst h)
    · exact hr
    · exact hr

theorem stopPreview_keeps (k : Constants) (env : Env) (s s1 : State)
    (h : stopPreview k env s = some s1) (hs : previewAndPaused s = false) :
    previewAndPaused s1 = false := by
  unfold stopPreview at h
  split_ifs at h
  · injection h with h; subst h; exact hs
  · cases hc : s.mCameraAdapter with
    | none => rw [hc] at h; cases h
    | some a =>
      rw [hc] at h
      dsimp only at h
      split_ifs at h
      · injection h with h; subst h; exact hs
      · have := forceStopPreview_flags k env s s1 h
        simp [previewAndPaused, this.1]

theorem setPreviewWindow_keeps (env : Env) (s : State) (window : Bool) (r : Int × State)
    (h : setPreviewWindow env s window = some r) (hs : previewAndPaused s = false) :
    previewAndPaused r.2 = false := by
  unfold setPreviewWindow at h
  dsimp only at h
  by_cases h1 : (!window) = true
  · rw [if_pos h1] at h
    split_ifs at h <;> (injection h with h; subst h; exact hs)
  rw [if_neg h1] at h
  by_cases h2 : (!s.mDisplayAdapter) = true
  · rw [if_pos h2] at h
    by_cases h3 : (!env.displayCreated) = true
    · rw [if_pos h3] at h
      injection h with h; subst h; exact hs
    rw [if_neg h3] at h
    by_cases h4 : env.displayInitialize ≠ NO_ERROR
    · rw [if_pos h4] at h
      injection h with h; subst h; exact hs
    rw [if_neg h4] at h
    split_ifs at h
    · exact startPreview_keeps _ _ _ h hs
    · injection h with h; subst h; exact hs
  rw [if_neg h2] at h
  injection h with h; subst h; exact hs

theorem restartPreview_keeps (k : Constants) (env : Env) (s : State) (r : Int × State)
    (h : restartPreview k env s = some r) : previewAndPaused r.2 = false := by
  unfold restartPreview at h
  cases hf : forceStopPreview k env s with
  | none => rw [hf] at h; cases h
  | some s1 =>
    rw [hf] at h
    dsimp only at h
    have hfl := forceStopPreview_flags k env s s1 hf
    cases hc : s1.mCameraAdapter with
    | none => rw [hc] at h; cases h
    | some a =>
      rw [hc] at h
      dsimp only at h
      refine startPreview_keeps _ _ _ h ?_
      simp [previewAndPaused, State.emit, hfl.1]

theorem deinitialize_keeps (k : Constants) (env : Env) (s s1 : State)
    (h : deinitialize k env s = some s1) (hs : previewAndPaused s = false) :
    previewAndPaused s1 = false := by
  unfold deinitialize at h
  dsimp only at h
  rw [Option.map_eq_some'] at h
  obtain ⟨s2, h2, rfl⟩ := h
  split_ifs at h2
  · have := forceStopPreview_flags k env s s2 h2
    simp [previewAndPaused, this.1]
  · injection h2 with h2; subst h2; exact hs

theorem step_keeps (k : Constants) (st : Step) (s s1 : State)
    (h : step k st s = some s1) (hs : previewAndPaused s = false) :
    previewAndPaused s1 = false := by
  unfold step at h
  dsimp only at h
  have hs0 : previewAndPaused { s with
      mCameraAdapter := s.mCameraAdapter.map (fun _ => st.adapter) } = false := hs
  generalize ({ s with mCameraAdapter := s.mCameraAdapter.map (fun _ => st.adapter) } :
    State) = s0 at h hs0
  cases hcall : st.call with
  | startPreview =>
    rw [hcall] at h; dsimp only at h
    rw [Option.map_eq_some'] at h
    obtain ⟨r, hr, rfl⟩ := h
    exact startPreview_keeps _ _ _ hr hs0
  | stopPreview =>
    rw [hcall] at h; dsimp only at h
    exact stopPreview_keeps _ _ _ _ h hs0
  | takePicture burst =>
    rw [hcall] at h; dsimp only at h
    rw [Option.map_eq_some'] at h
    obtain ⟨r, hr, rfl⟩ := h
    exact takePicture_keeps _ _ _ _ _ hr hs0
  | setPreviewWindow window =>
    rw [hcall] at h; dsimp only at h
    rw [Option.map_eq_some'] at h
    obtain ⟨r, hr, rfl⟩ := h
    exact setPreviewWindow_keeps _ _ _ _ hr hs0
  | restartPreview =>
    rw [hcall] at h; dsimp only at h
    rw [Option.map_eq_some'] at h
    obtain ⟨r, hr, rfl⟩ := h
    exact restartPreview_keeps _ _ _ _ hr
  | forceStopPreview =>
    rw [hcall] at h; dsimp only at h
    have := forceStopPreview_flags _ _ _ _ h
    simp [previewAndPaused, this.1]
  | deinitialize =>
    rw [hcall] at h; dsimp only at h
    exact deinitialize_keeps _ _ _ _ h hs0

theorem run_keeps (k : Constants) (steps : List Step) :
    ∀ (s s1 : State), run k steps s = some s1 → previewAndPaused s = false →
      previewAndPaused s1 = false := by
  induction steps with
  | nil =>
    intro s s1 h hs
    injection h with h; subst h; exact hs
  | cons st rest ih =>
    intro s s1 h hs
    unfold run at h
    cases hst : step k st s with
    | none => rw [hst] at h; cases h
    | some s2 =>
      rw [hst] at h
      exact ih s2 s1 h (step_keeps k st s s2 hst hs)

/-- C28: from every state of `CameraHal` (`src/camera/`) in which `mPreviewEnabled` and
`mDisplayPaused` are not both true, so in particular from the state the constructor
leaves, every sequence of `startPreview`, `stopPreview`, `takePicture`,
`setPreviewWindow`, `restartPreview`, `forceStopPreview` and `deinitialize` calls that
runs to its end, whatever the adapter, the display adapter and the notifier return and
whatever state the adapter reports, ends in a state in which `mPreviewEnabled` and
`mDisplayPaused` are not both true. -/
theorem preview_enabled_and_display_paused_exclusive (k : Constants) (steps : List Step)
    (s0 s : State) (hinit : ¬ (s0.mPreviewEnabled = true ∧ s0.mDisplayPaused = true))
    (hrun : run k steps s0 = some s) :
    previewAndPaused constructed = false ∧
    ¬ (s.mPreviewEnabled = true ∧ s.mDisplayPaused = true) := by
  have h0 : previewAndPaused s0 = false := by
    simpa [previewAndPaused] using hinit
  have h1 := run_keeps k steps s0 s hrun h0
  refine ⟨rfl, ?_⟩
  simpa [previewAndPaused] using h1

/-- Witness of C28: the run `session` from an initialized `CameraHal`; each prefix of
the run ends with the two flags not both true, and the preview is paused after the
picture and running again after the second `startPreview`. -/
theorem preview_enabled_and_display_paused_exclusive_witness :
    (run Constants.ordered (session.take 3) (initialized AdapterState.INTIALIZED_STATE)).map
      (fun s => (s.mPreviewEnabled, s.mDisplayPaused)) = some (false, true) ∧
    (run Constants.ordered (session.take 4) (initialized AdapterState.INTIALIZED_STATE)).map
      (fun s => (s.mPreviewEnabled, s.mDisplayPaused)) = some (true, false) ∧
    ∃ s, run Constants.ordered session (initialized AdapterState.INTIALIZED_STATE) = some s ∧
      ¬ (s.mPreviewEnabled = true ∧ s.mDisplayPaused = true) :=
  have hs : (run Constants.ordered session
      (initialized AdapterState.INTIALIZED_STATE)).isSome = true := by decide
  ⟨by decide, by decide,
    (run Constants.ordered session (initialized AdapterState.INTIALIZED_STATE)).get hs,
    (Option.some_get hs).symm,
    (preview_enabled_and_display_paused_exclusive Constants.ordered session
      (initialized AdapterState.INTIALIZED_STATE) _ (by decide) (Option.some_get hs).symm).2⟩

end CameraCodes.CameraHal

namespace CameraCodes.ANativeWindowDisplayAdapter

/-- C7, evaluated where the code departs from it: after three consecutive failed
compositor dequeues in `handleFrameReturn` (either tree) the adapter is not suspended:
each call returns `false`, and `mSuspend` is still `false` and the failed-dequeue
counter still 0, below `FAILED_DQS_TO_SUSPEND`; a dequeue that then succeeds finds
nothing to clear. -/
theorem handleFrameReturn_never_suspends :
    (handleFrameReturn Variant.camera Env.dequeueFails 5 withWindow).map (fun r => r.1)
      = some false ∧
    (handleFrameReturns Variant.camera 5
        [Env.dequeueFails, Env.dequeueFails, Env.dequeueFails] withWindow).map
        (fun s => (s.mSuspend, s.mFailedDQs, decide (s.mFailedDQs ≥ FAILED_DQS_TO_SUSPEND)))
      = some (false, 0, false) ∧
    (handleFrameReturns Variant.libcamera 5
        [Env.dequeueFails, Env.dequeueFails, Env.dequeueFails] withWindow).map
        (fun s => (s.mSuspend, s.mFailedDQs, decide (s.mFailedDQs ≥ FAILED_DQS_TO_SUSPEND)))
      = some (false, 0, false) ∧
    (handleFrameReturns Variant.camera 5
        [Env.dequeueFails, Env.dequeueFails, Env.dequeueFails, Env.dequeueOk] withWindow).map
        (fun s => (s.mSuspend, s.mFailedDQs, s.mFramesWithCameraAdapterMap))
      = some (false, 0, [(4096, 0)]) := by
  decide

theorem findBuffer_spec (map : List Nat) (buf : Nat) (remaining : Nat) :
    ∀ i, i + remaining ≤ map.length →
      ∃ k, findBuffer map buf remaining i = some k ∧ i ≤ k ∧ k ≤ i + remaining ∧
        (k < i + remaining → map.get? k = some buf) ∧
        ∀ j, i ≤ j → j < k → map.get? j ≠ some buf := by
  induction remaining with
  | zero =>
    intro i _
    exact ⟨i, rfl, le_refl _, le_refl _, fun h => absurd h (lt_irrefl _),
      fun j h1 h2 => absurd (lt_of_le_of_lt h1 h2) (lt_irrefl _)⟩
  | succ r ih =>
    intro i hlen
    have hi : i < map.length := by omega
    unfold findBuffer
    rw [List.get?_eq_get hi]
    simp only []
    by_cases hb : map.get ⟨i, hi⟩ = buf
    · rw [if_pos hb]
      refine ⟨i, rfl, le_refl _, by omega, fun _ => ?_, fun j h1 h2 => by omega⟩
      rw [List.get?_eq_get hi, hb]
    · rw [if_neg hb]
      obtain ⟨k, h1, h2, h3, h4, h5⟩ := ih (i + 1) (by omega)
      refine ⟨k, h1, by omega, by omega, fun h => h4 (by omega), fun j hj1 hj2 => ?_⟩
      by_cases hji : j = i
      · subst hji
        rw [List.get?_eq_get hi]
        intro h
        exact hb (Option.some.inj h)
      · exact h5 j (by omega) hj2

theorem postFrame_spec (s : State) (mBuffer : Nat)
    (hG : s.mBufferCount ≤ s.mGrallocHandleMap.length)
    (hB : s.mBufferCount ≤ s.mBufferHandleMap.length) :
    ((s.mGrallocHandleMapSet = true ∧ mBuffer ≠ 0 ∧
        ∃ i, i < s.mBufferCount ∧ s.mGrallocHandleMap.get? i = some mBuffer) →
      ∃ index handle, index < s.mBufferCount ∧
        s.mGrallocHandleMap.get? index = some mBuffer ∧
        (∀ j, j < index → s.mGrallocHandleMap.get? j ≠ some mBuffer) ∧
        s.mBufferHandleMap.get? index = some handle ∧
        (s.mANativeWindow = true →
          postFrame s mBuffer = some (NO_ERROR, { s with
            mFramesWithCameraAdapterMap :=
              s.mFramesWithCameraAdapterMap.filter (fun e => e.1 ≠ mBuffer)
            trace := s.trace ++ [Effect.mapper_unlock handle, Effect.enqueue_buffer handle,
              Effect.mDisplayQ_put] })) ∧
        (s.mANativeWindow = false → postFrame s mBuffer = none)) ∧
    (¬ (s.mGrallocHandleMapSet = true ∧ mBuffer ≠ 0 ∧
        ∃ i, i < s.mBufferCount ∧ s.mGrallocHandleMap.get? i = some mBuffer) →
      postFrame s mBuffer = some (-EINVAL, s)) := by
  obtain ⟨k, hk, _, hk2, hk3, hk4⟩ :=
    findBuffer_spec s.mGrallocHandleMap mBuffer s.mBufferCount 0 (by omega)
  constructor
  · rintro ⟨hset, hnz, i, hi, hgi⟩
    have hklt : k < s.mBufferCount := by
      by_contra hge
      exact hk4 i (Nat.zero_le _) (by omega) hgi
    have hkB : k < s.mBufferHandleMap.length := by omega
    refine ⟨k, s.mBufferHandleMap.get ⟨k, hkB⟩, hklt, hk3 (by omega),
      fun j hj => hk4 j (Nat.zero_le _) hj, List.get?_eq_get hkB, ?_, ?_⟩
    · intro hw
      unfold postFrame
      rw [if_neg (by simp [hset, hnz]), hk]
      simp only []
      rw [if_neg (by omega), List.get?_eq_get hkB]
      simp [State.emit, hw, KeyedVector_removeItem]
    · intro hw
      unfold postFrame
      rw [if_neg (by simp [hset, hnz]), hk]
      simp only []
      rw [if_neg (by omega), List.get?_eq_get hkB]
      simp [State.emit, hw]
  · intro hn
    unfold postFrame
    by_cases h0 : s.mGrallocHandleMapSet = false ∨ mBuffer = 0
    · rw [if_pos h0]
    · rw [if_neg h0, hk]
      simp only []
      have hge : k ≥ s.mBufferCount := by
        by_contra hlt
        apply hn
        refine ⟨?_, ?_, k, by omega, hk3 (by omega)⟩
        · cases h : s.mGrallocHandleMapSet
          · exact absurd (Or.inl h) h0
          · rfl
        · exact fun h => h0 (Or.inr h)
      rw [if_pos hge]

/-- C16, evaluated where the code departs from it. `allocateBuffer` leaves a ring of two
buffers (handles 100 and 200, mapped at 4196 and 4296, both tracked); `handleFrameReturn`
then meets a `dequeue_buffer` that fails with `ENODEV`: it sets `mANativeWindow` to
`NULL` and leaves the arrays and the tracking map as they were. A frame descriptor for
4296 then equals slot 1 of the gralloc handle map, and `postFrame` unlocks handle 200
and calls `enqueue_buffer` through the `NULL` window: it has no result, so it does not
return `NO_ERROR`. In the same state with the window set `postFrame` unlocks 200,
enqueues 200, leaves `[(4196, 0)]` as the tracking map and returns `NO_ERROR`; a
descriptor for 5000, which matches no slot, gets `-EINVAL`. In general, for every
state whose two arrays hold `mBufferCount` slots and every descriptor: when the handle
map is allocated and the non-null buffer equals an entry, `postFrame` works on the first
matching slot; with a window set it unlocks, enqueues, drops exactly the entries keyed
by the buffer from the tracking map, signals the display queue and returns `NO_ERROR`;
with the window `NULL` it has no result; in every other case it returns `-EINVAL` with
the state, the trace of calls included, unchanged. -/
theorem postFrame_null_window_after_surface_abandoned :
    allocateBuffer AllocEnv.ok fresh 640 480 2 = some (true, ring2) ∧
    (handleFrameReturn Variant.camera Env.surfaceAbandoned 5 ring2).map
        (fun r => (r.1, r.2.mANativeWindow, r.2.trace.drop ring2.trace.length))
      = some (false, false, [Effect.dequeue_buffer]) ∧
    (handleFrameReturn Variant.camera Env.surfaceAbandoned 5 ring2).map
        (fun r => (r.2.mBufferCount, r.2.mBufferHandleMap, r.2.mGrallocHandleMapSet,
          r.2.mGrallocHandleMap, r.2.mFramesWithCameraAdapterMap))
      = some (2, [100, 200], true, [4196, 4296], [(4196, 0), (4296, 1)]) ∧
    ((handleFrameReturn Variant.camera Env.surfaceAbandoned 5 ring2).bind
        (fun r => postFrame r.2 4296)).isNone = true ∧
    (postFrame ring2 4296).map
        (fun r => (r.1, r.2.mFramesWithCameraAdapterMap, r.2.trace.drop ring2.trace.length))
      = some (NO_ERROR, [(4196, 0)],
          [Effect.mapper_unlock 200, Effect.enqueue_buffer 200, Effect.mDisplayQ_put]) ∧
    (postFrame ring2 4196).map
        (fun r => (r.1, r.2.mFramesWithCameraAdapterMap, r.2.trace.drop ring2.trace.length))
      = some (NO_ERROR, [(4296, 1)],
          [Effect.mapper_unlock 100, Effect.enqueue_buffer 100, Effect.mDisplayQ_put]) ∧
    (postFrame ring2 5000).map
        (fun r => (r.1, r.2.mFramesWithCameraAdapterMap, r.2.trace.drop ring2.trace.length))
      = some (-EINVAL, [(4196, 0), (4296, 1)], []) ∧
    ∀ (s : State) (mBuffer : Nat), s.mBufferCount ≤ s.mGrallocHandleMap.length →
      s.mBufferCount ≤ s.mBufferHandleMap.length →
      ((s.mGrallocHandleMapSet = true ∧ mBuffer ≠ 0 ∧
          ∃ i, i < s.mBufferCount ∧ s.mGrallocHandleMap.get? i = some mBuffer) →
        ∃ index handle, index < s.mBufferCount ∧
          s.mGrallocHandleMap.get? index = some mBuffer ∧
          (∀ j, j < index → s.mGrallocHandleMap.get? j ≠ some mBuffer) ∧
          s.mBufferHandleMap.get? index = some handle ∧
          (s.mANativeWindow = true →
            postFrame s mBuffer = some (NO_ERROR, { s with
              mFramesWithCameraAdapterMap :=
                s.mFramesWithCameraAdapterMap.filter (fun e => e.1 ≠ mBuffer)
              trace := s.trace ++ [Effect.mapper_unlock handle, Effect.enqueue_buffer handle,
                Effect.mDisplayQ_put] })) ∧
          (s.mANativeWindow = false → postFrame s mBuffer = none)) ∧
      (¬ (s.mGrallocHandleMapSet = true ∧ mBuffer ≠ 0 ∧
          ∃ i, i < s.mBufferCount ∧ s.mGrallocHandleMap.get? i = some mBuffer) →
        postFrame s mBuffer = some (-EINVAL, s)) := by
  refine ⟨rfl, by decide, rfl, by decide, by decide, by decide, by decide, ?_⟩
  intro s mBuffer hG hB
  exact postFrame_spec s mBuffer hG hB

theorem findBuffer_some (map : List Nat) (buf : Nat) (remaining : Nat) :
    ∀ i k, findBuffer map buf remaining i = some k →
      i ≤ k ∧ k ≤ i + remaining ∧ (k < i + remaining → map.get? k = some buf) := by
  induction remaining with
  | zero =>
    intro i k h
    simp only [findBuffer, Option.some.injEq] at h
    subst h
    exact ⟨le_refl _, le_refl _, fun h => absurd h (lt_irrefl _)⟩
  | succ r ih =>
    intro i k h
    unfold findBuffer at h
    cases hg : map.get? i with
    | none => rw [hg] at h; cases h
    | some v =>
      rw [hg] at h
      simp only [] at h
      by_cases hb : v = buf
      · rw [if_pos hb] at h
        cases h
        exact ⟨le_refl _, by omega, fun _ => by rw [hg, hb]⟩
      · rw [if_neg hb] at h
        obtain ⟨h1, h2, h3⟩ := ih (i + 1) k h
        exact ⟨by omega, by omega, fun hk => h3 (by omega)⟩

theorem keys_KeyedVector_add (key value : Nat) (m : List (Nat × Nat)) (k : Nat) :
    k ∈ (KeyedVector_add key value m).map Prod.fst ↔ k = key ∨ k ∈ m.map Prod.fst := by
  induction m with
  | nil => simp [KeyedVector_add]
  | cons e rest ih =>
    unfold KeyedVector_add
    split_ifs with h1 h2
    · simp
    · simp [h2]
    · simp only [List.map_cons, List.mem_cons, ih]
      tauto

theorem keys_KeyedVector_removeItem (key : Nat) (m : List (Nat × Nat)) (k : Nat) :
    k ∈ (KeyedVector_removeItem key m).map Prod.fst ↔ k ≠ key ∧ k ∈ m.map Prod.fst := by
  unfold KeyedVector_removeItem
  simp only [List.mem_map, List.mem_filter, decide_eq_true_eq]
  constructor
  · rintro ⟨e, ⟨he, hne⟩, rfl⟩
    exact ⟨hne, e, he, rfl⟩
  · rintro ⟨hne, e, he, rfl⟩
    exact ⟨e, ⟨he, hne⟩, rfl⟩

theorem mapperLockLoop_world (env : Env) (tries handle : Nat) (fuel : Nat) :
    ∀ (n : Nat) (s : State) (r : Bool × State),
      mapperLockLoop env tries handle fuel n s = some r →
      ∃ delta, r.2 = { s with trace := s.trace ++ delta } ∧
        ∀ nd nc b, world env.answers delta nd n nc b =
          if r.1 then { b with locked := handle :: b.locked } else b := by
  induction fuel with
  | zero => intro n s r h; simp [mapperLockLoop] at h
  | succ f ih =>
    intro n s r h
    unfold mapperLockLoop at h
    simp only [] at h
    by_cases hneg : env.mapper_lock n < 0
    · rw [if_pos hneg] at h
      by_cases hgive : n + 1 > tries
      · rw [if_pos hgive] at h
        cases h
        refine ⟨[Effect.mapper_lock handle], rfl, fun nd nc b => ?_⟩
        simp [world, Env.answers, hneg]
      · rw [if_neg hgive] at h
        obtain ⟨delta, hd, hw⟩ := ih (n + 1) _ r h
        refine ⟨Effect.mapper_lock handle :: Effect.usleep 15000 :: delta, ?_, fun nd nc b => ?_⟩
        · rw [hd]; simp [State.emit]
        · simp only [world, Env.answers, hneg, not_true_eq_false, decide_False,
            Bool.false_eq_true, if_false]
          exact hw nd nc b
    · rw [if_neg hneg] at h
      cases h
      refine ⟨[Effect.mapper_lock handle], rfl, fun nd nc b => ?_⟩
      simp [world, Env.answers, hneg]

theorem world_append_returnFrame (a : Answers) (x : Nat) (t : FrameType) (l : List Effect) :
    ∀ (nd nl nc : Nat) (b : Buffers),
      world a (l ++ [Effect.returnFrame x t]) nd nl nc b = world a l nd nl nc b := by
  induction l with
  | nil => intro nd nl nc b; simp [world]
  | cons e rest ih =>
    intro nd nl nc b
    cases e <;> simp only [List.cons_append, world] <;> exact ih _ _ _ _

theorem handleFrameReturn_world (env : Env) (tries : Nat) (s : State) (r : Bool × State)
    (h : handleFrameReturn Variant.camera env tries s = some r) :
    ∃ delta, r.2.trace = s.trace ++ delta ∧
      r.2.mBufferHandleMap = s.mBufferHandleMap ∧ r.2.mBufferCount = s.mBufferCount ∧
      r.2.mGrallocHandleMapSet = s.mGrallocHandleMapSet ∧
      ((r.2.mGrallocHandleMap = s.mGrallocHandleMap ∧
          r.2.mFramesWithCameraAdapterMap = s.mFramesWithCameraAdapterMap ∧
          ∀ b, world env.answers delta 0 0 0 b =
            if s.mANativeWindow = true ∧ env.dequeue_buffer = 0 then
              { b with queued := b.queued.filter (fun x => x ≠ env.buf) } else b) ∨
       (∃ i, i < s.mBufferCount ∧ s.mBufferHandleMap.get? i = some env.buf ∧
          env.dequeue_buffer = 0 ∧
          r.2.mGrallocHandleMap = s.mGrallocHandleMap.set i env.y_uv ∧
          r.2.mFramesWithCameraAdapterMap =
            KeyedVector_add env.y_uv i s.mFramesWithCameraAdapterMap ∧
          ∀ b, world env.answers delta 0 0 0 b =
            { locked := env.buf :: b.locked,
              queued := b.queued.filter (fun x => x ≠ env.buf) })) := by
  unfold handleFrameReturn at h
  by_cases hw : s.mANativeWindow = true
  swap
  · have hw2 : s.mANativeWindow = false := by
      cases hs : s.mANativeWindow
      · rfl
      · exact absurd hs hw
    simp only [hw2, Bool.not_false, if_true, Option.some.injEq] at h
    subst h
    exact ⟨[], by simp, rfl, rfl, rfl, Or.inl ⟨rfl, rfl, fun b => by simp [world, hw2]⟩⟩
  rw [hw, if_neg (by decide)] at h
  dsimp only at h
  by_cases hd : env.dequeue_buffer ≠ 0
  · rw [if_pos hd] at h
    cases h
    refine ⟨[Effect.dequeue_buffer], ?_, ?_, ?_, ?_, Or.inl ⟨?_, ?_, fun b => ?_⟩⟩
    all_goals (try (unfold windowFailed; simp only []; split_ifs <;> rfl))
    simp [world, Env.answers, hd]
  rw [if_neg hd] at h
  have hd0 : env.dequeue_buffer = 0 := not_not.mp hd
  by_cases hl : env.lock_buffer ≠ 0
  · rw [if_pos hl] at h
    cases h
    refine ⟨[Effect.dequeue_buffer, Effect.lock_buffer env.buf], ?_, ?_, ?_, ?_,
      Or.inl ⟨?_, ?_, fun b => ?_⟩⟩
    all_goals (try (unfold windowFailed; simp only [State.emit]; split_ifs <;> simp))
    simp [world, Env.answers, hd0, hw]
  rw [if_neg hl] at h
  cases hf : findBuffer ((s.emit Effect.dequeue_buffer).emit
      (Effect.lock_buffer env.buf)).mBufferHandleMap env.buf
      ((s.emit Effect.dequeue_buffer).emit (Effect.lock_buffer env.buf)).mBufferCount 0 with
  | none => rw [hf] at h; cases h
  | some i =>
    rw [hf] at h
    simp only [] at h
    have hfs := findBuffer_some _ _ _ _ _ hf
    by_cases hge : i ≥ ((s.emit Effect.dequeue_buffer).emit
        (Effect.lock_buffer env.buf)).mBufferCount
    · rw [if_pos hge] at h
      cases h
      refine ⟨[Effect.dequeue_buffer, Effect.lock_buffer env.buf], ?_, rfl, rfl, rfl,
        Or.inl ⟨rfl, rfl, fun b => ?_⟩⟩
      · simp [State.emit]
      · simp [world, Env.answers, hd0, hw]
    · rw [if_neg hge] at h
      have hilt : i < s.mBufferCount := by
        simpa [State.emit] using hge
      have hgi : s.mBufferHandleMap.get? i = some env.buf := by
        have := hfs.2.2 (by simpa [State.emit] using hilt)
        simpa [State.emit] using this
      unfold lockAndReturn at h
      simp only [State.emit] at h
      rw [hgi] at h
      simp only [] at h
      cases hm : mapperLockLoop env tries env.buf (tries + 1) 0
          { s with trace := s.trace ++ [Effect.dequeue_buffer] ++ [Effect.lock_buffer env.buf] } with
      | none => rw [hm] at h; cases h
      | some q =>
        rw [hm] at h
        obtain ⟨delta, hq, hwd⟩ := mapperLockLoop_world env tries env.buf _ _ _ _ hm
        obtain ⟨ok, s1⟩ := q
        simp only [] at hq hwd
        subst hq
        cases ok with
        | false =>
          simp only [Option.some.injEq] at h
          subst h
          refine ⟨Effect.dequeue_buffer :: Effect.lock_buffer env.buf :: delta, ?_, rfl, rfl,
            rfl, Or.inl ⟨rfl, rfl, fun b => ?_⟩⟩
          · simp
          · have hdeq : env.answers.dequeued 0 = some env.buf := by
              simp [Env.answers, hd0]
            simp only [world, hdeq]
            rw [hwd]
            simp [hw, hd0]
        | true =>
          simp only [] at h
          by_cases hp : s.mFrameProvider = true
          · simp only [hp, if_true, Option.some.injEq] at h
            subst h
            refine ⟨Effect.dequeue_buffer :: Effect.lock_buffer env.buf :: (delta ++
              [Effect.returnFrame env.y_uv FrameType.PREVIEW_FRAME_SYNC]), ?_, rfl, rfl, rfl,
              Or.inr ⟨i, hilt, hgi, hd0, rfl, rfl, fun b => ?_⟩⟩
            · simp
            · have hdeq : env.answers.dequeued 0 = some env.buf := by
                simp [Env.answers, hd0]
              simp only [world, hdeq]
              rw [world_append_returnFrame, hwd]
              rfl
          · simp [hp] at h

theorem postFrame_world (s : State) (mBuffer : Nat) (r : Int × State)
    (h : postFrame s mBuffer = some r) :
    r.2 = s ∨
    ∃ index handle, index < s.mBufferCount ∧ s.mGrallocHandleMap.get? index = some mBuffer ∧
      s.mBufferHandleMap.get? index = some handle ∧
      r.2 = { s with
        mFramesWithCameraAdapterMap :=
          KeyedVector_removeItem mBuffer s.mFramesWithCameraAdapterMap
        trace := s.trace ++ [Effect.mapper_unlock handle, Effect.enqueue_buffer handle,
          Effect.mDisplayQ_put] } := by
  unfold postFrame at h
  by_cases h0 : s.mGrallocHandleMapSet = false ∨ mBuffer = 0
  · rw [if_pos h0] at h; cases h; exact Or.inl rfl
  rw [if_neg h0] at h
  cases hf : findBuffer s.mGrallocHandleMap mBuffer s.mBufferCount 0 with
  | none => rw [hf] at h; cases h
  | some index =>
    rw [hf] at h
    dsimp only at h
    have hfs := findBuffer_some _ _ _ _ _ hf
    by_cases hge : index ≥ s.mBufferCount
    · rw [if_pos hge] at h; cases h; exact Or.inl rfl
    rw [if_neg hge] at h
    cases hg : s.mBufferHandleMap.get? index with
    | none => rw [hg] at h; cases h
    | some handle =>
      rw [hg] at h
      dsimp only at h
      by_cases hw : (s.emit (Effect.mapper_unlock handle)).mANativeWindow = false
      · rw [if_pos hw] at h; cases h
      rw [if_neg hw] at h
      cases h
      refine Or.inr ⟨index, handle, by omega, hfs.2.2 (by omega), hg, ?_⟩
      simp [State.emit]

theorem get?_map_list (f : Nat → Nat) (l : List Nat) (i : Nat) :
    (l.map f).get? i = (l.get? i).map f := by
  simp [List.get?_eq_getElem?]

theorem set_of_get? (l : List Nat) : ∀ (i a : Nat), l.get? i = some a → l.set i a = l := by
  induction l with
  | nil => intro i a h; simp
  | cons x rest ih =>
    intro i a h
    cases i with
    | zero => simp only [List.get?_cons_zero, Option.some.injEq] at h; simp [h]
    | succ j => simp only [List.get?_cons_succ] at h; simp [ih j a h]

theorem drop_trace (l delta : List Effect) : (l ++ delta).drop l.length = delta := by
  simp

theorem step_keeps_Held (tries : Nat) (addr : Nat → Nat) (ring : List Nat)
    (hinj : ∀ h k, h ∈ ring → k ∈ ring → addr h = addr k → h = k)
    (st : Step) (sb sb1 : State × Buffers) (hI : Held addr ring sb)
    (hb : st.behaved addr sb.2 = true) (hs : step tries st sb = some sb1) :
    Held addr ring sb1 := by
  obtain ⟨hH, hC, hG, hS, hL, hK, hQ⟩ := hI
  cases st with
  | postFrame env mBuffer =>
    simp only [Step.behaved, decide_eq_true_eq] at hb
    simp only [step, Option.map_eq_some'] at hs
    obtain ⟨r, hr, rfl⟩ := hs
    rcases postFrame_world _ _ _ hr with h1 | ⟨index, handle, hi, hgi, hbi, h2⟩
    · rw [h1]
      simp only [List.drop_length, world]
      exact ⟨hH, hC, hG, hS, hL, hK, hQ⟩
    · rw [h2]
      simp only [drop_trace, world, PostEnv.answers, hb, decide_True, if_true]
      have hhr : handle ∈ ring := by
        rw [← hH]; exact List.get?_mem hbi
      have hma : addr handle = mBuffer := by
        rw [hG, get?_map_list, ← hH, hbi] at hgi
        simpa using hgi
      have hLk : ∀ h, h ∈ sb.2.locked.filter (fun x => x ≠ handle) ↔
          h ∈ ring ∧ addr h ∈ (KeyedVector_removeItem mBuffer
            sb.1.mFramesWithCameraAdapterMap).map Prod.fst := by
        intro h
        rw [keys_KeyedVector_removeItem]
        simp only [List.mem_filter, decide_eq_true_eq, hL h, trackedKeys]
        constructor
        · rintro ⟨⟨a, b⟩, c⟩
          refine ⟨a, ?_, b⟩
          intro e
          exact c (hinj h handle a hhr (e.trans hma.symm))
        · rintro ⟨a, b, c⟩
          refine ⟨⟨a, c⟩, ?_⟩
          intro e
          exact b (by rw [e, hma])
      refine ⟨hH, hC, hG, hS, ?_, ?_, ?_⟩
      · intro h
        by_cases he : env.enqueue_buffer = 0 <;> simp only [he, decide_True, decide_False,
          if_true, Bool.false_eq_true, if_false] <;> exact hLk h
      · intro k hk
        simp only [trackedKeys] at hk
        rw [keys_KeyedVector_removeItem] at hk
        exact hK k hk.2
      · intro h hq
        by_cases he : env.enqueue_buffer = 0
        · simp only [he, decide_True, if_true, List.mem_cons] at hq ⊢
          rcases hq with rfl | hq
          · exact ⟨hhr, by simp⟩
          · exact ⟨(hQ h hq).1, fun hm => (hQ h hq).2 (List.mem_of_mem_filter hm)⟩
        · simp only [he, decide_False, Bool.false_eq_true, if_false] at hq ⊢
          exact ⟨(hQ h hq).1, fun hm => (hQ h hq).2 (List.mem_of_mem_filter hm)⟩
  | handleFrameReturn env =>
    simp only [Step.behaved, decide_eq_true_eq] at hb
    simp only [step, Option.map_eq_some'] at hs
    obtain ⟨r, hr, rfl⟩ := hs
    obtain ⟨delta, htr, hHm, hCn, hSet, hcase⟩ := handleFrameReturn_world env tries sb.1 r hr
    simp only [htr, drop_trace]
    rcases hcase with ⟨hg, hm, hw⟩ | ⟨i, hi, hgi, hd0, hg, hm, hw⟩
    · rw [hw]
      have hkeys : trackedKeys r.2 = trackedKeys sb.1 := by simp only [trackedKeys, hm]
      refine ⟨hHm.trans hH, hCn.trans hC, hg.trans hG, hSet.trans hS, ?_, ?_, ?_⟩
      · intro h
        rw [hkeys]
        split_ifs <;> exact hL h
      · intro k hk
        rw [hkeys] at hk
        exact hK k hk
      · intro h hq
        split_ifs at hq ⊢
        · exact hQ h (List.mem_of_mem_filter hq)
        · exact hQ h hq
    · rw [hw]
      obtain ⟨hbq, hy⟩ := hb hd0
      have hbr : env.buf ∈ ring := (hQ _ hbq).1
      have hkeys : ∀ k, k ∈ trackedKeys r.2 ↔ k = addr env.buf ∨ k ∈ trackedKeys sb.1 := by
        intro k
        simp only [trackedKeys, hm, hy]
        exact keys_KeyedVector_add _ _ _ _
      refine ⟨hHm.trans hH, hCn.trans hC, ?_, hSet.trans hS, ?_, ?_, ?_⟩
      · rw [hg, hG]
        apply set_of_get?
        rw [get?_map_list, ← hH, hgi, hy]
        rfl
      · intro h
        simp only [List.mem_cons, hkeys, hL h]
        constructor
        · rintro (rfl | ⟨a, b⟩)
          · exact ⟨hbr, Or.inl rfl⟩
          · exact ⟨a, Or.inr b⟩
        · rintro ⟨a, b | b⟩
          · exact Or.inl (hinj h env.buf a hbr b)
          · exact Or.inr ⟨a, b⟩
      · intro k hk
        rcases (hkeys k).mp hk with rfl | hk
        · exact ⟨env.buf, hbr, rfl⟩
        · exact hK k hk
      · intro h hq
        simp only [List.mem_filter, decide_eq_true_eq] at hq
        refine ⟨(hQ h hq.1).1, ?_⟩
        simp only [List.mem_cons, not_or]
        exact ⟨hq.2, (hQ h hq.1).2⟩

theorem allocateLoop_world (env : AllocEnv) (remaining : Nat) :
    ∀ (i : Nat) (s : State) (k : Nat) (s1 : State),
      allocateLoop env remaining i s = some (false, k, s1) →
      (∀ j, i ≤ j → j < i + remaining → ¬ env.mapper_lock j < 0) →
      ∃ delta, s1.trace = s.trace ++ delta ∧
        s1.mBufferHandleMap = s.mBufferHandleMap ++ (List.range' i remaining).map env.buf ∧
        s1.mGrallocHandleMap = s.mGrallocHandleMap ++ (List.range' i remaining).map env.y_uv ∧
        s1.mBufferCount = s.mBufferCount ∧
        s1.mGrallocHandleMapSet = s.mGrallocHandleMapSet ∧
        (∀ key, key ∈ trackedKeys s1 ↔
          key ∈ trackedKeys s ∨ ∃ j, i ≤ j ∧ j < i + remaining ∧ key = env.y_uv j) ∧
        ∀ nc b, b.queued = [] →
          (world env.answers delta i i nc b).queued = [] ∧
          ∀ h, h ∈ (world env.answers delta i i nc b).locked ↔
            h ∈ b.locked ∨ ∃ j, i ≤ j ∧ j < i + remaining ∧ h = env.buf j := by
  induction remaining with
  | zero =>
    intro i s k s1 h _
    simp only [allocateLoop, Option.some.injEq, Prod.mk.injEq, true_and] at h
    obtain ⟨_, rfl⟩ := h
    refine ⟨[], by simp, by simp, by simp, rfl, rfl, ?_, ?_⟩
    · intro key
      constructor
      · exact fun h => Or.inl h
      · rintro (h | ⟨j, h1, h2, _⟩)
        · exact h
        · omega
    · intro nc b hb
      refine ⟨by simpa [world] using hb, fun h => ?_⟩
      simp only [world]
      constructor
      · exact fun h => Or.inl h
      · rintro (h | ⟨j, h1, h2, _⟩)
        · exact h
        · omega
  | succ r ih =>
    intro i s k s1 h hl
    unfold allocateLoop at h
    dsimp only at h
    by_cases hd : env.dequeue_buffer i ≠ 0
    · rw [if_pos hd] at h
      simp at h
    rw [if_neg hd] at h
    have hd0 : env.dequeue_buffer i = 0 := not_not.mp hd
    by_cases hp : s.mFrameProvider = true
    swap
    · simp [State.emit, hp] at h
    simp only [State.emit, hp, if_true] at h
    obtain ⟨delta, h1, h2, h3, h4, h5, h6, h7⟩ := ih (i + 1) _ k s1 h
      (fun j hj1 hj2 => hl j (by omega) (by omega))
    refine ⟨Effect.dequeue_buffer :: Effect.mapper_lock (env.buf i) ::
      Effect.lock_buffer (env.buf i) :: Effect.addFramePointers (env.y_uv i) :: delta,
      ?_, ?_, ?_, h4, h5, ?_, ?_⟩
    · rw [h1]; simp
    · rw [h2]; simp [List.range']
    · rw [h3]; simp [List.range']
    · intro key
      rw [h6 key]
      simp only [trackedKeys, keys_KeyedVector_add]
      constructor
      · rintro ((rfl | hk) | ⟨j, hj1, hj2, rfl⟩)
        · exact Or.inr ⟨i, le_refl _, by omega, rfl⟩
        · exact Or.inl hk
        · exact Or.inr ⟨j, by omega, by omega, rfl⟩
      · rintro (hk | ⟨j, hj1, hj2, rfl⟩)
        · exact Or.inl (Or.inr hk)
        · by_cases hji : j = i
          · subst hji; exact Or.inl (Or.inl rfl)
          · exact Or.inr ⟨j, by omega, by omega, rfl⟩
    · intro nc b hb
      have hdeq : env.answers.dequeued i = some (env.buf i) := by
        simp [AllocEnv.answers, hd0]
      have hlk : env.answers.locked i = true := by
        simp only [AllocEnv.answers, decide_eq_true_eq]
        exact hl i (le_refl _) (by omega)
      simp only [world, hdeq, hlk, if_true]
      obtain ⟨q, l⟩ := h7 nc
        { locked := env.buf i :: b.locked,
          queued := b.queued.filter (fun x => x ≠ env.buf i) } (by simp [hb])
      refine ⟨q, fun h => ?_⟩
      rw [l h]
      simp only [List.mem_cons]
      constructor
      · rintro ((rfl | hk) | ⟨j, hj1, hj2, rfl⟩)
        · exact Or.inr ⟨i, le_refl _, by omega, rfl⟩
        · exact Or.inl hk
        · exact Or.inr ⟨j, by omega, by omega, rfl⟩
      · rintro (hk | ⟨j, hj1, hj2, rfl⟩)
        · exact Or.inl (Or.inr hk)
        · by_cases hji : j = i
          · subst hji; exact Or.inl (Or.inl rfl)
          · exact Or.inr ⟨j, by omega, by omega, rfl⟩

theorem allocateBuffer_Held (env : AllocEnv) (addr : Nat → Nat) (s0 s1 : State)
    (width height : Int) (numBufs : Nat)
    (halloc : allocateBuffer env s0 width height numBufs = some (true, s1))
    (hmap : s0.mFramesWithCameraAdapterMap = [])
    (hlock : ∀ i, i < numBufs → ¬ env.mapper_lock i < 0)
    (haddr : ∀ i, i < numBufs → env.y_uv i = addr (env.buf i)) :
    Held addr ((List.range numBufs).map env.buf) (s1, allocated env s0 s1) := by
  unfold allocateBuffer at halloc
  dsimp only at halloc
  by_cases hw : s0.mANativeWindow = false
  · rw [if_pos hw] at halloc; simp at halloc
  rw [if_neg hw] at halloc
  by_cases h1 : env.set_usage ≠ 0
  · rw [if_pos h1] at halloc; simp at halloc
  rw [if_neg h1] at halloc
  by_cases h2 : env.set_buffer_count ≠ 0
  · rw [if_pos h2] at halloc; simp at halloc
  rw [if_neg h2] at halloc
  by_cases h3 : env.set_buffers_geometry ≠ 0
  · rw [if_pos h3] at halloc; simp at halloc
  rw [if_neg h3] at halloc
  simp only [State.emit] at halloc
  generalize hs5 : ({ s0 with
      mBufferHandleMap := [], mGrallocHandleMap := [], mGrallocHandleMapSet := true,
      mBufferCount := numBufs,
      trace := s0.trace ++ [Effect.set_usage] ++ [Effect.set_buffer_count numBufs] ++
        [Effect.set_buffers_geometry width height] ++
        [Effect.get_min_undequeued_buffer_count] } : State) = s5 at halloc
  cases hloop : allocateLoop env numBufs 0 s5 with
  | none => rw [hloop] at halloc; cases halloc
  | some q =>
    rw [hloop] at halloc
    obtain ⟨failed, k, s6⟩ := q
    cases failed with
    | true =>
      dsimp only at halloc
      unfold allocateFail at halloc
      cases hc : cancelLoop env k 0 s6 with
      | none => rw [hc] at halloc; cases halloc
      | some c =>
        rw [hc] at halloc
        dsimp only at halloc
        cases hf : freeBuffers env c.2 c.1 with
        | none => rw [hf] at halloc; cases halloc
        | some f => rw [hf] at halloc; simp at halloc
    | false =>
      dsimp only at halloc
      simp only [Option.some.injEq, Prod.mk.injEq, true_and] at halloc
      subst halloc
      obtain ⟨delta, t1, t2, t3, t4, t5, t6, t7⟩ := allocateLoop_world env numBufs 0 s5 k s6 hloop
        (fun j _ hj => hlock j (by omega))
      have hring : ∀ h, h ∈ (List.range numBufs).map env.buf ↔ ∃ j, j < numBufs ∧ h = env.buf j := by
        intro h
        simp only [List.mem_map, List.mem_range]
        constructor
        · rintro ⟨j, hj, rfl⟩; exact ⟨j, hj, rfl⟩
        · rintro ⟨j, hj, rfl⟩; exact ⟨j, hj, rfl⟩
      have hkeys : ∀ key, key ∈ trackedKeys s6 ↔ ∃ j, j < numBufs ∧ key = env.y_uv j := by
        intro key
        rw [t6 key, ← hs5]
        simp only [trackedKeys, hmap, List.map_nil, List.not_mem_nil, false_or, Nat.zero_le,
          true_and, Nat.zero_add]
      have hworld : allocated env s0 s6 = world env.answers delta 0 0 0
          { locked := [], queued := [] } := by
        unfold allocated
        rw [t1, ← hs5]
        simp only [List.append_assoc, drop_trace]
        simp [world]
      obtain ⟨q1, q2⟩ := t7 0 { locked := [], queued := [] } rfl
      refine ⟨?_, ?_, ?_, ?_, ?_, ?_, ?_⟩
      · rw [t2, ← hs5]; simp [List.range_eq_range']
      · rw [t4, ← hs5]; simp
      · rw [t3, ← hs5]
        simp only [List.nil_append, List.map_map, List.range_eq_range']
        apply List.map_congr_left
        intro i hi
        simp only [List.mem_range'_1, Nat.zero_add] at hi
        exact haddr i hi.2
      · rw [t5, ← hs5]
      · intro h
        show h ∈ (allocated env s0 s6).locked ↔ _
        rw [hworld, q2 h, hring h]
        simp only [List.not_mem_nil, false_or, Nat.zero_le, true_and, Nat.zero_add]
        constructor
        · rintro ⟨j, hj, rfl⟩
          exact ⟨⟨j, hj, rfl⟩, (hkeys _).mpr ⟨j, hj, (haddr j hj).symm⟩⟩
        · rintro ⟨⟨j, hj, rfl⟩, _⟩
          exact ⟨j, hj, rfl⟩
      · intro key hk
        obtain ⟨j, hj, rfl⟩ := (hkeys key).mp hk
        exact ⟨env.buf j, (hring _).mpr ⟨j, hj, rfl⟩, (haddr j hj).symm⟩
      · intro h hq
        have : h ∈ (allocated env s0 s6).queued := hq
        rw [hworld, q1] at this
        cases this

theorem run_keeps_Held (tries : Nat) (addr : Nat → Nat) (ring : List Nat)
    (hinj : ∀ h k, h ∈ ring → k ∈ ring → addr h = addr k → h = k) (steps : List Step) :
    ∀ (sb sb1 : State × Buffers), Held addr ring sb →
      behaved tries addr steps sb = true → run tries steps sb = some sb1 →
      Held addr ring sb1 := by
  induction steps with
  | nil =>
    intro sb sb1 hI _ hr
    simp only [run, Option.some.injEq] at hr
    rw [← hr]; exact hI
  | cons st rest ih =>
    intro sb sb1 hI hb hr
    unfold behaved at hb
    unfold run at hr
    rw [Bool.and_eq_true] at hb
    cases hs : step tries st sb with
    | none => rw [hs] at hr; cases hr
    | some sb2 =>
      rw [hs] at hr hb
      exact ih sb2 sb1 (step_keeps_Held tries addr ring hinj st sb sb2 hI hb.1 hs) hb.2 hr

/-- C17 (amended): take a successful `allocateBuffer` (`src/camera/`) entered with an
empty frames-with-camera-adapter map, in which every `mapper.lock` succeeded and the
mapper maps different buffers at different addresses, followed by any sequence of
`postFrame` and `handleFrameReturn` steps in which `mapper.unlock` succeeds and a
successful `dequeue_buffer` hands out a buffer the compositor holds, mapped at its
address; `dequeue_buffer`, `lock_buffer`, `enqueue_buffer` and the `mapper.lock`
attempts of `handleFrameReturn` may succeed or fail in any way. In every state so
reached, the buffers whose CPU mapping is locked are exactly the buffers of the ring
whose address is a key of the frames-with-camera-adapter map, every key of that map is
the address of a buffer of the ring, and no buffer is at the same time enqueued to the
compositor and CPU-locked. -/
theorem allocateBuffer_run_locked_iff_tracked (tries : Nat) (env : AllocEnv)
    (addr : Nat → Nat) (s0 s1 : State) (width height : Int) (numBufs : Nat)
    (steps : List Step) (sb : State × Buffers)
    (halloc : allocateBuffer env s0 width height numBufs = some (true, s1))
    (hmap : s0.mFramesWithCameraAdapterMap = [])
    (hlock : ∀ i, i < numBufs → ¬ env.mapper_lock i < 0)
    (haddr : ∀ i, i < numBufs → env.y_uv i = addr (env.buf i))
    (hinj : ∀ i j, i < numBufs → j < numBufs → addr (env.buf i) = addr (env.buf j) →
      env.buf i = env.buf j)
    (hbeh : behaved tries addr steps (s1, allocated env s0 s1) = true)
    (hrun : run tries steps (s1, allocated env s0 s1) = some sb) :
    (∀ h, h ∈ sb.2.locked ↔ h ∈ sb.1.mBufferHandleMap ∧ addr h ∈ trackedKeys sb.1) ∧
    (∀ k, k ∈ trackedKeys sb.1 → ∃ h, h ∈ sb.1.mBufferHandleMap ∧ addr h = k) ∧
    (∀ h, ¬ (h ∈ sb.2.queued ∧ h ∈ sb.2.locked)) := by
  have hI := allocateBuffer_Held env addr s0 s1 width height numBufs halloc hmap hlock haddr
  have hinj2 : ∀ h k, h ∈ (List.range numBufs).map env.buf →
      k ∈ (List.range numBufs).map env.buf → addr h = addr k → h = k := by
    intro h k hh hk e
    simp only [List.mem_map, List.mem_range] at hh hk
    obtain ⟨i, hi, rfl⟩ := hh
    obtain ⟨j, hj, rfl⟩ := hk
    exact hinj i j hi hj e
  obtain ⟨hH, _, _, _, hL, hK, hQ⟩ :=
    run_keeps_Held tries addr _ hinj2 steps _ sb hI hbeh hrun
  refine ⟨fun h => ?_, fun k hk => ?_, fun h hq => (hQ h hq.1).2 hq.2⟩
  · rw [hH]; exact hL h
  · rw [hH]; exact hK k hk

/-- Witness of C17 (amended): two buffers allocated, then the run `steps2`. -/
theorem allocateBuffer_run_locked_iff_tracked_witness :
    allocateBuffer AllocEnv.ok fresh 640 480 2 = some (true, ring2) ∧
    behaved 5 addr2 steps2 (ring2, allocated AllocEnv.ok fresh ring2) = true ∧
    ∃ sb, run 5 steps2 (ring2, allocated AllocEnv.ok fresh ring2) = some sb ∧
      (∀ h, h ∈ sb.2.locked ↔ h ∈ sb.1.mBufferHandleMap ∧ addr2 h ∈ trackedKeys sb.1) ∧
      (∀ k, k ∈ trackedKeys sb.1 → ∃ h, h ∈ sb.1.mBufferHandleMap ∧ addr2 h = k) ∧
      (∀ h, ¬ (h ∈ sb.2.queued ∧ h ∈ sb.2.locked)) :=
  have hsome : (run 5 steps2 (ring2, allocated AllocEnv.ok fresh ring2)).isSome = true := by
    decide
  ⟨rfl, by decide,
    (run 5 steps2 (ring2, allocated AllocEnv.ok fresh ring2)).get hsome,
    (Option.some_get hsome).symm,
    allocateBuffer_run_locked_iff_tracked 5 AllocEnv.ok addr2 fresh ring2 640 480 2 steps2 _
      rfl rfl (fun _ _ => (by decide : ¬ (0 : Int) < 0)) (fun _ _ => rfl)
      (fun i j _ _ h => by simp only [AllocEnv.ok, addr2] at h ⊢; omega)
      (by decide) (Option.some_get hsome).symm⟩

/-- C17, as stated, fails when a mapper call fails. (1) After a successful
`allocateBuffer` of two buffers, a `postFrame` whose `mapper.unlock` fails while
`enqueue_buffer` succeeds leaves buffer 100 CPU-locked, not tracked in the
frames-with-camera-adapter map, and enqueued to the compositor: `postFrame` does not
read the status of `mapper.unlock`. (2) An `allocateBuffer` whose `mapper.lock` fails
on the first buffer still succeeds and tracks that buffer (under the `NULL` address it
was left with) although its CPU mapping is not locked: `allocateBuffer` does not read
the status of `mapper.lock`. -/
theorem failed_mapper_call_breaks_locked_iff_tracked :
    ((allocateBuffer AllocEnv.ok fresh 640 480 2).bind (fun r =>
      run 5 [Step.postFrame { mapper_unlock := -1, enqueue_buffer := 0 } 4196]
        (r.2, allocated AllocEnv.ok fresh r.2))).map
      (fun sb => (decide (100 ∈ sb.2.locked), decide (addr2 100 ∈ trackedKeys sb.1),
        decide (100 ∈ sb.2.queued))) = some (true, false, true) ∧
    (allocateBuffer AllocEnv.lockFails fresh 640 480 2).map
      (fun r => (r.1, r.2.mBufferHandleMap, r.2.mFramesWithCameraAdapterMap,
        (allocated AllocEnv.lockFails fresh r.2).locked)) =
      some (true, [100, 200], [(0, 0), (4296, 1)], [200]) := by
  decide

end CameraCodes.ANativeWindowDisplayAdapter

namespace CameraCodes.AppCallbackNotifier

/-- C8, as stated, fails: for a hardware-encoded still, with no raw frame seen and a
client that has enabled compressed-image but not raw-image (nor raw-image-notify),
`notifyFrame` delivers no raw-image data callback at all; the compressed image is the
only delivery. -/
theorem notifyFrame_no_dummy_raw_when_raw_disabled :
    msgTypeEnabled CAMERA_MSG_COMPRESSED_IMAGE CAMERA_MSG_RAW_IMAGE = false ∧
    msgTypeEnabled CAMERA_MSG_COMPRESSED_IMAGE CAMERA_MSG_COMPRESSED_IMAGE = true ∧
    (notifyFrame Config.ti Env.ok (stillQueued CAMERA_MSG_COMPRESSED_IMAGE)).map
        (fun s => s.trace)
      = some [Effect.mRequestMemory 1000 1, Effect.memcpy 8192 4096 1000,
          Effect.returnFrame 4096 FrameType.IMAGE_FRAME,
          Effect.mDataCb CAMERA_MSG_COMPRESSED_IMAGE { data := 8192, size := 1000 } 0,
          Effect.release { data := 8192, size := 1000 }, Effect.deleteFrame] ∧
    (notifyFrame Config.ti Env.ok (stillQueued CAMERA_MSG_COMPRESSED_IMAGE)).map
        (fun s => firstIndex (isDataCb CAMERA_MSG_RAW_IMAGE) s.trace)
      = some none := by
  decide

/-- C8, amended: for a hardware-encoded still (an `IMAGE_FRAME` without the software
encode quirk) at the head of the frame queue of a started notifier with its callbacks
and allocator set, when no raw frame has arrived and the client has enabled both the
raw-image and the compressed-image message types (and the allocator hands out both
blocks, `COPY_IMAGE_BUFFER` being defined), `notifyFrame` makes exactly these calls, in
this order: it requests a one-byte block, delivers it in a raw-image data callback and
releases it; then it requests the picture block, copies the still, returns the frame
buffer, delivers the compressed-image data callback, releases the block and deletes
the frame. -/
theorem notifyFrame_dummy_raw_before_compressed (cfg : Config) (env : Env) (s : State)
    (frame : CameraFrame) (rest : List Message) (m d1 d2 : Nat)
    (hq : s.mFrameQ
      = { command := NotifierCommands.NOTIFIER_CMD_PROCESS_FRAME, arg1 := some frame } :: rest)
    (htype : frame.mFrameType = FrameType.IMAGE_FRAME)
    (hquirk : frame.ENCODE_RAW_YUV422I_TO_JPEG = false)
    (hstarted : s.mNotifierState = NotifierState.NOTIFIER_STARTED)
    (hhal : s.mCameraHal = some m) (hdata : s.mDataCb = true) (hnotify : s.mNotifyCb = true)
    (hmem : s.mRequestMemory = true) (hraw : s.mRawAvailable = false)
    (hrawEnabled : msgTypeEnabled m CAMERA_MSG_RAW_IMAGE = true)
    (hcompEnabled : msgTypeEnabled m CAMERA_MSG_COMPRESSED_IMAGE = true)
    (hcopy : cfg.COPY_IMAGE_BUFFER = true)
    (halloc1 : env.mRequestMemory 1 1 = some d1)
    (halloc2 : env.mRequestMemory frame.mLength 1 = some d2) :
    ∃ s1, notifyFrame cfg env s = some s1 ∧ s1.mFrameQ = rest ∧
      s1.trace = s.trace ++
        [Effect.mRequestMemory 1 1,
         Effect.mDataCb CAMERA_MSG_RAW_IMAGE { data := d1, size := 1 } 0,
         Effect.release { data := d1, size := 1 },
         Effect.mRequestMemory frame.mLength 1] ++
        (if d2 ≠ 0 then [Effect.memcpy d2 (frame.mBuffer + frame.mOffset) frame.mLength]
          else []) ++
        [Effect.returnFrame frame.mBuffer FrameType.IMAGE_FRAME,
         Effect.mDataCb CAMERA_MSG_COMPRESSED_IMAGE { data := d2, size := frame.mLength } 0,
         Effect.release { data := d2, size := frame.mLength },
         Effect.deleteFrame] := by
  by_cases hd2 : d2 = 0
  · simp [notifyFrame, routeFrame, sendImageFrame, dummyRaw, copyAndSendPictureFrame,
      requestMemory, State.emit, hq, htype, hquirk, hstarted, hhal, hdata, hnotify, hmem, hraw,
      hrawEnabled, hcompEnabled, hcopy, halloc1, halloc2, hd2]
  · simp [notifyFrame, routeFrame, sendImageFrame, dummyRaw, copyAndSendPictureFrame,
      requestMemory, State.emit, hq, htype, hquirk, hstarted, hhal, hdata, hnotify, hmem, hraw,
      hrawEnabled, hcompEnabled, hcopy, halloc1, halloc2, hd2]

/-- Witness of amended C8: the encoded still with a client that has enabled raw-image
and compressed-image. -/
theorem notifyFrame_dummy_raw_before_compressed_witness :
    msgTypeEnabled 0x180 CAMERA_MSG_RAW_IMAGE = true ∧
    msgTypeEnabled 0x180 CAMERA_MSG_COMPRESSED_IMAGE = true ∧
    ∃ s1, notifyFrame Config.ti Env.ok (stillQueued 0x180) = some s1 ∧ s1.mFrameQ = [] ∧
      s1.trace = (stillQueued 0x180).trace ++
        [Effect.mRequestMemory 1 1,
         Effect.mDataCb CAMERA_MSG_RAW_IMAGE { data := 8192, size := 1 } 0,
         Effect.release { data := 8192, size := 1 },
         Effect.mRequestMemory encodedStill.mLength 1] ++
        (if 8192 ≠ 0 then
          [Effect.memcpy 8192 (encodedStill.mBuffer + encodedStill.mOffset) encodedStill.mLength]
          else []) ++
        [Effect.returnFrame encodedStill.mBuffer FrameType.IMAGE_FRAME,
         Effect.mDataCb CAMERA_MSG_COMPRESSED_IMAGE
           { data := 8192, size := encodedStill.mLength } 0,
         Effect.release { data := 8192, size := encodedStill.mLength },
         Effect.deleteFrame] :=
  ⟨by decide, by decide,
    notifyFrame_dummy_raw_before_compressed Config.ti Env.ok (stillQueued 0x180) encodedStill
      [] 0x180 8192 8192 rfl rfl rfl rfl rfl rfl rfl rfl rfl (by decide) (by decide) rfl rfl rfl⟩

/-- C18, evaluated where the code departs from it: a `RAW_FRAME` at the head of the
frame queue of a started notifier with every callback set and a client that has enabled
the raw-image message type. `notifyFrame` takes the empty branch of the raw-image test:
it makes no data callback (the only call is the deletion of the frame descriptor) and
does not return the buffer either; `mRawAvailable` is set. With raw-image disabled and
raw-image-notify enabled, the sibling branch notifies the client and returns the
buffer. -/
theorem notifyFrame_raw_frame_not_delivered :
    rawFrame.mFrameType = FrameType.RAW_FRAME ∧
    msgTypeEnabled CAMERA_MSG_RAW_IMAGE CAMERA_MSG_RAW_IMAGE = true ∧
    (frameQueued CAMERA_MSG_RAW_IMAGE rawFrame).mDataCb = true ∧
    (frameQueued CAMERA_MSG_RAW_IMAGE rawFrame).mNotifyCb = true ∧
    (notifyFrame Config.ti Env.ok (frameQueued CAMERA_MSG_RAW_IMAGE rawFrame)).map
        (fun s => (s.trace, s.mRawAvailable, s.mFrameQ))
      = some ([Effect.deleteFrame], true, []) ∧
    (notifyFrame Config.ti Env.ok (frameQueued CAMERA_MSG_RAW_IMAGE rawFrame)).map
        (fun s => firstIndex (isDataCb CAMERA_MSG_RAW_IMAGE) s.trace)
      = some none ∧
    (notifyFrame Config.ti Env.ok (frameQueued CAMERA_MSG_RAW_IMAGE_NOTIFY rawFrame)).map
        (fun s => (s.trace, s.mRawAvailable))
      = some ([Effect.mNotifyCb CAMERA_MSG_RAW_IMAGE_NOTIFY 0 0,
          Effect.returnFrame 4096 FrameType.RAW_FRAME, Effect.deleteFrame], true) := by
  decide

/-- C19, as stated, fails for a video frame outside a recording: a `VIDEO_FRAME_SYNC`
at the head of the frame queue of a started notifier whose client has enabled the
video-frame message type, while no recording is running. `notifyFrame` takes
`mRecordingLock`, finds `mRecording` false at the test `if(mRecording)` of the video
branch, releases the lock and deletes the frame descriptor: the buffer is not returned
to the frame provider, no encoder is started on it and nothing is delivered to the
client. A frame of a type no branch names is returned to the frame provider exactly
once. -/
theorem notifyFrame_video_frame_dropped_when_not_recording :
    videoFrame.mFrameType = FrameType.VIDEO_FRAME_SYNC ∧
    msgTypeEnabled CAMERA_MSG_VIDEO_FRAME CAMERA_MSG_VIDEO_FRAME = true ∧
    (frameQueued CAMERA_MSG_VIDEO_FRAME videoFrame).mRecording = false ∧
    (notifyFrame Config.ti Env.ok (frameQueued CAMERA_MSG_VIDEO_FRAME videoFrame)).map
        (fun s => (s.trace, s.gEncoderQueue, s.mFrameQ))
      = some ([Effect.mRecordingLock_lock, Effect.mRecordingLock_unlock, Effect.deleteFrame],
          [], []) ∧
    (notifyFrame Config.ti Env.ok (frameQueued CAMERA_MSG_VIDEO_FRAME videoFrame)).map
        (fun s => firstIndex (handsOn videoFrame.mBuffer) s.trace)
      = some none ∧
    (notifyFrame Config.ti Env.ok (frameQueued CAMERA_MSG_VIDEO_FRAME otherFrame)).map
        (fun s => (s.trace,
          s.trace.count (Effect.returnFrame otherFrame.mBuffer otherFrame.mFrameType)))
      = some ([Effect.returnFrame 4096 FrameType.PREVIEW_FRAME, Effect.deleteFrame], 1) := by
  decide

theorem queuesOf_requestMemory (env : Env) (s : State) (a b : Nat)
    (r : Option camera_memory_t × State) (h : requestMemory env s a b = some r) :
    queuesOf r.2 = queuesOf s := by
  unfold requestMemory at h
  split_ifs at h
  cases h
  rfl

theorem requestMemory_state (env : Env) (s : State) (a b : Nat)
    (r : Option camera_memory_t × State) (h : requestMemory env s a b = some r) :
    r.2 = s.emit (Effect.mRequestMemory a b) := by
  unfold requestMemory at h
  split_ifs at h
  cases h
  rfl

theorem queuesOf_dummyRaw (env : Env) (s : State) (r : Int × State)
    (h : dummyRaw env s = some r) : queuesOf r.2 = queuesOf s := by
  unfold dummyRaw at h
  by_cases hm : (!s.mRequestMemory) = true
  · rw [if_pos hm] at h; cases h; rfl
  rw [if_neg hm] at h
  cases hh : s.mCameraHal with
  | none => rw [hh] at h; cases h; rfl
  | some m =>
    rw [hh] at h
    dsimp only at h
    by_cases hcb : s.mDataCb = true ∧ s.mNotifyCb = true
    · rw [if_pos hcb] at h
      by_cases hraw : msgTypeEnabled m CAMERA_MSG_RAW_IMAGE = true
      · rw [if_pos hraw] at h
        cases hr : requestMemory env s 1 1 with
        | none => rw [hr] at h; cases h
        | some q =>
          have hq := requestMemory_state _ _ _ _ _ hr
          rw [hr] at h
          obtain ⟨m1, s2⟩ := q
          simp only [] at hq
          subst hq
          cases m1 <;> (cases h; simp only [queuesOf, State.emit])
      · rw [if_neg hraw] at h
        split_ifs at h <;> (cases h; simp only [queuesOf, State.emit])
    · rw [if_neg hcb] at h; cases h; rfl

theorem queuesOf_sendVideoFrame (env : Env) (s : State) (frame : CameraFrame) (s1 : State)
    (h : sendVideoFrame env s frame = some s1) : queuesOf s1 = queuesOf s := by
  unfold sendVideoFrame at h
  dsimp only at h
  by_cases hrec : (s.emit Effect.mRecordingLock_lock).mRecording = true
  · rw [if_pos hrec] at h
    by_cases hmeta : (s.emit Effect.mRecordingLock_lock).mUseMetaDataBufferMode = true
    · rw [if_pos hmeta] at h
      generalize (List.find? (fun e => decide (e.1 = frame.mBuffer))
        (s.emit Effect.mRecordingLock_lock).mVideoMetadataBufferMemoryMap).map (fun e => e.2)
        = found at h
      cases found with
      | none => cases h
      | some o =>
        cases o with
        | none => cases h
        | some mem =>
          dsimp only at h
          split_ifs at h <;> (cases h; simp only [queuesOf, State.emit])
    · rw [if_neg hmeta] at h
      cases hr : requestMemory env (s.emit Effect.mRecordingLock_lock) 4 1 with
      | none => rw [hr] at h; cases h
      | some q =>
        have hq := requestMemory_state _ _ _ _ _ hr
        rw [hr] at h
        obtain ⟨m1, s2⟩ := q
        simp only [] at hq
        subst hq
        cases m1 with
        | none => cases h; simp only [queuesOf, State.emit]
        | some mem =>
          dsimp only at h
          split_ifs at h <;> (cases h; simp only [queuesOf, State.emit])
  · rw [if_neg hrec] at h
    cases h; simp only [queuesOf, State.emit]

theorem queuesOf_copyAndSendPictureFrame (env : Env) (s : State) (m : Nat)
    (frame : CameraFrame) (t : Nat) (s1 : State)
    (h : copyAndSendPictureFrame env s m frame t = some s1) : queuesOf s1 = queuesOf s := by
  unfold copyAndSendPictureFrame at h
  dsimp only at h
  by_cases hst : s.mNotifierState ≠ NotifierState.NOTIFIER_STARTED
  · rw [if_pos hst] at h
    dsimp only at h
    cases h; simp only [queuesOf, State.emit]
  · rw [if_neg hst] at h
    cases hr : requestMemory env s frame.mLength 1 with
    | none => rw [hr] at h; cases h
    | some q =>
      have hq := requestMemory_state _ _ _ _ _ hr
      rw [hr] at h
      obtain ⟨m1, s2⟩ := q
      simp only [] at hq
      subst hq
      cases m1 with
      | none => dsimp only at h; cases h; simp only [queuesOf, State.emit]
      | some mem =>
        dsimp only at h
        split_ifs at h <;> (cases h; split_ifs <;> simp only [queuesOf, State.emit])

theorem queuesOf_copyPreviewFrame (cfg : Config) (s : State) (frame : CameraFrame)
    (r : Nat × State) (h : copyPreviewFrame cfg s frame = some r) :
    queuesOf r.2 = queuesOf s := by
  unfold copyPreviewFrame at h
  by_cases hst : s.mNotifierState ≠ NotifierState.NOTIFIER_STARTED
  · rw [if_pos hst] at h; cases h; rfl
  rw [if_neg hst] at h
  cases hp : s.mPreviewMemory with
  | none => rw [hp] at h; cases h; rfl
  | some pm =>
    rw [hp] at h
    dsimp only at h
    by_cases hb : frame.mBuffer = 0
    · rw [if_pos hb] at h; cases h; rfl
    rw [if_neg hb] at h
    cases hg : s.mPreviewBufs.get? s.mPreviewBufCount with
    | none => rw [hg] at h; cases h
    | some dest =>
      rw [hg] at h
      dsimp only at h
      split_ifs at h <;> (cases h; simp only [queuesOf, State.emit])

theorem queuesOf_copyAndSendPreviewFrame (cfg : Config) (s : State) (m : Nat)
    (frame : CameraFrame) (t : Nat) (s1 : State)
    (h : copyAndSendPreviewFrame cfg s m frame t = some s1) : queuesOf s1 = queuesOf s := by
  unfold copyAndSendPreviewFrame at h
  cases hc : copyPreviewFrame cfg s frame with
  | none => rw [hc] at h; cases h
  | some q =>
    have hq := queuesOf_copyPreviewFrame cfg s frame q hc
    rw [hc] at h
    obtain ⟨d, s2⟩ := q
    dsimp only at h
    rw [← hq]
    cases hp : (s2.emit (Effect.returnFrame frame.mBuffer frame.mFrameType)).mPreviewMemory with
    | none => rw [hp] at h; cases h; simp only [queuesOf, State.emit]
    | some pm =>
      rw [hp] at h
      dsimp only at h
      cases h
      split_ifs <;> simp only [queuesOf, State.emit]

theorem queuesOf_encodeImageFrame (env : Env) (s : State) (frame : CameraFrame) (s1 : State)
    (h : encodeImageFrame env s frame = some s1) : queuesOf s1 = queuesOf s := by
  unfold encodeImageFrame at h
  cases hr : requestMemory env s frame.mLength 1 with
  | none => rw [hr] at h; cases h
  | some q =>
    have hq := requestMemory_state _ _ _ _ _ hr
    rw [hr] at h
    obtain ⟨m1, s2⟩ := q
    simp only [] at hq
    subst hq
    dsimp only at h
    split_ifs at h <;> (cases h; simp only [queuesOf, State.emit])

theorem queuesOf_sendImageFrame (cfg : Config) (env : Env) (s : State) (m : Nat)
    (frame : CameraFrame) (s1 : State)
    (h : sendImageFrame cfg env s m frame = some s1) : queuesOf s1 = queuesOf s := by
  unfold sendImageFrame at h
  dsimp only at h
  by_cases hraw : (!s.mRawAvailable) = true
  · rw [if_pos hraw] at h
    cases hd : dummyRaw env s with
    | none => rw [hd] at h; cases h
    | some r =>
      have hq := queuesOf_dummyRaw env s r hd
      rw [hd] at h
      dsimp only [Option.map] at h
      by_cases hc : cfg.COPY_IMAGE_BUFFER = true
      · rw [if_pos hc] at h
        exact (queuesOf_copyAndSendPictureFrame env r.2 m frame _ s1 h).trans hq
      · rw [if_neg hc] at h; cases h; exact hq
  · rw [if_neg hraw] at h
    dsimp only at h
    by_cases hc : cfg.COPY_IMAGE_BUFFER = true
    · rw [if_pos hc] at h
      exact (queuesOf_copyAndSendPictureFrame env _ m frame _ s1 h).trans rfl
    · rw [if_neg hc] at h; cases h; rfl

theorem queuesOf_routeFrame (cfg : Config) (env : Env) (s : State) (frame : CameraFrame)
    (s1 : State) (h : routeFrame cfg env s frame = some s1) : queuesOf s1 = queuesOf s := by
  unfold routeFrame at h
  dsimp only at h
  cases hh : s.mCameraHal with
  | none => rw [hh] at h; cases h; simp only [queuesOf, State.emit]
  | some m =>
    rw [hh] at h
    dsimp only at h
    split_ifs at h
    all_goals first
      | exact queuesOf_encodeImageFrame env s frame s1 h
      | exact queuesOf_sendImageFrame cfg env s m frame s1 h
      | exact queuesOf_sendVideoFrame env s frame s1 h
      | exact queuesOf_copyAndSendPreviewFrame cfg s m frame _ s1 h
      | (cases h; simp only [queuesOf, State.emit])

theorem notifyFrame_queues (cfg : Config) (env : Env) (s s1 : State)
    (h : notifyFrame cfg env s = some s1) :
    queuesOf s1 = (s.msgQ, s.mEventQ, s.mFrameQ.tail) := by
  unfold notifyFrame at h
  cases hq : s.mFrameQ with
  | nil => rw [hq] at h; cases h; simp [queuesOf, hq]
  | cons msg rest =>
    rw [hq] at h
    dsimp only at h
    obtain ⟨command, arg1⟩ := msg
    cases command <;> cases arg1 <;> dsimp only at h <;>
      first
        | (cases h; rfl)
        | (rw [Option.map_eq_some'] at h
           obtain ⟨s2, h2, rfl⟩ := h
           exact queuesOf_routeFrame cfg env _ _ s2 h2)

theorem queuesOf_disableMsgType (s : State) (m t : Nat) :
    queuesOf (disableMsgType s m t) = queuesOf s := by
  unfold disableMsgType
  dsimp only
  split_ifs <;> rfl

theorem queuesOf_dispatchEvent (env : Env) (s : State) (evt : CameraHalEvent) (s1 : State)
    (h : dispatchEvent env s evt = some s1) : queuesOf s1 = queuesOf s := by
  unfold dispatchEvent at h
  cases hh : s.mCameraHal with
  | none =>
    rw [hh] at h
    cases ht : evt.mEventType <;> rw [ht] at h <;> dsimp only at h <;> cases h <;> rfl
  | some m =>
    rw [hh] at h
    cases ht : evt.mEventType <;> rw [ht] at h <;> dsimp only at h
    · split_ifs at h <;> (cases h; simp only [queuesOf, State.emit])
    · split_ifs at h <;> cases h <;>
        first | rfl | (rw [queuesOf_disableMsgType]; rfl)
    · split_ifs at h <;> cases h <;>
        first | rfl | (rw [queuesOf_disableMsgType]; rfl)
    · split_ifs at h <;> (cases h; simp only [queuesOf, State.emit])
    · by_cases hc : s.mNotifyCb = true ∧ msgTypeEnabled m CAMERA_MSG_PREVIEW_METADATA = true
      · rw [if_pos hc] at h
        cases hr : requestMemory env s 1 1 with
        | none => rw [hr] at h; cases h
        | some q =>
          have hq := requestMemory_state _ _ _ _ _ hr
          rw [hr] at h
          obtain ⟨m1, s2⟩ := q
          simp only [] at hq
          subst hq
          dsimp only at h
          split_ifs at h
          cases m1 <;> (cases h; simp only [queuesOf, State.emit])
      · rw [if_neg hc] at h; cases h; rfl
    · cases h; rfl
    · cases h; rfl

theorem notifyEvent_queues (env : Env) (s s1 : State) (h : notifyEvent env s = some s1) :
    queuesOf s1 = (s.msgQ, s.mEventQ.tail, s.mFrameQ) := by
  unfold notifyEvent at h
  cases hq : s.mEventQ with
  | nil => rw [hq] at h; cases h
  | cons msg rest =>
    rw [hq] at h
    dsimp only at h
    split_ifs at h
    · cases h; rfl
    · obtain ⟨command, arg1⟩ := msg
      cases command <;> cases arg1 <;> dsimp only at h <;>
        first
          | (cases h; rfl)
          | (rw [Option.map_eq_some'] at h
             obtain ⟨s2, h2, rfl⟩ := h
             exact queuesOf_dispatchEvent env _ _ s2 h2)

theorem processMessage_queues (s : State) (r : Bool × State) (h : processMessage s = some r) :
    queuesOf r.2 = (s.msgQ.tail, s.mEventQ, s.mFrameQ) := by
  unfold processMessage at h
  cases hq : s.msgQ with
  | nil => rw [hq] at h; cases h
  | cons msg rest =>
    rw [hq] at h
    cases msg <;> (cases h; rfl)

theorem passes_trans (b : Nat) (s s1 s2 : State) (n m : Nat)
    (h1 : ∃ calls, s1.trace = s.trace ++ calls ∧ calls.countP (passesOn b) = n)
    (h2 : ∃ calls, s2.trace = s1.trace ++ calls ∧ calls.countP (passesOn b) = m) :
    ∃ calls, s2.trace = s.trace ++ calls ∧ calls.countP (passesOn b) = n + m := by
  obtain ⟨c1, e1, k1⟩ := h1
  obtain ⟨c2, e2, k2⟩ := h2
  exact ⟨c1 ++ c2, by rw [e2, e1, List.append_assoc], by rw [List.countP_append, k1, k2]⟩

theorem passes_dummyRaw (b : Nat) (env : Env) (s : State) (r : Int × State)
    (h : dummyRaw env s = some r) :
    ∃ calls, r.2.trace = s.trace ++ calls ∧ calls.countP (passesOn b) = 0 := by
  unfold dummyRaw at h
  by_cases hm : (!s.mRequestMemory) = true
  · rw [if_pos hm] at h; cases h; exact ⟨[], by simp, rfl⟩
  rw [if_neg hm] at h
  cases hh : s.mCameraHal with
  | none => rw [hh] at h; cases h; exact ⟨[], by simp, rfl⟩
  | some m =>
    rw [hh] at h
    dsimp only at h
    by_cases hcb : s.mDataCb = true ∧ s.mNotifyCb = true
    · rw [if_pos hcb] at h
      by_cases hraw : msgTypeEnabled m CAMERA_MSG_RAW_IMAGE = true
      · rw [if_pos hraw] at h
        cases hr : requestMemory env s 1 1 with
        | none => rw [hr] at h; cases h
        | some q =>
          have hq := requestMemory_state _ _ _ _ _ hr
          rw [hr] at h
          obtain ⟨m1, s2⟩ := q
          simp only [] at hq
          subst hq
          cases m1 <;> (cases h; simp [State.emit, passesOn])
      · rw [if_neg hraw] at h
        split_ifs at h <;> (cases h; simp [State.emit, passesOn])
    · rw [if_neg hcb] at h; cases h; exact ⟨[], by simp, rfl⟩

theorem passes_copyAndSendPictureFrame (env : Env) (s : State) (m : Nat)
    (frame : CameraFrame) (t : Nat) (s1 : State)
    (h : copyAndSendPictureFrame env s m frame t = some s1) :
    ∃ calls, s1.trace = s.trace ++ calls ∧ calls.countP (passesOn frame.mBuffer) = 1 := by
  unfold copyAndSendPictureFrame at h
  dsimp only at h
  by_cases hst : s.mNotifierState ≠ NotifierState.NOTIFIER_STARTED
  · rw [if_pos hst] at h
    dsimp only at h
    cases h; simp [State.emit, passesOn]
  · rw [if_neg hst] at h
    cases hr : requestMemory env s frame.mLength 1 with
    | none => rw [hr] at h; cases h
    | some q =>
      have hq := requestMemory_state _ _ _ _ _ hr
      rw [hr] at h
      obtain ⟨m1, s2⟩ := q
      simp only [] at hq
      subst hq
      cases m1 with
      | none => dsimp only at h; cases h; simp [State.emit, passesOn]
      | some mem =>
        dsimp only at h
        split_ifs at h <;> (cases h; split_ifs <;> simp [State.emit, passesOn])

theorem passes_copyPreviewFrame (b : Nat) (cfg : Config) (s : State) (frame : CameraFrame)
    (r : Nat × State) (h : copyPreviewFrame cfg s frame = some r) :
    (∃ calls, r.2.trace = s.trace ++ calls ∧ calls.countP (passesOn b) = 0) ∧
    r.2.mPreviewMemory = s.mPreviewMemory := by
  unfold copyPreviewFrame at h
  by_cases hst : s.mNotifierState ≠ NotifierState.NOTIFIER_STARTED
  · rw [if_pos hst] at h; cases h; exact ⟨⟨[], by simp, rfl⟩, rfl⟩
  rw [if_neg hst] at h
  cases hp : s.mPreviewMemory with
  | none => rw [hp] at h; cases h; exact ⟨⟨[], by simp, rfl⟩, hp⟩
  | some pm =>
    rw [hp] at h
    dsimp only at h
    by_cases hb : frame.mBuffer = 0
    · rw [if_pos hb] at h; cases h; exact ⟨⟨[], by simp, rfl⟩, hp⟩
    rw [if_neg hb] at h
    cases hg : s.mPreviewBufs.get? s.mPreviewBufCount with
    | none => rw [hg] at h; cases h
    | some dest =>
      rw [hg] at h
      dsimp only at h
      split_ifs at h <;> (cases h; simp [State.emit, passesOn, hp])

theorem passes_copyAndSendPreviewFrame (cfg : Config) (s : State) (m : Nat)
    (frame : CameraFrame) (t : Nat) (s1 : State)
    (h : copyAndSendPreviewFrame cfg s m frame t = some s1) :
    ∃ calls, s1.trace = s.trace ++ calls ∧ calls.countP (passesOn frame.mBuffer) = 1 := by
  unfold copyAndSendPreviewFrame at h
  cases hc : copyPreviewFrame cfg s frame with
  | none => rw [hc] at h; cases h
  | some q =>
    have hq := (passes_copyPreviewFrame frame.mBuffer cfg s frame q hc).1
    rw [hc] at h
    obtain ⟨d, s2⟩ := q
    dsimp only at h
    refine passes_trans frame.mBuffer s s2 s1 0 1 hq ?_
    cases hp : (s2.emit (Effect.returnFrame frame.mBuffer frame.mFrameType)).mPreviewMemory with
    | none => rw [hp] at h; cases h; simp [State.emit, passesOn]
    | some pm =>
      rw [hp] at h
      dsimp only at h
      cases h
      split_ifs <;> simp [State.emit, passesOn]

theorem passes_encodeImageFrame (env : Env) (s : State) (frame : CameraFrame) (s1 : State)
    (h : encodeImageFrame env s frame = some s1) :
    ∃ calls, s1.trace = s.trace ++ calls ∧ calls.countP (passesOn frame.mBuffer) = 1 := by
  unfold encodeImageFrame at h
  cases hr : requestMemory env s frame.mLength 1 with
  | none => rw [hr] at h; cases h
  | some q =>
    have hq := requestMemory_state _ _ _ _ _ hr
    rw [hr] at h
    obtain ⟨m1, s2⟩ := q
    simp only [] at hq
    subst hq
    dsimp only at h
    split_ifs at h <;> (cases h; simp [State.emit, passesOn])

theorem passes_sendImageFrame (cfg : Config) (env : Env) (s : State) (m : Nat)
    (frame : CameraFrame) (s1 : State) (hcopy : cfg.COPY_IMAGE_BUFFER = true)
    (h : sendImageFrame cfg env s m frame = some s1) :
    ∃ calls, s1.trace = s.trace ++ calls ∧ calls.countP (passesOn frame.mBuffer) = 1 := by
  unfold sendImageFrame at h
  dsimp only at h
  simp only [hcopy, if_true] at h
  by_cases hraw : (!s.mRawAvailable) = true
  · rw [if_pos hraw] at h
    cases hd : dummyRaw env s with
    | none => rw [hd] at h; cases h
    | some r =>
      have hq := passes_dummyRaw frame.mBuffer env s r hd
      rw [hd] at h
      dsimp only [Option.map] at h
      exact passes_trans frame.mBuffer s r.2 s1 0 1 hq
        (passes_copyAndSendPictureFrame env r.2 m frame _ s1 h)
  · rw [if_neg hraw] at h
    dsimp only at h
    exact passes_trans frame.mBuffer s { s with mRawAvailable := false } s1 0 1
      ⟨[], by simp, rfl⟩ (passes_copyAndSendPictureFrame env _ m frame _ s1 h)

theorem passes_routeFrame (cfg : Config) (env : Env) (s : State) (frame : CameraFrame)
    (m : Nat) (s1 : State) (h : routeFrame cfg env s frame = some s1)
    (hhal : s.mCameraHal = some m)
    (hvideo : ¬ (frame.mFrameType = FrameType.VIDEO_FRAME_SYNC ∧ s.mDataCb = true ∧
      msgTypeEnabled m CAMERA_MSG_VIDEO_FRAME = true))
    (hraw : ¬ (frame.mFrameType = FrameType.RAW_FRAME ∧ s.mDataCb = true ∧
      s.mNotifyCb = true ∧ msgTypeEnabled m CAMERA_MSG_RAW_IMAGE = true))
    (hcopy : frame.mFrameType = FrameType.IMAGE_FRAME → s.mDataCb = true →
      frame.ENCODE_RAW_YUV422I_TO_JPEG = false → cfg.COPY_IMAGE_BUFFER = true) :
    ∃ calls, s1.trace = s.trace ++ calls ∧ calls.countP (passesOn frame.mBuffer) = 1 := by
  unfold routeFrame at h
  rw [hhal] at h
  dsimp only at h
  by_cases c1 : frame.mFrameType = FrameType.RAW_FRAME ∧ s.mDataCb = true ∧ s.mNotifyCb = true
  · rw [if_pos c1] at h
    have hr : ¬ msgTypeEnabled m CAMERA_MSG_RAW_IMAGE = true :=
      fun hr => hraw ⟨c1.1, c1.2.1, c1.2.2, hr⟩
    rw [if_neg hr] at h
    cases h
    split_ifs <;> simp [State.emit, passesOn]
  rw [if_neg c1] at h
  by_cases c2 : frame.mFrameType = FrameType.IMAGE_FRAME ∧ s.mDataCb = true ∧
      frame.ENCODE_RAW_YUV422I_TO_JPEG = true
  · rw [if_pos c2] at h
    exact passes_encodeImageFrame env s frame s1 h
  rw [if_neg c2] at h
  by_cases c3 : frame.mFrameType = FrameType.IMAGE_FRAME ∧ s.mDataCb = true
  · rw [if_pos c3] at h
    have hq : frame.ENCODE_RAW_YUV422I_TO_JPEG = false := by
      cases hq : frame.ENCODE_RAW_YUV422I_TO_JPEG
      · rfl
      · exact absurd ⟨c3.1, c3.2, hq⟩ c2
    exact passes_sendImageFrame cfg env s m frame s1 (hcopy c3.1 c3.2 hq) h
  rw [if_neg c3, if_neg hvideo] at h
  split_ifs at h
  all_goals first
    | exact passes_copyAndSendPreviewFrame cfg s m frame _ s1 h
    | (cases h; simp [State.emit, passesOn])

theorem requestMemory_eq (env : Env) (s : State) (a b : Nat) (h : s.mRequestMemory = true) :
    requestMemory env s a b =
      some ((env.mRequestMemory a b).map (fun d => { data := d, size := a * b }),
        s.emit (Effect.mRequestMemory a b)) := by
  unfold requestMemory
  simp [h]

theorem dummyRaw_isSome (env : Env) (s : State) (h : s.mRequestMemory = true) :
    ∃ r, dummyRaw env s = some r ∧ r.2.mRequestMemory = true := by
  unfold dummyRaw
  rw [if_neg (by simp [h])]
  cases hh : s.mCameraHal with
  | none => exact ⟨_, rfl, h⟩
  | some m =>
    dsimp only
    rw [requestMemory_eq env s 1 1 h]
    cases hm : env.mRequestMemory 1 1 <;> split_ifs <;> exact ⟨_, rfl, h⟩

theorem copyAndSendPictureFrame_isSome (env : Env) (s : State) (m : Nat)
    (frame : CameraFrame) (t : Nat) (h : s.mRequestMemory = true) :
    (copyAndSendPictureFrame env s m frame t).isSome = true := by
  unfold copyAndSendPictureFrame
  rw [requestMemory_eq env s frame.mLength 1 h]
  cases hm : env.mRequestMemory frame.mLength 1 <;> simp only [Option.map] <;>
    split_ifs <;> rfl

theorem copyAndSendPreviewFrame_isSome (cfg : Config) (s : State) (m : Nat)
    (frame : CameraFrame) (t : Nat) (hslot : s.mPreviewBufCount < s.mPreviewBufs.length) :
    (copyAndSendPreviewFrame cfg s m frame t).isSome = true := by
  have hc : ∃ r, copyPreviewFrame cfg s frame = some r := by
    unfold copyPreviewFrame
    rw [List.get?_eq_get hslot]
    cases hp : s.mPreviewMemory <;> dsimp only <;> split_ifs <;> exact ⟨_, rfl⟩
  obtain ⟨r, hr⟩ := hc
  unfold copyAndSendPreviewFrame
  rw [hr]
  dsimp only
  cases hp : (r.2.emit (Effect.returnFrame frame.mBuffer frame.mFrameType)).mPreviewMemory <;>
    rfl

theorem encodeImageFrame_isSome (env : Env) (s : State) (frame : CameraFrame)
    (h : s.mRequestMemory = true) (hpm : s.mPreviewMemory.isSome = true) :
    (encodeImageFrame env s frame).isSome = true := by
  unfold encodeImageFrame
  rw [requestMemory_eq env s frame.mLength 1 h]
  dsimp only
  have e : (s.emit (Effect.mRequestMemory frame.mLength 1)).mPreviewMemory.isNone = false := by
    cases hp : s.mPreviewMemory
    · rw [hp] at hpm; cases hpm
    · simp [State.emit, hp]
  rw [if_neg (by simp [e])]
  rfl

theorem sendImageFrame_isSome (cfg : Config) (env : Env) (s : State) (m : Nat)
    (frame : CameraFrame) (h : s.mRequestMemory = true) :
    (sendImageFrame cfg env s m frame).isSome = true := by
  unfold sendImageFrame
  dsimp only
  by_cases hraw : (!s.mRawAvailable) = true
  · rw [if_pos hraw]
    obtain ⟨r, hr, hrm⟩ := dummyRaw_isSome env s h
    rw [hr]
    dsimp only [Option.map]
    split_ifs
    · exact copyAndSendPictureFrame_isSome env r.2 m frame _ hrm
    · rfl
  · rw [if_neg hraw]
    dsimp only
    split_ifs
    · exact copyAndSendPictureFrame_isSome env _ m frame _ h
    · rfl

theorem routeFrame_isSome (cfg : Config) (env : Env) (s : State) (frame : CameraFrame)
    (m : Nat) (hhal : s.mCameraHal = some m)
    (hvideo : ¬ (frame.mFrameType = FrameType.VIDEO_FRAME_SYNC ∧ s.mDataCb = true ∧
      msgTypeEnabled m CAMERA_MSG_VIDEO_FRAME = true))
    (hmem : s.mRequestMemory = true) (hpm : s.mPreviewMemory.isSome = true)
    (hslot : s.mPreviewBufCount < s.mPreviewBufs.length) :
    (routeFrame cfg env s frame).isSome = true := by
  unfold routeFrame
  rw [hhal]
  dsimp only
  by_cases c1 : frame.mFrameType = FrameType.RAW_FRAME ∧ s.mDataCb = true ∧ s.mNotifyCb = true
  · rw [if_pos c1]; rfl
  rw [if_neg c1]
  by_cases c2 : frame.mFrameType = FrameType.IMAGE_FRAME ∧ s.mDataCb = true ∧
      frame.ENCODE_RAW_YUV422I_TO_JPEG = true
  · rw [if_pos c2]
    exact encodeImageFrame_isSome env s frame hmem hpm
  rw [if_neg c2]
  by_cases c3 : frame.mFrameType = FrameType.IMAGE_FRAME ∧ s.mDataCb = true
  · rw [if_pos c3]
    exact sendImageFrame_isSome cfg env s m frame hmem
  rw [if_neg c3, if_neg hvideo]
  split_ifs
  all_goals first
    | exact copyAndSendPreviewFrame_isSome cfg s m frame _ hslot
    | rfl

theorem notifyFrame_eq (cfg : Config) (env : Env) (s : State) (frame : CameraFrame)
    (rest : List Message)
    (hq : s.mFrameQ
      = { command := NotifierCommands.NOTIFIER_CMD_PROCESS_FRAME, arg1 := some frame } :: rest) :
    notifyFrame cfg env s =
      (routeFrame cfg env { s with mFrameQ := rest } frame).map
        (fun s1 => s1.emit Effect.deleteFrame) := by
  unfold notifyFrame
  rw [hq]

/-- C19, amended: for every non-null frame that `notifyFrame` takes from the head of the
frame queue. (i) When `mCameraHal` or the data callback is not set, or the frame type
is one no branch names (`PREVIEW_FRAME`, `IMAGE_FRAME_SYNC`, `VIDEO_FRAME`, `FRAME_DATA`,
`ALL_FRAMES`), `notifyFrame` returns the buffer to the frame provider exactly once,
deletes the frame descriptor and does nothing else. (ii) For every frame that is
neither taken by the video branch (`VIDEO_FRAME_SYNC`, data callback set, video-frame
message type enabled) nor a `RAW_FRAME` taken with the raw-image message type enabled
(and, for a hardware-encoded still, with `COPY_IMAGE_BUFFER` defined): whenever
`notifyFrame` returns, exactly one of the calls it made before deleting the descriptor
passes the capture buffer on, as a return to the frame provider or as an encoder started
on it; and it does return when the allocator is set, `mPreviewMemory` is set and
`mPreviewBufs` has the slot `mPreviewBufCount`. (iii) A frame taken by the video branch
is dropped silently when no recording runs, the only calls being the lock and unlock
of `mRecordingLock` and the deletion of the descriptor; while a recording runs (buffers
not null, timestamp callback set) it is delivered to the client with its timestamp,
through its metadata block in metadata mode and through a four-byte block pointed at the
buffer otherwise. -/
theorem notifyFrame_passes_buffer_on_once (cfg : Config) (env : Env) (s : State)
    (frame : CameraFrame) (rest : List Message)
    (hq : s.mFrameQ
      = { command := NotifierCommands.NOTIFIER_CMD_PROCESS_FRAME, arg1 := some frame } :: rest) :
    ((s.mCameraHal = none ∨ s.mDataCb = false ∨
        frame.mFrameType ∈ [FrameType.PREVIEW_FRAME, FrameType.IMAGE_FRAME_SYNC,
          FrameType.VIDEO_FRAME, FrameType.FRAME_DATA, FrameType.ALL_FRAMES]) →
      notifyFrame cfg env s = some ((State.emit { s with mFrameQ := rest }
        (Effect.returnFrame frame.mBuffer frame.mFrameType)).emit Effect.deleteFrame)) ∧
    (∀ m, s.mCameraHal = some m →
      ¬ (frame.mFrameType = FrameType.VIDEO_FRAME_SYNC ∧ s.mDataCb = true ∧
        msgTypeEnabled m CAMERA_MSG_VIDEO_FRAME = true) →
      ¬ (frame.mFrameType = FrameType.RAW_FRAME ∧ s.mDataCb = true ∧ s.mNotifyCb = true ∧
        msgTypeEnabled m CAMERA_MSG_RAW_IMAGE = true) →
      (frame.mFrameType = FrameType.IMAGE_FRAME → s.mDataCb = true →
        frame.ENCODE_RAW_YUV422I_TO_JPEG = false → cfg.COPY_IMAGE_BUFFER = true) →
      (∀ s1, notifyFrame cfg env s = some s1 →
        ∃ calls, s1.trace = s.trace ++ calls ++ [Effect.deleteFrame] ∧
          calls.countP (passesOn frame.mBuffer) = 1) ∧
      (s.mRequestMemory = true → s.mPreviewMemory.isSome = true →
        s.mPreviewBufCount < s.mPreviewBufs.length →
        (notifyFrame cfg env s).isSome = true)) ∧
    (∀ m, s.mCameraHal = some m → frame.mFrameType = FrameType.VIDEO_FRAME_SYNC →
      s.mDataCb = true → msgTypeEnabled m CAMERA_MSG_VIDEO_FRAME = true →
      (s.mRecording = false →
        notifyFrame cfg env s = some (((State.emit { s with mFrameQ := rest }
          Effect.mRecordingLock_lock).emit Effect.mRecordingLock_unlock).emit
          Effect.deleteFrame)) ∧
      (s.mRecording = true → s.mDataCbTimestamp = true → frame.mBuffer ≠ 0 →
        s.mUseMetaDataBufferMode = true →
        ∀ key mem, s.mVideoMetadataBufferMemoryMap.find? (fun e => e.1 = frame.mBuffer)
            = some (key, some mem) → mem.data ≠ 0 →
          notifyFrame cfg env s = some ((((State.emit { s with mFrameQ := rest }
            Effect.mRecordingLock_lock).emit
            (Effect.mDataCbTimestamp frame.mTimestamp CAMERA_MSG_VIDEO_FRAME mem)).emit
            Effect.mRecordingLock_unlock).emit Effect.deleteFrame)) ∧
      (s.mRecording = true → s.mDataCbTimestamp = true → frame.mBuffer ≠ 0 →
        s.mUseMetaDataBufferMode = false → s.mRequestMemory = true →
        ∀ d, env.mRequestMemory 4 1 = some d → d ≠ 0 →
          notifyFrame cfg env s = some ((((((State.emit { s with mFrameQ := rest }
            Effect.mRecordingLock_lock).emit (Effect.mRequestMemory 4 1)).emit
            (Effect.mDataCbTimestamp frame.mTimestamp CAMERA_MSG_VIDEO_FRAME
              { data := frame.mBuffer, size := 4 })).emit
            (Effect.release { data := frame.mBuffer, size := 4 })).emit
            Effect.mRecordingLock_unlock).emit Effect.deleteFrame))) := by
  have hn := notifyFrame_eq cfg env s frame rest hq
  refine ⟨?_, ?_, ?_⟩
  · intro h
    rw [hn]
    have hr : routeFrame cfg env { s with mFrameQ := rest } frame =
        some (State.emit { s with mFrameQ := rest }
          (Effect.returnFrame frame.mBuffer frame.mFrameType)) := by
      unfold routeFrame
      dsimp only
      cases hh : s.mCameraHal with
      | none => rfl
      | some m =>
        dsimp only
        rcases h with h | h | h
        · rw [hh] at h; cases h
        · simp [h]
        · simp only [List.mem_cons, List.mem_singleton, List.not_mem_nil, or_false] at h
          rcases h with h | h | h | h | h <;> simp [h]
    rw [hr]
    rfl
  · intro m hhal hvideo hraw hcopy
    constructor
    · intro s1 h1
      rw [hn, Option.map_eq_some'] at h1
      obtain ⟨s2, h2, rfl⟩ := h1
      obtain ⟨calls, e, c⟩ := passes_routeFrame cfg env { s with mFrameQ := rest } frame m s2
        h2 hhal hvideo hraw hcopy
      refine ⟨calls, ?_, c⟩
      show s2.trace ++ [Effect.deleteFrame] = s.trace ++ calls ++ [Effect.deleteFrame]
      rw [e]
    · intro hmem hpm hslot
      rw [hn]
      have := routeFrame_isSome cfg env { s with mFrameQ := rest } frame m hhal hvideo
        hmem hpm hslot
      cases hr : routeFrame cfg env { s with mFrameQ := rest } frame with
      | none => rw [hr] at this; cases this
      | some r => rfl
  · intro m hhal htype hdata hen
    have hr : routeFrame cfg env { s with mFrameQ := rest } frame =
        sendVideoFrame env { s with mFrameQ := rest } frame := by
      unfold routeFrame
      simp [hhal, htype, hdata, hen]
    rw [hn, hr]
    refine ⟨?_, ?_, ?_⟩
    · intro hrec
      unfold sendVideoFrame
      simp [State.emit, hrec]
    · intro hrec _ hb hmeta key mem hfind hdata
      unfold sendVideoFrame
      simp [State.emit, hrec, hmeta, hfind, hdata, hb]
    · intro hrec _ hb hmeta hmem d hd hd0
      unfold sendVideoFrame
      simp [State.emit, hrec, hmeta, requestMemory, hmem, hd, hd0, hb]

/-- Witness of amended C19, on a notifier that records in metadata mode with its
preview buffers registered and a client that has enabled preview and video frames: a
`PREVIEW_FRAME` is returned to the frame provider and nothing else is called; a
`PREVIEW_FRAME_SYNC` is copied, returned once and delivered; a `VIDEO_FRAME_SYNC` is
delivered with its timestamp. -/
theorem notifyFrame_passes_buffer_on_once_witness :
    (notifyFrame Config.ti Env.ok (streaming 0x30 otherFrame)).map (fun s => s.trace)
      = some [Effect.returnFrame 4096 FrameType.PREVIEW_FRAME, Effect.deleteFrame] ∧
    (∃ s1 calls, notifyFrame Config.ti Env.ok (streaming 0x30 previewSyncFrame) = some s1 ∧
      s1.trace = (streaming 0x30 previewSyncFrame).trace ++ calls ++ [Effect.deleteFrame] ∧
      calls.countP (passesOn 4096) = 1) ∧
    (notifyFrame Config.ti Env.ok (streaming 0x30 previewSyncFrame)).map (fun s => s.trace)
      = some [Effect.copy2Dto1D 8192,
          Effect.returnFrame 4096 FrameType.PREVIEW_FRAME_SYNC,
          Effect.mDataCb CAMERA_MSG_PREVIEW_FRAME { data := 8192, size := 8000 } 0,
          Effect.deleteFrame] ∧
    (notifyFrame Config.ti Env.ok (streaming 0x30 videoFrame)).map (fun s => s.trace)
      = some [Effect.mRecordingLock_lock,
          Effect.mDataCbTimestamp 0 CAMERA_MSG_VIDEO_FRAME { data := 20480, size := 16 },
          Effect.mRecordingLock_unlock, Effect.deleteFrame] := by
  have h1 := notifyFrame_passes_buffer_on_once Config.ti Env.ok (streaming 0x30 otherFrame)
    otherFrame [] rfl
  have h2 := notifyFrame_passes_buffer_on_once Config.ti Env.ok
    (streaming 0x30 previewSyncFrame) previewSyncFrame [] rfl
  have h3 := notifyFrame_passes_buffer_on_once Config.ti Env.ok (streaming 0x30 videoFrame)
    videoFrame [] rfl
  refine ⟨?_, ?_, by decide, ?_⟩
  · rw [h1.1 (Or.inr (Or.inr (by decide)))]
    rfl
  · have h := h2.2.1 0x30 rfl (by decide) (by decide) (by decide)
    have hs := h.2 rfl rfl (by decide)
    refine ⟨(notifyFrame Config.ti Env.ok (streaming 0x30 previewSyncFrame)).get hs, ?_⟩
    obtain ⟨calls, e, c⟩ := h.1 _ (Option.some_get hs).symm
    exact ⟨calls, (Option.some_get hs).symm, e, c⟩
  · rw [((h3.2.2 0x30 rfl rfl rfl (by decide)).2.1 rfl rfl (by decide) rfl) 4096
      { data := 20480, size := 16 } rfl (by decide)]
    rfl

/-- C20: in every wake cycle of `notificationThread` that returns, at most one command,
at most one event and at most one frame are taken from the queues (each queue loses
its head, if it has one); when the command, event and frame queues are all non-empty at
wake-up, the cycle is `processMessage`, then `notifyEvent` run in the state the command
left, then `notifyFrame` run in the state the event left, and `shouldLive` is what
`processMessage` returned. -/
theorem notificationThread_command_event_frame (cfg : Config) (env : Env) (s : State) :
    (∀ r, notificationThread cfg env s = some r →
      r.2.msgQ = s.msgQ.tail ∧ r.2.mEventQ = s.mEventQ.tail ∧
      r.2.mFrameQ = s.mFrameQ.tail) ∧
    (s.msgQ ≠ [] → s.mEventQ ≠ [] → s.mFrameQ ≠ [] →
      notificationThread cfg env s =
        (processMessage (s.emit Effect.waitForMsg)).bind (fun r1 =>
          (notifyEvent env r1.2).bind (fun s2 =>
            (notifyFrame cfg env s2).map (fun s3 => (r1.1, s3))))) := by
  constructor
  · intro r h
    unfold notificationThread at h
    dsimp only at h
    -- the command
    have h1 : ∀ q : Bool × State,
        (if (s.emit Effect.waitForMsg).msgQ ≠ [] then processMessage (s.emit Effect.waitForMsg)
          else some (true, s.emit Effect.waitForMsg)) = some q →
        queuesOf q.2 = (s.msgQ.tail, s.mEventQ, s.mFrameQ) := by
      intro q hq
      split_ifs at hq with hc
      · exact processMessage_queues (s.emit Effect.waitForMsg) q hq
      · cases hq
        have : s.msgQ = [] := not_not.mp hc
        simp [queuesOf, State.emit, this]
    cases hq1 : (if (s.emit Effect.waitForMsg).msgQ ≠ [] then
        processMessage (s.emit Effect.waitForMsg)
        else some (true, s.emit Effect.waitForMsg)) with
    | none => rw [hq1] at h; cases h
    | some q1 =>
      have k1 := h1 q1 hq1
      rw [hq1] at h
      obtain ⟨live, s1⟩ := q1
      dsimp only at h k1
      -- the event
      have h2 : ∀ q : State,
          (if s1.mEventQ ≠ [] then notifyEvent env s1 else some s1) = some q →
          queuesOf q = (s1.msgQ, s1.mEventQ.tail, s1.mFrameQ) := by
        intro q hq
        split_ifs at hq with hc
        · exact notifyEvent_queues _ _ _ hq
        · cases hq
          have : s1.mEventQ = [] := not_not.mp hc
          simp [queuesOf, this]
      cases hq2 : (if s1.mEventQ ≠ [] then notifyEvent env s1 else some s1) with
      | none => rw [hq2] at h; cases h
      | some s2 =>
        have k2 := h2 s2 hq2
        rw [hq2] at h
        dsimp only at h
        -- the frame
        have h3 : ∀ q : State,
            (if s2.mFrameQ ≠ [] then notifyFrame cfg env s2 else some s2) = some q →
            queuesOf q = (s2.msgQ, s2.mEventQ, s2.mFrameQ.tail) := by
          intro q hq
          split_ifs at hq with hc
          · exact notifyFrame_queues _ _ _ _ hq
          · cases hq
            have : s2.mFrameQ = [] := not_not.mp hc
            simp [queuesOf, this]
        rw [Option.map_eq_some'] at h
        obtain ⟨s3, hq3, rfl⟩ := h
        have k3 := h3 s3 hq3
        simp only [queuesOf, Prod.mk.injEq] at k1 k2 k3
        obtain ⟨a1, a2, a3⟩ := k1
        obtain ⟨b1, b2, b3⟩ := k2
        obtain ⟨c1, c2, c3⟩ := k3
        exact ⟨by rw [c1, b1, a1], by rw [c2, b2, a2], by rw [c3, b3, a3]⟩
  · intro hc he hf
    unfold notificationThread
    dsimp only
    rw [if_pos (by simpa [State.emit] using hc)]
    cases hp : processMessage (s.emit Effect.waitForMsg) with
    | none => rfl
    | some r1 =>
      have k1 := processMessage_queues _ _ hp
      simp only [queuesOf, Prod.mk.injEq, State.emit] at k1
      obtain ⟨live, s1⟩ := r1
      dsimp only at k1 ⊢
      rw [Option.some_bind, if_pos (by rw [k1.2.1]; exact he)]
      cases hn : notifyEvent env s1 with
      | none => rfl
      | some s2 =>
        have k2 := notifyEvent_queues _ _ _ hn
        simp only [queuesOf, Prod.mk.injEq] at k2
        dsimp only
        rw [Option.some_bind, if_pos (by rw [k2.2.2, k1.2.2]; exact hf)]

/-- Witness of C20: a cycle that finds a command, a shutter event and an encoded still
pending. With an ordinary command, the shutter event clears `mRawAvailable` before the
still is routed, so the still is preceded by the synthesized raw callback; with
`NOTIFIER_EXIT`, the notifier has left the started state before the event and the
frame are taken, so neither is delivered. One message leaves each queue in both. -/
theorem notificationThread_command_event_frame_witness :
    (∃ r, notificationThread Config.ti Env.ok (cyclePending NotificationCommands.other)
          = some r ∧
        r.2.msgQ = (cyclePending NotificationCommands.other).msgQ.tail ∧
        r.2.mEventQ = (cyclePending NotificationCommands.other).mEventQ.tail ∧
        r.2.mFrameQ = (cyclePending NotificationCommands.other).mFrameQ.tail) ∧
    notificationThread Config.ti Env.ok (cyclePending NotificationCommands.other) =
      (processMessage ((cyclePending NotificationCommands.other).emit
          Effect.waitForMsg)).bind (fun r1 =>
        (notifyEvent Env.ok r1.2).bind (fun s2 =>
          (notifyFrame Config.ti Env.ok s2).map (fun s3 => (r1.1, s3)))) ∧
    (notificationThread Config.ti Env.ok (cyclePending NotificationCommands.other)).map
        (fun r => (r.1, r.2.trace, r.2.msgQ.length, r.2.mEventQ.length, r.2.mFrameQ.length))
      = some (true,
          [Effect.waitForMsg, Effect.mNotifyCb CAMERA_MSG_SHUTTER 0 0, Effect.deleteEvent,
            Effect.mRequestMemory 1 1,
            Effect.mDataCb CAMERA_MSG_RAW_IMAGE { data := 8192, size := 1 } 0,
            Effect.release { data := 8192, size := 1 },
            Effect.mRequestMemory 1000 1, Effect.memcpy 8192 4096 1000,
            Effect.returnFrame 4096 FrameType.IMAGE_FRAME,
            Effect.mDataCb CAMERA_MSG_COMPRESSED_IMAGE { data := 8192, size := 1000 } 0,
            Effect.release { data := 8192, size := 1000 }, Effect.deleteFrame],
          0, 0, 0) ∧
    (notificationThread Config.ti Env.ok (cyclePending NotificationCommands.NOTIFIER_EXIT)).map
        (fun r => (r.1, r.2.trace, r.2.msgQ.length, r.2.mEventQ.length, r.2.mFrameQ.length))
      = some (false,
          [Effect.waitForMsg, Effect.returnFrame 4096 FrameType.IMAGE_FRAME,
            Effect.deleteFrame],
          0, 0, 0) :=
  have hs : (notificationThread Config.ti Env.ok
      (cyclePending NotificationCommands.other)).isSome = true := by decide
  ⟨⟨_, (Option.some_get hs).symm,
      (notificationThread_command_event_frame Config.ti Env.ok
        (cyclePending NotificationCommands.other)).1 _ (Option.some_get hs).symm⟩,
    (notificationThread_command_event_frame Config.ti Env.ok
      (cyclePending NotificationCommands.other)).2 (by decide) (by decide) (by decide),
    by decide, by decide⟩


/-- C21, as stated, fails for fatal errors: with the callbacks set and the error message
type enabled (or not), `errorNotify(CAMERA_ERROR_FATAL)` and
`errorNotify(CAMERA_ERROR_HARD)` end the process through `abort()` and make no call at
all: the client notify callback is not invoked. -/
theorem errorNotify_fatal_aborts_without_callback :
    (stillQueued CAMERA_MSG_ERROR).mNotifyCb = true ∧
    msgTypeEnabled CAMERA_MSG_ERROR CAMERA_MSG_ERROR = true ∧
    (errorNotify ErrorCodes.ti (stillQueued CAMERA_MSG_ERROR)
      ErrorCodes.ti.CAMERA_ERROR_FATAL).isAborted = true ∧
    (errorNotify ErrorCodes.ti (stillQueued CAMERA_MSG_ERROR)
      ErrorCodes.ti.CAMERA_ERROR_FATAL).state.trace = [] ∧
    (errorNotify ErrorCodes.ti (stillQueued CAMERA_MSG_ERROR)
      ErrorCodes.ti.CAMERA_ERROR_HARD).isAborted = true ∧
    (errorNotify ErrorCodes.ti (stillQueued CAMERA_MSG_ERROR)
      ErrorCodes.ti.CAMERA_ERROR_HARD).state.trace = [] ∧
    (errorNotify ErrorCodes.ti (stillQueued 0) ErrorCodes.ti.CAMERA_ERROR_FATAL).isAborted
      = true ∧
    (errorNotify ErrorCodes.ti (stillQueued 0) ErrorCodes.ti.CAMERA_ERROR_FATAL).state.trace
      = [] := by
  decide

/-- C21 (amended): for every error code passed to `errorNotify` with the callbacks set
(`mCameraHal` and `mNotifyCb`): a non-fatal error returns, having invoked the client
notify callback once with `CAMERA_MSG_ERROR` and `CAMERA_ERROR_UNKNOWN` if the client
has the error message type enabled, and having made no call if not; a fatal error
(`CAMERA_ERROR_FATAL` or `CAMERA_ERROR_HARD`) ends the process through `abort()` with no
call made, whatever the enable mask. -/
theorem errorNotify_dispatch (k : ErrorCodes) (s : State) (error : Int) (mMsgEnabled : Nat)
    (hhal : s.mCameraHal = some mMsgEnabled) (hcb : s.mNotifyCb = true) :
    ((error = k.CAMERA_ERROR_FATAL ∨ error = k.CAMERA_ERROR_HARD) →
      errorNotify k s error = Outcome.aborted s) ∧
    (¬ (error = k.CAMERA_ERROR_FATAL ∨ error = k.CAMERA_ERROR_HARD) →
      (msgTypeEnabled mMsgEnabled CAMERA_MSG_ERROR = true →
        errorNotify k s error = Outcome.returned
          (s.emit (Effect.mNotifyCb CAMERA_MSG_ERROR CAMERA_ERROR_UNKNOWN 0))) ∧
      (msgTypeEnabled mMsgEnabled CAMERA_MSG_ERROR = false →
        errorNotify k s error = Outcome.returned s)) := by
  unfold errorNotify
  refine ⟨fun h => ?_, fun h => ⟨fun he => ?_, fun he => ?_⟩⟩
  · rw [if_pos h]
  · rw [if_neg h, hhal]
    simp [hcb, he]
  · rw [if_neg h, hhal]
    simp [hcb, he]

/-- Witness of C21 (amended): error code 4 on a started notifier with the callbacks set,
with the error message type enabled and with no message type enabled. -/
theorem errorNotify_dispatch_witness :
    errorNotify ErrorCodes.ti (stillQueued CAMERA_MSG_ERROR) 4 =
      Outcome.returned ((stillQueued CAMERA_MSG_ERROR).emit
        (Effect.mNotifyCb CAMERA_MSG_ERROR CAMERA_ERROR_UNKNOWN 0)) ∧
    errorNotify ErrorCodes.ti (stillQueued CAMERA_MSG_ERROR) 1 =
      Outcome.aborted (stillQueued CAMERA_MSG_ERROR) :=
  ⟨((errorNotify_dispatch ErrorCodes.ti (stillQueued CAMERA_MSG_ERROR) 4 CAMERA_MSG_ERROR
      rfl rfl).2 (by decide)).1 (by decide),
    (errorNotify_dispatch ErrorCodes.ti (stillQueued CAMERA_MSG_ERROR) 1 CAMERA_MSG_ERROR
      rfl rfl).1 (Or.inl rfl)⟩

end CameraCodes.AppCallbackNotifier
